import Mathlib

/-!
# USBODE CD-ROM gadget: Bulk-Only transport, SCSI dispatcher and command handlers

A shallow embedding of `addon/usbcdgadget` (usbcdgadget.cpp and the
`scsi_cmd_*.cpp` handlers).  Machine integers are natural numbers reduced
explicitly (`% 256`, `% 2^32`); bytes on the wire are lists of naturals.
The target (Circle on the Raspberry Pi) is little-endian, so the memory image
of a `u32` is its little-endian byte list and `htonl`/`htons` swap bytes.
-/

/-! ## Machine integers and byte images -/

/-- Truncation to `u8`. -/
def u8 (n : Nat) : Nat := n % 256

/-- Truncation to `u16`. -/
def u16 (n : Nat) : Nat := n % 65536

/-- Truncation to `u32`. -/
def u32 (n : Nat) : Nat := n % 4294967296

/-- Conversion of an `int` to `u32` (two-complement wrap). -/
def u32OfInt (i : Int) : Nat := (i % 4294967296).toNat

/-- Conversion of an `int` to `u8`. -/
def u8OfInt (i : Int) : Nat := (i % 256).toNat

/-- Conversion of an `int` to `u16`. -/
def u16OfInt (i : Int) : Nat := (i % 65536).toNat

/-- Conversion `static_cast<int>` of a `u32`. -/
def intOfU32 (n : Nat) : Int :=
  if u32 n < 2147483648 then (u32 n : Int) else (u32 n : Int) - 4294967296

/-- Memory image of a `u16` on the little-endian target. -/
def le16 (v : Nat) : List Nat := [v % 256, (v / 256) % 256]

/-- Memory image of a `u32` on the little-endian target. -/
def le32 (v : Nat) : List Nat :=
  [v % 256, (v / 256) % 256, (v / 65536) % 256, (v / 16777216) % 256]

/-- Big-endian byte list of a 16-bit value. -/
def be16 (v : Nat) : List Nat := [(v / 256) % 256, v % 256]

/-- Big-endian byte list of a 32-bit value. -/
def be32 (v : Nat) : List Nat :=
  [(v / 16777216) % 256, (v / 65536) % 256, (v / 256) % 256, v % 256]

/-- Byte swap `htons` of the little-endian target. -/
def htons (v : Nat) : Nat := (v % 256) * 256 + (v / 256) % 256

/-- Byte swap `htonl` of the little-endian target. -/
def htonl (v : Nat) : Nat :=
  (v % 256) * 16777216 + ((v / 256) % 256) * 65536 + ((v / 65536) % 256) * 256
    + (v / 16777216) % 256

/-- Read of `buf[i]` from a byte buffer (bytes outside the list read as 0). -/
def byteAt (buf : List Nat) (i : Nat) : Nat := u8 (buf.getD i 0)

/-- The `len` bytes of `buf` starting at `off` (a `memcpy` source window). -/
def window (buf : List Nat) (off len : Nat) : List Nat :=
  (List.range len).map (fun j => buf.getD (off + j) 0)

/-- The expression `(b0 << 24) | (b1 << 16) | (b2 << 8) | b3` as a `u32`. -/
def shl32 (b0 b1 b2 b3 : Nat) : Nat :=
  u32 ((b0 <<< 24) ||| (b1 <<< 16) ||| (b2 <<< 8) ||| b3)

/-- The expression `(b0 << 8) | b1`. -/
def shl16 (b0 b1 : Nat) : Nat := (b0 <<< 8) ||| b1

/-! ## CUE sheet tracks (cueparser, external) -/

/-- Modelled from the spec: the track modes of the external CUE parser
(`CUETrackMode` of cueparser.h, not part of src/); the first enumerator is the
value of a zero-initialised `CUETrackInfo`. -/
inductive CUETrackMode where
  | CUETrack_AUDIO
  | CUETrack_CDG
  | CUETrack_MODE1_2048
  | CUETrack_MODE1_2352
  | CUETrack_MODE2_2048
  | CUETrack_MODE2_2324
  | CUETrack_MODE2_2336
  | CUETrack_MODE2_2352
  | CUETrack_CDI_2336
  | CUETrack_CDI_2352
  deriving DecidableEq, Repr

/-- The fields of `CUETrackInfo` that the gadget reads. -/
structure CUETrackInfo where
  track_number : Int
  track_mode : CUETrackMode
  track_start : Nat
  data_start : Nat
  file_offset : Nat
  deriving DecidableEq, Repr

/-- The value `CUETrackInfo invalid = {}; invalid.track_number = -1`. -/
def CUETrackInfo.invalid : CUETrackInfo :=
  { track_number := -1, track_mode := CUETrackMode.CUETrack_AUDIO,
    track_start := 0, data_start := 0, file_offset := 0 }

/-! ## Address conversion (usbcdgadget.cpp) -/

namespace CUSBCDGadget

/-- Source `CUSBCDGadget::msf_to_lba`: `u32` arithmetic, so the subtraction wraps. -/
def msf_to_lba (minutes seconds frames : Nat) : Nat :=
  let lba := u32 (u8 minutes * 60 * 75 + u8 seconds * 75 + u8 frames)
  u32 (lba + 4294967296 - 150)

/-- Source `CUSBCDGadget::lba_to_msf`. -/
def lba_to_msf (lba : Nat) (relative : Bool) : Nat :=
  let lba := if !relative then u32 (lba + 150) else lba
  let minutes := u8 (lba / (75 * 60))
  let seconds := u8 ((lba / 75) % 60)
  let frames := u8 (lba % 75)
  u32 ((frames <<< 24) ||| (seconds <<< 16) ||| (minutes <<< 8) ||| 0)

/-- The minute, second and frame fields of a packed MSF address, read back
from the bit positions `lba_to_msf` writes them to. -/
def msfFields (v : Nat) : Nat × Nat × Nat :=
  ((v >>> 8) &&& 0xFF, (v >>> 16) &&& 0xFF, (v >>> 24) &&& 0xFF)

/-- Source `CUSBCDGadget::GetAddress`. -/
def GetAddress (lba : Nat) (msf : Nat) (relative : Bool) : Nat :=
  if msf ≠ 0 then lba_to_msf lba relative else htonl lba

/-- Source `CUSBCDGadget::GetBlocksizeForTrack`. -/
def GetBlocksizeForTrack (trackInfo : CUETrackInfo) : Nat :=
  match trackInfo.track_mode with
  | CUETrackMode.CUETrack_MODE1_2048 => 2048
  | CUETrackMode.CUETrack_MODE1_2352 => 2352
  | CUETrackMode.CUETrack_MODE2_2352 => 2352
  | CUETrackMode.CUETrack_AUDIO => 2352
  | _ => 0

/-- Source `CUSBCDGadget::GetSkipbytesForTrack`. -/
def GetSkipbytesForTrack (trackInfo : CUETrackInfo) : Nat :=
  match trackInfo.track_mode with
  | CUETrackMode.CUETrack_MODE1_2048 => 0
  | CUETrackMode.CUETrack_MODE1_2352 => 16
  | CUETrackMode.CUETrack_MODE2_2352 => 24
  | CUETrackMode.CUETrack_AUDIO => 0
  | _ => 0

/-- Source `CUSBCDGadget::GetSectorLengthFromMCS`. -/
def GetSectorLengthFromMCS (mainChannelSelection : Nat) : Nat :=
  (if mainChannelSelection &&& 0x10 ≠ 0 then 12 else 0)
    + (if mainChannelSelection &&& 0x08 ≠ 0 then 4 else 0)
    + (if mainChannelSelection &&& 0x04 ≠ 0 then 2048 else 0)
    + (if mainChannelSelection &&& 0x02 ≠ 0 then 288 else 0)

/-- Source `CUSBCDGadget::GetSkipBytesFromMCS`. -/
def GetSkipBytesFromMCS (mainChannelSelection : Nat) : Nat :=
  (if mainChannelSelection &&& 0x10 = 0 then 12 else 0)
    + (if mainChannelSelection &&& 0x08 = 0 then 4 else 0)

end CUSBCDGadget

/-! ## Wire structures and external collaborators -/

/-- Modelled from the spec: `SIZE_CBW` of usbcdgadget.h (absent): a CBW is 31 bytes. -/
def SIZE_CBW : Nat := 31

/-- Modelled from the spec: `SIZE_CSW` of usbcdgadget.h (absent): a CSW is 13 bytes. -/
def SIZE_CSW : Nat := 13

/-- Modelled from the spec: `VALID_CBW_SIG` of usbcdgadget.h (absent). -/
def VALID_CBW_SIG : Nat := 0x43425355

/-- Modelled from the spec: `CD_CSW_STATUS_OK` of usbcdgadget.h (absent). -/
def CD_CSW_STATUS_OK : Nat := 0

/-- Modelled from the spec: `CD_CSW_STATUS_FAIL` of usbcdgadget.h (absent). -/
def CD_CSW_STATUS_FAIL : Nat := 1

/-- Modelled from the spec: `SIZE_TOC_DATA` of usbcdgadget.h (absent): the 4-byte TOC header. -/
def SIZE_TOC_DATA : Nat := 4

/-- Modelled from the spec: `SIZE_TOC_ENTRY` of usbcdgadget.h (absent): an 8-byte TOC entry. -/
def SIZE_TOC_ENTRY : Nat := 8

/-- Modelled from the spec: `SIZE_READCAPREP` of usbcdgadget.h (absent): the 8-byte reply. -/
def SIZE_READCAPREP : Nat := 8

/-- Modelled from the spec: the transport states `TCDState` of usbcdgadget.h
(absent), under the names the source files use. -/
inductive TCDState where
  | Init
  | ReceiveCBW
  | DataIn
  | DataInRead
  | DataOut
  | SendReqSenseReply
  | SentCSW
  deriving DecidableEq, Repr

/-- Modelled from the spec: the Command Block Wrapper `TUSBCDCBW` of
usbcdgadget.h (absent): 31 bytes, little-endian fields. -/
structure TUSBCDCBW where
  dCBWSignature : Nat
  dCBWTag : Nat
  dCBWDataTransferLength : Nat
  bmCBWFlags : Nat
  bCBWLUN : Nat
  bCBWCBLength : Nat
  CBWCB : List Nat
  deriving DecidableEq, Repr

/-- Modelled from the spec: the Command Status Wrapper `TUSBCDCSW` of usbcdgadget.h (absent). -/
structure TUSBCDCSW where
  dCSWSignature : Nat
  dCSWTag : Nat
  dCSWDataResidue : Nat
  bmCSWStatus : Nat
  deriving DecidableEq, Repr

/-- Little-endian `u32` read from a byte buffer. -/
def le32At (buf : List Nat) (i : Nat) : Nat :=
  byteAt buf i + 256 * byteAt buf (i + 1) + 65536 * byteAt buf (i + 2)
    + 16777216 * byteAt buf (i + 3)

/-- The statement `memcpy(&m_CBW, m_OutBuffer, SIZE_CBW)`. -/
def TUSBCDCBW.ofBytes (buf : List Nat) : TUSBCDCBW :=
  { dCBWSignature := le32At buf 0
    dCBWTag := le32At buf 4
    dCBWDataTransferLength := le32At buf 8
    bmCBWFlags := byteAt buf 12
    bCBWLUN := byteAt buf 13
    bCBWCBLength := byteAt buf 14
    CBWCB := (List.range 16).map (fun j => byteAt buf (15 + j)) }

/-- The 31-byte image of a CBW (what the host puts on the wire). -/
def TUSBCDCBW.toBytes (c : TUSBCDCBW) : List Nat :=
  le32 c.dCBWSignature ++ le32 c.dCBWTag ++ le32 c.dCBWDataTransferLength
    ++ [u8 c.bmCBWFlags, u8 c.bCBWLUN, u8 c.bCBWCBLength]
    ++ (List.range 16).map (fun j => u8 (c.CBWCB.getD j 0))

/-- The 13-byte image of a CSW. -/
def TUSBCDCSW.toBytes (c : TUSBCDCSW) : List Nat :=
  le32 c.dCSWSignature ++ le32 c.dCSWTag ++ le32 c.dCSWDataResidue ++ [u8 c.bmCSWStatus]

/-- Read of `cbw.CBWCB[i]`. -/
def TUSBCDCBW.cb (c : TUSBCDCBW) (i : Nat) : Nat := byteAt c.CBWCB i

/-- The sense triplet `m_SenseParams`. -/
structure TSenseParams where
  bSenseKey : Nat
  bAddlSenseCode : Nat
  bAddlSenseCodeQual : Nat
  deriving DecidableEq, Repr

/-- The handler classes registered in `m_scsi_handlers`. -/
inductive ScsiCommandHandler where
  | ScsiCmdTestUnitReady
  | ScsiCmdRequestSense
  | ScsiCmdInquiry
  | ScsiCmdRead10
  | ScsiCmdStartStopUnit
  | ScsiCmdPreventAllowMediumRemoval
  | ScsiCmdReadCapacity10
  | ScsiCmdReadCD
  | ScsiCmdSetCdSpeed
  | ScsiCmdVerify
  | ScsiCmdReadTocPmaAtip
  | ScsiCmdReadSubChannel
  | ScsiCmdReadTrackInformation
  | ScsiCmdGetEventStatusNotification
  | ScsiCmdReadDiscStructure
  | ScsiCmdReadDiscInformation
  | ScsiCmdGetConfiguration
  | ScsiCmdPauseResume
  | ScsiCmdSeek
  | ScsiCmdPlayAudioMsf
  | ScsiCmdStopPlayScan
  | ScsiCmdPlayAudio10
  | ScsiCmdPlayAudio12
  | ScsiCmdModeSelect10
  | ScsiCmdModeSense6
  | ScsiCmdModeSense10
  | ScsiCmdGetPerformance
  | ScsiCmdWin2kSpecific
  | ScsiCmdTbListDevices
  | ScsiCmdTbGetCount
  | ScsiCmdTbListItems
  | ScsiCmdTbSetNextCd
  deriving DecidableEq, Repr

/-- A transfer handed to an endpoint by `BeginTransfer`. -/
inductive Transfer where
  | TransferCBWOut (nLength : Nat)
  | TransferDataOut (nLength : Nat)
  | TransferDataIn (data : List Nat)
  | TransferCSWIn (csw : TUSBCDCSW)
  deriving DecidableEq, Repr

/-- The block device behind the image (`ICueDevice`, external): `Seek` returns
the new position or `(u64)(-1)`; `Read pos n` is a read of `n` bytes at the
position the preceding seek reached, giving the `int` result and the bytes
stored at the start of the destination buffer. -/
structure ICueDevice where
  GetSize : Nat
  Seek : Nat → Nat
  Read : Nat → Nat → Int × List Nat

/-- The states reported by the audio player task (`CCDPlayer`, external). -/
inductive PlayerState where
  | PLAYING
  | PAUSED
  | STOPPED_OK
  | STOPPED_ERROR
  | NONE
  deriving DecidableEq, Repr

/-- A command sent to the audio player task. -/
inductive PlayerCall where
  | Play (lba : Nat) (blocks : Nat)
  | Pause
  | Resume
  | Seek (lba : Nat)
  | SetVolume (vol : Nat)
  deriving DecidableEq, Repr

/-- The audio player task as the handlers see it. -/
structure CCDPlayer where
  state : PlayerState
  address : Nat
  calls : List PlayerCall
  deriving DecidableEq, Repr

/-- The toolbox catalog task (`SCSITBService`, external): names and sizes. -/
structure SCSITBService where
  entries : List (List Nat × Nat)
  nextCD : Option Nat
  deriving DecidableEq, Repr

/-- The reply structures declared in usbcdgadget.h (absent) whose layout the
spec does not describe. -/
inductive ReplyStruct where
  | TUSBCDSubChannelHeaderReply
  | TUSBCDSubChannel01CurrentPositionReply
  | TUSBCDEventStatusReplyHeader
  | TUSBCDEventStatusReplyEvent
  | TUSBDiscInfoReply
  | TUSBCDTrackInformationBlock
  | TUSBCDReadDiscStructureHeader
  | ModeSense6Header
  | ModeSense10Header
  | ModePage0x01Data
  | ModePage0x1AData
  | ModePage0x2AData
  | ModePage0x0EData
  deriving DecidableEq, Repr

/-- Modelled from the spec: the constants and structure layouts of
usbcdgadget.h (absent), taken as parameters: `sizeof s` is the size of a
structure and `image s vals` its memory image after it was zero-filled (or, for
a member structure, initialised by the header) and the fields the handler
assigns were given the values `vals`, in the order of the assignments. -/
structure GadgetConsts where
  MaxBlocksToRead : Nat
  MaxInMessageSize : Nat
  MaxOutMessageSize : Nat
  sizeofHardwareSerialNumber : Nat
  sizeModulus : Nat
  sizeof : ReplyStruct → Nat
  image : ReplyStruct → List Nat → List Nat
  offsetOutput0Volume : Nat
  offsetOutput1Volume : Nat

/-- The gadget object `CUSBCDGadget` together with its two bulk endpoints:
`epIn` and `epOut` list the transfers begun on each endpoint, `stallIn` and
`stallOut` record a `StallRequest`, `assertFailed` a failed `assert`, `fault`
a copy with a negative length; `heapTocEntries` is what the next
`new (std::nothrow) TUSBTOCEntry[n]` yields (`none` for a null pointer, else
the two reserved bytes each fresh entry happens to hold). -/
structure CUSBCDGadget where
  k : GadgetConsts
  m_nState : TCDState
  m_CBW : TUSBCDCBW
  m_CSW : TUSBCDCSW
  m_SenseParams : TSenseParams
  bmCSWStatus : Nat
  m_CDReady : Bool
  discChanged : Bool
  m_nblock_address : Nat
  m_nnumber_blocks : Nat
  m_nbyteCount : Nat
  block_size : Nat
  transfer_block_size : Nat
  skip_bytes : Nat
  mcs : Nat
  data_block_size : Nat
  data_skip_bytes : Nat
  m_pCurrentCommandHandler : Option ScsiCommandHandler
  m_OutBuffer : List Nat
  m_FileChunk : List Nat
  m_InqReply : List Nat
  m_ReadCapReply_nSectorSize : Nat
  m_HardwareSerialNumber : List Nat
  profile_list : List Nat
  cdrom_profile : List Nat
  core : List Nat
  morphing : List Nat
  mechanism : List Nat
  multiread : List Nat
  cdread : List Nat
  powermanagement : List Nat
  audioplay : List Nat
  cueParser : List CUETrackInfo
  m_pDevice : ICueDevice
  cdplayer : Option CCDPlayer
  scsitbservice : Option SCSITBService
  epIn : List Transfer
  epOut : List Transfer
  stallIn : Bool
  stallOut : Bool
  assertFailed : Bool
  fault : Bool
  heapTocEntries : Option (List (Nat × Nat))

namespace CUSBCDGadget

/-! ## Shared services of the gadget (usbcdgadget.cpp) -/

/-- Source `CUSBCDGadget::SendCSW`. -/
def SendCSW (g : CUSBCDGadget) : CUSBCDGadget :=
  { g with epIn := g.epIn ++ [Transfer.TransferCSWIn g.m_CSW], m_nState := TCDState.SentCSW }

/-- Source `CUSBCDGadget::StartDataInTransfer`: `data` is the content of the
first `length` bytes of the IN buffer at the call. -/
def StartDataInTransfer (g : CUSBCDGadget) (data : List Nat) : CUSBCDGadget :=
  { g with epIn := g.epIn ++ [Transfer.TransferDataIn data] }

/-- Source `CUSBCDGadget::IsCDReady`. -/
def IsCDReady (g : CUSBCDGadget) : Bool := g.m_CDReady

/-- Source `CUSBCDGadget::SetSenseParameters`. -/
def SetSenseParameters (g : CUSBCDGadget) (sense_key asc ascq : Nat) : CUSBCDGadget :=
  { g with m_SenseParams :=
      { bSenseKey := sense_key, bAddlSenseCode := asc, bAddlSenseCodeQual := ascq } }

/-- Source `CUSBCDGadget::GetCurrentCSWStatus`. -/
def GetCurrentCSWStatus (g : CUSBCDGadget) : Nat := g.bmCSWStatus

/-- Source `CUSBCDGadget::GetBlocksize`. -/
def GetBlocksize (g : CUSBCDGadget) : Nat :=
  match g.cueParser with
  | [] => 2048
  | trackInfo :: _ => GetBlocksizeForTrack trackInfo

/-- Source `CUSBCDGadget::GetSkipbytes`. -/
def GetSkipbytes (g : CUSBCDGadget) : Nat :=
  match g.cueParser with
  | [] => 0
  | trackInfo :: _ => GetSkipbytesForTrack trackInfo

/-- Source `CUSBCDGadget::GetMediumType`. -/
def GetMediumType (g : CUSBCDGadget) : Nat :=
  let has_audio := g.cueParser.any (fun t => t.track_mode = CUETrackMode.CUETrack_AUDIO)
  let has_data := g.cueParser.any (fun t => t.track_mode ≠ CUETrackMode.CUETrack_AUDIO)
  if has_audio && has_data then 0x03
  else if has_audio then 0x02
  else if has_data then 0x01
  else 0x01

/-- Source `CUSBCDGadget::GetTrackInfoForTrack`. -/
def GetTrackInfoForTrack (g : CUSBCDGadget) (track_number_to_find : Int) : CUETrackInfo :=
  match g.cueParser.find? (fun t => t.track_number = track_number_to_find) with
  | some t => t
  | none => CUETrackInfo.invalid

/-- The `while` loop of `CUSBCDGadget::GetTrackInfoForLBA`. -/
def GetTrackInfoForLBA.loop (lba : Nat) : List CUETrackInfo → CUETrackInfo → CUETrackInfo
  | [], last_valid_track => last_valid_track
  | trackInfo :: rest, last_valid_track =>
    if lba ≥ trackInfo.track_start then GetTrackInfoForLBA.loop lba rest trackInfo
    else last_valid_track

/-- Source `CUSBCDGadget::GetTrackInfoForLBA`. -/
def GetTrackInfoForLBA (g : CUSBCDGadget) (lba : Nat) : CUETrackInfo :=
  match g.cueParser with
  | [] => CUETrackInfo.invalid
  | first_track :: _ =>
    if lba = 0 then first_track
    else GetTrackInfoForLBA.loop lba g.cueParser CUETrackInfo.invalid

/-- Source `CUSBCDGadget::GetLeadoutLBA`. -/
def GetLeadoutLBA (g : CUSBCDGadget) : Nat :=
  match g.cueParser.getLast? with
  | none => 150
  | some last_track =>
    let file_offset_last_track := u32 last_track.file_offset
    let sector_length_last_track :=
      if GetBlocksizeForTrack last_track = 0 then 2352 else GetBlocksizeForTrack last_track
    let data_start_lba_last_track := u32 last_track.data_start
    let deviceSize := u32 g.m_pDevice.GetSize
    if deviceSize ≤ file_offset_last_track then data_start_lba_last_track
    else
      let lastTrackBlocks := (deviceSize - file_offset_last_track) / sector_length_last_track
      u32 (data_start_lba_last_track + lastTrackBlocks)

/-- Source `CUSBCDGadget::GetLastTrackNumber`. -/
def GetLastTrackNumber (g : CUSBCDGadget) : Int :=
  let lastTrack := g.cueParser.foldl
    (fun (lastTrack : Int) t => if t.track_number > lastTrack then t.track_number else lastTrack) 0
  if lastTrack = 0 then 1 else lastTrack

/-- Source `CUSBCDGadget::SetDevice`, for the gadget fields of this model (the
caller has already put the new device and its parsed CUE sheet in place;
`changing` says that a different device was installed before). -/
def SetDevice (g : CUSBCDGadget) (changing : Bool) : CUSBCDGadget :=
  let g := if changing then
      { g with bmCSWStatus := CD_CSW_STATUS_FAIL
               m_SenseParams := { bSenseKey := 0x02, bAddlSenseCode := 0x3a, bAddlSenseCodeQual := 0x00 }
               discChanged := true }
    else g
  { g with data_skip_bytes := GetSkipbytes g, data_block_size := GetBlocksize g, m_CDReady := true }

/-- Source `CUSBCDGadget::OnActivate`. -/
def OnActivate (g : CUSBCDGadget) : CUSBCDGadget :=
  { g with m_CDReady := true, m_nState := TCDState.ReceiveCBW,
           epOut := g.epOut ++ [Transfer.TransferCBWOut SIZE_CBW] }

end CUSBCDGadget

/-! ## Helpers of the handler base class (scsi_command_handler.h) -/

namespace ScsiCommandHandler

/-- Source `ScsiCommandHandler::send_csw`. -/
def send_csw (g : CUSBCDGadget) (csw_status : Nat) : CUSBCDGadget :=
  CUSBCDGadget.SendCSW { g with m_CSW := { g.m_CSW with bmCSWStatus := u8 csw_status } }

/-- Source `ScsiCommandHandler::begin_data_in_transfer`. -/
def begin_data_in_transfer (g : CUSBCDGadget) (data : List Nat) : CUSBCDGadget :=
  g.StartDataInTransfer data

end ScsiCommandHandler

/-! ## Command handlers, part 1 -/

namespace ScsiCmdTestUnitReady
open ScsiCommandHandler

/-- Source `ScsiCmdTestUnitReady::handle_command`. -/
def handle_command (_cbw : TUSBCDCBW) (g : CUSBCDGadget) : CUSBCDGadget :=
  if !g.IsCDReady then
    let g := g.SetSenseParameters 0x02 0x04 0x00
    send_csw g CD_CSW_STATUS_FAIL
  else
    send_csw g g.GetCurrentCSWStatus

end ScsiCmdTestUnitReady

namespace ScsiCmdRequestSense
open ScsiCommandHandler

/-- Modelled from the spec: `sizeof(TUSBCDRequestSenseReply)`, the 18-byte
fixed-format sense block of usbcdgadget.h (absent). -/
def sizeofReply : Nat := 18

/-- Modelled from the spec: the memory image of `m_ReqSenseReply`
(`TUSBCDRequestSenseReply` of usbcdgadget.h, absent) after the handler filled
it: `bErrCode`, `bSegNum`, `bSenseKey`, `bInformation[4]`, `bAddlSenseLen`,
`bCmdSpecificInfo[4]`, `bAddlSenseCode`, `bAddlSenseCodeQual`,
`bFieldReplaceUnitCode`, `bSKSVetc`, `sKeySpecific[2]`. -/
def m_ReqSenseReply (g : CUSBCDGadget) : List Nat :=
  [0x70, 0x00, u8 g.m_SenseParams.bSenseKey, 0, 0, 0, 0, u8 (sizeofReply - 8), 0, 0, 0, 0,
   u8 g.m_SenseParams.bAddlSenseCode, u8 g.m_SenseParams.bAddlSenseCodeQual, 0x00, 0x00, 0, 0]

/-- Source `ScsiCmdRequestSense::handle_command`. -/
def handle_command (cbw : TUSBCDCBW) (g : CUSBCDGadget) : CUSBCDGadget :=
  let allocation_length := u8 (cbw.cb 4)
  let length_to_send := if allocation_length < u8 sizeofReply then allocation_length else u8 sizeofReply
  let reply := m_ReqSenseReply g
  let g := begin_data_in_transfer g (reply.take length_to_send)
  let g := { g with m_CSW := { g.m_CSW with bmCSWStatus := CD_CSW_STATUS_OK },
                    m_nState := TCDState.SendReqSenseReply }
  let g := if g.m_SenseParams.bSenseKey = 0x02 then
      CUSBCDGadget.SetSenseParameters { g with bmCSWStatus := CD_CSW_STATUS_FAIL } 0x06 0x28 0x00
    else
      CUSBCDGadget.SetSenseParameters { g with bmCSWStatus := CD_CSW_STATUS_OK } 0 0 0
  { g with m_pCurrentCommandHandler := none }

end ScsiCmdRequestSense

namespace ScsiCmdInquiry
open ScsiCommandHandler

/-- The array `SupportedVPDPageReply`. -/
def SupportedVPDPageReply : List Nat := [0x05, 0x00, 0x00, 0x03, 0x00, 0x80, 0x83]

/-- The array `DeviceIdentificationReply`, with every initialiser the source lists. -/
def DeviceIdentificationReply : List Nat :=
  [0x05, 0x83, 0x00, 0x0C, 0x01, 0x02, 0x02, 0x01, 0x00, 0x08,
   0x55, 0x53, 0x42, 0x4F, 0x44, 0x45, 0x20, 0x20]

/-- The array `unitSerialNumberPage` of the VPD page 0x80 branch. -/
def unitSerialNumberPage (g : CUSBCDGadget) : List Nat :=
  let serial_len0 := g.m_HardwareSerialNumber.length
  let serial_len :=
    if serial_len0 > (4 + g.k.sizeofHardwareSerialNumber) - 4 - 1
    then (4 + g.k.sizeofHardwareSerialNumber) - 4 - 1 else serial_len0
  [0x05, 0x80, 0x00, u8 serial_len] ++ g.m_HardwareSerialNumber.take serial_len

/-- The common tail of the branches that stage a reply. -/
def stage (g : CUSBCDGadget) (reply : List Nat) (allocationLength : Nat) : CUSBCDGadget :=
  let datalen := if allocationLength < reply.length then allocationLength else reply.length
  let g := begin_data_in_transfer g (reply.take datalen)
  { g with m_nState := TCDState.DataIn, m_nnumber_blocks := 0,
           m_CSW := { g.m_CSW with bmCSWStatus := CD_CSW_STATUS_OK } }

/-- Source `ScsiCmdInquiry::handle_command` (the two surplus closing braces at
the end of the source function are read as the end of the EVPD branch, so the
final `m_pCurrentCommandHandler = nullptr` belongs to the function). -/
def handle_command (cbw : TUSBCDCBW) (g : CUSBCDGadget) : CUSBCDGadget :=
  let allocationLength := shl16 (cbw.cb 3) (cbw.cb 4)
  let evpd := (cbw.cb 1) &&& 0x01 ≠ 0
  let page_code := cbw.cb 2
  if !evpd then
    let g := stage g g.m_InqReply allocationLength
    { g with m_pCurrentCommandHandler := none }
  else if page_code = 0x00 then
    let g := stage g SupportedVPDPageReply allocationLength
    { g with m_pCurrentCommandHandler := none }
  else if page_code = 0x80 then
    let g := stage g (unitSerialNumberPage g) allocationLength
    { g with m_pCurrentCommandHandler := none }
  else if page_code = 0x83 then
    let g := stage g DeviceIdentificationReply allocationLength
    { g with m_pCurrentCommandHandler := none }
  else
    let g := { g with m_nnumber_blocks := 0,
                      m_CSW := { g.m_CSW with bmCSWStatus := CD_CSW_STATUS_FAIL } }
    let g := g.SetSenseParameters 0x05 0x24 0x00
    let g := send_csw g CD_CSW_STATUS_FAIL
    { g with m_pCurrentCommandHandler := none }

end ScsiCmdInquiry

/-- The failure exit shared by the continue steps of Read(10) and Read CD:
set the sense, send the CSW with status FAIL, then overwrite the state with
`ReceiveCBW` and drop the handler. -/
def readFail (g : CUSBCDGadget) (sense_key asc ascq : Nat) : CUSBCDGadget :=
  let g := g.SetSenseParameters sense_key asc ascq
  let g := ScsiCommandHandler.send_csw g CD_CSW_STATUS_FAIL
  { g with m_nState := TCDState.ReceiveCBW, m_pCurrentCommandHandler := none }

/-- The device read of a continue step: the bytes the device stored replace
the start of `m_FileChunk`. -/
def readIntoFileChunk (g : CUSBCDGadget) (pos n : Nat) : Int × CUSBCDGadget :=
  let r := g.m_pDevice.Read pos n
  (r.1, { g with m_FileChunk := r.2 ++ g.m_FileChunk.drop r.2.length })

namespace ScsiCmdRead10
open ScsiCommandHandler

/-- The straight-line assignments at the start of the ready branch of
`ScsiCmdRead10::handle_command`. -/
def parse (cbw : TUSBCDCBW) (g : CUSBCDGadget) : CUSBCDGadget :=
  { g with m_CSW := { g.m_CSW with bmCSWStatus := u8 g.GetCurrentCSWStatus },
           m_nblock_address := shl32 (cbw.cb 2) (cbw.cb 3) (cbw.cb 4) (cbw.cb 5),
           m_nnumber_blocks := u32 (shl16 (cbw.cb 7) (cbw.cb 8)),
           transfer_block_size := 2048,
           block_size := g.data_block_size,
           skip_bytes := g.data_skip_bytes,
           mcs := 0,
           m_nbyteCount := cbw.dCBWDataTransferLength }

/-- The statement `if (m_nnumber_blocks == 0 && m_nbyteCount > 0)` deriving the
block count from the transfer length (the sum is a `u32`). -/
def deriveBlocks (g : CUSBCDGadget) : CUSBCDGadget :=
  let derived := u32 (g.m_nbyteCount + g.transfer_block_size - 1) / g.transfer_block_size
  if g.m_nnumber_blocks = 0 ∧ g.m_nbyteCount > 0 then { g with m_nnumber_blocks := derived }
  else g

/-- The branch `if (m_nnumber_blocks == 0)` of the begin step: residue, CSW OK. -/
def finishEmpty (cbw : TUSBCDCBW) (g : CUSBCDGadget) : CUSBCDGadget :=
  let g := send_csw
    { g with m_CSW := { g.m_CSW with dCSWDataResidue := cbw.dCBWDataTransferLength } }
    CD_CSW_STATUS_OK
  { g with m_pCurrentCommandHandler := none }

/-- The failing exit of a begin step: sense, CSW FAIL, no handler. -/
def notReady (g : CUSBCDGadget) : CUSBCDGadget :=
  let g := send_csw (g.SetSenseParameters 0x02 0x04 0x00) CD_CSW_STATUS_FAIL
  { g with m_pCurrentCommandHandler := none }

/-- Source `ScsiCmdRead10::handle_command`. -/
def handle_command (cbw : TUSBCDCBW) (g : CUSBCDGadget) : CUSBCDGadget :=
  if g.IsCDReady then
    let g := deriveBlocks (parse cbw g)
    if g.m_nnumber_blocks = 0 then finishEmpty cbw g
    else
      { g with m_nState := TCDState.DataInRead,
               m_pCurrentCommandHandler := some ScsiCommandHandler.ScsiCmdRead10 }
  else notReady g

/-- The copy loop of `ScsiCmdRead10::update`: block `i` of the chunk is copied
from `m_FileChunk + i * block_size + skip_bytes`. -/
def copyBlocks (g : CUSBCDGadget) (blocks : Nat) : List Nat :=
  ((List.range blocks).map
    (fun i => window g.m_FileChunk (i * g.block_size + g.skip_bytes) g.transfer_block_size)).flatten

/-- The number `blocks_to_read_this_iteration` of a continue step. -/
def blocksThisIteration (g : CUSBCDGadget) : Nat :=
  if g.m_nnumber_blocks > g.k.MaxBlocksToRead then g.k.MaxBlocksToRead else g.m_nnumber_blocks

/-- The end of a successful continue step: advance the read context, set the
CSW status and the state, and submit the chunk. -/
def advance (g : CUSBCDGadget) (blocks : Nat) (data : List Nat) : CUSBCDGadget :=
  let total_bytes_for_usb_transfer := u32 (blocks * g.transfer_block_size)
  begin_data_in_transfer
    { g with m_nblock_address := u32 (g.m_nblock_address + blocks),
             m_nnumber_blocks := g.m_nnumber_blocks - blocks,
             m_nbyteCount := u32 (g.m_nbyteCount + 4294967296 - total_bytes_for_usb_transfer),
             m_CSW := { g.m_CSW with bmCSWStatus := CD_CSW_STATUS_OK },
             m_nState := TCDState.DataIn }
    data

/-- The branch `if (m_nnumber_blocks == 0)` of `ScsiCmdRead10::update`. -/
def finishAll (g : CUSBCDGadget) : CUSBCDGadget :=
  let g := send_csw { g with m_CSW := { g.m_CSW with dCSWDataResidue := 0 } } CD_CSW_STATUS_OK
  { g with m_pCurrentCommandHandler := none }

/-- The part of `ScsiCmdRead10::update` after a successful seek to `actual_seek_pos`. -/
def readStep (g : CUSBCDGadget) (actual_seek_pos : Nat) : CUSBCDGadget :=
  let blocks_to_read_this_iteration := blocksThisIteration g
  let bytes_to_read_from_device := u32 (blocks_to_read_this_iteration * g.block_size)
  let r := readIntoFileChunk g actual_seek_pos bytes_to_read_from_device
  let bytes_read := r.1
  if bytes_read < 0 then readFail r.2 0x03 0x11 0x00
  else if bytes_read = 0 ∧ bytes_to_read_from_device > 0 then readFail r.2 0x03 0x11 0x00
  else if u32OfInt bytes_read < bytes_to_read_from_device then readFail r.2 0x03 0x11 0x00
  else advance r.2 blocks_to_read_this_iteration (copyBlocks r.2 blocks_to_read_this_iteration)

/-- Source `ScsiCmdRead10::update`. -/
def update (g : CUSBCDGadget) : CUSBCDGadget :=
  if g.m_nState ≠ TCDState.DataInRead then g
  else if !g.IsCDReady then readFail g 0x02 0x04 0x00
  else if g.m_nnumber_blocks = 0 then finishAll g
  else
    let file_offset := (g.block_size * g.m_nblock_address) % 18446744073709551616
    let actual_seek_pos := g.m_pDevice.Seek file_offset
    if actual_seek_pos = 18446744073709551615 then readFail g 0x03 0x11 0x00
    else readStep g actual_seek_pos

end ScsiCmdRead10

/-! ## Command handlers, part 2 -/

namespace ScsiCmdStartStopUnit
open ScsiCommandHandler

/-- Source `ScsiCmdStartStopUnit::handle_command` (both LOEJ branches only log). -/
def handle_command (_cbw : TUSBCDCBW) (g : CUSBCDGadget) : CUSBCDGadget :=
  let g := send_csw g CD_CSW_STATUS_OK
  { g with m_pCurrentCommandHandler := none }

end ScsiCmdStartStopUnit

namespace ScsiCmdPreventAllowMediumRemoval
open ScsiCommandHandler

/-- Source `ScsiCmdPreventAllowMediumRemoval::handle_command`. -/
def handle_command (_cbw : TUSBCDCBW) (g : CUSBCDGadget) : CUSBCDGadget :=
  let g := send_csw g CD_CSW_STATUS_OK
  { g with m_pCurrentCommandHandler := none }

end ScsiCmdPreventAllowMediumRemoval

namespace ScsiCmdReadCapacity10
open ScsiCommandHandler

/-- The memory image of `m_ReadCapReply` (`nLastBlockAddr`, `nSectorSize`). -/
def m_ReadCapReply (g : CUSBCDGadget) : List Nat :=
  le32 (htonl (u32 (g.GetLeadoutLBA + 4294967296 - 1))) ++ le32 g.m_ReadCapReply_nSectorSize

/-- Source `ScsiCmdReadCapacity10::handle_command`. -/
def handle_command (_cbw : TUSBCDCBW) (g : CUSBCDGadget) : CUSBCDGadget :=
  let reply := m_ReadCapReply g
  let g := { g with m_nnumber_blocks := 0 }
  let g := begin_data_in_transfer g (reply.take SIZE_READCAPREP)
  let g := { g with m_nState := TCDState.DataIn,
                    m_CSW := { g.m_CSW with bmCSWStatus := u8 g.GetCurrentCSWStatus } }
  { g with m_pCurrentCommandHandler := none }

end ScsiCmdReadCapacity10

/-- A call of an audio player method when the `cdplayer` task exists. -/
def playerCall (g : CUSBCDGadget) (c : PlayerCall) : CUSBCDGadget :=
  match g.cdplayer with
  | some p => { g with cdplayer := some { p with calls := p.calls ++ [c] } }
  | none => g

namespace ScsiCmdSeek
open ScsiCommandHandler

/-- Source `ScsiCmdSeek::handle_command`. -/
def handle_command (cbw : TUSBCDCBW) (g : CUSBCDGadget) : CUSBCDGadget :=
  let lba_to_seek := shl32 (cbw.cb 2) (cbw.cb 3) (cbw.cb 4) (cbw.cb 5)
  let g := { g with m_nblock_address := lba_to_seek }
  let g := playerCall g (PlayerCall.Seek lba_to_seek)
  let g := send_csw g g.GetCurrentCSWStatus
  { g with m_pCurrentCommandHandler := none }

end ScsiCmdSeek

namespace ScsiCmdVerify
open ScsiCommandHandler

/-- Source `ScsiCmdVerify::handle_command`. -/
def handle_command (_cbw : TUSBCDCBW) (g : CUSBCDGadget) : CUSBCDGadget :=
  let g := send_csw g CD_CSW_STATUS_OK
  { g with m_pCurrentCommandHandler := none }

end ScsiCmdVerify

namespace ScsiCmdSetCdSpeed
open ScsiCommandHandler

/-- Source `ScsiCmdSetCdSpeed::handle_command`. -/
def handle_command (_cbw : TUSBCDCBW) (g : CUSBCDGadget) : CUSBCDGadget :=
  let g := send_csw g CD_CSW_STATUS_OK
  { g with m_pCurrentCommandHandler := none }

end ScsiCmdSetCdSpeed

/-- A `memcpy(dst + off, src, n)` into a byte array. -/
def poke (dst : List Nat) (off : Nat) (src : List Nat) : List Nat :=
  dst.take off ++ (List.replicate (off - dst.length) 0) ++ src ++ dst.drop (off + src.length)

namespace ScsiCmdReadCD
open ScsiCommandHandler

/-- The `switch (expectedSectorType)` of `ScsiCmdReadCD::handle_command`. -/
def selectSectorType (g : CUSBCDGadget) (expectedSectorType : Nat) : CUSBCDGadget :=
  if expectedSectorType = 0x01 then
    { g with block_size := 2352, transfer_block_size := 2352, skip_bytes := 0 }
  else if expectedSectorType = 0x02 then
    let trackInfo := g.GetTrackInfoForLBA g.m_nblock_address
    { g with skip_bytes := CUSBCDGadget.GetSkipbytesForTrack trackInfo,
             block_size := CUSBCDGadget.GetBlocksizeForTrack trackInfo,
             transfer_block_size := 2048 }
  else if expectedSectorType = 0x03 then
    { g with skip_bytes := 16, block_size := 2352, transfer_block_size := 2336 }
  else if expectedSectorType = 0x04 then
    let trackInfo := g.GetTrackInfoForLBA g.m_nblock_address
    { g with skip_bytes := CUSBCDGadget.GetSkipbytesForTrack trackInfo,
             block_size := CUSBCDGadget.GetBlocksizeForTrack trackInfo,
             transfer_block_size := 2048 }
  else if expectedSectorType = 0x05 then
    { g with block_size := 2352, skip_bytes := 24, transfer_block_size := 2048 }
  else
    let trackInfo := g.GetTrackInfoForLBA g.m_nblock_address
    if trackInfo.track_number ≠ -1 ∧ trackInfo.track_mode = CUETrackMode.CUETrack_AUDIO then
      { g with block_size := 2352, transfer_block_size := 2352, skip_bytes := 0 }
    else
      { g with block_size := CUSBCDGadget.GetBlocksizeForTrack trackInfo,
               transfer_block_size := CUSBCDGadget.GetSectorLengthFromMCS g.mcs,
               skip_bytes := CUSBCDGadget.GetSkipBytesFromMCS g.mcs }

/-- The straight-line assignments at the start of the ready branch of
`ScsiCmdReadCD::handle_command`, before the `switch`. -/
def parse (cbw : TUSBCDCBW) (g : CUSBCDGadget) : CUSBCDGadget :=
  { g with m_CSW := { g.m_CSW with bmCSWStatus := u8 g.GetCurrentCSWStatus },
           m_nblock_address := shl32 (cbw.cb 2) (cbw.cb 3) (cbw.cb 4) (cbw.cb 5),
           m_nnumber_blocks := u32 (((cbw.cb 6) <<< 16) ||| shl16 (cbw.cb 7) (cbw.cb 8)),
           mcs := ((cbw.cb 9) >>> 3) &&& 0x1F }

/-- The exit of the begin step when the block count cannot be derived. -/
def invalidField (g : CUSBCDGadget) : CUSBCDGadget :=
  let g := send_csw (g.SetSenseParameters 0x05 0x24 0x00) CD_CSW_STATUS_FAIL
  { g with m_pCurrentCommandHandler := none }

/-- The end of `ScsiCmdReadCD::handle_command`, from `m_nbyteCount = ...` on. -/
def start (cbw : TUSBCDCBW) (g0 : CUSBCDGadget) : CUSBCDGadget :=
  let g := { g0 with m_nbyteCount := cbw.dCBWDataTransferLength }
  if g.m_nnumber_blocks = 0 ∧ g.m_nbyteCount > 0 ∧ ¬ (g.transfer_block_size > 0) then
    invalidField g
  else
    let g := ScsiCmdRead10.deriveBlocks g
    if g.m_nnumber_blocks = 0 then ScsiCmdRead10.finishEmpty cbw g
    else
      { g with m_nState := TCDState.DataInRead,
               m_pCurrentCommandHandler := some ScsiCommandHandler.ScsiCmdReadCD }

/-- Source `ScsiCmdReadCD::handle_command`. -/
def handle_command (cbw : TUSBCDCBW) (g : CUSBCDGadget) : CUSBCDGadget :=
  if !g.IsCDReady then ScsiCmdRead10.notReady g
  else
    let expectedSectorType := ((cbw.cb 1) >>> 2) &&& 0x07
    start cbw (selectSectorType (parse cbw g) expectedSectorType)

/-- The synthesis branch of the copy loop of `ScsiCmdReadCD::update` for block
`i`: the 2352-byte scratch sector after the selected portions were written,
and whether the user-data copy had a negative length. -/
def synthesized_sector (g : CUSBCDGadget) (i : Nat) : List Nat × Bool :=
  let s0 := List.replicate 2352 0
  let off0 := 0
  let s1 := if g.mcs &&& 0x10 ≠ 0 then
      poke s0 off0 ([0x00] ++ List.replicate 10 0xFF ++ [0x00]) else s0
  let off1 := if g.mcs &&& 0x10 ≠ 0 then off0 + 12 else off0
  let current_lba_for_header := u32 (g.m_nblock_address + i + 150)
  let trackInfo := g.GetTrackInfoForLBA (u32 (g.m_nblock_address + i))
  let modeByte :=
    if trackInfo.track_mode = CUETrackMode.CUETrack_MODE1_2048
        ∨ trackInfo.track_mode = CUETrackMode.CUETrack_MODE1_2352 then 0x01 else 0x02
  let s2 := if g.mcs &&& 0x08 ≠ 0 then
      poke s1 off1 [u8 (current_lba_for_header / (75 * 60)), u8 ((current_lba_for_header / 75) % 60),
                    u8 (current_lba_for_header % 75), modeByte] else s1
  let off2 := if g.mcs &&& 0x08 ≠ 0 then off1 + 4 else off1
  let negative := g.mcs &&& 0x04 ≠ 0 ∧ g.block_size < g.skip_bytes
  let s3 := if g.mcs &&& 0x04 ≠ 0 then
      poke s2 off2 (window g.m_FileChunk (i * g.block_size + g.skip_bytes)
        (g.block_size - g.skip_bytes)) else s2
  (s3, decide negative)

/-- The body of the copy loop of `ScsiCmdReadCD::update`: the bytes block `i`
adds to the IN buffer. -/
def copyBlock (g : CUSBCDGadget) (i : Nat) : List Nat :=
  if g.transfer_block_size > g.block_size then
    window (synthesized_sector g i).1 (CUSBCDGadget.GetSkipBytesFromMCS g.mcs) g.transfer_block_size
  else
    window g.m_FileChunk (i * g.block_size + g.skip_bytes) g.transfer_block_size

/-- The copy loop of `ScsiCmdReadCD::update`. -/
def copyBlocks (g : CUSBCDGadget) (blocks : Nat) : List Nat :=
  ((List.range blocks).map (fun i => copyBlock g i)).flatten

/-- Whether some block of the copy loop ran a copy with a negative length. -/
def copyFault (g : CUSBCDGadget) (blocks : Nat) : Bool :=
  decide (g.transfer_block_size > g.block_size) &&
    (List.range blocks).any (fun i => (synthesized_sector g i).2)

/-- The branch `if (m_nnumber_blocks == 0)` of `ScsiCmdReadCD::update`. -/
def finishAll (g : CUSBCDGadget) : CUSBCDGadget :=
  let g := send_csw { g with m_CSW := { g.m_CSW with dCSWDataResidue := g.m_nbyteCount } }
    CD_CSW_STATUS_OK
  { g with m_pCurrentCommandHandler := none }

/-- The part of `ScsiCmdReadCD::update` after a successful seek to `actual_seek_pos`. -/
def readStep (g : CUSBCDGadget) (actual_seek_pos : Nat) : CUSBCDGadget :=
  let blocks_to_read_this_iteration := ScsiCmdRead10.blocksThisIteration g
  let bytes_to_read_from_device := u32 (blocks_to_read_this_iteration * g.block_size)
  let r := readIntoFileChunk g actual_seek_pos bytes_to_read_from_device
  let bytes_read := r.1
  if bytes_read ≤ 0 ∨ u32OfInt bytes_read < bytes_to_read_from_device then
    readFail r.2 0x03 0x11 0x00
  else
    ScsiCmdRead10.advance
      { r.2 with fault := r.2.fault || copyFault r.2 blocks_to_read_this_iteration }
      blocks_to_read_this_iteration (copyBlocks r.2 blocks_to_read_this_iteration)

/-- Source `ScsiCmdReadCD::update`. -/
def update (g : CUSBCDGadget) : CUSBCDGadget :=
  if g.m_nState ≠ TCDState.DataInRead then g
  else if !g.IsCDReady then readFail g 0x02 0x04 0x00
  else if g.m_nnumber_blocks = 0 then finishAll g
  else
    let file_offset := (g.block_size * g.m_nblock_address) % 18446744073709551616
    let actual_seek_pos := g.m_pDevice.Seek file_offset
    if actual_seek_pos = 18446744073709551615 then readFail g 0x03 0x11 0x00
    else readStep g actual_seek_pos

end ScsiCmdReadCD

/-! ## Command handlers, part 3 -/

/-- The `size` bytes a `memcpy(dst, &s, size)` takes from the image of a structure. -/
def imageBytes (k : GadgetConsts) (s : ReplyStruct) (vals : List Nat) : List Nat :=
  window (k.image s vals) 0 (k.sizeof s)

namespace ScsiCmdReadSubChannel
open ScsiCommandHandler

/-- The `switch (player_state)` giving `header_reply.audioStatus`. -/
def audioStatus (g : CUSBCDGadget) : Nat :=
  match g.cdplayer with
  | none => 0x00
  | some p =>
    match p.state with
    | PlayerState.PLAYING => 0x11
    | PlayerState.PAUSED => 0x12
    | PlayerState.STOPPED_OK => 0x13
    | PlayerState.STOPPED_ERROR => 0x14
    | PlayerState.NONE => 0x15

/-- The structure `position_data_reply` of the format 0x01 branch. -/
def position_data_reply (g : CUSBCDGadget) (msf : Nat) : List Nat :=
  match g.cdplayer with
  | some p =>
    let current_lba := u32 p.address
    let trackInfo := g.GetTrackInfoForLBA current_lba
    imageBytes g.k ReplyStruct.TUSBCDSubChannel01CurrentPositionReply
      [0x01,
       if trackInfo.track_mode = CUETrackMode.CUETrack_AUDIO then 0x10 else 0x14,
       if trackInfo.track_number ≠ -1 then u8OfInt trackInfo.track_number else 0,
       0x01,
       CUSBCDGadget.GetAddress current_lba msf false,
       if trackInfo.track_number ≠ -1 then
         CUSBCDGadget.GetAddress (u32 (current_lba + 4294967296 - u32 trackInfo.track_start)) msf true
       else CUSBCDGadget.GetAddress 0 msf true]
  | none =>
    imageBytes g.k ReplyStruct.TUSBCDSubChannel01CurrentPositionReply
      [0x01, 0x10, 0, 0, CUSBCDGadget.GetAddress 0 msf false, CUSBCDGadget.GetAddress 0 msf true]

/-- Source `ScsiCmdReadSubChannel::handle_command`. -/
def handle_command (cbw : TUSBCDCBW) (g : CUSBCDGadget) : CUSBCDGadget :=
  let msf := ((cbw.cb 1) >>> 1) &&& 0x01
  let parameter_list_code := if cbw.cb 3 = 0x00 then 0x01 else cbw.cb 3
  let allocationLength := shl16 (cbw.cb 7) (cbw.cb 8)
  if parameter_list_code = 0x01 then
    let header_reply := imageBytes g.k ReplyStruct.TUSBCDSubChannelHeaderReply
      [audioStatus g, htons (g.k.sizeof ReplyStruct.TUSBCDSubChannel01CurrentPositionReply)]
    let reply := header_reply ++ position_data_reply g msf
    let length_to_send0 := g.k.sizeof ReplyStruct.TUSBCDSubChannelHeaderReply
      + g.k.sizeof ReplyStruct.TUSBCDSubChannel01CurrentPositionReply
    let length_to_send := if allocationLength < length_to_send0 then allocationLength else length_to_send0
    let g := begin_data_in_transfer g (reply.take length_to_send)
    let g := { g with m_nnumber_blocks := 0, m_nState := TCDState.DataIn,
                      m_CSW := { g.m_CSW with bmCSWStatus := u8 g.GetCurrentCSWStatus } }
    { g with m_pCurrentCommandHandler := none }
  else
    let g := g.SetSenseParameters 0x05 0x24 0x00
    let g := send_csw g CD_CSW_STATUS_FAIL
    { g with m_pCurrentCommandHandler := none }

end ScsiCmdReadSubChannel

/-- Modelled from the spec: the 8-byte TOC entry `TUSBTOCEntry` of
usbcdgadget.h (absent): reserved, ADR/Control, track number, reserved, address. -/
structure TUSBTOCEntry where
  reserved : Nat
  ADR_Control : Nat
  TrackNumber : Nat
  reserved2 : Nat
  address : Nat
  deriving DecidableEq, Repr

/-- The memory image of a TOC entry. -/
def TUSBTOCEntry.toBytes (e : TUSBTOCEntry) : List Nat :=
  [u8 e.reserved, u8 e.ADR_Control, u8 e.TrackNumber, u8 e.reserved2] ++ le32 e.address

namespace ScsiCmdReadTocPmaAtip
open ScsiCommandHandler

/-- Element `idx` of the freshly allocated `toc_entries_array` after the
handler assigned `ADR_Control`, `TrackNumber` and `address` (the reserved bytes
keep what the allocation held). -/
def entryAt (fresh : List (Nat × Nat)) (idx : Nat) (adr track address : Nat) : TUSBTOCEntry :=
  { reserved := (fresh.getD idx (0, 0)).1, ADR_Control := adr, TrackNumber := track,
    reserved2 := (fresh.getD idx (0, 0)).2, address := address }

/-- The `while` loop over the tracks of the format 0x00 branch: `entries` are
the entries written so far (`current_entry_idx` is their number). -/
def trackLoop (fresh : List (Nat × Nat)) (startingTrack max_possible_entries : Int) (msf : Nat) :
    List CUETrackInfo → List TUSBTOCEntry → List TUSBTOCEntry
  | [], entries => entries
  | trackInfo :: rest, entries =>
    if trackInfo.track_number < startingTrack then
      trackLoop fresh startingTrack max_possible_entries msf rest entries
    else if (entries.length : Int) ≥ max_possible_entries - 1 then entries
    else
      trackLoop fresh startingTrack max_possible_entries msf rest
        (entries ++ [entryAt fresh entries.length
          (if trackInfo.track_mode = CUETrackMode.CUETrack_AUDIO then 0x10 else 0x14)
          (u8OfInt trackInfo.track_number)
          (CUSBCDGadget.GetAddress trackInfo.track_start msf false)])

/-- The value of `max_possible_entries` for format 0x00. -/
def max_possible_entries (lastTrackNumberOnDisc startingTrack : Int) : Int :=
  let m := (lastTrackNumberOnDisc
    - (if startingTrack = 0xAA then lastTrackNumberOnDisc else startingTrack) + 1) + 1
  if m ≤ 0 then 1 else m

/-- The entries the format 0x00 branch writes: the tracks, then the lead-out. -/
def entries00 (g : CUSBCDGadget) (fresh : List (Nat × Nat)) (startingTrack0 : Int) (msf : Nat) :
    List TUSBTOCEntry :=
  let maxE := max_possible_entries g.GetLastTrackNumber startingTrack0
  let startingTrack := if startingTrack0 = 0 then 1 else startingTrack0
  let tracks := if startingTrack ≠ 0xAA then
      trackLoop fresh startingTrack maxE msf g.cueParser [] else []
  if (tracks.length : Int) < maxE then
    tracks ++ [entryAt fresh tracks.length 0x10 0xAA
      (CUSBCDGadget.GetAddress g.GetLeadoutLBA msf false)]
  else tracks

/-- The entries the format 0x01 branch writes. -/
def entries01 (g : CUSBCDGadget) (fresh : List (Nat × Nat)) (msf : Nat) : List TUSBTOCEntry :=
  let firstSessionTrackInfo := g.GetTrackInfoForTrack 1
  if firstSessionTrackInfo.track_number ≠ -1 then
    [entryAt fresh 0
      (if firstSessionTrackInfo.track_mode = CUETrackMode.CUETrack_AUDIO then 0x10 else 0x14)
      (u8OfInt firstSessionTrackInfo.track_number)
      (CUSBCDGadget.GetAddress firstSessionTrackInfo.track_start msf false)]
  else []

/-- The bytes the handler copies to the IN buffer for formats 0x00 and 0x01:
the header `toc_header_reply` (`DataLength`, `FirstTrack`, `LastTrack`), then
the entries. -/
def assembled (g : CUSBCDGadget) (entries : List TUSBTOCEntry) : List Nat :=
  let total_data_bytes_to_send := SIZE_TOC_DATA + entries.length * SIZE_TOC_ENTRY
  le16 (htons (u16 (total_data_bytes_to_send - 2))) ++ [1, u8OfInt g.GetLastTrackNumber]
    ++ (entries.map TUSBTOCEntry.toBytes).flatten

/-- Source `ScsiCmdReadTocPmaAtip::handle_command`. -/
def handle_command (cbw : TUSBCDCBW) (g : CUSBCDGadget) : CUSBCDGadget :=
  if !g.IsCDReady then
    let g := g.SetSenseParameters 0x02 0x04 0x00
    let g := send_csw g CD_CSW_STATUS_FAIL
    { g with m_pCurrentCommandHandler := none }
  else
    let msf := ((cbw.cb 1) >>> 1) &&& 0x01
    let format_field := (cbw.cb 2) &&& 0x0F
    let startingTrack : Int := (cbw.cb 6 : Nat)
    let allocationLength := shl16 (cbw.cb 7) (cbw.cb 8)
    if format_field = 0x00 ∨ format_field = 0x01 then
      match g.heapTocEntries with
      | none =>
        let g := g.SetSenseParameters 0x04 0x00 0x00
        let g := send_csw g CD_CSW_STATUS_FAIL
        { g with m_pCurrentCommandHandler := none }
      | some fresh =>
        let entries := if format_field = 0x00 then entries00 g fresh startingTrack msf
          else entries01 g fresh msf
        let reply := assembled g entries
        let total_data_bytes_to_send0 := SIZE_TOC_DATA + entries.length * SIZE_TOC_ENTRY
        let total_data_bytes_to_send :=
          if allocationLength < total_data_bytes_to_send0 then allocationLength
          else total_data_bytes_to_send0
        let g := { g with m_nnumber_blocks := 0 }
        let g := begin_data_in_transfer g (reply.take total_data_bytes_to_send)
        let g := { g with m_nState := TCDState.DataIn,
                          m_CSW := { g.m_CSW with bmCSWStatus := u8 g.GetCurrentCSWStatus } }
        { g with m_pCurrentCommandHandler := none }
    else
      let g := g.SetSenseParameters 0x05 0x24 0x00
      let g := send_csw g CD_CSW_STATUS_FAIL
      { g with m_pCurrentCommandHandler := none }

end ScsiCmdReadTocPmaAtip

/-! ## Command handlers, part 4 -/

/-- The common tail of the handlers that stage one reply: submit it, then
`m_nnumber_blocks = 0`, `m_nState = DataIn`, the CSW status, no handler. -/
def stageReply (g : CUSBCDGadget) (data : List Nat) (status : Nat) : CUSBCDGadget :=
  let g := ScsiCommandHandler.begin_data_in_transfer g data
  { g with m_nnumber_blocks := 0, m_nState := TCDState.DataIn,
           m_CSW := { g.m_CSW with bmCSWStatus := u8 status },
           m_pCurrentCommandHandler := none }

/-- The common failing exit: set the sense, send the CSW with status FAIL, no handler. -/
def failWith (g : CUSBCDGadget) (sense_key asc ascq : Nat) : CUSBCDGadget :=
  let g := ScsiCommandHandler.send_csw (g.SetSenseParameters sense_key asc ascq) CD_CSW_STATUS_FAIL
  { g with m_pCurrentCommandHandler := none }

/-- The common exit of the handlers without data phase: send the CSW, no handler. -/
def sendStatus (g : CUSBCDGadget) (csw_status : Nat) : CUSBCDGadget :=
  let g := ScsiCommandHandler.send_csw g csw_status
  { g with m_pCurrentCommandHandler := none }

/-- The play request shared by Play Audio(10) and Play Audio(12) once the
block count is non-zero. -/
def playAudioLba (g : CUSBCDGadget) (starting_lba number_of_blocks : Nat) : CUSBCDGadget :=
  let trackInfo := g.GetTrackInfoForLBA starting_lba
  if trackInfo.track_number ≠ -1 ∧ trackInfo.track_mode = CUETrackMode.CUETrack_AUDIO then
    let g := if starting_lba = 0xFFFFFFFF then playerCall g PlayerCall.Resume
      else playerCall g (PlayerCall.Play starting_lba number_of_blocks)
    sendStatus g g.GetCurrentCSWStatus
  else
    sendStatus (g.SetSenseParameters 0x05 0x64 0x00) CD_CSW_STATUS_FAIL

namespace ScsiCmdPlayAudio10

/-- Source `ScsiCmdPlayAudio10::handle_command`. -/
def handle_command (cbw : TUSBCDCBW) (g : CUSBCDGadget) : CUSBCDGadget :=
  let starting_lba := shl32 (cbw.cb 2) (cbw.cb 3) (cbw.cb 4) (cbw.cb 5)
  let number_of_blocks := u16 (shl16 (cbw.cb 7) (cbw.cb 8))
  if number_of_blocks > 0 then playAudioLba g starting_lba number_of_blocks
  else sendStatus g g.GetCurrentCSWStatus

end ScsiCmdPlayAudio10

namespace ScsiCmdPlayAudio12

/-- Source `ScsiCmdPlayAudio12::handle_command`. -/
def handle_command (cbw : TUSBCDCBW) (g : CUSBCDGadget) : CUSBCDGadget :=
  let starting_lba := shl32 (cbw.cb 2) (cbw.cb 3) (cbw.cb 4) (cbw.cb 5)
  let number_of_blocks := shl32 (cbw.cb 6) (cbw.cb 7) (cbw.cb 8) (cbw.cb 9)
  if number_of_blocks > 0 then playAudioLba g starting_lba number_of_blocks
  else sendStatus g g.GetCurrentCSWStatus

end ScsiCmdPlayAudio12

namespace ScsiCmdPlayAudioMsf

/-- The call made on the audio player in `ScsiCmdPlayAudioMsf::handle_command`. -/
def play (g : CUSBCDGadget) (start_lba end_lba : Nat) : CUSBCDGadget :=
  if start_lba = 0xFFFFFFFF ∧ end_lba = 0xFFFFFFFF then playerCall g PlayerCall.Resume
  else if start_lba = end_lba then playerCall g PlayerCall.Pause
  else playerCall g (PlayerCall.Play start_lba (end_lba - start_lba))

/-- Source `ScsiCmdPlayAudioMsf::handle_command`. -/
def handle_command (cbw : TUSBCDCBW) (g : CUSBCDGadget) : CUSBCDGadget :=
  let start_lba := CUSBCDGadget.msf_to_lba (cbw.cb 3) (cbw.cb 4) (cbw.cb 5)
  let end_lba := CUSBCDGadget.msf_to_lba (cbw.cb 6) (cbw.cb 7) (cbw.cb 8)
  if start_lba > end_lba ∧ ¬ (start_lba = 0xFFFFFFFF ∧ end_lba = 0xFFFFFFFF) then
    sendStatus (g.SetSenseParameters 0x05 0x24 0x00) CD_CSW_STATUS_FAIL
  else
    let trackInfo := g.GetTrackInfoForLBA start_lba
    if trackInfo.track_number = -1 ∨ trackInfo.track_mode ≠ CUETrackMode.CUETrack_AUDIO then
      sendStatus (g.SetSenseParameters 0x05 0x64 0x00) CD_CSW_STATUS_FAIL
    else
      sendStatus (play g start_lba end_lba) g.GetCurrentCSWStatus

end ScsiCmdPlayAudioMsf

namespace ScsiCmdPauseResume

/-- Source `ScsiCmdPauseResume::handle_command`. -/
def handle_command (cbw : TUSBCDCBW) (g : CUSBCDGadget) : CUSBCDGadget :=
  let resume_action := (cbw.cb 8) &&& 0x01
  let g := if resume_action ≠ 0 then playerCall g PlayerCall.Resume
    else playerCall g PlayerCall.Pause
  sendStatus g g.GetCurrentCSWStatus

end ScsiCmdPauseResume

namespace ScsiCmdStopPlayScan

/-- Source `ScsiCmdStopPlayScan::handle_command`. -/
def handle_command (_cbw : TUSBCDCBW) (g : CUSBCDGadget) : CUSBCDGadget :=
  let g := playerCall g PlayerCall.Pause
  sendStatus g g.GetCurrentCSWStatus

end ScsiCmdStopPlayScan

namespace ScsiCmdGetConfiguration

/-- Modelled from the spec: `sizeof(TUSBCDFeatureHeaderReply)`, the 8-byte
Feature Header of usbcdgadget.h (absent). -/
def sizeofHeader : Nat := 8

/-- Modelled from the spec: `PROFILE_CDROM` of usbcdgadget.h (absent). -/
def PROFILE_CDROM : Nat := 0x0008

/-- Modelled from the spec: the memory image of `header_reply`
(`TUSBCDFeatureHeaderReply` of usbcdgadget.h, absent): `dataLength`,
`reserved`, `currentProfile`. -/
def header_reply (current_data_len : Nat) : List Nat :=
  le32 (htonl (u32 (current_data_len - sizeofHeader))) ++ le16 0 ++ le16 (htons PROFILE_CDROM)

/-- The lambda `copy_feature`: `buf` is the IN buffer up to `current_data_len`. -/
def copy_feature (g : CUSBCDGadget) (buf : List Nat) (feature_data : List Nat) : List Nat :=
  if buf.length + feature_data.length ≤ g.k.MaxInMessageSize then buf ++ feature_data else buf

/-- The features the two "all features" request types copy, in source order. -/
def allFeatures (g : CUSBCDGadget) (starting_feature : Nat) : List (List Nat) :=
  (if starting_feature ≤ 0x0000 then [g.profile_list, g.cdrom_profile] else [])
    ++ (if starting_feature ≤ 0x0001 then [g.core] else [])
    ++ (if starting_feature ≤ 0x0002 then [g.morphing] else [])
    ++ (if starting_feature ≤ 0x0003 then [g.mechanism] else [])
    ++ (if starting_feature ≤ 0x001D then [g.multiread] else [])
    ++ (if starting_feature ≤ 0x001E then [g.cdread] else [])
    ++ (if starting_feature ≤ 0x0100 then [g.powermanagement] else [])
    ++ (if starting_feature ≤ 0x0103 then [g.audioplay] else [])

/-- The features the `switch (starting_feature)` of request type 1 copies. -/
def oneFeature (g : CUSBCDGadget) (starting_feature : Nat) : List (List Nat) :=
  if starting_feature = 0x0000 then [g.profile_list, g.cdrom_profile]
  else if starting_feature = 0x0001 then [g.core]
  else if starting_feature = 0x0002 then [g.morphing]
  else if starting_feature = 0x0003 then [g.mechanism]
  else if starting_feature = 0x001D then [g.multiread]
  else if starting_feature = 0x001E then [g.cdread]
  else if starting_feature = 0x0100 then [g.powermanagement]
  else if starting_feature = 0x0103 then [g.audioplay]
  else []

/-- The IN buffer after the header slot was reserved, the features were copied
and the header was written. -/
def assembled (g : CUSBCDGadget) (features : List (List Nat)) : List Nat :=
  let buf := features.foldl (copy_feature g) (List.replicate sizeofHeader 0)
  header_reply buf.length ++ buf.drop sizeofHeader

/-- Source `ScsiCmdGetConfiguration::handle_command`. -/
def handle_command (cbw : TUSBCDCBW) (g : CUSBCDGadget) : CUSBCDGadget :=
  let rt := (cbw.cb 1) &&& 0x03
  let starting_feature := shl16 (cbw.cb 2) (cbw.cb 3)
  let allocationLength := u16 (shl16 (cbw.cb 7) (cbw.cb 8))
  if rt = 0x00 ∨ rt = 0x02 ∨ rt = 0x01 then
    let features := if rt = 0x01 then oneFeature g starting_feature
      else allFeatures g (if rt = 0x02 then 0x0000 else starting_feature)
    let reply := assembled g features
    let current_data_len := if allocationLength < reply.length then allocationLength else reply.length
    stageReply g (reply.take current_data_len) CD_CSW_STATUS_OK
  else failWith g 0x05 0x24 0x00

end ScsiCmdGetConfiguration

namespace ScsiCmdGetEventStatusNotification

/-- The media event descriptor `media_event` (`eventCode`, `data[0]`). -/
def media_event (g : CUSBCDGadget) : List Nat :=
  if g.discChanged then imageBytes g.k ReplyStruct.TUSBCDEventStatusReplyEvent [0x02, 0x02]
  else imageBytes g.k ReplyStruct.TUSBCDEventStatusReplyEvent
    [0x00, if g.IsCDReady then 0x02 else 0x00]

/-- Source `ScsiCmdGetEventStatusNotification::handle_command`, polled branch. -/
def polled (cbw : TUSBCDCBW) (g : CUSBCDGadget) : CUSBCDGadget :=
  let notification_class_request := cbw.cb 4
  let allocationLength := u16 (shl16 (cbw.cb 7) (cbw.cb 8))
  let hdr := g.k.sizeof ReplyStruct.TUSBCDEventStatusReplyHeader
  let ev := g.k.sizeof ReplyStruct.TUSBCDEventStatusReplyEvent
  let requested := notification_class_request &&& 0x10 ≠ 0
  let fits := allocationLength ≥ hdr + ev
  let current_data_len := if requested ∧ fits then hdr + ev else hdr
  let event_header := imageBytes g.k ReplyStruct.TUSBCDEventStatusReplyHeader
    [0x10, if requested then 0x10 else 0x00, htons (u16 (current_data_len - hdr))]
  let reply := event_header ++ (if requested ∧ fits then media_event g else [])
  let g1 := if requested ∧ g.discChanged ∧ fits then { g with discChanged := false } else g
  stageReply g1
    (reply.take (if allocationLength < current_data_len then allocationLength else current_data_len))
    CD_CSW_STATUS_OK

/-- Source `ScsiCmdGetEventStatusNotification::handle_command`. -/
def handle_command (cbw : TUSBCDCBW) (g : CUSBCDGadget) : CUSBCDGadget :=
  if (cbw.cb 1) &&& 0x01 = 0 then failWith g 0x05 0x24 0x00
  else polled cbw g

end ScsiCmdGetEventStatusNotification

namespace ScsiCmdReadDiscInformation

/-- Source `ScsiCmdReadDiscInformation::handle_command`. -/
def handle_command (cbw : TUSBCDCBW) (g : CUSBCDGadget) : CUSBCDGadget :=
  let sz := g.k.sizeof ReplyStruct.TUSBDiscInfoReply
  let m_DiscInfoReply := imageBytes g.k ReplyStruct.TUSBDiscInfoReply
    [htons (u16 (sz - 2)), 0x02, 1, 1, 1, u8OfInt g.GetLastTrackNumber,
     htonl 0, htonl 0, htonl g.GetLeadoutLBA]
  let allocationLength := u16 (shl16 (cbw.cb 7) (cbw.cb 8))
  let length_to_send := if allocationLength < sz then allocationLength else sz
  stageReply g (m_DiscInfoReply.take length_to_send) g.GetCurrentCSWStatus

end ScsiCmdReadDiscInformation

namespace ScsiCmdReadTrackInformation

/-- The structure `response_block` for a track that was found, and `none`
when `track_found` stays false. -/
def response_block (g : CUSBCDGadget) (address_type address_field : Nat) : Option (List Nat) :=
  let sz := g.k.sizeof ReplyStruct.TUSBCDTrackInformationBlock
  let trackInfo :=
    if address_type = 0x00 then g.GetTrackInfoForLBA address_field
    else if address_type = 0x01 then g.GetTrackInfoForTrack (intOfU32 address_field)
    else CUETrackInfo.invalid
  if trackInfo.track_number ≠ -1 then
    some (imageBytes g.k ReplyStruct.TUSBCDTrackInformationBlock
      [htons (u16 (sz - 2)), u8OfInt (trackInfo.track_number % 256), 0x01,
       if trackInfo.track_mode = CUETrackMode.CUETrack_AUDIO then 0x00 else 0x04,
       0x01, htonl trackInfo.track_start])
  else none

/-- Source `ScsiCmdReadTrackInformation::handle_command`. -/
def handle_command (cbw : TUSBCDCBW) (g : CUSBCDGadget) : CUSBCDGadget :=
  let address_type := (cbw.cb 1) &&& 0x03
  let address_field := shl32 (cbw.cb 2) (cbw.cb 3) (cbw.cb 4) (cbw.cb 5)
  let allocationLength := u16 (shl16 (cbw.cb 7) (cbw.cb 8))
  match response_block g address_type address_field with
  | none => failWith g 0x05 0x21 (if address_type = 0x00 then 0x00 else 0x02)
  | some block =>
    let sz := g.k.sizeof ReplyStruct.TUSBCDTrackInformationBlock
    let length_to_send := if allocationLength < sz then allocationLength else sz
    stageReply g (block.take length_to_send) CD_CSW_STATUS_OK

end ScsiCmdReadTrackInformation

/-! ## Command handlers, part 5 -/

/-- The mode pages of Mode Sense(6) and Mode Sense(10), in the order of the
source (fields the source leaves at the zero fill are passed as 0). -/
def modePages (g : CUSBCDGadget) (page_code : Nat) : List (List Nat) :=
  (if page_code = 0x01 ∨ page_code = 0x3F then
      [imageBytes g.k ReplyStruct.ModePage0x01Data
        [0x01, g.k.sizeof ReplyStruct.ModePage0x01Data - 2, 0x80, 0x01]] else [])
    ++ (if page_code = 0x1A ∨ page_code = 0x3F then
      [imageBytes g.k ReplyStruct.ModePage0x1AData
        [0x1A, g.k.sizeof ReplyStruct.ModePage0x1AData - 2]] else [])
    ++ (if page_code = 0x2A ∨ page_code = 0x3F then
      [imageBytes g.k ReplyStruct.ModePage0x2AData
        [0x2A, g.k.sizeof ReplyStruct.ModePage0x2AData - 2, 0x01, 0x00, 0x01, 0x03, 0x28,
         htons (706 * 4), htons 0x00FF, htons 0, htons (706 * 4)]] else [])
    ++ (if page_code = 0x0E ∨ page_code = 0x3F then
      [imageBytes g.k ReplyStruct.ModePage0x0EData
        [0x0E, g.k.sizeof ReplyStruct.ModePage0x0EData - 2, 0x04, 0x01, 0x02, 0xFF, 0xFF]] else [])

/-- The lambda `copy_mode_page`: `buf` is the IN buffer up to `current_data_idx`. -/
def copy_mode_page (g : CUSBCDGadget) (allocation_length : Nat) (buf : List Nat)
    (page_data : List Nat) : List Nat :=
  if buf.length + page_data.length ≤ allocation_length
      ∧ buf.length + page_data.length ≤ g.k.MaxInMessageSize then buf ++ page_data
  else buf

/-- The label `send_response` of the two Mode Sense handlers: on success the
reply is submitted and the state set to `DataIn`; in both cases `send_csw`
follows at once. -/
def modeSenseSend (g : CUSBCDGadget) (csw_status : Nat) (reply : List Nat)
    (allocation_length : Nat) : CUSBCDGadget :=
  if csw_status = CD_CSW_STATUS_OK then
    let final_length_to_send :=
      if allocation_length < reply.length then allocation_length else reply.length
    let g := ScsiCommandHandler.begin_data_in_transfer g (reply.take final_length_to_send)
    sendStatus { g with m_nnumber_blocks := 0, m_nState := TCDState.DataIn } csw_status
  else sendStatus g csw_status

/-- The sense and status the page selection of Mode Sense leaves. -/
def modeSenseSelect (g : CUSBCDGadget) (page_control page_code : Nat) : CUSBCDGadget × Nat :=
  if page_control = 0x03 then (g.SetSenseParameters 0x05 0x39 0x00, CD_CSW_STATUS_FAIL)
  else if (modePages g page_code).isEmpty ∧ page_code ≠ 0x3F then
    (g.SetSenseParameters 0x05 0x24 0x00, CD_CSW_STATUS_FAIL)
  else (g, CD_CSW_STATUS_OK)

namespace ScsiCmdModeSense6

/-- The IN buffer up to `current_data_idx` at the label `send_response`. -/
def assembled (g : CUSBCDGadget) (page_control page_code allocation_length : Nat) : List Nat :=
  let hdr := g.k.sizeof ReplyStruct.ModeSense6Header
  let pages := if page_control = 0x03 then [] else modePages g page_code
  let buf := pages.foldl (copy_mode_page g allocation_length) (List.replicate hdr 0)
  imageBytes g.k ReplyStruct.ModeSense6Header [u8 (buf.length - 1), g.GetMediumType, 0x80, 0]
    ++ buf.drop hdr

/-- Source `ScsiCmdModeSense6::handle_command`. -/
def handle_command (cbw : TUSBCDCBW) (g : CUSBCDGadget) : CUSBCDGadget :=
  let page_control := ((cbw.cb 2) >>> 6) &&& 0x03
  let page_code := (cbw.cb 2) &&& 0x3F
  let allocation_length := cbw.cb 4
  let r := modeSenseSelect g page_control page_code
  modeSenseSend r.1 r.2 (assembled g page_control page_code allocation_length) allocation_length

end ScsiCmdModeSense6

namespace ScsiCmdModeSense10

/-- The IN buffer up to `current_data_idx` at the label `send_response_ms10`. -/
def assembled (g : CUSBCDGadget) (page_control page_code allocation_length : Nat) : List Nat :=
  let hdr := g.k.sizeof ReplyStruct.ModeSense10Header
  let pages := if page_control = 0x03 then [] else modePages g page_code
  let buf := pages.foldl (copy_mode_page g allocation_length) (List.replicate hdr 0)
  imageBytes g.k ReplyStruct.ModeSense10Header
      [htons (u16 (buf.length - hdr)), g.GetMediumType, 0x80, htons 0]
    ++ buf.drop hdr

/-- Source `ScsiCmdModeSense10::handle_command`. -/
def handle_command (cbw : TUSBCDCBW) (g : CUSBCDGadget) : CUSBCDGadget :=
  let page_control := ((cbw.cb 2) >>> 6) &&& 0x03
  let page_code := (cbw.cb 2) &&& 0x3F
  let allocation_length := u16 (shl16 (cbw.cb 7) (cbw.cb 8))
  let r := modeSenseSelect g page_control page_code
  modeSenseSend r.1 r.2 (assembled g page_control page_code allocation_length) allocation_length

end ScsiCmdModeSense10

namespace ScsiCmdModeSelect10

/-- Source `ScsiCmdModeSelect10::handle_command`. -/
def handle_command (cbw : TUSBCDCBW) (g : CUSBCDGadget) : CUSBCDGadget :=
  let parameter_list_length := u16 (shl16 (cbw.cb 7) (cbw.cb 8))
  if parameter_list_length = 0 then sendStatus g CD_CSW_STATUS_OK
  else if parameter_list_length > g.k.MaxOutMessageSize then failWith g 0x05 0x1A 0x00
  else
    { g with m_nState := TCDState.DataOut,
             epOut := g.epOut ++ [Transfer.TransferDataOut parameter_list_length],
             m_pCurrentCommandHandler := some ScsiCommandHandler.ScsiCmdModeSelect10 }

/-- The volume request of `process_received_data`: `size_t` arithmetic wraps
modulo `sizeModulus`. -/
def setVolume (g : CUSBCDGadget) (received_length : Nat) : CUSBCDGadget :=
  let out_buffer := g.m_OutBuffer
  let block_descriptor_length := shl16 (byteAt out_buffer 6) (byteAt out_buffer 7)
  let page := 8 + block_descriptor_length
  let remaining_length :=
    (received_length + g.k.sizeModulus - page % g.k.sizeModulus) % g.k.sizeModulus
  if remaining_length > 0 ∧ (byteAt out_buffer page) &&& 0x3F = 0x0E
      ∧ remaining_length ≥ g.k.sizeof ReplyStruct.ModePage0x0EData then
    let Output0Volume := byteAt out_buffer (page + g.k.offsetOutput0Volume)
    let Output1Volume := byteAt out_buffer (page + g.k.offsetOutput1Volume)
    playerCall g (PlayerCall.SetVolume
      (if Output0Volume < Output1Volume then Output0Volume else Output1Volume))
  else g

/-- Source `ScsiCmdModeSelect10::process_received_data`. -/
def process_received_data (g : CUSBCDGadget) (received_length : Nat) : CUSBCDGadget :=
  if received_length < 8 then failWith g 0x05 0x1A 0x00
  else sendStatus (setVolume g received_length) CD_CSW_STATUS_OK

end ScsiCmdModeSelect10

namespace ScsiCmdGetPerformance

/-- The array `getPerformanceStub`, with every initialiser the source lists. -/
def getPerformanceStub : List Nat :=
  [0x00, 0x00, 0x00, 0x0C, 0x00, 0x00, 0x00, 0x0C, 0x00, 0x00, 0x00, 0x00,
   0x00, 0x00, 0x00, 0x00, 0xFF, 0xFF, 0xFF, 0xFF, 0x00, 0x00, 0x00, 0xB0]

/-- Source `ScsiCmdGetPerformance::handle_command` (both branches end by
assigning `dCBWDataTransferLength` to the `u16` allocation length). -/
def handle_command (cbw : TUSBCDCBW) (g : CUSBCDGadget) : CUSBCDGadget :=
  let allocationLength := u16 cbw.dCBWDataTransferLength
  let length_to_send :=
    if allocationLength < getPerformanceStub.length then allocationLength
    else getPerformanceStub.length
  stageReply g (getPerformanceStub.take length_to_send) g.GetCurrentCSWStatus

end ScsiCmdGetPerformance

namespace ScsiCmdWin2kSpecific

/-- The array `response`. -/
def response : List Nat := [0x00, 0x06, 0x00, 0x00, 0x25, 0xFF, 0x01, 0x00]

/-- Source `ScsiCmdWin2kSpecific::handle_command`. -/
def handle_command (_cbw : TUSBCDCBW) (g : CUSBCDGadget) : CUSBCDGadget :=
  stageReply g response CD_CSW_STATUS_OK

end ScsiCmdWin2kSpecific

namespace ScsiCmdReadDiscStructure

/-- The content of `response_buffer` up to `data_to_send_len`. -/
def response_buffer (g : CUSBCDGadget) (format_code : Nat) : List Nat :=
  let hdr := g.k.sizeof ReplyStruct.TUSBCDReadDiscStructureHeader
  if format_code = 0x01 then
    imageBytes g.k ReplyStruct.TUSBCDReadDiscStructureHeader [htons (u16 (hdr - 2 + 4))]
      ++ [0x00, 0x00, 0x00, 0x00]
  else imageBytes g.k ReplyStruct.TUSBCDReadDiscStructureHeader [htons 0]

/-- Source `ScsiCmdReadDiscStructure::handle_command`. -/
def handle_command (cbw : TUSBCDCBW) (g : CUSBCDGadget) : CUSBCDGadget :=
  let format_code := cbw.cb 7
  let allocationLength := u16 (shl16 (cbw.cb 8) (cbw.cb 9))
  let reply := response_buffer g format_code
  let data_to_send_len := if allocationLength < reply.length then allocationLength else reply.length
  stageReply g (reply.take data_to_send_len) g.GetCurrentCSWStatus

end ScsiCmdReadDiscStructure

namespace ScsiCmdTbListDevices

/-- The array `devices_reply`. -/
def devices_reply : List Nat := [0x02, 0xFF, 0xFF, 0xFF, 0xFF, 0xFF, 0xFF, 0xFF]

/-- Source `ScsiCmdTbListDevices::handle_command`. -/
def handle_command (cbw : TUSBCDCBW) (g : CUSBCDGadget) : CUSBCDGadget :=
  let allocationLength := cbw.dCBWDataTransferLength
  let length_to_send :=
    if allocationLength < devices_reply.length then allocationLength else devices_reply.length
  stageReply g (devices_reply.take length_to_send) CD_CSW_STATUS_OK

end ScsiCmdTbListDevices

namespace ScsiCmdTbGetCount

/-- The byte `num_items`. -/
def num_items (g : CUSBCDGadget) : Nat :=
  match g.scsitbservice with
  | some svc => u8 (if svc.entries.length > 100 then 100 else svc.entries.length)
  | none => 0

/-- Source `ScsiCmdTbGetCount::handle_command`. -/
def handle_command (cbw : TUSBCDCBW) (g : CUSBCDGadget) : CUSBCDGadget :=
  let allocationLength := cbw.dCBWDataTransferLength
  let length_to_send := if allocationLength < 1 then allocationLength else 1
  stageReply g ([num_items g].take length_to_send) CD_CSW_STATUS_OK

end ScsiCmdTbGetCount

namespace ScsiCmdTbListItems

/-- Modelled from the spec: `sizeof(TUSBCDToolboxFileEntry)`, the 40-byte
entry of usbcdgadget.h (absent). -/
def sizeofEntry : Nat := 40

/-- Modelled from the spec: the memory image of entry `i`
(`TUSBCDToolboxFileEntry` of usbcdgadget.h, absent): `index`, `type`,
`name[33]` filled by `strncpy(name, 32)` and a final zero, `size[5]`. -/
def entry (i : Nat) (name : List Nat) (size : Nat) : List Nat :=
  [u8 i, 0] ++ (name.take 32 ++ List.replicate (32 - (name.take 32).length) 0) ++ [0]
    ++ [0, (u32 size >>> 24) &&& 0xFF, (u32 size >>> 16) &&& 0xFF, (u32 size >>> 8) &&& 0xFF,
        u32 size &&& 0xFF]

/-- The number `count_to_report`. -/
def count_to_report (g : CUSBCDGadget) (svc : SCSITBService) : Nat :=
  let c := if svc.entries.length < 100 then svc.entries.length else 100
  if c * sizeofEntry > g.k.MaxInMessageSize then g.k.MaxInMessageSize / sizeofEntry else c

/-- The entries written to the IN buffer. -/
def entries (g : CUSBCDGadget) (svc : SCSITBService) : List Nat :=
  ((List.range (count_to_report g svc)).map
    (fun i => entry i (svc.entries.getD i ([], 0)).1 (svc.entries.getD i ([], 0)).2)).flatten

/-- Source `ScsiCmdTbListItems::handle_command`. -/
def handle_command (cbw : TUSBCDCBW) (g : CUSBCDGadget) : CUSBCDGadget :=
  match g.scsitbservice with
  | none => failWith g 0x02 0x04 0x01
  | some svc =>
    let total_data_size := count_to_report g svc * sizeofEntry
    let allocationLength := cbw.dCBWDataTransferLength
    let length_to_send := if allocationLength < total_data_size then allocationLength else total_data_size
    stageReply g ((entries g svc).take length_to_send) CD_CSW_STATUS_OK

end ScsiCmdTbListItems

namespace ScsiCmdTbSetNextCd

/-- Source `ScsiCmdTbSetNextCd::handle_command`. -/
def handle_command (cbw : TUSBCDCBW) (g : CUSBCDGadget) : CUSBCDGadget :=
  let index := cbw.cb 1
  let g := match g.scsitbservice with
    | some svc => { g with scsitbservice := some { svc with nextCD := some index } }
    | none => g
  sendStatus g CD_CSW_STATUS_OK

end ScsiCmdTbSetNextCd

/-! ## Dispatcher and transport state machine (usbcdgadget.cpp) -/

/-- Virtual method `ScsiCommandHandler::handle_command`. -/
def ScsiCommandHandler.handle_command (h : ScsiCommandHandler) (cbw : TUSBCDCBW)
    (g : CUSBCDGadget) : CUSBCDGadget :=
  match h with
  | ScsiCmdTestUnitReady => ScsiCmdTestUnitReady.handle_command cbw g
  | ScsiCmdRequestSense => ScsiCmdRequestSense.handle_command cbw g
  | ScsiCmdInquiry => ScsiCmdInquiry.handle_command cbw g
  | ScsiCmdRead10 => ScsiCmdRead10.handle_command cbw g
  | ScsiCmdStartStopUnit => ScsiCmdStartStopUnit.handle_command cbw g
  | ScsiCmdPreventAllowMediumRemoval => ScsiCmdPreventAllowMediumRemoval.handle_command cbw g
  | ScsiCmdReadCapacity10 => ScsiCmdReadCapacity10.handle_command cbw g
  | ScsiCmdReadCD => ScsiCmdReadCD.handle_command cbw g
  | ScsiCmdSetCdSpeed => ScsiCmdSetCdSpeed.handle_command cbw g
  | ScsiCmdVerify => ScsiCmdVerify.handle_command cbw g
  | ScsiCmdReadTocPmaAtip => ScsiCmdReadTocPmaAtip.handle_command cbw g
  | ScsiCmdReadSubChannel => ScsiCmdReadSubChannel.handle_command cbw g
  | ScsiCmdReadTrackInformation => ScsiCmdReadTrackInformation.handle_command cbw g
  | ScsiCmdGetEventStatusNotification => ScsiCmdGetEventStatusNotification.handle_command cbw g
  | ScsiCmdReadDiscStructure => ScsiCmdReadDiscStructure.handle_command cbw g
  | ScsiCmdReadDiscInformation => ScsiCmdReadDiscInformation.handle_command cbw g
  | ScsiCmdGetConfiguration => ScsiCmdGetConfiguration.handle_command cbw g
  | ScsiCmdPauseResume => ScsiCmdPauseResume.handle_command cbw g
  | ScsiCmdSeek => ScsiCmdSeek.handle_command cbw g
  | ScsiCmdPlayAudioMsf => ScsiCmdPlayAudioMsf.handle_command cbw g
  | ScsiCmdStopPlayScan => ScsiCmdStopPlayScan.handle_command cbw g
  | ScsiCmdPlayAudio10 => ScsiCmdPlayAudio10.handle_command cbw g
  | ScsiCmdPlayAudio12 => ScsiCmdPlayAudio12.handle_command cbw g
  | ScsiCmdModeSelect10 => ScsiCmdModeSelect10.handle_command cbw g
  | ScsiCmdModeSense6 => ScsiCmdModeSense6.handle_command cbw g
  | ScsiCmdModeSense10 => ScsiCmdModeSense10.handle_command cbw g
  | ScsiCmdGetPerformance => ScsiCmdGetPerformance.handle_command cbw g
  | ScsiCmdWin2kSpecific => ScsiCmdWin2kSpecific.handle_command cbw g
  | ScsiCmdTbListDevices => ScsiCmdTbListDevices.handle_command cbw g
  | ScsiCmdTbGetCount => ScsiCmdTbGetCount.handle_command cbw g
  | ScsiCmdTbListItems => ScsiCmdTbListItems.handle_command cbw g
  | ScsiCmdTbSetNextCd => ScsiCmdTbSetNextCd.handle_command cbw g

/-- Virtual method `ScsiCommandHandler::update`: only Read(10) and Read CD
override the empty default. -/
def ScsiCommandHandler.update (h : ScsiCommandHandler) (g : CUSBCDGadget) : CUSBCDGadget :=
  match h with
  | ScsiCmdRead10 => ScsiCmdRead10.update g
  | ScsiCmdReadCD => ScsiCmdReadCD.update g
  | _ => g

namespace CUSBCDGadget

/-- The entries the constructor `CUSBCDGadget::CUSBCDGadget` puts in
`m_scsi_handlers`, in source order. -/
def handlerTable : List (Nat × ScsiCommandHandler) :=
  [(0x00, ScsiCommandHandler.ScsiCmdTestUnitReady),
   (0x03, ScsiCommandHandler.ScsiCmdRequestSense),
   (0x12, ScsiCommandHandler.ScsiCmdInquiry),
   (0x28, ScsiCommandHandler.ScsiCmdRead10),
   (0x1B, ScsiCommandHandler.ScsiCmdStartStopUnit),
   (0x1E, ScsiCommandHandler.ScsiCmdPreventAllowMediumRemoval),
   (0x25, ScsiCommandHandler.ScsiCmdReadCapacity10),
   (0xBE, ScsiCommandHandler.ScsiCmdReadCD),
   (0xBB, ScsiCommandHandler.ScsiCmdSetCdSpeed),
   (0x2F, ScsiCommandHandler.ScsiCmdVerify),
   (0x43, ScsiCommandHandler.ScsiCmdReadTocPmaAtip),
   (0x42, ScsiCommandHandler.ScsiCmdReadSubChannel),
   (0x52, ScsiCommandHandler.ScsiCmdReadTrackInformation),
   (0x4A, ScsiCommandHandler.ScsiCmdGetEventStatusNotification),
   (0xAD, ScsiCommandHandler.ScsiCmdReadDiscStructure),
   (0x51, ScsiCommandHandler.ScsiCmdReadDiscInformation),
   (0x46, ScsiCommandHandler.ScsiCmdGetConfiguration),
   (0x4B, ScsiCommandHandler.ScsiCmdPauseResume),
   (0x2B, ScsiCommandHandler.ScsiCmdSeek),
   (0x47, ScsiCommandHandler.ScsiCmdPlayAudioMsf),
   (0x4E, ScsiCommandHandler.ScsiCmdStopPlayScan),
   (0x45, ScsiCommandHandler.ScsiCmdPlayAudio10),
   (0xA5, ScsiCommandHandler.ScsiCmdPlayAudio12),
   (0x55, ScsiCommandHandler.ScsiCmdModeSelect10),
   (0x1A, ScsiCommandHandler.ScsiCmdModeSense6),
   (0x5A, ScsiCommandHandler.ScsiCmdModeSense10),
   (0xAC, ScsiCommandHandler.ScsiCmdGetPerformance),
   (0xA4, ScsiCommandHandler.ScsiCmdWin2kSpecific),
   (0xD9, ScsiCommandHandler.ScsiCmdTbListDevices),
   (0xD2, ScsiCommandHandler.ScsiCmdTbGetCount),
   (0xDA, ScsiCommandHandler.ScsiCmdTbGetCount),
   (0xD0, ScsiCommandHandler.ScsiCmdTbListItems),
   (0xD7, ScsiCommandHandler.ScsiCmdTbListItems),
   (0xD8, ScsiCommandHandler.ScsiCmdTbSetNextCd)]

/-- The lookup `m_scsi_handlers.find(command_opcode)`. -/
def m_scsi_handlers (command_opcode : Nat) : Option ScsiCommandHandler :=
  handlerTable.lookup command_opcode

/-- The `else` branch of `CUSBCDGadget::HandleSCSICommand` (unknown opcode). -/
def unknownCommand (g : CUSBCDGadget) : CUSBCDGadget :=
  let g := g.SetSenseParameters 0x05 0x20 0x00
  let g := SendCSW { g with m_CSW := { g.m_CSW with bmCSWStatus := CD_CSW_STATUS_FAIL } }
  { g with m_pCurrentCommandHandler := none }

/-- Source `CUSBCDGadget::HandleSCSICommand`. -/
def HandleSCSICommand (g : CUSBCDGadget) : CUSBCDGadget :=
  let command_opcode := g.m_CBW.cb 0
  match m_scsi_handlers command_opcode with
  | some h => h.handle_command g.m_CBW { g with m_pCurrentCommandHandler := some h }
  | none => unknownCommand g

/-- Source `CUSBCDGadget::Update`. -/
def Update (g : CUSBCDGadget) : CUSBCDGadget :=
  match g.m_pCurrentCommandHandler with
  | some h => h.update g
  | none => g

/-- The two `StallRequest(true)` calls of a rejected CBW. -/
def stallBoth (g : CUSBCDGadget) : CUSBCDGadget :=
  { g with stallIn := true, stallOut := true }

/-- A failed `assert` (the statement after it, if any, is a `break`). -/
def assertFail (g : CUSBCDGadget) : CUSBCDGadget :=
  { g with assertFailed := true }

/-- The case `TCDState::DataIn` of the IN branch of `OnTransferComplete`. -/
def onDataInComplete (g : CUSBCDGadget) : CUSBCDGadget :=
  if g.m_nnumber_blocks > 0 ∧ g.m_CDReady then { g with m_nState := TCDState.DataInRead }
  else if g.m_nnumber_blocks > 0 ∧ ¬ g.m_CDReady then
    SendCSW (SetSenseParameters
      { g with m_CSW := { g.m_CSW with bmCSWStatus := CD_CSW_STATUS_FAIL } } 0x02 0x04 0x00)
  else SendCSW g

/-- The case `TCDState::ReceiveCBW` of the OUT branch of `OnTransferComplete`. -/
def onCBWReceived (g : CUSBCDGadget) (nLength : Nat) : CUSBCDGadget :=
  if nLength ≠ SIZE_CBW then stallBoth g
  else
    let g := { g with m_CBW := TUSBCDCBW.ofBytes g.m_OutBuffer }
    if g.m_CBW.dCBWSignature ≠ VALID_CBW_SIG then stallBoth g
    else
      let g := { g with m_CSW := { g.m_CSW with dCSWTag := g.m_CBW.dCBWTag } }
      if g.m_CBW.bCBWCBLength > 0 ∧ g.m_CBW.bCBWCBLength ≤ 16 ∧ g.m_CBW.bCBWLUN = 0 then
        HandleSCSICommand g
      else stallBoth g

/-- The case `TCDState::DataOut` of the OUT branch of `OnTransferComplete`. -/
def onDataOutComplete (g : CUSBCDGadget) (nLength : Nat) : CUSBCDGadget :=
  match g.m_pCurrentCommandHandler with
  | some ScsiCommandHandler.ScsiCmdModeSelect10 =>
    ScsiCmdModeSelect10.process_received_data g nLength
  | some _ => { SendCSW g with m_pCurrentCommandHandler := none }
  | none => SendCSW g

/-- Source `CUSBCDGadget::OnTransferComplete`. -/
def OnTransferComplete (g : CUSBCDGadget) (bIn : Bool) (nLength : Nat) : CUSBCDGadget :=
  if bIn then
    match g.m_nState with
    | TCDState.SentCSW =>
      { g with m_nState := TCDState.ReceiveCBW,
               epOut := g.epOut ++ [Transfer.TransferCBWOut SIZE_CBW] }
    | TCDState.DataIn => onDataInComplete g
    | TCDState.SendReqSenseReply => SendCSW g
    | _ => assertFail g
  else
    match g.m_nState with
    | TCDState.ReceiveCBW => onCBWReceived g nLength
    | TCDState.DataOut => onDataOutComplete g nLength
    | _ => assertFail g

end CUSBCDGadget

/-! ## Runs of the gadget -/

/-- What the environment does to the gadget: an IN transfer completes, an OUT
transfer completes after the controller stored `data` in `m_OutBuffer`, or the
main loop calls `Update()` while the block device behaves as `dev`. -/
inductive Event where
  | InComplete (nLength : Nat)
  | OutComplete (data : List Nat)
  | Update (dev : ICueDevice)

/-- One event. -/
def step (g : CUSBCDGadget) : Event → CUSBCDGadget
  | Event.InComplete nLength => g.OnTransferComplete true nLength
  | Event.OutComplete data =>
    CUSBCDGadget.OnTransferComplete
      { g with m_OutBuffer := data ++ g.m_OutBuffer.drop data.length } false data.length
  | Event.Update dev => CUSBCDGadget.Update { g with m_pDevice := dev }

/-- A sequence of events. -/
def run (g : CUSBCDGadget) (es : List Event) : CUSBCDGadget := es.foldl step g

/-- The test of `OnTransferComplete` that lets a received CBW through to the
dispatcher: length, signature, LUN and CB length. -/
def validCBW (data : List Nat) : Bool :=
  decide (data.length = SIZE_CBW) && decide ((TUSBCDCBW.ofBytes data).dCBWSignature = VALID_CBW_SIG)
    && decide ((TUSBCDCBW.ofBytes data).bCBWLUN = 0)
    && decide (1 ≤ (TUSBCDCBW.ofBytes data).bCBWCBLength)
    && decide ((TUSBCDCBW.ofBytes data).bCBWCBLength ≤ 16)

/-- An event that dispatches a CBW: an OUT completion in state `ReceiveCBW`
that passes the test. -/
def isDispatch (g : CUSBCDGadget) : Event → Bool
  | Event.OutComplete data => decide (g.m_nState = TCDState.ReceiveCBW) && validCBW data
  | _ => false

/-- No event of the sequence dispatches a CBW. -/
def noDispatch (g : CUSBCDGadget) : List Event → Bool
  | [] => true
  | e :: es => !isDispatch g e && noDispatch (step g e) es

/-- The tags of the CSWs among the transfers begun on the IN endpoint, in order. -/
def cswTags : List Transfer → List Nat
  | [] => []
  | Transfer.TransferCSWIn csw :: rest => csw.dCSWTag :: cswTags rest
  | _ :: rest => cswTags rest

/-- The CSWs among the transfers begun on the IN endpoint, in order. -/
def csws : List Transfer → List TUSBCDCSW
  | [] => []
  | Transfer.TransferCSWIn csw :: rest => csw :: csws rest
  | _ :: rest => csws rest

/-- The payloads of the data-in transfers begun on the IN endpoint, in order. -/
def dataIns : List Transfer → List (List Nat)
  | [] => []
  | Transfer.TransferDataIn data :: rest => data :: dataIns rest
  | _ :: rest => dataIns rest

/-! ## A concrete gadget for the examples -/

/-- Sample values for the constants and layouts of the absent header: the
usual MMC sizes, every structure image zero-filled. -/
def sampleConsts : GadgetConsts :=
  { MaxBlocksToRead := 16
    MaxInMessageSize := 37632
    MaxOutMessageSize := 2048
    sizeofHardwareSerialNumber := 20
    sizeModulus := 4294967296
    sizeof := fun s =>
      match s with
      | ReplyStruct.TUSBCDSubChannelHeaderReply => 4
      | ReplyStruct.TUSBCDSubChannel01CurrentPositionReply => 12
      | ReplyStruct.TUSBCDEventStatusReplyHeader => 4
      | ReplyStruct.TUSBCDEventStatusReplyEvent => 4
      | ReplyStruct.TUSBDiscInfoReply => 34
      | ReplyStruct.TUSBCDTrackInformationBlock => 36
      | ReplyStruct.TUSBCDReadDiscStructureHeader => 4
      | ReplyStruct.ModeSense6Header => 4
      | ReplyStruct.ModeSense10Header => 8
      | ReplyStruct.ModePage0x01Data => 12
      | ReplyStruct.ModePage0x1AData => 12
      | ReplyStruct.ModePage0x2AData => 22
      | ReplyStruct.ModePage0x0EData => 16
    image := fun _ _ => []
    offsetOutput0Volume := 9
    offsetOutput1Volume := 11 }

/-- A block device over an image whose byte at offset `i` is `i % 251`:
every seek and every read succeeds. -/
def sampleDevice (size : Nat) : ICueDevice :=
  { GetSize := size
    Seek := fun off => off
    Read := fun pos n => ((n : Int), (List.range n).map (fun j => (pos + j) % 251)) }

/-- The disc of the Read TOC scenario: track 1 audio at LBA 0, track 2 data
(Mode 1, 2048-byte sectors) at LBA 20000, image size such that the lead-out
is at LBA 300000. -/
def sampleTracks : List CUETrackInfo :=
  [{ track_number := 1, track_mode := CUETrackMode.CUETrack_AUDIO, track_start := 0,
     data_start := 0, file_offset := 0 },
   { track_number := 2, track_mode := CUETrackMode.CUETrack_MODE1_2048, track_start := 20000,
     data_start := 20000, file_offset := 47040000 }]

/-- A gadget in state `ReceiveCBW` with the sample disc loaded, no pending
error, no audio player and no catalog task. -/
def sampleGadget : CUSBCDGadget :=
  { k := sampleConsts
    m_nState := TCDState.ReceiveCBW
    m_CBW := { dCBWSignature := 0, dCBWTag := 0, dCBWDataTransferLength := 0, bmCBWFlags := 0,
               bCBWLUN := 0, bCBWCBLength := 0, CBWCB := [] }
    m_CSW := { dCSWSignature := 0x53425355, dCSWTag := 0, dCSWDataResidue := 0, bmCSWStatus := 0 }
    m_SenseParams := { bSenseKey := 0, bAddlSenseCode := 0, bAddlSenseCodeQual := 0 }
    bmCSWStatus := 0
    m_CDReady := true
    discChanged := false
    m_nblock_address := 0
    m_nnumber_blocks := 0
    m_nbyteCount := 0
    block_size := 2048
    transfer_block_size := 2048
    skip_bytes := 0
    mcs := 0
    data_block_size := 2352
    data_skip_bytes := 0
    m_pCurrentCommandHandler := none
    m_OutBuffer := []
    m_FileChunk := []
    m_InqReply := [0x05, 0x80, 0x00, 0x02, 0x1F, 0x00, 0x00, 0x00,
      0x55, 0x53, 0x42, 0x4F, 0x44, 0x45, 0x20, 0x20,
      0x56, 0x69, 0x72, 0x74, 0x75, 0x61, 0x6C, 0x20, 0x43, 0x44, 0x52, 0x4F, 0x4D, 0x20, 0x20, 0x20,
      0x31, 0x2E, 0x30, 0x30]
    m_ReadCapReply_nSectorSize := htonl 2048
    m_HardwareSerialNumber := [0x55, 0x53, 0x42, 0x4F, 0x44, 0x45, 0x2D, 0x30, 0x30, 0x30, 0x30,
      0x30, 0x30, 0x30, 0x31]
    profile_list := []
    cdrom_profile := []
    core := []
    morphing := []
    mechanism := []
    multiread := []
    cdread := []
    powermanagement := []
    audioplay := []
    cueParser := sampleTracks
    m_pDevice := sampleDevice 620480000
    cdplayer := none
    scsitbservice := none
    epIn := []
    epOut := [Transfer.TransferCBWOut SIZE_CBW]
    stallIn := false
    stallOut := false
    assertFailed := false
    fault := false
    heapTocEntries := some [] }

/-- A CBW with valid signature, LUN 0 and the given tag, transfer length and CDB. -/
def sampleCBW (tag len : Nat) (cdb : List Nat) : TUSBCDCBW :=
  { dCBWSignature := VALID_CBW_SIG, dCBWTag := tag, dCBWDataTransferLength := len,
    bmCBWFlags := 0x80, bCBWLUN := 0, bCBWCBLength := cdb.length, CBWCB := cdb }

/-- The CBW of the Read TOC scenario: opcode 0x43, MSF = 1, format 0x00,
starting track 0, allocation length 20. -/
def tocCBW : TUSBCDCBW := sampleCBW 9 20 [0x43, 0x02, 0x00, 0, 0, 0, 0, 0, 20, 0]

/-- A standard Inquiry with allocation length 36 whose CBW announces a data
phase of 64 bytes. -/
def inquiryCBW : TUSBCDCBW := sampleCBW 7 64 [0x12, 0, 0, 0, 36, 0]

/-- A Read(10) of one block at LBA 20000 (0x4E20). -/
def read10CBW : TUSBCDCBW := sampleCBW 11 2048 [0x28, 0, 0x00, 0x00, 0x4E, 0x20, 0, 0, 1, 0]

/-- A Read CD of one block at LBA 20000 with expected sector type Mode 1
(byte 1 = 0x08) and byte 9 as given (0x10 selects user data only). -/
def readCDCBW (byte9 : Nat) : TUSBCDCBW :=
  sampleCBW 11 2048 [0xBE, 0x08, 0x00, 0x00, 0x4E, 0x20, 0, 0, 1, byte9, 0, 0]

/-- The events of a data phase towards the host: IN completions and calls of
`Update()`. -/
def isReadEvent : Event → Bool
  | Event.OutComplete _ => false
  | _ => true

/-- The gadget `g` with another current handler, main-channel selection and
fault flag. -/
def retarget (g : CUSBCDGadget) (h : Option ScsiCommandHandler) (mcs : Nat) (fault : Bool) :
    CUSBCDGadget :=
  { g with m_pCurrentCommandHandler := h, mcs := mcs, fault := fault }

/-- Two gadgets in the same position of a read, one driven by Read(10), the
other by Read CD: they agree on everything but the handler, the main-channel
selection and the fault flag; while the handlers are registered the transfer
block is 2048 bytes, not larger than the image block, a chunk is not empty and
its size fits a `u32`, and blocks remain whenever the state is `DataInRead`. -/
def ReadTwin (g1 g2 : CUSBCDGadget) : Prop :=
  (∃ mcs fault, g2 = retarget g1 (some ScsiCommandHandler.ScsiCmdReadCD) mcs fault
      ∧ g1.m_pCurrentCommandHandler = some ScsiCommandHandler.ScsiCmdRead10
      ∧ g1.transfer_block_size = 2048 ∧ 2048 ≤ g1.block_size
      ∧ 0 < g1.k.MaxBlocksToRead ∧ g1.k.MaxBlocksToRead * g1.block_size < 4294967296
      ∧ (g1.m_nState = TCDState.DataInRead → 0 < g1.m_nnumber_blocks))
    ∨ (∃ mcs fault, g2 = retarget g1 none mcs fault ∧ g1.m_pCurrentCommandHandler = none)

/-- A block device over a fixed image (`image i` is the byte at offset `i`) on
which every seek and every read succeeds: the seek reaches the requested
offset, the read returns the requested number of bytes. -/
def imageDevice (image : Nat → Nat) (size : Nat) : ICueDevice :=
  { GetSize := size
    Seek := fun off => off
    Read := fun pos n => ((n : Int), (List.range n).map (fun j => image (pos + j))) }

/-- The wire image of a CBW carrying Read(10) of `N` blocks at LBA `L`
(big-endian LBA in bytes 2..5 of the CDB, count in bytes 7..8), transfer
length `N * 2048`. -/
def read10Wire (tag L N : Nat) : List Nat :=
  (sampleCBW tag (N * 2048)
    [0x28, 0, L / 16777216 % 256, L / 65536 % 256, L / 256 % 256, L % 256,
     0, N / 256 % 256, N % 256, 0]).toBytes

/-- The main loop calls `Update()` and the IN transfer begun by it completes,
`rounds` times. -/
def chunkRounds (dev : ICueDevice) (rounds : Nat) : List Event :=
  (List.replicate rounds [Event.Update dev, Event.InComplete 0]).flatten

/-- One Read(10) command seen from the bus: the CBW arrives, the data phase
takes `rounds` chunks, the CSW transfer completes. -/
def readCommand (dev : ICueDevice) (tag L N rounds : Nat) : List Event :=
  Event.OutComplete (read10Wire tag L N) :: (chunkRounds dev rounds ++ [Event.InComplete SIZE_CSW])

/-- The 2048 bytes Read(10) returns for block `lba` of an image with blocks of
`bs` bytes and `sk` skipped bytes per block. -/
def blockBytes (image : Nat → Nat) (bs sk lba : Nat) : List Nat :=
  (List.range 2048).map (fun j => image (bs * lba + sk + j))

/-- The bytes of `n` consecutive blocks from `lba`. -/
def blocksBytes (image : Nat → Nat) (bs sk lba n : Nat) : List Nat :=
  ((List.range n).map (fun i => blockBytes image bs sk (lba + i))).flatten

/-- The gadget `G` is in state `st` of the data phase of a Read(10) with `n`
blocks left from LBA `a`, over the disc geometry and constants of `g0`. -/
def ReadingAt (g0 G : CUSBCDGadget) (st : TCDState) (a n : Nat) : Prop :=
  G.m_nState = st
    ∧ G.m_pCurrentCommandHandler = some ScsiCommandHandler.ScsiCmdRead10
    ∧ G.m_CDReady = true
    ∧ G.transfer_block_size = 2048
    ∧ G.block_size = g0.data_block_size
    ∧ G.skip_bytes = g0.data_skip_bytes
    ∧ G.m_nblock_address = a
    ∧ G.m_nnumber_blocks = n
    ∧ G.k = g0.k
    ∧ G.data_block_size = g0.data_block_size
    ∧ G.data_skip_bytes = g0.data_skip_bytes

/-- The gadget `G` is in state `st` with the disc ready and the disc geometry
and constants of `g0`. -/
def SameDisc (g0 G : CUSBCDGadget) (st : TCDState) : Prop :=
  G.m_nState = st ∧ G.m_CDReady = true ∧ G.k = g0.k
    ∧ G.data_block_size = g0.data_block_size ∧ G.data_skip_bytes = g0.data_skip_bytes

/-- The bus events of `N` separate Read(10) commands of one block at `L`,
`L + 1`, ..., `L + N - 1`, one after the other. -/
def singleReads (dev : ICueDevice) (tag L N : Nat) : List Event :=
  ((List.range N).map (fun i => readCommand dev tag (L + i) 1 1)).flatten

/-- The states in which a command is under way and its CSW has not been
submitted yet. -/
def MidState (s : TCDState) : Prop :=
  s = TCDState.DataIn ∨ s = TCDState.DataInRead ∨ s = TCDState.DataOut
    ∨ s = TCDState.SendReqSenseReply

/-- From `g` to `g'` no CSW was submitted, the tag is kept and the command is
under way. -/
def Staged (g g' : CUSBCDGadget) : Prop :=
  csws g'.epIn = csws g.epIn ∧ g'.m_CSW.dCSWTag = g.m_CSW.dCSWTag ∧ MidState g'.m_nState

/-- From `g` to `g'` exactly one CSW was submitted, with the tag of `g`; the
state is `SentCSW` (or `ReceiveCBW`, after a failed continue step of a read);
the sense triplet is unchanged, or its new key is not 0 and the CSW has status
FAIL. -/
def Sent (g g' : CUSBCDGadget) : Prop :=
  ∃ c : TUSBCDCSW, csws g'.epIn = csws g.epIn ++ [c] ∧ c.dCSWTag = g.m_CSW.dCSWTag
    ∧ (g'.m_nState = TCDState.SentCSW ∨ g'.m_nState = TCDState.ReceiveCBW)
    ∧ (g'.m_SenseParams = g.m_SenseParams
        ∨ (g'.m_SenseParams.bSenseKey ≠ 0 ∧ c.bmCSWStatus = CD_CSW_STATUS_FAIL))

/-- What a handler may do with a command: stage it (keeping the sense, unless
`resets` allows otherwise) or complete it with one CSW. -/
def Outcome (resets : Prop) (g g' : CUSBCDGadget) : Prop :=
  (Staged g g' ∧ (¬ resets → g'.m_SenseParams = g.m_SenseParams)) ∨ Sent g g'

/-- One event that does not dispatch a CBW either is quiet (no CSW, same
sense, the state stays or moves between `DataIn` and `DataInRead` or from
`SentCSW` to `ReceiveCBW`, the tag is kept while a command is under way) or
completes the command under way with one CSW. -/
def StepRel (G G' : CUSBCDGadget) : Prop :=
  (csws G'.epIn = csws G.epIn ∧ G'.m_SenseParams = G.m_SenseParams
      ∧ (G'.m_nState = G.m_nState
          ∨ (G.m_nState = TCDState.DataIn ∧ G'.m_nState = TCDState.DataInRead)
          ∨ (G.m_nState = TCDState.DataInRead ∧ G'.m_nState = TCDState.DataIn)
          ∨ (G.m_nState = TCDState.SentCSW ∧ G'.m_nState = TCDState.ReceiveCBW))
      ∧ (MidState G.m_nState → G'.m_CSW.dCSWTag = G.m_CSW.dCSWTag))
    ∨ (MidState G.m_nState ∧ Sent G G')

/-- The command dispatched from `g0` with tag `t` is under way in `G` without
a CSW so far, or exactly one CSW with tag `t` has been submitted since `g0`. -/
def CommandInv (g0 : CUSBCDGadget) (t : Nat) (G : CUSBCDGadget) : Prop :=
  (csws G.epIn = csws g0.epIn ∧ G.m_CSW.dCSWTag = t ∧ MidState G.m_nState)
    ∨ (∃ c : TUSBCDCSW, csws G.epIn = csws g0.epIn ++ [c] ∧ c.dCSWTag = t
        ∧ (G.m_nState = TCDState.SentCSW ∨ G.m_nState = TCDState.ReceiveCBW))

/-- Read TOC with format 0x01 (session information), LBA addresses,
allocation length 12. -/
def toc1CBW : TUSBCDCBW := sampleCBW 9 12 [0x43, 0x00, 0x01, 0, 0, 0, 0, 0, 12, 0]

/-- Mode Sense(6) for all pages (page code 0x3F), allocation length 255. -/
def modeSense6CBW : TUSBCDCBW := sampleCBW 21 255 [0x1A, 0, 0x3F, 0, 0xFF, 0]

/-- Mode Sense(10) for all pages (page code 0x3F), allocation length 255. -/
def modeSense10CBW : TUSBCDCBW := sampleCBW 22 255 [0x5A, 0, 0x3F, 0, 0, 0, 0, 0, 0xFF, 0]

/-- A block device on which every seek fails (`Seek` returns `(u64)(-1)`). -/
def failingDevice : ICueDevice :=
  { GetSize := 620480000, Seek := fun _ => 18446744073709551615, Read := fun _ _ => (0, []) }

/-- A CBW with an opcode that is not in the dispatch table. -/
def unknownOpcodeCBW : TUSBCDCBW := sampleCBW 31 0 [0xFF, 0, 0, 0, 0, 0]

/-- Test Unit Ready. -/
def testUnitReadyCBW : TUSBCDCBW := sampleCBW 32 0 [0x00, 0, 0, 0, 0, 0]

/-- Read Capacity(10). -/
def readCapacityCBW : TUSBCDCBW := sampleCBW 33 8 [0x25, 0, 0, 0, 0, 0, 0, 0, 0, 0]

/-- A Read(10) whose block count field is 0 while the CBW announces 4096 bytes. -/
def read10ZeroCountCBW : TUSBCDCBW :=
  sampleCBW 34 4096 [0x28, 0, 0x00, 0x00, 0x4E, 0x20, 0, 0, 0, 0]

/-- A Read(10) of two blocks at LBA 20000 (0x4E20), transfer length 4096. -/
def read10TwoBlocksCBW : TUSBCDCBW :=
  sampleCBW 49 4096 [0x28, 0, 0x00, 0x00, 0x4E, 0x20, 0, 0, 2, 0]

/-- The TOC entries of the given tracks, in order, written to the entry array
from index `i` on (ADR/Control 0x10 for audio and 0x14 for data, the track
number, the address of the track start). -/
def trackEntries (fresh : List (Nat × Nat)) (msf : Nat) : List CUETrackInfo → Nat → List TUSBTOCEntry
  | [], _ => []
  | trackInfo :: rest, i =>
    ScsiCmdReadTocPmaAtip.entryAt fresh i
        (if trackInfo.track_mode = CUETrackMode.CUETrack_AUDIO then 0x10 else 0x14)
        (u8OfInt trackInfo.track_number)
        (CUSBCDGadget.GetAddress trackInfo.track_start msf false)
      :: trackEntries fresh msf rest (i + 1)

/-- The lead-out entry written at index `i` of the entry array. -/
def leadoutEntry (g : CUSBCDGadget) (fresh : List (Nat × Nat)) (msf i : Nat) : TUSBTOCEntry :=
  ScsiCmdReadTocPmaAtip.entryAt fresh i 0x10 0xAA
    (CUSBCDGadget.GetAddress g.GetLeadoutLBA msf false)

/-- The format 0x00 table as the specification words it: exactly the tracks
numbered `t` or higher, in table order, followed by the lead-out. -/
def specTocFrom (g : CUSBCDGadget) (fresh : List (Nat × Nat)) (t : Int) (msf : Nat) :
    List TUSBTOCEntry :=
  trackEntries fresh msf (g.cueParser.filter (fun tr => decide (t ≤ tr.track_number))) 0
    ++ [leadoutEntry g fresh msf
        (g.cueParser.filter (fun tr => decide (t ≤ tr.track_number))).length]

/-- The command dispatched from `g0` is under way in `G` with no CSW so far
and the sense of `g0`, or exactly one CSW has been submitted since `g0` and
the sense is that of `g0` or has a non-zero key with that CSW reporting FAIL. -/
def SenseInv (g0 G : CUSBCDGadget) : Prop :=
  (csws G.epIn = csws g0.epIn ∧ MidState G.m_nState ∧ G.m_SenseParams = g0.m_SenseParams)
    ∨ (∃ c : TUSBCDCSW, csws G.epIn = csws g0.epIn ++ [c]
        ∧ (G.m_nState = TCDState.SentCSW ∨ G.m_nState = TCDState.ReceiveCBW)
        ∧ (G.m_SenseParams = g0.m_SenseParams
            ∨ (G.m_SenseParams.bSenseKey ≠ 0 ∧ c.bmCSWStatus = CD_CSW_STATUS_FAIL)))

/-- The gadget as `handle_command` of the handler `h` finds it when the CBW
`data` has passed the test of `OnTransferComplete`: the OUT buffer holds the
CBW, `m_CBW` is its copy, the CSW carries its tag and `h` is registered. -/
def dispatched (g : CUSBCDGadget) (data : List Nat) (h : ScsiCommandHandler) : CUSBCDGadget :=
  { g with m_OutBuffer := data ++ g.m_OutBuffer.drop data.length,
           m_CBW := TUSBCDCBW.ofBytes data,
           m_CSW := { g.m_CSW with dCSWTag := (TUSBCDCBW.ofBytes data).dCBWTag },
           m_pCurrentCommandHandler := some h }

/-- A Read(10) at LBA 0 whose CDB block count is 0 and whose transfer length is
0xFFFFFFFF. -/
def read10MaxLengthCBW : TUSBCDCBW :=
  sampleCBW 35 0xFFFFFFFF [0x28, 0, 0, 0, 0, 0, 0, 0, 0, 0]

/-- A Read(10) at LBA 0 whose CDB block count and transfer length are both 0. -/
def read10NoLengthCBW : TUSBCDCBW := sampleCBW 36 0 [0x28, 0, 0, 0, 0, 0, 0, 0, 0, 0]

/-- The sample gadget in the middle of the Read(10) of `read10CBW`, with a
block device on which every seek fails. -/
def seekFailGadget : CUSBCDGadget :=
  { step sampleGadget (Event.OutComplete read10CBW.toBytes) with m_pDevice := failingDevice }

/-- A Read CD of one block at LBA 20000 with expected sector type Any
(byte 1 = 0x00) and main-channel selection HEADER + USER DATA (byte 9 = 0x60,
mask 0x0C), transfer length 2052. -/
def readCDHeaderUserCBW : TUSBCDCBW :=
  sampleCBW 41 2052 [0xBE, 0x00, 0x00, 0x00, 0x4E, 0x20, 0, 0, 1, 0x60, 0, 0]

/-- The sample gadget with a four-byte image for each feature descriptor of
Get Configuration, each starting with its feature number. -/
def featureGadget : CUSBCDGadget :=
  { sampleGadget with
      profile_list := [0x00, 0x00, 0x03, 0x04]
      cdrom_profile := [0x00, 0x08, 0x01, 0x00]
      core := [0x00, 0x01, 0x0B, 0x00]
      morphing := [0x00, 0x02, 0x07, 0x00]
      mechanism := [0x00, 0x03, 0x03, 0x00]
      multiread := [0x00, 0x1D, 0x00, 0x00]
      cdread := [0x00, 0x1E, 0x0B, 0x00]
      powermanagement := [0x01, 0x00, 0x03, 0x00]
      audioplay := [0x01, 0x03, 0x0B, 0x00] }

/-- Get Configuration with request type `rt`, starting feature 0x0100 and
allocation length 255. -/
def getConfigurationCBW (rt : Nat) : TUSBCDCBW :=
  sampleCBW 42 255 [0x46, rt, 0x01, 0x00, 0, 0, 0, 0, 0xFF, 0]

/-- The feature descriptors of the supported features whose number is at
least `f`, in ascending feature-number order (the profile descriptor belongs
to the Profile List feature 0x0000). -/
def specFeaturesFrom (g : CUSBCDGadget) (f : Nat) : List (List Nat) :=
  ([(0x0000, g.profile_list ++ g.cdrom_profile), (0x0001, g.core), (0x0002, g.morphing),
    (0x0003, g.mechanism), (0x001D, g.multiread), (0x001E, g.cdread),
    (0x0100, g.powermanagement), (0x0103, g.audioplay)].filter (fun p => decide (f ≤ p.1))).map
    (fun p => p.2)

/-- The sample gadget with an audio player task, waiting for the data-out
phase of a Mode Select(10). -/
def modeSelectGadget : CUSBCDGadget :=
  { sampleGadget with
      m_nState := TCDState.DataOut
      m_pCurrentCommandHandler := some ScsiCommandHandler.ScsiCmdModeSelect10
      cdplayer := some { state := PlayerState.NONE, address := 0, calls := [] } }

/-- A Mode Select(10) payload of 16 bytes: the 8-byte header with block
descriptor length 0 and an 8-byte page 0x0E carrying the volumes 0x80, 0x40. -/
def modeSelectShortPayload : List Nat :=
  [0, 0, 0, 0, 0, 0, 0, 0, 0x0E, 0x06, 0x04, 0x00, 0x01, 0x80, 0x02, 0x40]

/-- A Mode Select(10) payload of 24 bytes: the 8-byte header with block
descriptor length 0 and the 16-byte page 0x0E with the volumes 0x80, 0x40 at
the offsets of `Output0Volume` and `Output1Volume`. -/
def modeSelectPayload : List Nat :=
  [0, 0, 0, 0, 0, 0, 0, 0,
   0x0E, 0x0E, 0x04, 0, 0, 0, 0, 0, 0x01, 0x80, 0x02, 0x40, 0, 0, 0, 0]

/-- The block descriptor length of a Mode Select(10) payload. -/
def blockDescriptorLength (data : List Nat) : Nat := shl16 (byteAt data 6) (byteAt data 7)

/-- An Inquiry with EVPD = 1, page code 0x83 and allocation length 255. -/
def inquiry83CBW : TUSBCDCBW := sampleCBW 43 255 [0x12, 0x01, 0x83, 0x00, 0xFF, 0x00]

/-- The position the seek of a continue step returns (`(u64)(-1)` on failure). -/
def seekPos (g : CUSBCDGadget) : Nat :=
  g.m_pDevice.Seek ((g.block_size * g.m_nblock_address) % 18446744073709551616)

/-- The number of bytes a continue step asks of the device: blocks of this
step times the physical block size. -/
def bytesWanted (g : CUSBCDGadget) : Nat := ScsiCmdRead10.blocksThisIteration g * g.block_size

/-- The value the device read of a continue step returns. -/
def bytesRead (g : CUSBCDGadget) : Int :=
  (g.m_pDevice.Read (seekPos g) (u32 (bytesWanted g))).1

/-- The (physical block size, transfer block size, skip bytes) of the read context. -/
def geometry (g : CUSBCDGadget) : Nat × Nat × Nat :=
  (g.block_size, g.transfer_block_size, g.skip_bytes)

/-- The sector Read CD is to emit for the block at LBA `x` under the
main-channel-selection mask `mcs`: the selected portions only, in the order
SYNC, HEADER, USER DATA, EDC/ECC. -/
def specReadCDSector (mcs x modeByte : Nat) (user : List Nat) : List Nat :=
  (if mcs &&& 0x10 ≠ 0 then [0x00] ++ List.replicate 10 0xFF ++ [0x00] else [])
    ++ (if mcs &&& 0x08 ≠ 0 then
        [(x + 150) / (75 * 60), ((x + 150) / 75) % 60, (x + 150) % 75, modeByte] else [])
    ++ (if mcs &&& 0x04 ≠ 0 then user else [])
    ++ (if mcs &&& 0x02 ≠ 0 then List.replicate 288 0 else [])

/-- The gadget after the controller stored the bytes `data` of an OUT transfer
at the start of the OUT buffer. -/
def received (g : CUSBCDGadget) (data : List Nat) : CUSBCDGadget :=
  { g with m_OutBuffer := data ++ g.m_OutBuffer.drop data.length }

/-- A polled Get Event Status Notification asking for the media class with
allocation length 8. -/
def getEventStatusCBW : TUSBCDCBW :=
  sampleCBW 44 8 [0x4A, 0x01, 0, 0, 0x10, 0, 0, 0, 8, 0]

/-- A Read CD of one block at LBA 20000 with expected sector type Any and
main-channel selection SYNC + HEADER + USER DATA + EDC/ECC (byte 9 = 0xF0,
mask 0x1E), transfer length 2352. -/
def readCDFullCBW : TUSBCDCBW :=
  sampleCBW 45 2352 [0xBE, 0x00, 0x00, 0x00, 0x4E, 0x20, 0, 0, 1, 0xF0, 0, 0]

/-! ## Class requests on the control endpoint -/

/-- The fields of the setup packet `TSetupData` that
`CUSBCDGadget::OnClassOrVendorRequest` reads. -/
structure TSetupData where
  bmRequestType : Nat
  bRequest : Nat

/-- Source `CUSBCDGadget::OnClassOrVendorRequest`: the return value, the
buffer `pData` afterwards and the gadget afterwards. -/
def CUSBCDGadget.OnClassOrVendorRequest (g : CUSBCDGadget) (pSetupData : TSetupData)
    (pData : List Nat) : Int × List Nat × CUSBCDGadget :=
  if pSetupData.bmRequestType = 0xA1 ∧ pSetupData.bRequest = 0xFE then
    (1, poke pData 0 [0], g)
  else
    (-1, pData, g)

/-- The Bulk-Only Mass Storage Reset request of the Bulk-Only Transport class:
request type 0x21 (class, interface, host to device), request 0xFF. -/
def bulkOnlyReset : TSetupData := { bmRequestType := 0x21, bRequest := 0xFF }

/-- The sample gadget in the middle of a Read(10): the CBW has arrived and
`Update()` has begun the data transfer. -/
def midReadGadget : CUSBCDGadget :=
  run sampleGadget [Event.OutComplete read10CBW.toBytes, Event.Update sampleGadget.m_pDevice]

/-- The sample gadget after a 3-byte packet arrived in place of a CBW. -/
def stalledGadget : CUSBCDGadget := step sampleGadget (Event.OutComplete [1, 2, 3])

/-! ## Header layouts for the Mode Sense examples -/

/-- Modelled from the spec: the layout of the two Mode Sense headers of the
absent `usbcdgadget.h`. `ModeSense10Header` is the 16-bit mode data length
(bytes 0-1), medium type, device-specific parameter, two reserved bytes and
the 16-bit block descriptor length; `ModeSense6Header` is the four bytes mode
data length, medium type, device-specific parameter and block descriptor
length. Every other structure image is zero-filled as in `sampleConsts`. -/
def layoutConsts : GadgetConsts :=
  { sampleConsts with
      image := fun s vals =>
        match s with
        | ReplyStruct.ModeSense6Header =>
          [u8 (vals.getD 0 0), u8 (vals.getD 1 0), u8 (vals.getD 2 0), u8 (vals.getD 3 0)]
        | ReplyStruct.ModeSense10Header =>
          le16 (vals.getD 0 0) ++ [u8 (vals.getD 1 0), u8 (vals.getD 2 0), 0, 0]
            ++ le16 (vals.getD 3 0)
        | _ => [] }

/-- The sample gadget with the header layouts of `layoutConsts`. -/
def layoutGadget : CUSBCDGadget := { sampleGadget with k := layoutConsts }

/-! ## Mode Select with a block descriptor length beyond the payload -/

/-- A Mode Select(10) payload of 48 bytes: the 8-byte header with block
descriptor length 24, 24 bytes of block descriptors and the 16-byte page 0x0E
with the volumes 0x30 and 0x20. -/
def modeSelectDescriptorPayload : List Nat :=
  [0, 0, 0, 0, 0, 0, 0, 24] ++ List.replicate 24 0
    ++ [0x0E, 0x0E, 0x04, 0, 0, 0, 0, 0, 0x01, 0x30, 0x02, 0x20, 0, 0, 0, 0]

/-- A Mode Select(10) payload of 8 bytes: the header alone, announcing a block
descriptor length of 24. -/
def modeSelectHeaderOnlyPayload : List Nat := [0, 0, 0, 0, 0, 0, 0, 24]

/-- The CBW of a Mode Select(10) with parameter list length 8. -/
def modeSelectHeaderOnlyCBW : TUSBCDCBW :=
  { sampleCBW 46 8 [0x55, 0x10, 0, 0, 0, 0, 0, 0, 8, 0] with bmCBWFlags := 0 }

/-- The bus events of two Mode Select(10) commands: the data phase of the
first delivers the 48-byte payload and its CSW completes, then the second
command arrives with parameter list length 8 and its data phase delivers the
header-only payload. -/
def modeSelectTwice : List Event :=
  [Event.OutComplete modeSelectDescriptorPayload, Event.InComplete SIZE_CSW,
   Event.OutComplete modeSelectHeaderOnlyCBW.toBytes,
   Event.OutComplete modeSelectHeaderOnlyPayload]

/-! ## Discs for the lead-out examples -/

/-- A disc of one Mode 2 track with 2336-byte sectors from LBA 0, the image
holding 1000 such sectors. -/
def mode2336Gadget : CUSBCDGadget :=
  { sampleGadget with
      cueParser := [{ track_number := 1, track_mode := CUETrackMode.CUETrack_MODE2_2336,
                      track_start := 0, data_start := 0, file_offset := 0 }]
      m_pDevice := sampleDevice (2336 * 1000) }

/-- A disc of one Mode 1 track with 2048-byte sectors from LBA 0, the image
holding 2097162 sectors (4 GiB and 10 sectors). -/
def largeImageGadget : CUSBCDGadget :=
  { sampleGadget with
      cueParser := [{ track_number := 1, track_mode := CUETrackMode.CUETrack_MODE1_2048,
                      track_start := 0, data_start := 0, file_offset := 0 }]
      m_pDevice := sampleDevice (4294967296 + 2048 * 10) }

/-! ## The toolbox catalog listing as the spec words it -/

/-- Big-endian byte list of a 40-bit value. -/
def be40 (v : Nat) : List Nat :=
  [(v / 4294967296) % 256, (v / 16777216) % 256, (v / 65536) % 256, (v / 256) % 256, v % 256]

/-- The 40-byte catalog entry of the spec: index byte, type byte 0, a 33-byte
name field holding the first min(32, length) bytes of the name followed only
by zero bytes, and the big-endian 40-bit size. -/
def specTbEntry (i : Nat) (name : List Nat) (size : Nat) : List Nat :=
  [i, 0] ++ (name.take (min 32 name.length) ++ List.replicate (33 - min 32 name.length) 0)
    ++ be40 size

/-- The listing of a catalog of (name, size) pairs: the entries 0, 1, ... of
the first min(n, 100) items, one after the other. -/
def specTbEntries (catalog : List (List Nat × Nat)) : List Nat :=
  ((List.range (min catalog.length 100)).map
    (fun i => specTbEntry i (catalog.getD i ([], 0)).1 (catalog.getD i ([], 0)).2)).flatten

/-- A catalog of three images; the second name has 35 characters. -/
def sampleCatalog : SCSITBService :=
  { entries := [([0x61, 0x2E, 0x69, 0x73, 0x6F], 681574400),
                ((List.range 35).map (fun j => 0x41 + j % 26), 0x12345678),
                ([0x7A], 0)]
    nextCD := none }

/-- The sample gadget with the toolbox catalog task running. -/
def catalogGadget : CUSBCDGadget := { sampleGadget with scsitbservice := some sampleCatalog }

/-- A Toolbox List Items command (opcode `op`) with transfer length `len`. -/
def listItemsCBW (op len : Nat) : TUSBCDCBW :=
  sampleCBW 47 len [op, 0, 0, 0, 0, 0, 0, 0, 0, 0]

/-! ## Read CD on a track without block size -/

/-- The final value of `synth_offset` in the synthesis branch of
`ScsiCmdReadCD::update`: the end of the portions written to the scratch
sector. -/
def ScsiCmdReadCD.synth_offset (g : CUSBCDGadget) : Nat :=
  (if g.mcs &&& 0x10 ≠ 0 then 12 else 0) + (if g.mcs &&& 0x08 ≠ 0 then 4 else 0)
    + (if g.mcs &&& 0x04 ≠ 0 then g.block_size - g.skip_bytes else 0)

/-- A Read CD of one block at LBA 0 with expected sector type Any and
main-channel selection USER DATA only (byte 9 = 0x20, mask 0x04). -/
def readCDUserAnyCBW : TUSBCDCBW :=
  sampleCBW 48 2048 [0xBE, 0x00, 0, 0, 0, 0, 0, 0, 1, 0x20, 0, 0]

/-! ## Streaming reads -/

/-- A streaming read of handler `h` under way on a ready unit: transport
state `st`, current LBA `a`, `r` blocks remaining, constants and block sizes
as in `g0`. -/
def Streaming (h : ScsiCommandHandler) (g0 G : CUSBCDGadget) (st : TCDState) (a r : Nat) : Prop :=
  G.m_nState = st ∧ G.m_pCurrentCommandHandler = some h ∧ G.m_CDReady = true
    ∧ G.m_nblock_address = a ∧ G.m_nnumber_blocks = r
    ∧ G.k = g0.k ∧ G.block_size = g0.block_size
    ∧ G.transfer_block_size = g0.transfer_block_size

/-- A block device without errors: no seek returns `(u64)(-1)` and every read
returns the number of bytes asked for. -/
def errorFree (dev : ICueDevice) : Prop :=
  (∀ off : Nat, dev.Seek off ≠ 18446744073709551615)
    ∧ ∀ pos n : Nat, (dev.Read pos n).1 = (n : Int)

/-- A block device over an image of `size` bytes whose byte at offset `i` is
`i % 251`: a seek beyond the end stops at the end, every read succeeds. -/
def clampDevice (size : Nat) : ICueDevice :=
  { GetSize := size
    Seek := fun off => min off size
    Read := fun pos n => ((n : Int), (List.range n).map (fun j => (pos + j) % 251)) }

/-- The sample gadget streaming a Read CD of 40 raw sectors from LBA 5 of the
audio track, as the begin step leaves it. -/
def streamingGadget : CUSBCDGadget :=
  { sampleGadget with
      m_nState := TCDState.DataInRead
      m_pCurrentCommandHandler := some ScsiCommandHandler.ScsiCmdReadCD
      m_nblock_address := 5
      m_nnumber_blocks := 40
      block_size := 2352
      transfer_block_size := 2352
      skip_bytes := 0 }

/-! ## ConfigService::UpdateConfigFile (configservice.cpp) -/

namespace ConfigService

/-- The test `s.rfind(p, 0) == 0`: the string `s` starts with `p`. -/
def startsWith : List Char → List Char → Bool
  | [], _ => true
  | _ :: _, [] => false
  | p :: ps, c :: cs => p == c && startsWith ps cs

/-- The text of the section header the service manages. -/
def usbodeHeader : List Char := "[usbode]".toList

/-- The text that opens any section header. -/
def sectionOpen : List Char := "[".toList

/-- The character between key and value. -/
def equalsSign : Char := Char.ofNat 61

/-- The statement `str_line.erase(str_line.find_last_not_of("\r\n") + 1)`:
every trailing carriage return and line feed is removed. -/
def stripEol (s : List Char) : List Char :=
  (s.reverse.dropWhile (fun c => c == Char.ofNat 13 || c == Char.ofNat 10)).reverse

/-- The line `pair.first + "=" + pair.second`. -/
def paramLine (pair : List Char × List Char) : List Char :=
  pair.1 ++ [equalsSign] ++ pair.2

/-- The entries of `m_usbodeConfig` a loop `if (!params_written[pair.first] &&
!pair.second.empty())` selects, in the order of the map; `written` lists the
keys whose `params_written` flag is set. -/
def unwritten (m_usbodeConfig : List (List Char × List Char)) (written : List (List Char)) :
    List (List Char × List Char) :=
  m_usbodeConfig.filter (fun pair => !(written.contains pair.1) && !pair.2.isEmpty)

/-- The variables of the read loop: `lines`, `in_usbode_section` and the keys
whose `params_written` flag is set. -/
structure ReadState where
  lines : List (List Char)
  in_usbode_section : Bool
  written : List (List Char)

/-- The body of the `while (f_gets(...))` loop for one string `line_buf`. -/
def readLine (m_usbodeConfig : List (List Char × List Char)) (st : ReadState)
    (line_buf : List Char) : ReadState :=
  let str_line := stripEol line_buf
  if startsWith usbodeHeader str_line then
    { st with in_usbode_section := true, lines := st.lines ++ [str_line] }
  else if startsWith sectionOpen str_line then
    if st.in_usbode_section then
      { lines := st.lines ++ (unwritten m_usbodeConfig st.written).map paramLine ++ [str_line]
        in_usbode_section := false
        written := st.written ++ (unwritten m_usbodeConfig st.written).map (fun pair => pair.1) }
    else
      { st with in_usbode_section := false, lines := st.lines ++ [str_line] }
  else if st.in_usbode_section then
    if str_line.contains equalsSign then
      let key_from_file := str_line.takeWhile (fun c => c != equalsSign)
      match m_usbodeConfig.find? (fun pair => pair.1 == key_from_file) with
      | some it =>
        { st with
            lines := if !it.2.isEmpty then st.lines ++ [paramLine it] else st.lines
            written := st.written ++ [it.1] }
      | none => { st with lines := st.lines ++ [str_line] }
    else { st with lines := st.lines ++ [str_line] }
  else { st with lines := st.lines ++ [str_line] }

/-- The value of `usbode_section_end_idx` when a line starting with the
header is found (`found_usbode_for_new_keys`): the index of the first later
line that opens a section, else the number of lines. -/
def usbode_section_end_idx (lines : List (List Char)) : Option Nat :=
  match lines.findIdx? (startsWith usbodeHeader) with
  | none => none
  | some i =>
    match (lines.drop (i + 1)).findIdx? (startsWith sectionOpen) with
    | some j => some (i + 1 + j)
    | none => some lines.length

/-- Source `ConfigService::UpdateConfigFile`, as the vector `lines` it writes
(one line feed after each): `m_usbodeConfig` lists the entries of the map in
key order (no key twice), `file` is `none` when the file cannot be opened for
reading and else the strings the successive `f_gets` calls deliver (a
256-byte buffer, so a longer physical line arrives in pieces). -/
def UpdateConfigFile (m_usbodeConfig : List (List Char × List Char))
    (file : Option (List (List Char))) : List (List Char) :=
  let st0 : ReadState := { lines := [], in_usbode_section := false, written := [] }
  let st := match file with
    | some bufs => bufs.foldl (readLine m_usbodeConfig) st0
    | none => st0
  let usbode_header_present := st.lines.any (startsWith usbodeHeader)
  let lines := if !usbode_header_present then st.lines ++ [usbodeHeader] else st.lines
  match usbode_section_end_idx lines with
  | some idx =>
    let new_keys_to_insert := (unwritten m_usbodeConfig st.written).map paramLine
    lines.take idx ++ new_keys_to_insert ++ lines.drop idx
  | none =>
    if !m_usbodeConfig.isEmpty && !usbode_header_present then
      lines ++ [usbodeHeader]
        ++ (m_usbodeConfig.filter (fun pair => !pair.2.isEmpty)).map paramLine
    else lines

/-- Whether `line` is a key=value line of a managed key: it holds an equals
sign and the text before the first one is a key of the map. -/
def isManagedLine (m_usbodeConfig : List (List Char × List Char)) (line : List Char) : Bool :=
  line.contains equalsSign
    && m_usbodeConfig.any (fun pair => pair.1 == line.takeWhile (fun c => c != equalsSign))

/-- The lines of a config file that are to be preserved, in their order:
every line except the key=value lines of managed keys inside the usbode
section; `inSection` says whether the lines start inside that section (a line
starting with the usbode header opens it, any other line starting with an
opening bracket closes it). -/
def specKept (m_usbodeConfig : List (List Char × List Char)) :
    Bool → List (List Char) → List (List Char)
  | _, [] => []
  | inSection, line :: rest =>
    if startsWith usbodeHeader line then line :: specKept m_usbodeConfig true rest
    else if startsWith sectionOpen line then line :: specKept m_usbodeConfig false rest
    else if inSection && isManagedLine m_usbodeConfig line then
      specKept m_usbodeConfig true rest
    else line :: specKept m_usbodeConfig inSection rest

/-- A managed map: the key `debug` is to be removed (empty value), `volume`
is to be 200, `mode` is to be `cdrom`. -/
def sampleConfig : List (List Char × List Char) :=
  [("debug".toList, []), ("mode".toList, "cdrom".toList), ("volume".toList, "200".toList)]

/-- The strings read from a config file with a usbode section in the middle. -/
def sampleFile : List (List Char) :=
  ["# boot options\r\n".toList, "[all]\n".toList, "arm_64bit=1\n".toList,
   "[usbode]\n".toList, "# audio = on\n".toList, "volume=10\n".toList, "debug=1\n".toList,
   "theme=dark\n".toList, "[pi4]\n".toList, "volume=3\n".toList]

end ConfigService

/-! ## Bit-level lemmas -/

theorem or_shl8 (a b : Nat) (hb : b < 256) : (a <<< 8) ||| b = a * 256 + b := by
  have h := Nat.mul_add_lt_is_or (show b < 2 ^ 8 by omega) a
  rw [Nat.shiftLeft_eq, Nat.mul_comm a (2 ^ 8), ← h]

theorem shl16_eq (b0 b1 : Nat) (h1 : b1 < 256) : shl16 b0 b1 = b0 * 256 + b1 := by
  unfold shl16
  exact or_shl8 b0 b1 h1

theorem or_shl_bytes (a b c d : Nat) (hb : b < 256) (hc : c < 256) (hd : d < 256) :
    (a <<< 24) ||| (b <<< 16) ||| (c <<< 8) ||| d
      = a * 16777216 + b * 65536 + c * 256 + d := by
  have e1 : (a <<< 24) ||| (b <<< 16) = a * 16777216 + b * 65536 := by
    have h := Nat.mul_add_lt_is_or (show b * 65536 < 2 ^ 24 by omega) a
    rw [Nat.shiftLeft_eq, Nat.shiftLeft_eq, Nat.mul_comm a (2 ^ 24)]
    rw [show b * 2 ^ 16 = b * 65536 by norm_num, ← h]
  have e2 : (a * 16777216 + b * 65536) ||| (c <<< 8) = a * 16777216 + b * 65536 + c * 256 := by
    have h := Nat.mul_add_lt_is_or (show c * 256 < 2 ^ 16 by omega) (a * 256 + b)
    rw [Nat.shiftLeft_eq, show c * 2 ^ 8 = c * 256 by norm_num]
    rw [show a * 16777216 + b * 65536 = 2 ^ 16 * (a * 256 + b) by ring, ← h]
  have e3 : (a * 16777216 + b * 65536 + c * 256) ||| d
      = a * 16777216 + b * 65536 + c * 256 + d := by
    have h := Nat.mul_add_lt_is_or (show d < 2 ^ 8 by omega) (a * 65536 + b * 256 + c)
    rw [show a * 16777216 + b * 65536 + c * 256 = 2 ^ 8 * (a * 65536 + b * 256 + c) by ring, ← h]
  rw [e1, e2, e3]

theorem shl32_eq (b0 b1 b2 b3 : Nat) (h0 : b0 < 256) (h1 : b1 < 256) (h2 : b2 < 256)
    (h3 : b3 < 256) : shl32 b0 b1 b2 b3 = b0 * 16777216 + b1 * 65536 + b2 * 256 + b3 := by
  unfold shl32 u32
  rw [or_shl_bytes b0 b1 b2 b3 h1 h2 h3]
  omega

theorem lba_to_msf_absolute (lba : Nat) (h : lba + 150 < 256 * 4500) :
    CUSBCDGadget.lba_to_msf lba false
      = ((lba + 150) % 75) * 16777216 + (((lba + 150) / 75) % 60) * 65536
        + ((lba + 150) / 4500) * 256 := by
  unfold CUSBCDGadget.lba_to_msf
  simp only [Bool.not_false, if_true, u8, u32]
  have h1 : (lba + 150) % 4294967296 = lba + 150 := Nat.mod_eq_of_lt (by omega)
  rw [h1]
  have h2 : (lba + 150) % 75 % 256 = (lba + 150) % 75 := Nat.mod_eq_of_lt (by omega)
  have h3 : (lba + 150) / 75 % 60 % 256 = (lba + 150) / 75 % 60 := Nat.mod_eq_of_lt (by omega)
  have h4 : (lba + 150) / (75 * 60) % 256 = (lba + 150) / 4500 := by
    rw [show 75 * 60 = 4500 by norm_num]
    exact Nat.mod_eq_of_lt (by omega)
  rw [h2, h3, h4, or_shl_bytes _ _ _ 0 (by omega) (by omega) (by omega)]
  have h5 : (lba + 150) % 75 * 16777216 + (lba + 150) / 75 % 60 * 65536
      + (lba + 150) / 4500 * 256 + 0 < 4294967296 := by omega
  rw [Nat.mod_eq_of_lt h5, Nat.add_zero]

theorem msfFields_packed (m s f : Nat) (hm : m < 256) (hs : s < 256) (hf : f < 256) :
    CUSBCDGadget.msfFields (f * 16777216 + s * 65536 + m * 256) = (m, s, f) := by
  unfold CUSBCDGadget.msfFields
  simp only [Nat.shiftRight_eq_div_pow,
    show (0xFF : Nat) = 2 ^ 8 - 1 by norm_num, Nat.and_pow_two_sub_one_eq_mod]
  have e1 : (f * 16777216 + s * 65536 + m * 256) / 2 ^ 8 % 2 ^ 8 = m := by omega
  have e2 : (f * 16777216 + s * 65536 + m * 256) / 2 ^ 16 % 2 ^ 8 = s := by omega
  have e3 : (f * 16777216 + s * 65536 + m * 256) / 2 ^ 24 % 2 ^ 8 = f := by omega
  rw [e1, e2, e3]

/-! ## C8: MSF round trip -/

/-- C8 (as stated, refuted): the bytes (m, s, f) = (0, 2, 75) satisfy
m*60*75 + s*75 + f >= 150, yet decoding
`lba_to_msf(msf_to_lba(0, 2, 75), false)` gives (0, 3, 0). -/
theorem C8_counterexample :
    0 * 60 * 75 + 2 * 75 + 75 ≥ 150
      ∧ CUSBCDGadget.msfFields
          (CUSBCDGadget.lba_to_msf (CUSBCDGadget.msf_to_lba 0 2 75) false) = (0, 3, 0)
      ∧ CUSBCDGadget.msfFields
          (CUSBCDGadget.lba_to_msf (CUSBCDGadget.msf_to_lba 0 2 75) false) ≠ (0, 2, 75) := by
  refine ⟨by norm_num, ?_, ?_⟩
  · rfl
  · rw [show CUSBCDGadget.msfFields
        (CUSBCDGadget.lba_to_msf (CUSBCDGadget.msf_to_lba 0 2 75) false) = (0, 3, 0) from rfl]
    decide

/-- C8 (amended): for every minute byte m, second s < 60 and frame f < 75 with
m*60*75 + s*75 + f >= 150, decoding the minute, second and frame fields of
`lba_to_msf(msf_to_lba(m, s, f), relative = false)` yields (m, s, f). -/
theorem C8_msf_roundtrip (m s f : Nat) (hm : m < 256) (hs : s < 60) (hf : f < 75)
    (h : m * 60 * 75 + s * 75 + f ≥ 150) :
    CUSBCDGadget.msfFields
      (CUSBCDGadget.lba_to_msf (CUSBCDGadget.msf_to_lba m s f) false) = (m, s, f) := by
  have e : CUSBCDGadget.msf_to_lba m s f = m * 4500 + s * 75 + f - 150 := by
    unfold CUSBCDGadget.msf_to_lba u32 u8
    simp only []
    rw [Nat.mod_eq_of_lt hm, Nat.mod_eq_of_lt (show s < 256 by omega),
      Nat.mod_eq_of_lt (show f < 256 by omega),
      Nat.mod_eq_of_lt (show m * 60 * 75 + s * 75 + f < 4294967296 by omega)]
    omega
  rw [e, lba_to_msf_absolute _ (by omega)]
  have e1 : (m * 4500 + s * 75 + f - 150 + 150) % 75 = f := by omega
  have e2 : (m * 4500 + s * 75 + f - 150 + 150) / 75 % 60 = s := by omega
  have e3 : (m * 4500 + s * 75 + f - 150 + 150) / 4500 = m := by omega
  rw [e1, e2, e3]
  exact msfFields_packed m s f hm (by omega) (by omega)

/-- The amended C8 at the address 00:02:00 (LBA 0). -/
theorem C8_msf_roundtrip_witness :
    CUSBCDGadget.msfFields
      (CUSBCDGadget.lba_to_msf (CUSBCDGadget.msf_to_lba 0 2 0) false) = (0, 2, 0) :=
  C8_msf_roundtrip 0 2 0 (by norm_num) (by norm_num) (by norm_num) (by norm_num)

/-! ## C3: Request Sense reports and advances the sense -/

/-- C3: for every stored sense triplet (K, ASC, ASCQ) of bytes, a Request
Sense with allocation length >= 14 stages a reply whose sense-key (byte 2), ASC
(byte 12) and ASCQ (byte 13) fields are K, ASC and ASCQ; afterwards the stored
sense is (0x06,0x28,0x00) with default post-status FAIL if K = 0x02, and
(0,0,0) with default post-status OK otherwise. -/
theorem C3_request_sense (cbw : TUSBCDCBW) (g : CUSBCDGadget)
    (halloc : 14 ≤ cbw.cb 4)
    (hK : g.m_SenseParams.bSenseKey < 256) (hA : g.m_SenseParams.bAddlSenseCode < 256)
    (hQ : g.m_SenseParams.bAddlSenseCodeQual < 256) :
    ∃ reply,
      (ScsiCmdRequestSense.handle_command cbw g).epIn
          = g.epIn ++ [Transfer.TransferDataIn reply]
      ∧ 14 ≤ reply.length
      ∧ reply.getD 2 0 = g.m_SenseParams.bSenseKey
      ∧ reply.getD 12 0 = g.m_SenseParams.bAddlSenseCode
      ∧ reply.getD 13 0 = g.m_SenseParams.bAddlSenseCodeQual
      ∧ (g.m_SenseParams.bSenseKey = 0x02 →
          (ScsiCmdRequestSense.handle_command cbw g).m_SenseParams
              = { bSenseKey := 0x06, bAddlSenseCode := 0x28, bAddlSenseCodeQual := 0x00 }
            ∧ (ScsiCmdRequestSense.handle_command cbw g).bmCSWStatus = CD_CSW_STATUS_FAIL)
      ∧ (g.m_SenseParams.bSenseKey ≠ 0x02 →
          (ScsiCmdRequestSense.handle_command cbw g).m_SenseParams
              = { bSenseKey := 0, bAddlSenseCode := 0, bAddlSenseCodeQual := 0 }
            ∧ (ScsiCmdRequestSense.handle_command cbw g).bmCSWStatus = CD_CSW_STATUS_OK) := by
  have hb : cbw.cb 4 < 256 := by
    unfold TUSBCDCBW.cb byteAt u8
    omega
  refine ⟨(ScsiCmdRequestSense.m_ReqSenseReply g).take
    (if u8 (cbw.cb 4) < u8 ScsiCmdRequestSense.sizeofReply then u8 (cbw.cb 4)
      else u8 ScsiCmdRequestSense.sizeofReply), ?_, ?_, ?_, ?_, ?_, ?_, ?_⟩
  · unfold ScsiCmdRequestSense.handle_command ScsiCommandHandler.begin_data_in_transfer
      CUSBCDGadget.StartDataInTransfer CUSBCDGadget.SetSenseParameters
    simp only []
    split <;> rfl
  all_goals
    have hlen : 14 ≤ (if u8 (cbw.cb 4) < u8 ScsiCmdRequestSense.sizeofReply then u8 (cbw.cb 4)
        else u8 ScsiCmdRequestSense.sizeofReply) := by
      unfold u8 ScsiCmdRequestSense.sizeofReply
      split <;> omega
    generalize (if u8 (cbw.cb 4) < u8 ScsiCmdRequestSense.sizeofReply then u8 (cbw.cb 4)
        else u8 ScsiCmdRequestSense.sizeofReply) = n at hlen ⊢
  · simp only [ScsiCmdRequestSense.m_ReqSenseReply, List.length_take, List.length_cons,
      List.length_nil]
    omega
  · rw [List.getD_eq_getElem?_getD, List.getElem?_take_of_lt (by omega)]
    simp [ScsiCmdRequestSense.m_ReqSenseReply, u8, Nat.mod_eq_of_lt hK]
  · rw [List.getD_eq_getElem?_getD, List.getElem?_take_of_lt (by omega)]
    simp [ScsiCmdRequestSense.m_ReqSenseReply, u8, Nat.mod_eq_of_lt hA]
  · rw [List.getD_eq_getElem?_getD, List.getElem?_take_of_lt (by omega)]
    simp [ScsiCmdRequestSense.m_ReqSenseReply, u8, Nat.mod_eq_of_lt hQ]
  · intro h2
    unfold ScsiCmdRequestSense.handle_command ScsiCommandHandler.begin_data_in_transfer
      CUSBCDGadget.StartDataInTransfer CUSBCDGadget.SetSenseParameters
    simp only [h2, if_true]
    refine ⟨?_, ?_⟩ <;> trivial
  · intro h2
    unfold ScsiCmdRequestSense.handle_command ScsiCommandHandler.begin_data_in_transfer
      CUSBCDGadget.StartDataInTransfer CUSBCDGadget.SetSenseParameters
    simp only [h2, if_false]
    refine ⟨?_, ?_⟩ <;> trivial

/-- C3 at a concrete input: sense (0x02,0x04,0x00) stored, allocation length 18. -/
theorem C3_request_sense_witness :
    ∃ reply,
      (ScsiCmdRequestSense.handle_command (sampleCBW 7 18 [0x03, 0, 0, 0, 18, 0])
          (sampleGadget.SetSenseParameters 0x02 0x04 0x00)).epIn
          = (sampleGadget.SetSenseParameters 0x02 0x04 0x00).epIn
              ++ [Transfer.TransferDataIn reply]
      ∧ 14 ≤ reply.length
      ∧ reply.getD 2 0 = 0x02
      ∧ reply.getD 12 0 = 0x04
      ∧ reply.getD 13 0 = 0x00
      ∧ ((0x02 : Nat) = 0x02 →
          (ScsiCmdRequestSense.handle_command (sampleCBW 7 18 [0x03, 0, 0, 0, 18, 0])
              (sampleGadget.SetSenseParameters 0x02 0x04 0x00)).m_SenseParams
              = { bSenseKey := 0x06, bAddlSenseCode := 0x28, bAddlSenseCodeQual := 0x00 }
            ∧ (ScsiCmdRequestSense.handle_command (sampleCBW 7 18 [0x03, 0, 0, 0, 18, 0])
              (sampleGadget.SetSenseParameters 0x02 0x04 0x00)).bmCSWStatus = CD_CSW_STATUS_FAIL)
      ∧ ((0x02 : Nat) ≠ 0x02 →
          (ScsiCmdRequestSense.handle_command (sampleCBW 7 18 [0x03, 0, 0, 0, 18, 0])
              (sampleGadget.SetSenseParameters 0x02 0x04 0x00)).m_SenseParams
              = { bSenseKey := 0, bAddlSenseCode := 0, bAddlSenseCodeQual := 0 }
            ∧ (ScsiCmdRequestSense.handle_command (sampleCBW 7 18 [0x03, 0, 0, 0, 18, 0])
              (sampleGadget.SetSenseParameters 0x02 0x04 0x00)).bmCSWStatus = CD_CSW_STATUS_OK) :=
  C3_request_sense (sampleCBW 7 18 [0x03, 0, 0, 0, 18, 0])
    (sampleGadget.SetSenseParameters 0x02 0x04 0x00) (by decide) (by decide) (by decide)
    (by decide)

/-! ## C4: which OUT completions reach the dispatcher -/

theorem ofBytes_append (data rest : List Nat) (h : data.length = SIZE_CBW) :
    TUSBCDCBW.ofBytes (data ++ rest) = TUSBCDCBW.ofBytes data := by
  have hb : ∀ i, i < 31 → byteAt (data ++ rest) i = byteAt data i := by
    intro i hi
    unfold byteAt
    rw [List.getD_eq_getElem?_getD, List.getD_eq_getElem?_getD,
      List.getElem?_append_left (by rw [h]; exact hi)]
  unfold TUSBCDCBW.ofBytes le32At
  simp only [hb 0 (by omega), hb 1 (by omega), hb 2 (by omega), hb 3 (by omega),
    hb 4 (by omega), hb 5 (by omega), hb 6 (by omega), hb 7 (by omega), hb 8 (by omega),
    hb 9 (by omega), hb 10 (by omega), hb 11 (by omega), hb 12 (by omega), hb 13 (by omega),
    hb 14 (by omega), Nat.zero_add]
  congr 1
  apply List.map_congr_left
  intro j hj
  exact hb (15 + j) (by have := List.mem_range.mp hj; omega)

theorem step_out_receive (g : CUSBCDGadget) (data : List Nat)
    (h : g.m_nState = TCDState.ReceiveCBW) :
    step g (Event.OutComplete data)
      = CUSBCDGadget.onCBWReceived
          { g with m_OutBuffer := data ++ g.m_OutBuffer.drop data.length } data.length := by
  unfold step CUSBCDGadget.OnTransferComplete
  simp only [h, Bool.false_eq_true, if_false]

/-- C4: on an OUT completion in state ReceiveCBW, the dispatcher
`HandleSCSICommand` runs (on the gadget holding the copied CBW and the echoed
tag) if and only if the received length is 31, the signature is 0x43425355, the
LUN is 0 and the CB length is in [1,16]; in every other case the result is the
gadget with both endpoints stalled and at most the CBW copy and the tag echo
changed: no transfer is begun on the IN endpoint, so no CSW is submitted, and
no handler has run. -/
theorem C4_cbw_gate (g : CUSBCDGadget) (data : List Nat)
    (h : g.m_nState = TCDState.ReceiveCBW) :
    (validCBW data = true ↔
      (data.length = 31 ∧ (TUSBCDCBW.ofBytes data).dCBWSignature = 0x43425355
        ∧ (TUSBCDCBW.ofBytes data).bCBWLUN = 0
        ∧ 1 ≤ (TUSBCDCBW.ofBytes data).bCBWCBLength
        ∧ (TUSBCDCBW.ofBytes data).bCBWCBLength ≤ 16))
    ∧ (validCBW data = true →
        step g (Event.OutComplete data)
          = CUSBCDGadget.HandleSCSICommand
              { g with m_OutBuffer := data ++ g.m_OutBuffer.drop data.length,
                       m_CBW := TUSBCDCBW.ofBytes data,
                       m_CSW := { g.m_CSW with dCSWTag := (TUSBCDCBW.ofBytes data).dCBWTag } })
    ∧ (validCBW data = false →
        (∃ cbw tag,
          step g (Event.OutComplete data)
            = CUSBCDGadget.stallBoth
                { g with m_OutBuffer := data ++ g.m_OutBuffer.drop data.length,
                         m_CBW := cbw, m_CSW := { g.m_CSW with dCSWTag := tag } })
        ∧ (step g (Event.OutComplete data)).stallIn = true
        ∧ (step g (Event.OutComplete data)).stallOut = true
        ∧ (step g (Event.OutComplete data)).epIn = g.epIn
        ∧ (step g (Event.OutComplete data)).m_nState = TCDState.ReceiveCBW
        ∧ (step g (Event.OutComplete data)).m_pCurrentCommandHandler
            = g.m_pCurrentCommandHandler) := by
  have hiff : validCBW data = true ↔
      (data.length = 31 ∧ (TUSBCDCBW.ofBytes data).dCBWSignature = 0x43425355
        ∧ (TUSBCDCBW.ofBytes data).bCBWLUN = 0
        ∧ 1 ≤ (TUSBCDCBW.ofBytes data).bCBWCBLength
        ∧ (TUSBCDCBW.ofBytes data).bCBWCBLength ≤ 16) := by
    simp only [validCBW, Bool.and_eq_true, decide_eq_true_eq, SIZE_CBW, VALID_CBW_SIG]
    tauto
  refine ⟨hiff, ?_, ?_⟩
  · intro hv
    obtain ⟨h1, h2, h3, h4, h5⟩ := hiff.mp hv
    rw [step_out_receive g data h]
    unfold CUSBCDGadget.onCBWReceived
    simp only [ofBytes_append data _ h1, h1, h2, h3, SIZE_CBW,
      VALID_CBW_SIG, ne_eq, not_true_eq_false, if_false]
    rw [if_pos ⟨by omega, h5, trivial⟩]
  · intro hv
    have hstall : ∃ cbw tag,
        step g (Event.OutComplete data)
          = CUSBCDGadget.stallBoth
              { g with m_OutBuffer := data ++ g.m_OutBuffer.drop data.length,
                       m_CBW := cbw, m_CSW := { g.m_CSW with dCSWTag := tag } } := by
      rw [step_out_receive g data h]
      unfold CUSBCDGadget.onCBWReceived
      by_cases h1 : data.length = SIZE_CBW
      · rw [if_neg (by simpa using h1)]
        simp only [ofBytes_append data _ h1]
        by_cases h2 : (TUSBCDCBW.ofBytes data).dCBWSignature = VALID_CBW_SIG
        · rw [if_neg (by simpa using h2)]
          rw [if_neg]
          · exact ⟨_, _, rfl⟩
          · intro hc
            obtain ⟨c1, c2, c3⟩ := hc
            have : validCBW data = true := by
              simp only [validCBW, Bool.and_eq_true, decide_eq_true_eq]
              exact ⟨⟨⟨⟨h1, h2⟩, c3⟩, c1⟩, c2⟩
            rw [hv] at this
            exact Bool.noConfusion this
        · rw [if_pos (by simpa using h2)]
          exact ⟨_, g.m_CSW.dCSWTag, rfl⟩
      · rw [if_pos (by simpa using h1)]
        exact ⟨g.m_CBW, g.m_CSW.dCSWTag, rfl⟩
    obtain ⟨cbw, tag, he⟩ := hstall
    refine ⟨⟨cbw, tag, he⟩, ?_, ?_, ?_, ?_, ?_⟩ <;> rw [he]
    · rfl
    · rfl
    · rfl
    · exact h
    · rfl

/-- C4 at a concrete input: a 30-byte OUT transfer in state ReceiveCBW. -/
theorem C4_cbw_gate_witness :
        ((∃ cbw tag,
          step sampleGadget (Event.OutComplete (List.replicate 30 0))
            = CUSBCDGadget.stallBoth
                { sampleGadget with
                    m_OutBuffer := List.replicate 30 0
                      ++ sampleGadget.m_OutBuffer.drop (List.replicate 30 0).length,
                    m_CBW := cbw, m_CSW := { sampleGadget.m_CSW with dCSWTag := tag } })
        ∧ (step sampleGadget (Event.OutComplete (List.replicate 30 0))).stallIn = true
        ∧ (step sampleGadget (Event.OutComplete (List.replicate 30 0))).stallOut = true
        ∧ (step sampleGadget (Event.OutComplete (List.replicate 30 0))).epIn = sampleGadget.epIn
        ∧ (step sampleGadget (Event.OutComplete (List.replicate 30 0))).m_nState
            = TCDState.ReceiveCBW
        ∧ (step sampleGadget (Event.OutComplete (List.replicate 30 0))).m_pCurrentCommandHandler
            = sampleGadget.m_pCurrentCommandHandler) :=
  (C4_cbw_gate sampleGadget (List.replicate 30 0) rfl).2.2 (by decide)

/-! ## C5: the dispatch table -/

theorem lookup_isSome_iff {β : Type} (l : List (Nat × β)) (a : Nat) :
    (l.lookup a).isSome = true ↔ a ∈ l.map Prod.fst := by
  induction l with
  | nil => simp
  | cons p rest ih =>
    obtain ⟨k, v⟩ := p
    by_cases hk : a = k
    · subst hk
      simp [List.lookup]
    · have hk2 : (a == k) = false := by simpa using hk
      simp [List.lookup, hk2, ih, hk]

theorem handlerTable_keys :
    (CUSBCDGadget.handlerTable.map Prod.fst).Perm
      [0x00, 0x03, 0x12, 0x1A, 0x1B, 0x1E, 0x25, 0x28, 0x2B, 0x2F, 0x42, 0x43, 0x45,
        0x46, 0x47, 0x4A, 0x4B, 0x4E, 0x51, 0x52, 0x55, 0x5A, 0xA4, 0xA5, 0xAC, 0xAD, 0xBB,
        0xBE, 0xD0, 0xD2, 0xD7, 0xD8, 0xD9, 0xDA] := by
  decide

/-- C5: an opcode has a handler in `m_scsi_handlers` if and only if it is one
of the 34 opcodes of the dispatch table, and then `HandleSCSICommand`
registers that handler and runs its `handle_command`; for every other opcode
`HandleSCSICommand` sets sense (0x05,0x20,0x00), sets the CSW status to FAIL,
submits the CSW and leaves no current handler. -/
theorem C5_dispatch (opcode : Nat) :
    ((CUSBCDGadget.m_scsi_handlers opcode).isSome = true ↔
      opcode ∈ [0x00, 0x03, 0x12, 0x1A, 0x1B, 0x1E, 0x25, 0x28, 0x2B, 0x2F, 0x42, 0x43, 0x45,
        0x46, 0x47, 0x4A, 0x4B, 0x4E, 0x51, 0x52, 0x55, 0x5A, 0xA4, 0xA5, 0xAC, 0xAD, 0xBB,
        0xBE, 0xD0, 0xD2, 0xD7, 0xD8, 0xD9, 0xDA])
    ∧ (∀ g : CUSBCDGadget, ∀ h, g.m_CBW.cb 0 = opcode →
        CUSBCDGadget.m_scsi_handlers opcode = some h →
        g.HandleSCSICommand
          = h.handle_command g.m_CBW { g with m_pCurrentCommandHandler := some h })
    ∧ (∀ g : CUSBCDGadget, g.m_CBW.cb 0 = opcode →
        CUSBCDGadget.m_scsi_handlers opcode = none →
        g.HandleSCSICommand.m_SenseParams
            = { bSenseKey := 0x05, bAddlSenseCode := 0x20, bAddlSenseCodeQual := 0x00 }
          ∧ g.HandleSCSICommand.m_CSW.bmCSWStatus = CD_CSW_STATUS_FAIL
          ∧ g.HandleSCSICommand.epIn
              = g.epIn ++ [Transfer.TransferCSWIn
                  { g.m_CSW with bmCSWStatus := CD_CSW_STATUS_FAIL }]
          ∧ g.HandleSCSICommand.m_nState = TCDState.SentCSW
          ∧ g.HandleSCSICommand.m_pCurrentCommandHandler = none) := by
  refine ⟨?_, ?_, ?_⟩
  · unfold CUSBCDGadget.m_scsi_handlers
    rw [lookup_isSome_iff]
    exact handlerTable_keys.mem_iff
  · intro g h hop hh
    unfold CUSBCDGadget.HandleSCSICommand
    simp only []
    rw [hop, hh]
  · intro g hop hh
    unfold CUSBCDGadget.HandleSCSICommand
    simp only []
    rw [hop, hh]
    exact ⟨rfl, rfl, rfl, rfl, rfl⟩

/-! ## C9: the TOC ends with the lead-out -/

theorem trackLoop_length (fresh : List (Nat × Nat)) (startingTrack maxE : Int) (msf : Nat)
    (tracks : List CUETrackInfo) :
    ∀ entries : List TUSBTOCEntry, (entries.length : Int) ≤ maxE - 1 →
      ((ScsiCmdReadTocPmaAtip.trackLoop fresh startingTrack maxE msf tracks entries).length : Int)
        ≤ maxE - 1 := by
  induction tracks with
  | nil => intro entries h; simpa [ScsiCmdReadTocPmaAtip.trackLoop] using h
  | cons t rest ih =>
    intro entries h
    unfold ScsiCmdReadTocPmaAtip.trackLoop
    split
    · exact ih entries h
    · split
      · exact h
      · apply ih
        rw [List.length_append, List.length_singleton]
        push_cast
        omega

theorem trackLoop_length_le (fresh : List (Nat × Nat)) (startingTrack maxE : Int) (msf : Nat)
    (tracks : List CUETrackInfo) :
    ∀ entries : List TUSBTOCEntry,
      (ScsiCmdReadTocPmaAtip.trackLoop fresh startingTrack maxE msf tracks entries).length
        ≤ entries.length + tracks.length := by
  induction tracks with
  | nil => intro entries; simp [ScsiCmdReadTocPmaAtip.trackLoop]
  | cons t rest ih =>
    intro entries
    unfold ScsiCmdReadTocPmaAtip.trackLoop
    split
    · have := ih entries
      rw [List.length_cons]
      omega
    · split
      · omega
      · have := ih (entries ++ [ScsiCmdReadTocPmaAtip.entryAt fresh entries.length
          (if t.track_mode = CUETrackMode.CUETrack_AUDIO then 0x10 else 0x14)
          (u8OfInt t.track_number) (CUSBCDGadget.GetAddress t.track_start msf false)])
        rw [List.length_append, List.length_singleton] at this
        rw [List.length_cons]
        omega

theorem max_possible_entries_pos (last start : Int) :
    1 ≤ ScsiCmdReadTocPmaAtip.max_possible_entries last start := by
  unfold ScsiCmdReadTocPmaAtip.max_possible_entries
  simp only []
  split <;> omega

theorem entries00_ends_with_leadout (g : CUSBCDGadget) (fresh : List (Nat × Nat))
    (startingTrack0 : Int) (msf : Nat) :
    ∃ tracks : List TUSBTOCEntry, tracks.length ≤ g.cueParser.length
      ∧ ScsiCmdReadTocPmaAtip.entries00 g fresh startingTrack0 msf
        = tracks ++ [ScsiCmdReadTocPmaAtip.entryAt fresh tracks.length 0x10 0xAA
            (CUSBCDGadget.GetAddress g.GetLeadoutLBA msf false)] := by
  have hpos := max_possible_entries_pos g.GetLastTrackNumber startingTrack0
  generalize hst : (if startingTrack0 = 0 then (1 : Int) else startingTrack0) = st
  generalize hmax :
    ScsiCmdReadTocPmaAtip.max_possible_entries g.GetLastTrackNumber startingTrack0 = maxE at hpos
  generalize htr : (if st ≠ 0xAA then
      ScsiCmdReadTocPmaAtip.trackLoop fresh st maxE msf g.cueParser [] else []) = tr
  have h1 : (tr.length : Int) ≤ maxE - 1 := by
    rw [← htr]
    split
    · exact trackLoop_length fresh st maxE msf g.cueParser []
        (by simp only [List.length_nil]; push_cast; omega)
    · simp only [List.length_nil]
      push_cast
      omega
  have h2 : tr.length ≤ g.cueParser.length := by
    rw [← htr]
    split
    · simpa using trackLoop_length_le fresh st maxE msf g.cueParser []
    · simp
  refine ⟨tr, h2, ?_⟩
  unfold ScsiCmdReadTocPmaAtip.entries00
  simp only [hst, hmax, htr]
  rw [if_pos (by omega)]

theorem le16_htons (v : Nat) : le16 (htons v) = be16 v := by
  unfold le16 htons be16
  have e1 : (v % 256 * 256 + v / 256 % 256) % 256 = v / 256 % 256 := by omega
  have e2 : (v % 256 * 256 + v / 256 % 256) / 256 % 256 = v % 256 := by omega
  rw [e1, e2]

theorem flatten_toBytes_length (l : List TUSBTOCEntry) :
    ((l.map TUSBTOCEntry.toBytes).flatten).length = l.length * SIZE_TOC_ENTRY := by
  induction l with
  | nil => simp
  | cons e rest ih =>
    simp only [List.map_cons, List.flatten_cons, List.length_append, ih, List.length_cons]
    simp only [TUSBTOCEntry.toBytes, le32, List.length_append, List.length_cons,
      List.length_nil, SIZE_TOC_ENTRY]
    omega

/-- C9: on a ready unit, for every CBW of Read TOC format 0x00 (any starting
track, either MSF setting) whose entry array was allocated, the bytes the
handler assembles are the 4-byte header followed by 8-byte entries, the last of
which has ADR/Control 0x10, track number 0xAA and the encoding of the lead-out
LBA as address; the transfer submitted is that reply cut to the allocation
length; and on a disc of at most 99 tracks the data-length field (bytes 0-1,
big-endian) is the length of the assembled reply minus 2, so it counts exactly
these entries. -/
theorem C9_toc_ends_with_leadout (cbw : TUSBCDCBW) (g : CUSBCDGadget)
    (fresh : List (Nat × Nat)) (hready : g.m_CDReady = true)
    (hfmt : (cbw.cb 2) &&& 0x0F = 0x00) (hheap : g.heapTocEntries = some fresh)
    (htracks : g.cueParser.length ≤ 99) :
    ∃ (tracks : List TUSBTOCEntry) (r1 r2 : Nat) (reply : List Nat),
      reply = le16 (htons (u16 (SIZE_TOC_DATA + (tracks.length + 1) * SIZE_TOC_ENTRY - 2)))
                ++ [1, u8OfInt g.GetLastTrackNumber]
                ++ (tracks.map TUSBTOCEntry.toBytes).flatten
                ++ ([r1, 0x10, 0xAA, r2]
                    ++ le32 (CUSBCDGadget.GetAddress g.GetLeadoutLBA
                        (((cbw.cb 1) >>> 1) &&& 0x01) false))
      ∧ reply.length = SIZE_TOC_DATA + (tracks.length + 1) * SIZE_TOC_ENTRY
      ∧ reply.getD 0 0 * 256 + reply.getD 1 0 = reply.length - 2
      ∧ (ScsiCmdReadTocPmaAtip.handle_command cbw g).epIn
          = g.epIn ++ [Transfer.TransferDataIn
              (reply.take (if shl16 (cbw.cb 7) (cbw.cb 8) < reply.length
                then shl16 (cbw.cb 7) (cbw.cb 8) else reply.length))] := by
  obtain ⟨tracks, hlen, he⟩ := entries00_ends_with_leadout g fresh (cbw.cb 6 : Nat)
    (((cbw.cb 1) >>> 1) &&& 0x01)
  have hreply : ScsiCmdReadTocPmaAtip.assembled g
      (ScsiCmdReadTocPmaAtip.entries00 g fresh (cbw.cb 6 : Nat) (((cbw.cb 1) >>> 1) &&& 0x01))
      = le16 (htons (u16 (SIZE_TOC_DATA + (tracks.length + 1) * SIZE_TOC_ENTRY - 2)))
          ++ [1, u8OfInt g.GetLastTrackNumber]
          ++ (tracks.map TUSBTOCEntry.toBytes).flatten
          ++ ([u8 (fresh.getD tracks.length (0, 0)).1, 0x10, 0xAA,
               u8 (fresh.getD tracks.length (0, 0)).2]
              ++ le32 (CUSBCDGadget.GetAddress g.GetLeadoutLBA
                  (((cbw.cb 1) >>> 1) &&& 0x01) false)) := by
    rw [he]
    unfold ScsiCmdReadTocPmaAtip.assembled
    simp only [List.length_append, List.length_singleton, List.map_append, List.map_cons,
      List.map_nil, List.flatten_append, List.flatten_cons, List.flatten_nil, List.append_nil,
      TUSBTOCEntry.toBytes, ScsiCmdReadTocPmaAtip.entryAt, u8, List.append_assoc]
  have hlength : (ScsiCmdReadTocPmaAtip.assembled g
      (ScsiCmdReadTocPmaAtip.entries00 g fresh (cbw.cb 6 : Nat) (((cbw.cb 1) >>> 1) &&& 0x01))).length
      = SIZE_TOC_DATA + (tracks.length + 1) * SIZE_TOC_ENTRY := by
    rw [hreply]
    simp only [List.length_append, flatten_toBytes_length, le16, le32, List.length_cons,
      List.length_nil, SIZE_TOC_DATA, SIZE_TOC_ENTRY]
    omega
  refine ⟨tracks, u8 (fresh.getD tracks.length (0, 0)).1, u8 (fresh.getD tracks.length (0, 0)).2,
    _, rfl, ?_, ?_, ?_⟩
  · rw [← hreply]
    exact hlength
  · rw [← hreply, hlength, hreply]
    have hv : SIZE_TOC_DATA + (tracks.length + 1) * SIZE_TOC_ENTRY - 2 < 65536 := by
      simp only [SIZE_TOC_DATA, SIZE_TOC_ENTRY]
      omega
    rw [show u16 (SIZE_TOC_DATA + (tracks.length + 1) * SIZE_TOC_ENTRY - 2)
        = SIZE_TOC_DATA + (tracks.length + 1) * SIZE_TOC_ENTRY - 2 from Nat.mod_eq_of_lt hv,
      le16_htons]
    simp only [be16, List.cons_append, List.getD_cons_zero, List.getD_cons_succ]
    omega
  · rw [← hreply]
    have hentries : (ScsiCmdReadTocPmaAtip.entries00 g fresh (cbw.cb 6 : Nat)
        (((cbw.cb 1) >>> 1) &&& 0x01)).length = tracks.length + 1 := by
      rw [he, List.length_append, List.length_singleton]
    unfold ScsiCmdReadTocPmaAtip.handle_command
    simp only [CUSBCDGadget.IsCDReady, hready, Bool.not_true, Bool.false_eq_true, if_false, hfmt,
      true_or, if_true, hheap, hlength, hentries]
    rfl

/-- C9 at a concrete input: the Read TOC scenario on the sample disc. -/
theorem C9_toc_ends_with_leadout_witness :
    ∃ (tracks : List TUSBTOCEntry) (r1 r2 : Nat) (reply : List Nat),
      reply = le16 (htons (u16 (SIZE_TOC_DATA + (tracks.length + 1) * SIZE_TOC_ENTRY - 2)))
                ++ [1, u8OfInt sampleGadget.GetLastTrackNumber]
                ++ (tracks.map TUSBTOCEntry.toBytes).flatten
                ++ ([r1, 0x10, 0xAA, r2]
                    ++ le32 (CUSBCDGadget.GetAddress sampleGadget.GetLeadoutLBA
                        (((tocCBW.cb 1) >>> 1) &&& 0x01) false))
      ∧ reply.length = SIZE_TOC_DATA + (tracks.length + 1) * SIZE_TOC_ENTRY
      ∧ reply.getD 0 0 * 256 + reply.getD 1 0 = reply.length - 2
      ∧ (ScsiCmdReadTocPmaAtip.handle_command tocCBW sampleGadget).epIn
          = sampleGadget.epIn ++ [Transfer.TransferDataIn
              (reply.take (if shl16 (tocCBW.cb 7) (tocCBW.cb 8) < reply.length
                then shl16 (tocCBW.cb 7) (tocCBW.cb 8) else reply.length))] :=
  C9_toc_ends_with_leadout tocCBW sampleGadget [] rfl (by decide) rfl (by decide)

/-! ## C10: the Read TOC scenario -/

/-- C10 (as stated, refuted): on the disc of the scenario (track 1 audio at
LBA 0, track 2 data at LBA 20000, lead-out 300000), Read TOC format 0x00 with
MSF = 1, starting track 0 and allocation length 20 stages 20 bytes whose header
is 00 1A 01 02, not 00 12 01 02, whose track 1 entry is 00 10 01 00 00 00 02 00,
not 00 10 01 00 00 02 00 00, and the lead-out entry the handler wrote behind
them begins 00 10 AA 00, not 00 14 AA 00. -/
theorem C10_counterexample :
    sampleGadget.GetLeadoutLBA = 300000
      ∧ (ScsiCmdReadTocPmaAtip.handle_command tocCBW sampleGadget).epIn
          = [Transfer.TransferDataIn
              [0x00, 0x1A, 0x01, 0x02, 0x00, 0x10, 0x01, 0x00, 0x00, 0x00, 0x02, 0x00,
               0x00, 0x14, 0x02, 0x00, 0x00, 0x04, 0x1C, 0x32]]
      ∧ ScsiCmdReadTocPmaAtip.assembled sampleGadget
          (ScsiCmdReadTocPmaAtip.entries00 sampleGadget [] 0 1)
          = [0x00, 0x1A, 0x01, 0x02, 0x00, 0x10, 0x01, 0x00, 0x00, 0x00, 0x02, 0x00,
             0x00, 0x14, 0x02, 0x00, 0x00, 0x04, 0x1C, 0x32,
             0x00, 0x10, 0xAA, 0x00, 0x00, 0x42, 0x2A, 0x00]
      ∧ ([0x00, 0x1A, 0x01, 0x02] : List Nat) ≠ [0x00, 0x12, 0x01, 0x02]
      ∧ ([0x00, 0x10, 0x01, 0x00, 0x00, 0x00, 0x02, 0x00] : List Nat)
          ≠ [0x00, 0x10, 0x01, 0x00, 0x00, 0x02, 0x00, 0x00]
      ∧ ([0x00, 0x10, 0xAA, 0x00] : List Nat) ≠ [0x00, 0x14, 0xAA, 0x00] := by
  refine ⟨by decide, by decide, by decide, by decide, by decide, by decide⟩

/-- The entries of the scenario: with tracks 1 (audio, LBA 0) and 2 (data,
LBA 20000), lead-out 300000 and a zero-filled allocation, the format 0x00
branch writes three entries. -/
theorem entries00_scenario (g : CUSBCDGadget) (t1 t2 : CUETrackInfo) (fresh : List (Nat × Nat))
    (hzero : ∀ i, fresh.getD i (0, 0) = (0, 0))
    (htracks : g.cueParser = [t1, t2])
    (h1n : t1.track_number = 1) (h1m : t1.track_mode = CUETrackMode.CUETrack_AUDIO)
    (h1s : t1.track_start = 0)
    (h2n : t2.track_number = 2) (h2m : t2.track_mode ≠ CUETrackMode.CUETrack_AUDIO)
    (h2s : t2.track_start = 20000)
    (hlead : g.GetLeadoutLBA = 300000) :
    g.GetLastTrackNumber = 2
      ∧ ScsiCmdReadTocPmaAtip.entries00 g fresh 0 1
        = [{ reserved := 0, ADR_Control := 0x10, TrackNumber := 1, reserved2 := 0,
             address := 0x00020000 },
           { reserved := 0, ADR_Control := 0x14, TrackNumber := 2, reserved2 := 0,
             address := 0x321C0400 },
           { reserved := 0, ADR_Control := 0x10, TrackNumber := 0xAA, reserved2 := 0,
             address := 0x002A4200 }] := by
  have hlast : g.GetLastTrackNumber = 2 := by
    simp [CUSBCDGadget.GetLastTrackNumber, htracks, h1n, h2n]
  refine ⟨hlast, ?_⟩
  have a1 : CUSBCDGadget.GetAddress 0 1 false = 0x00020000 := by decide
  have a2 : CUSBCDGadget.GetAddress 20000 1 false = 0x321C0400 := by decide
  have a3 : CUSBCDGadget.GetAddress 300000 1 false = 0x002A4200 := by decide
  have u1 : u8OfInt 1 = 1 := by decide
  have u2 : u8OfInt 2 = 2 := by decide
  simp [ScsiCmdReadTocPmaAtip.entries00, ScsiCmdReadTocPmaAtip.max_possible_entries,
    ScsiCmdReadTocPmaAtip.trackLoop, ScsiCmdReadTocPmaAtip.entryAt, hlast, htracks, h1n, h1m,
    h1s, h2n, h2m, h2s, hlead, a1, a2, a3, u1, u2]
  have h0 := hzero 0
  have h1 := hzero 1
  have h2 := hzero 2
  simp only [List.getD_eq_getElem?_getD] at h0 h1 h2
  have e : ((0 : Nat), (0 : Nat)) = 0 := rfl
  rw [e] at h0 h1 h2
  rw [h0, h1, h2]
  exact ⟨⟨rfl, rfl⟩, ⟨rfl, rfl⟩, rfl, rfl⟩

/-- C10 (amended): on a ready disc with track 1 (audio, LBA 0), track 2 (data,
LBA 20000) and lead-out LBA 300000, Read TOC format 0x00 with MSF = 1, starting
track 0 and allocation length 20 assembles (over a zero-filled allocation) the
28 bytes: header 00 1A 01 02, track 1 entry 00 10 01 00 00 00 02 00, track 2
entry 00 14 02 00 followed by 00 04 1C 32 (the MSF of 20150), lead-out entry
00 10 AA 00 followed by 00 42 2A 00 (the MSF of 300150); the first 20 of them
(header and both track entries) are staged as the data-in transfer. -/
theorem C10_toc_scenario (cbw : TUSBCDCBW) (g : CUSBCDGadget) (t1 t2 : CUETrackInfo)
    (fresh : List (Nat × Nat))
    (hready : g.IsCDReady = true)
    (hheap : g.heapTocEntries = some fresh)
    (hzero : ∀ i, fresh.getD i (0, 0) = (0, 0))
    (htracks : g.cueParser = [t1, t2])
    (h1n : t1.track_number = 1) (h1m : t1.track_mode = CUETrackMode.CUETrack_AUDIO)
    (h1s : t1.track_start = 0)
    (h2n : t2.track_number = 2) (h2m : t2.track_mode ≠ CUETrackMode.CUETrack_AUDIO)
    (h2s : t2.track_start = 20000)
    (hlead : g.GetLeadoutLBA = 300000)
    (hmsf : ((cbw.cb 1) >>> 1) &&& 0x01 = 1)
    (hfmt : (cbw.cb 2) &&& 0x0F = 0x00)
    (hstart : cbw.cb 6 = 0)
    (halloc : shl16 (cbw.cb 7) (cbw.cb 8) = 20) :
    ScsiCmdReadTocPmaAtip.assembled g
        (ScsiCmdReadTocPmaAtip.entries00 g fresh ((cbw.cb 6 : Nat) : Int)
          (((cbw.cb 1) >>> 1) &&& 0x01))
        = [0x00, 0x1A, 0x01, 0x02,
           0x00, 0x10, 0x01, 0x00, 0x00, 0x00, 0x02, 0x00,
           0x00, 0x14, 0x02, 0x00, 0x00, 0x04, 0x1C, 0x32,
           0x00, 0x10, 0xAA, 0x00, 0x00, 0x42, 0x2A, 0x00]
      ∧ le32 (CUSBCDGadget.lba_to_msf 20000 false) = [0x00, 20150 / 4500,
            20150 % 4500 / 75, 20150 % 75]
      ∧ le32 (CUSBCDGadget.lba_to_msf 300000 false) = [0x00, 300150 / 4500,
            300150 % 4500 / 75, 300150 % 75]
      ∧ (ScsiCmdReadTocPmaAtip.handle_command cbw g).epIn
          = g.epIn ++ [Transfer.TransferDataIn
              [0x00, 0x1A, 0x01, 0x02,
               0x00, 0x10, 0x01, 0x00, 0x00, 0x00, 0x02, 0x00,
               0x00, 0x14, 0x02, 0x00, 0x00, 0x04, 0x1C, 0x32]]
      ∧ (ScsiCmdReadTocPmaAtip.handle_command cbw g).m_nState = TCDState.DataIn := by
  obtain ⟨hlast, hent⟩ := entries00_scenario g t1 t2 fresh hzero htracks h1n h1m h1s h2n h2m h2s
    hlead
  have hasm : ScsiCmdReadTocPmaAtip.assembled g
      (ScsiCmdReadTocPmaAtip.entries00 g fresh ((cbw.cb 6 : Nat) : Int)
        (((cbw.cb 1) >>> 1) &&& 0x01))
      = [0x00, 0x1A, 0x01, 0x02,
         0x00, 0x10, 0x01, 0x00, 0x00, 0x00, 0x02, 0x00,
         0x00, 0x14, 0x02, 0x00, 0x00, 0x04, 0x1C, 0x32,
         0x00, 0x10, 0xAA, 0x00, 0x00, 0x42, 0x2A, 0x00] := by
    rw [hstart, hmsf]
    have e0 : ((0 : Nat) : Int) = 0 := rfl
    rw [e0, hent]
    unfold ScsiCmdReadTocPmaAtip.assembled
    rw [hlast]
    decide
  have hlen : (ScsiCmdReadTocPmaAtip.entries00 g fresh ((cbw.cb 6 : Nat) : Int)
        (((cbw.cb 1) >>> 1) &&& 0x01)).length = 3 := by
    rw [hstart, hmsf]
    have e0 : ((0 : Nat) : Int) = 0 := rfl
    rw [e0, hent]
    rfl
  refine ⟨hasm, by decide, by decide, ?_, ?_⟩
  · unfold ScsiCmdReadTocPmaAtip.handle_command
    simp only [hready, hfmt, hheap, halloc, hasm, hlen, Bool.not_true, Bool.false_eq_true,
      if_false, true_or, if_true, ScsiCommandHandler.begin_data_in_transfer,
      CUSBCDGadget.StartDataInTransfer]
    rfl
  · unfold ScsiCmdReadTocPmaAtip.handle_command
    simp only [hready, hfmt, hheap, Bool.not_true, Bool.false_eq_true,
      if_false, true_or, if_true]

/-- C10 (amended) at a concrete input: the sample disc and the CBW of the
scenario. -/
theorem C10_toc_scenario_witness :
    (ScsiCmdReadTocPmaAtip.handle_command tocCBW sampleGadget).epIn
      = sampleGadget.epIn ++ [Transfer.TransferDataIn
          [0x00, 0x1A, 0x01, 0x02,
           0x00, 0x10, 0x01, 0x00, 0x00, 0x00, 0x02, 0x00,
           0x00, 0x14, 0x02, 0x00, 0x00, 0x04, 0x1C, 0x32]] :=
  (C10_toc_scenario tocCBW sampleGadget
    { track_number := 1, track_mode := CUETrackMode.CUETrack_AUDIO, track_start := 0,
      data_start := 0, file_offset := 0 }
    { track_number := 2, track_mode := CUETrackMode.CUETrack_MODE1_2048, track_start := 20000,
      data_start := 20000, file_offset := 47040000 }
    [] rfl rfl (fun _ => rfl) rfl rfl rfl rfl rfl (by decide) rfl (by decide)
    (by decide) (by decide) rfl (by decide)).2.2.2.1

/-! ## C2: the data residue -/

/-- C2 (the code at a failing input): a standard Inquiry with allocation
length 36 and dCBWDataTransferLength 64 submits 36 bytes of data and then a CSW
whose dCSWDataResidue is 0, although 64 - 36 = 28 bytes were not transferred;
the residue field still holds what it held before the command. -/
theorem C2_residue_not_computed :
    validCBW inquiryCBW.toBytes = true
      ∧ inquiryCBW.dCBWDataTransferLength = 64
      ∧ (dataIns (run sampleGadget
            [Event.OutComplete inquiryCBW.toBytes, Event.InComplete 36]).epIn).map List.length
          = [36]
      ∧ csws (run sampleGadget
            [Event.OutComplete inquiryCBW.toBytes, Event.InComplete 36]).epIn
          = [{ dCSWSignature := 0x53425355, dCSWTag := 7,
               dCSWDataResidue := sampleGadget.m_CSW.dCSWDataResidue,
               bmCSWStatus := CD_CSW_STATUS_OK }]
      ∧ sampleGadget.m_CSW.dCSWDataResidue = 0
      ∧ sampleGadget.m_CSW.dCSWDataResidue ≠ 64 - 36 := by
  refine ⟨by decide, rfl, by decide, by decide, rfl, by decide⟩

/-! ## C7: Read CD (Mode 1) against Read(10) -/

/-- C7 (code divergence): on the sample disc (track 1 audio with 2352-byte
blocks, track 2 Mode 1/2048 from LBA 20000) the two read paths set up
different physical block sizes for the same block at LBA 20000: Read(10)
takes 2352, the block size of the first track, while Read CD with expected
sector type Mode 1 (byte 9 = 0x10, user data only; the same with 0x20) takes
2048, the block size of the track at the LBA. Both seek to block size times
LBA, so the Read(10) payload starts 5A 5B 5C 5D (image offset 47040000) and
the Read CD payload starts 3F 40 41 42 (image offset 40960000): the payloads
of the two commands differ for the same LBA range. -/
theorem C7_read_paths_disagree :
    validCBW read10CBW.toBytes = true ∧ validCBW (readCDCBW 0x10).toBytes = true
      ∧ ((readCDCBW 0x10).cb 1 >>> 2) &&& 0x07 = 0x02
      ∧ geometry (step sampleGadget (Event.OutComplete read10CBW.toBytes)) = (2352, 2048, 0)
      ∧ geometry (step sampleGadget (Event.OutComplete (readCDCBW 0x10).toBytes))
          = (2048, 2048, 0)
      ∧ (dataIns (run sampleGadget [Event.OutComplete read10CBW.toBytes,
            Event.Update sampleGadget.m_pDevice]).epIn).map (fun d => d.take 4)
          = [[0x5A, 0x5B, 0x5C, 0x5D]]
      ∧ (dataIns (run sampleGadget [Event.OutComplete (readCDCBW 0x10).toBytes,
            Event.Update sampleGadget.m_pDevice]).epIn).map (fun d => d.take 4)
          = [[0x3F, 0x40, 0x41, 0x42]]
      ∧ (dataIns (run sampleGadget [Event.OutComplete (readCDCBW 0x20).toBytes,
            Event.Update sampleGadget.m_pDevice]).epIn).map (fun d => d.take 4)
          = [[0x3F, 0x40, 0x41, 0x42]] := by
  refine ⟨by decide, by decide, by decide, by decide, by decide, ?_, ?_, ?_⟩
  · set_option maxRecDepth 1000000 in decide
  · set_option maxRecDepth 1000000 in decide
  · set_option maxRecDepth 1000000 in decide

theorem onTransferIn_retarget (g : CUSBCDGadget) (h : Option ScsiCommandHandler) (m : Nat)
    (f : Bool) (n : Nat) :
    CUSBCDGadget.OnTransferComplete (retarget g h m f) true n
      = retarget (CUSBCDGadget.OnTransferComplete g true n) h m f := by
  unfold CUSBCDGadget.OnTransferComplete
  simp only [if_true]
  have hs : (retarget g h m f).m_nState = g.m_nState := rfl
  rw [hs]
  cases g.m_nState
  · rfl
  · rfl
  · simp only [CUSBCDGadget.onDataInComplete]
    have e1 : (retarget g h m f).m_nnumber_blocks = g.m_nnumber_blocks := rfl
    have e2 : (retarget g h m f).m_CDReady = g.m_CDReady := rfl
    rw [e1, e2]
    split_ifs <;> rfl
  · rfl
  · rfl
  · rfl
  · rfl

theorem readFail_retarget (g : CUSBCDGadget) (h : Option ScsiCommandHandler) (m : Nat)
    (f : Bool) (a b c : Nat) :
    readFail (retarget g h m f) a b c = retarget (readFail g a b c) none m f := rfl

theorem readFail_handler (g : CUSBCDGadget) (a b c : Nat) :
    (readFail g a b c).m_pCurrentCommandHandler = none := rfl

theorem copyBlocks_retarget (g : CUSBCDGadget) (h : Option ScsiCommandHandler) (m : Nat)
    (f : Bool) (blocks : Nat) (hle : g.transfer_block_size ≤ g.block_size) :
    ScsiCmdReadCD.copyBlocks (retarget g h m f) blocks = ScsiCmdRead10.copyBlocks g blocks := by
  unfold ScsiCmdReadCD.copyBlocks ScsiCmdRead10.copyBlocks
  congr 2
  funext i
  unfold ScsiCmdReadCD.copyBlock
  have e1 : (retarget g h m f).transfer_block_size = g.transfer_block_size := rfl
  have e2 : (retarget g h m f).block_size = g.block_size := rfl
  rw [e1, e2, if_neg (Nat.not_lt.mpr hle)]
  rfl

theorem blocksThisIteration_pos (g : CUSBCDGadget) (hmax : 0 < g.k.MaxBlocksToRead)
    (hn : 0 < g.m_nnumber_blocks) :
    0 < ScsiCmdRead10.blocksThisIteration g
      ∧ ScsiCmdRead10.blocksThisIteration g ≤ g.k.MaxBlocksToRead
      ∧ ScsiCmdRead10.blocksThisIteration g ≤ g.m_nnumber_blocks := by
  unfold ScsiCmdRead10.blocksThisIteration
  split_ifs with h
  · exact ⟨hmax, le_refl _, le_of_lt h⟩
  · exact ⟨hn, Nat.not_lt.mp h, le_refl _⟩

theorem readStep_twin (g : CUSBCDGadget) (m : Nat) (f : Bool) (pos : Nat)
    (hh : g.m_pCurrentCommandHandler = some ScsiCommandHandler.ScsiCmdRead10)
    (ht : g.transfer_block_size = 2048) (hb : 2048 ≤ g.block_size)
    (hmax : 0 < g.k.MaxBlocksToRead) (hfit : g.k.MaxBlocksToRead * g.block_size < 4294967296)
    (hn : 0 < g.m_nnumber_blocks) :
    ReadTwin (ScsiCmdRead10.readStep g pos)
      (ScsiCmdReadCD.readStep (retarget g (some ScsiCommandHandler.ScsiCmdReadCD) m f) pos) := by
  obtain ⟨hpos, hlemax, _⟩ := blocksThisIteration_pos g hmax hn
  have hto : 0 < u32 (ScsiCmdRead10.blocksThisIteration g * g.block_size) := by
    have h1 : ScsiCmdRead10.blocksThisIteration g * g.block_size
        ≤ g.k.MaxBlocksToRead * g.block_size := Nat.mul_le_mul_right _ hlemax
    have h2 : 0 < ScsiCmdRead10.blocksThisIteration g * g.block_size :=
      Nat.mul_pos hpos (by omega)
    unfold u32
    rw [Nat.mod_eq_of_lt (by omega)]
    exact h2
  unfold ScsiCmdRead10.readStep ScsiCmdReadCD.readStep
  have eb : ScsiCmdRead10.blocksThisIteration
      (retarget g (some ScsiCommandHandler.ScsiCmdReadCD) m f)
      = ScsiCmdRead10.blocksThisIteration g := rfl
  have ebs : (retarget g (some ScsiCommandHandler.ScsiCmdReadCD) m f).block_size
      = g.block_size := rfl
  simp only [eb, ebs]
  generalize hto' : u32 (ScsiCmdRead10.blocksThisIteration g * g.block_size) = toRead at hto
  have er : readIntoFileChunk (retarget g (some ScsiCommandHandler.ScsiCmdReadCD) m f) pos toRead
      = ((readIntoFileChunk g pos toRead).1,
          retarget (readIntoFileChunk g pos toRead).2
            (some ScsiCommandHandler.ScsiCmdReadCD) m f) := rfl
  rw [er]
  simp only []
  generalize hr : readIntoFileChunk g pos toRead = r
  have hr2 : r.2.m_pCurrentCommandHandler = some ScsiCommandHandler.ScsiCmdRead10 := by
    rw [← hr]; exact hh
  have hr3 : r.2.transfer_block_size = 2048 := by rw [← hr]; exact ht
  have hr4 : r.2.block_size = g.block_size := by rw [← hr]; rfl
  have hr5 : r.2.k = g.k := by rw [← hr]; rfl
  by_cases c1 : r.1 < 0
  · rw [if_pos c1, if_pos (Or.inl (le_of_lt c1)), readFail_retarget]
    exact Or.inr ⟨m, f, rfl, rfl⟩
  · rw [if_neg c1]
    by_cases c2 : r.1 = 0
    · rw [if_pos ⟨c2, hto⟩, if_pos (Or.inl (le_of_eq c2)), readFail_retarget]
      exact Or.inr ⟨m, f, rfl, rfl⟩
    · rw [if_neg (fun h => c2 h.1)]
      by_cases c3 : u32OfInt r.1 < toRead
      · rw [if_pos c3, if_pos (Or.inr c3), readFail_retarget]
        exact Or.inr ⟨m, f, rfl, rfl⟩
      · rw [if_neg c3, if_neg (by
          intro h
          rcases h with h | h
          · omega
          · exact c3 h)]
        rw [copyBlocks_retarget _ _ _ _ _ (by rw [hr3, hr4]; exact hb)]
        refine Or.inl ⟨m, f || ScsiCmdReadCD.copyFault
          (retarget r.2 (some ScsiCommandHandler.ScsiCmdReadCD) m f)
          (ScsiCmdRead10.blocksThisIteration g), rfl, hr2, hr3, ?_, ?_, ?_, ?_⟩
        · show 2048 ≤ r.2.block_size
          rw [hr4]; exact hb
        · show 0 < r.2.k.MaxBlocksToRead
          rw [hr5]; exact hmax
        · show r.2.k.MaxBlocksToRead * r.2.block_size < 4294967296
          rw [hr5, hr4]; exact hfit
        · intro h
          exact TCDState.noConfusion (show TCDState.DataIn = TCDState.DataInRead from h)

theorem update_twin (g : CUSBCDGadget) (m : Nat) (f : Bool)
    (hh : g.m_pCurrentCommandHandler = some ScsiCommandHandler.ScsiCmdRead10)
    (ht : g.transfer_block_size = 2048) (hb : 2048 ≤ g.block_size)
    (hmax : 0 < g.k.MaxBlocksToRead) (hfit : g.k.MaxBlocksToRead * g.block_size < 4294967296)
    (hn : g.m_nState = TCDState.DataInRead → 0 < g.m_nnumber_blocks) :
    ReadTwin (ScsiCmdRead10.update g)
      (ScsiCmdReadCD.update (retarget g (some ScsiCommandHandler.ScsiCmdReadCD) m f)) := by
  unfold ScsiCmdRead10.update ScsiCmdReadCD.update
  have e1 : (retarget g (some ScsiCommandHandler.ScsiCmdReadCD) m f).m_nState = g.m_nState := rfl
  have e2 : (retarget g (some ScsiCommandHandler.ScsiCmdReadCD) m f).IsCDReady = g.IsCDReady := rfl
  have e3 : (retarget g (some ScsiCommandHandler.ScsiCmdReadCD) m f).m_nnumber_blocks
      = g.m_nnumber_blocks := rfl
  have e4 : (retarget g (some ScsiCommandHandler.ScsiCmdReadCD) m f).block_size
      = g.block_size := rfl
  have e5 : (retarget g (some ScsiCommandHandler.ScsiCmdReadCD) m f).m_nblock_address
      = g.m_nblock_address := rfl
  have e6 : (retarget g (some ScsiCommandHandler.ScsiCmdReadCD) m f).m_pDevice
      = g.m_pDevice := rfl
  simp only [e1, e2, e3, e4, e5, e6]
  by_cases c0 : g.m_nState ≠ TCDState.DataInRead
  · rw [if_pos c0, if_pos c0]
    exact Or.inl ⟨m, f, rfl, hh, ht, hb, hmax, hfit, hn⟩
  · rw [if_neg c0, if_neg c0]
    have hst : g.m_nState = TCDState.DataInRead := not_not.mp c0
    have hpos := hn hst
    by_cases c1 : (!g.IsCDReady) = true
    · rw [if_pos c1, if_pos c1, readFail_retarget]
      exact Or.inr ⟨m, f, rfl, rfl⟩
    · have hne : ¬ g.m_nnumber_blocks = 0 := by omega
      rw [if_neg c1, if_neg c1]
      simp only [e3, e4, e5, e6, if_neg hne]
      split_ifs with c2
      · rw [readFail_retarget]
        exact Or.inr ⟨m, f, rfl, rfl⟩
      · exact readStep_twin g m f _ hh ht hb hmax hfit hpos

theorem onTransferIn_fields (g : CUSBCDGadget) (n : Nat) :
    (CUSBCDGadget.OnTransferComplete g true n).m_pCurrentCommandHandler
        = g.m_pCurrentCommandHandler
      ∧ (CUSBCDGadget.OnTransferComplete g true n).transfer_block_size = g.transfer_block_size
      ∧ (CUSBCDGadget.OnTransferComplete g true n).block_size = g.block_size
      ∧ (CUSBCDGadget.OnTransferComplete g true n).k = g.k
      ∧ (CUSBCDGadget.OnTransferComplete g true n).m_nnumber_blocks = g.m_nnumber_blocks
      ∧ ((CUSBCDGadget.OnTransferComplete g true n).m_nState = TCDState.DataInRead →
          g.m_nState = TCDState.DataInRead ∨ 0 < g.m_nnumber_blocks) := by
  unfold CUSBCDGadget.OnTransferComplete
  simp only [if_true]
  cases hs : g.m_nState
  · exact ⟨rfl, rfl, rfl, rfl, rfl, fun h => Or.inl (hs ▸ h)⟩
  · exact ⟨rfl, rfl, rfl, rfl, rfl, fun h => Or.inl (hs ▸ h)⟩
  · simp only [CUSBCDGadget.onDataInComplete]
    split_ifs with c1 c2
    · exact ⟨rfl, rfl, rfl, rfl, rfl, fun _ => Or.inr c1.1⟩
    · exact ⟨rfl, rfl, rfl, rfl, rfl, fun _ => Or.inr c2.1⟩
    · exact ⟨rfl, rfl, rfl, rfl, rfl, fun h => TCDState.noConfusion
        (show TCDState.SentCSW = TCDState.DataInRead from h)⟩
  · exact ⟨rfl, rfl, rfl, rfl, rfl, fun _ => Or.inl rfl⟩
  · exact ⟨rfl, rfl, rfl, rfl, rfl, fun h => Or.inl (hs ▸ h)⟩
  · exact ⟨rfl, rfl, rfl, rfl, rfl, fun h => TCDState.noConfusion
      (show TCDState.SentCSW = TCDState.DataInRead from h)⟩
  · exact ⟨rfl, rfl, rfl, rfl, rfl, fun h => TCDState.noConfusion
      (show TCDState.ReceiveCBW = TCDState.DataInRead from h)⟩

theorem step_twin (g1 g2 : CUSBCDGadget) (e : Event) (h : ReadTwin g1 g2)
    (he : isReadEvent e = true) : ReadTwin (step g1 e) (step g2 e) := by
  cases e with
  | OutComplete data => exact Bool.noConfusion (show false = true from he)
  | InComplete n =>
    show ReadTwin (CUSBCDGadget.OnTransferComplete g1 true n)
      (CUSBCDGadget.OnTransferComplete g2 true n)
    obtain ⟨f1, f2, f3, f4, f5, f6⟩ := onTransferIn_fields g1 n
    rcases h with ⟨m, f, rfl, hh, ht, hb, hmax, hfit, hn⟩ | ⟨m, f, rfl, hh⟩
    · rw [onTransferIn_retarget]
      refine Or.inl ⟨m, f, rfl, by rw [f1]; exact hh, by rw [f2]; exact ht,
        by rw [f3]; exact hb, by rw [f4]; exact hmax, by rw [f4, f3]; exact hfit, ?_⟩
      intro hst
      rw [f5]
      rcases f6 hst with h1 | h1
      · exact hn h1
      · exact h1
    · rw [onTransferIn_retarget]
      exact Or.inr ⟨m, f, rfl, by rw [f1]; exact hh⟩
  | Update dev =>
    rcases h with ⟨m, f, rfl, hh, ht, hb, hmax, hfit, hn⟩ | ⟨m, f, rfl, hh⟩
    · have e1 : step g1 (Event.Update dev)
          = ScsiCmdRead10.update { g1 with m_pDevice := dev } := by
        show CUSBCDGadget.Update { g1 with m_pDevice := dev } = _
        unfold CUSBCDGadget.Update
        simp only [hh]
        rfl
      have e2 : step (retarget g1 (some ScsiCommandHandler.ScsiCmdReadCD) m f) (Event.Update dev)
          = ScsiCmdReadCD.update
              (retarget { g1 with m_pDevice := dev } (some ScsiCommandHandler.ScsiCmdReadCD) m f) :=
        rfl
      rw [e1, e2]
      exact update_twin _ m f hh ht hb hmax hfit hn
    · have e1 : step g1 (Event.Update dev) = { g1 with m_pDevice := dev } := by
        show CUSBCDGadget.Update { g1 with m_pDevice := dev } = _
        unfold CUSBCDGadget.Update
        simp only [hh]
      have e2 : step (retarget g1 none m f) (Event.Update dev)
          = retarget { g1 with m_pDevice := dev } none m f := rfl
      rw [e1, e2]
      exact Or.inr ⟨m, f, rfl, hh⟩

theorem run_twin (es : List Event) (g1 g2 : CUSBCDGadget) (h : ReadTwin g1 g2)
    (he : es.all isReadEvent = true) : ReadTwin (run g1 es) (run g2 es) := by
  induction es generalizing g1 g2 with
  | nil => exact h
  | cons e es ih =>
    rw [List.all_cons, Bool.and_eq_true] at he
    exact ih (step g1 e) (step g2 e) (step_twin g1 g2 e h he.1) he.2

theorem twin_epIn (g1 g2 : CUSBCDGadget) (h : ReadTwin g1 g2) : g2.epIn = g1.epIn := by
  rcases h with ⟨m, f, rfl, _⟩ | ⟨m, f, rfl, _⟩ <;> rfl

theorem blocksize_ge (t : CUETrackInfo) (h : CUSBCDGadget.GetBlocksizeForTrack t ≠ 0) :
    2048 ≤ CUSBCDGadget.GetBlocksizeForTrack t := by
  revert h
  unfold CUSBCDGadget.GetBlocksizeForTrack
  cases t.track_mode <;> simp

theorem deriveBlocks_retarget (g : CUSBCDGadget) (h : Option ScsiCommandHandler) (m : Nat)
    (f : Bool) :
    ScsiCmdRead10.deriveBlocks (retarget g h m f) = retarget (ScsiCmdRead10.deriveBlocks g) h m f := by
  unfold ScsiCmdRead10.deriveBlocks
  have e1 : (retarget g h m f).m_nnumber_blocks = g.m_nnumber_blocks := rfl
  have e2 : (retarget g h m f).m_nbyteCount = g.m_nbyteCount := rfl
  simp only [e1, e2]
  split_ifs <;> rfl

theorem deriveBlocks_fields (g : CUSBCDGadget) :
    (ScsiCmdRead10.deriveBlocks g).transfer_block_size = g.transfer_block_size
      ∧ (ScsiCmdRead10.deriveBlocks g).block_size = g.block_size
      ∧ (ScsiCmdRead10.deriveBlocks g).k = g.k := by
  unfold ScsiCmdRead10.deriveBlocks
  simp only []
  split_ifs <;> exact ⟨rfl, rfl, rfl⟩

theorem read10_handle_eq (cbw : TUSBCDCBW) (g : CUSBCDGadget) (hr : g.IsCDReady = true) :
    ScsiCmdRead10.handle_command cbw g
      = if (ScsiCmdRead10.deriveBlocks (ScsiCmdRead10.parse cbw g)).m_nnumber_blocks = 0 then
          ScsiCmdRead10.finishEmpty cbw (ScsiCmdRead10.deriveBlocks (ScsiCmdRead10.parse cbw g))
        else
          { ScsiCmdRead10.deriveBlocks (ScsiCmdRead10.parse cbw g) with
              m_nState := TCDState.DataInRead,
              m_pCurrentCommandHandler := some ScsiCommandHandler.ScsiCmdRead10 } := by
  unfold ScsiCmdRead10.handle_command
  rw [if_pos hr]

theorem readcd_start_eq (cbw : TUSBCDCBW) (G0 : CUSBCDGadget) (h : Option ScsiCommandHandler)
    (m : Nat) (f : Bool) (ht : G0.transfer_block_size = 2048) :
    ScsiCmdReadCD.start cbw (retarget G0 h m f)
      = if (ScsiCmdRead10.deriveBlocks
            { G0 with m_nbyteCount := cbw.dCBWDataTransferLength }).m_nnumber_blocks = 0 then
          retarget (ScsiCmdRead10.finishEmpty cbw (ScsiCmdRead10.deriveBlocks
            { G0 with m_nbyteCount := cbw.dCBWDataTransferLength })) none m f
        else
          retarget { ScsiCmdRead10.deriveBlocks
              { G0 with m_nbyteCount := cbw.dCBWDataTransferLength } with
              m_nState := TCDState.DataInRead } (some ScsiCommandHandler.ScsiCmdReadCD) m f := by
  have key : ScsiCmdReadCD.start cbw (retarget G0 h m f)
      = (if (retarget { G0 with m_nbyteCount := cbw.dCBWDataTransferLength } h m f).m_nnumber_blocks = 0
            ∧ (retarget { G0 with m_nbyteCount := cbw.dCBWDataTransferLength } h m f).m_nbyteCount > 0
            ∧ ¬ ((retarget { G0 with m_nbyteCount := cbw.dCBWDataTransferLength } h m
                  f).transfer_block_size > 0) then
          ScsiCmdReadCD.invalidField
            (retarget { G0 with m_nbyteCount := cbw.dCBWDataTransferLength } h m f)
        else if (ScsiCmdRead10.deriveBlocks
            (retarget { G0 with m_nbyteCount := cbw.dCBWDataTransferLength } h m
              f)).m_nnumber_blocks = 0 then
          ScsiCmdRead10.finishEmpty cbw (ScsiCmdRead10.deriveBlocks
            (retarget { G0 with m_nbyteCount := cbw.dCBWDataTransferLength } h m f))
        else
          { ScsiCmdRead10.deriveBlocks
              (retarget { G0 with m_nbyteCount := cbw.dCBWDataTransferLength } h m f) with
              m_nState := TCDState.DataInRead,
              m_pCurrentCommandHandler := some ScsiCommandHandler.ScsiCmdReadCD }) := rfl
  have htb : (retarget { G0 with m_nbyteCount := cbw.dCBWDataTransferLength } h m
      f).transfer_block_size = 2048 := ht
  rw [key, if_neg (by rw [htb]; intro c; exact c.2.2 (by decide)), deriveBlocks_retarget]
  by_cases hz : (ScsiCmdRead10.deriveBlocks
      { G0 with m_nbyteCount := cbw.dCBWDataTransferLength }).m_nnumber_blocks = 0
  · rw [if_pos hz, if_pos (show (retarget _ h m f).m_nnumber_blocks = 0 from hz)]
    rfl
  · rw [if_neg hz, if_neg (show ¬ (retarget _ h m f).m_nnumber_blocks = 0 from hz)]
    rfl

theorem handle_command_twin (g : CUSBCDGadget) (cbw10 cbwCD : TUSBCDCBW)
    (hest : ((cbwCD.cb 1) >>> 2) &&& 0x07 = 0x02)
    (h2 : cbwCD.cb 2 = cbw10.cb 2) (h3 : cbwCD.cb 3 = cbw10.cb 3)
    (h4 : cbwCD.cb 4 = cbw10.cb 4) (h5 : cbwCD.cb 5 = cbw10.cb 5)
    (h6 : cbwCD.cb 6 = 0) (h7 : cbwCD.cb 7 = cbw10.cb 7) (h8 : cbwCD.cb 8 = cbw10.cb 8)
    (hlen : cbwCD.dCBWDataTransferLength = cbw10.dCBWDataTransferLength)
    (hbs : CUSBCDGadget.GetBlocksizeForTrack (g.GetTrackInfoForLBA
        (shl32 (cbw10.cb 2) (cbw10.cb 3) (cbw10.cb 4) (cbw10.cb 5))) = g.data_block_size)
    (hsk : CUSBCDGadget.GetSkipbytesForTrack (g.GetTrackInfoForLBA
        (shl32 (cbw10.cb 2) (cbw10.cb 3) (cbw10.cb 4) (cbw10.cb 5))) = g.data_skip_bytes)
    (hnz : g.data_block_size ≠ 0)
    (hmax : 0 < g.k.MaxBlocksToRead)
    (hfit : g.k.MaxBlocksToRead * g.data_block_size < 4294967296) :
    ReadTwin (ScsiCmdRead10.handle_command cbw10 g) (ScsiCmdReadCD.handle_command cbwCD g) := by
  have hge : 2048 ≤ g.data_block_size := by
    rw [← hbs] at hnz ⊢
    exact blocksize_ge _ hnz
  by_cases hr : g.IsCDReady = true
  · have hr' : ¬ ((!g.IsCDReady) = true) := by simp [hr]
    rw [read10_handle_eq cbw10 g hr]
    unfold ScsiCmdReadCD.handle_command
    rw [if_neg hr']
    simp only [hest]
    -- the read context after the sector-type switch is the one Read(10) sets up
    have hsel : ScsiCmdReadCD.selectSectorType (ScsiCmdReadCD.parse cbwCD g) 2
        = retarget { ScsiCmdRead10.parse cbw10 g with m_nbyteCount := g.m_nbyteCount }
            g.m_pCurrentCommandHandler (((cbwCD.cb 9) >>> 3) &&& 0x1F) g.fault := by
      unfold ScsiCmdReadCD.selectSectorType
      simp only [show ((2 : Nat) = 0x01) = False from by decide, if_false, if_true]
      have ea : (ScsiCmdReadCD.parse cbwCD g).m_nblock_address
          = shl32 (cbw10.cb 2) (cbw10.cb 3) (cbw10.cb 4) (cbw10.cb 5) := by
        show shl32 (cbwCD.cb 2) (cbwCD.cb 3) (cbwCD.cb 4) (cbwCD.cb 5) = _
        rw [h2, h3, h4, h5]
      have et : (ScsiCmdReadCD.parse cbwCD g).GetTrackInfoForLBA
            (ScsiCmdReadCD.parse cbwCD g).m_nblock_address
          = g.GetTrackInfoForLBA (shl32 (cbw10.cb 2) (cbw10.cb 3) (cbw10.cb 4) (cbw10.cb 5)) := by
        rw [ea]; rfl
      rw [et, hbs, hsk]
      unfold ScsiCmdReadCD.parse ScsiCmdRead10.parse retarget
      simp only [h2, h3, h4, h5, h6, h7, h8, Nat.zero_shiftLeft, Nat.zero_or]
    rw [hsel, readcd_start_eq _ _ _ _ _ rfl, hlen]
    have hG : ({ ({ ScsiCmdRead10.parse cbw10 g with m_nbyteCount := g.m_nbyteCount } :
          CUSBCDGadget) with m_nbyteCount := cbw10.dCBWDataTransferLength } : CUSBCDGadget)
        = ScsiCmdRead10.parse cbw10 g := rfl
    obtain ⟨d1, d2, d3⟩ := deriveBlocks_fields (ScsiCmdRead10.parse cbw10 g)
    have hfe : ∀ G, ScsiCmdRead10.finishEmpty cbwCD G = ScsiCmdRead10.finishEmpty cbw10 G := by
      intro G
      unfold ScsiCmdRead10.finishEmpty
      rw [hlen]
    rw [hG, hfe]
    generalize ScsiCmdRead10.deriveBlocks (ScsiCmdRead10.parse cbw10 g) = G at d1 d2 d3
    by_cases hz : G.m_nnumber_blocks = 0
    · rw [if_pos hz, if_pos hz]
      exact Or.inr ⟨((cbwCD.cb 9) >>> 3) &&& 0x1F, g.fault, rfl, rfl⟩
    · rw [if_neg hz, if_neg hz]
      refine Or.inl ⟨((cbwCD.cb 9) >>> 3) &&& 0x1F, g.fault, rfl, rfl, ?_, ?_, ?_, ?_, ?_⟩
      · show G.transfer_block_size = 2048
        rw [d1]; rfl
      · show 2048 ≤ G.block_size
        rw [d2]; exact hge
      · show 0 < G.k.MaxBlocksToRead
        rw [d3]; exact hmax
      · show G.k.MaxBlocksToRead * G.block_size < 4294967296
        rw [d3, d2]; exact hfit
      · intro _
        exact Nat.pos_of_ne_zero hz
  · have hr' : (!g.IsCDReady) = true := by simp [hr]
    unfold ScsiCmdRead10.handle_command ScsiCmdReadCD.handle_command
    rw [if_neg hr, if_pos hr']
    exact Or.inr ⟨_, _, rfl, rfl⟩

/-- Where the two read paths agree: when the track at the starting LBA has the
block size and the skip bytes Read(10) uses (those of the first track,
`data_block_size` and `data_skip_bytes`), that block size is not 0 and a chunk
of MaxBlocksToRead >= 1 blocks fits a u32, then Read CD with expected sector
type Mode 1 (any main-channel selection) and Read(10) with the same LBA, block
count and transfer length begin the same IN transfers, with byte-identical
data-in payloads, over every sequence of IN completions and Update() calls. -/
theorem readCD_mode1_same_geometry (g : CUSBCDGadget) (cbw10 cbwCD : TUSBCDCBW) (es : List Event)
    (hest : ((cbwCD.cb 1) >>> 2) &&& 0x07 = 0x02)
    (h2 : cbwCD.cb 2 = cbw10.cb 2) (h3 : cbwCD.cb 3 = cbw10.cb 3)
    (h4 : cbwCD.cb 4 = cbw10.cb 4) (h5 : cbwCD.cb 5 = cbw10.cb 5)
    (h6 : cbwCD.cb 6 = 0) (h7 : cbwCD.cb 7 = cbw10.cb 7) (h8 : cbwCD.cb 8 = cbw10.cb 8)
    (hlen : cbwCD.dCBWDataTransferLength = cbw10.dCBWDataTransferLength)
    (hbs : CUSBCDGadget.GetBlocksizeForTrack (g.GetTrackInfoForLBA
        (shl32 (cbw10.cb 2) (cbw10.cb 3) (cbw10.cb 4) (cbw10.cb 5))) = g.data_block_size)
    (hsk : CUSBCDGadget.GetSkipbytesForTrack (g.GetTrackInfoForLBA
        (shl32 (cbw10.cb 2) (cbw10.cb 3) (cbw10.cb 4) (cbw10.cb 5))) = g.data_skip_bytes)
    (hnz : g.data_block_size ≠ 0)
    (hmax : 0 < g.k.MaxBlocksToRead)
    (hfit : g.k.MaxBlocksToRead * g.data_block_size < 4294967296)
    (hes : es.all isReadEvent = true) :
    (run (ScsiCmdReadCD.handle_command cbwCD g) es).epIn
        = (run (ScsiCmdRead10.handle_command cbw10 g) es).epIn
      ∧ dataIns (run (ScsiCmdReadCD.handle_command cbwCD g) es).epIn
        = dataIns (run (ScsiCmdRead10.handle_command cbw10 g) es).epIn := by
  have h := twin_epIn _ _ (run_twin es _ _
    (handle_command_twin g cbw10 cbwCD hest h2 h3 h4 h5 h6 h7 h8 hlen hbs hsk hnz hmax hfit) hes)
  exact ⟨h, by rw [h]⟩

/-- The two read paths at one block at LBA 5 of the sample disc (inside the
first track), followed by the chunk read and the two IN completions. -/
theorem readCD_mode1_same_geometry_example :
    dataIns (run (ScsiCmdReadCD.handle_command
        (sampleCBW 12 2048 [0xBE, 0x08, 0, 0, 0, 5, 0, 0, 1, 0x10, 0, 0]) sampleGadget)
        [Event.Update sampleGadget.m_pDevice, Event.InComplete 2048, Event.InComplete 13]).epIn
      = dataIns (run (ScsiCmdRead10.handle_command
        (sampleCBW 12 2048 [0x28, 0, 0, 0, 0, 5, 0, 0, 1, 0]) sampleGadget)
        [Event.Update sampleGadget.m_pDevice, Event.InComplete 2048, Event.InComplete 13]).epIn :=
  (readCD_mode1_same_geometry sampleGadget
    (sampleCBW 12 2048 [0x28, 0, 0, 0, 0, 5, 0, 0, 1, 0])
    (sampleCBW 12 2048 [0xBE, 0x08, 0, 0, 0, 5, 0, 0, 1, 0x10, 0, 0])
    [Event.Update sampleGadget.m_pDevice, Event.InComplete 2048, Event.InComplete 13]
    (by decide) rfl rfl rfl rfl rfl rfl rfl rfl (by decide) (by decide) (by decide)
    (by decide) (by decide) rfl).2

/-! ## C6: Read(10) of N blocks against N reads of one block -/

theorem dataIns_append (a b : List Transfer) : dataIns (a ++ b) = dataIns a ++ dataIns b := by
  induction a with
  | nil => rfl
  | cons t a ih =>
    cases t <;> simp [dataIns, ih]

theorem run_append (g : CUSBCDGadget) (es fs : List Event) :
    run g (es ++ fs) = run (run g es) fs := by
  unfold run
  exact List.foldl_append _ _ _ _

theorem blocksBytes_succ (image : Nat → Nat) (bs sk lba n : Nat) :
    blocksBytes image bs sk lba (n + 1)
      = blocksBytes image bs sk lba n ++ blockBytes image bs sk (lba + n) := by
  unfold blocksBytes
  rw [List.range_succ, List.map_append, List.flatten_append]
  simp

theorem blocksBytes_add (image : Nat → Nat) (bs sk lba n m : Nat) :
    blocksBytes image bs sk lba (n + m)
      = blocksBytes image bs sk lba n ++ blocksBytes image bs sk (lba + n) m := by
  induction m with
  | zero => simp [blocksBytes]
  | succ m ih =>
    rw [← Nat.add_assoc, blocksBytes_succ, ih, blocksBytes_succ, List.append_assoc,
      Nat.add_assoc]

theorem range16 : List.range 16 = [0, 1, 2, 3, 4, 5, 6, 7, 8, 9, 10, 11, 12, 13, 14, 15] := by
  decide

theorem le32_signature : le32 VALID_CBW_SIG = [0x55, 0x53, 0x42, 0x43] := by decide

theorem signature_sum :
    0x55 % 256 + 256 * (0x53 % 256) + 65536 * (0x42 % 256) + 16777216 * (0x43 % 256)
      = VALID_CBW_SIG := by decide

theorem read10Wire_eq (tag L N : Nat) :
    read10Wire tag L N
      = [0x55, 0x53, 0x42, 0x43,
         tag % 256, tag / 256 % 256, tag / 65536 % 256, tag / 16777216 % 256,
         N * 2048 % 256, N * 2048 / 256 % 256, N * 2048 / 65536 % 256,
         N * 2048 / 16777216 % 256,
         u8 0x80, u8 0, u8 10,
         u8 0x28, u8 0, u8 (L / 16777216 % 256), u8 (L / 65536 % 256), u8 (L / 256 % 256),
         u8 (L % 256), u8 0, u8 (N / 256 % 256), u8 (N % 256), u8 0, u8 0, u8 0, u8 0, u8 0,
         u8 0, u8 0] := by
  unfold read10Wire sampleCBW TUSBCDCBW.toBytes
  simp only [le32_signature]
  unfold le32
  simp only [range16, List.map, List.getD_cons_zero, List.getD_cons_succ, List.getD_nil,
    List.length, List.cons_append, List.nil_append]

theorem read10Wire_decode (tag L N : Nat) (hL : L < 4294967296) (hN : N < 65536) :
    (read10Wire tag L N).length = 31
      ∧ (TUSBCDCBW.ofBytes (read10Wire tag L N)).dCBWSignature = VALID_CBW_SIG
      ∧ (TUSBCDCBW.ofBytes (read10Wire tag L N)).bCBWLUN = 0
      ∧ (TUSBCDCBW.ofBytes (read10Wire tag L N)).bCBWCBLength = 10
      ∧ (TUSBCDCBW.ofBytes (read10Wire tag L N)).cb 0 = 0x28
      ∧ shl32 ((TUSBCDCBW.ofBytes (read10Wire tag L N)).cb 2)
          ((TUSBCDCBW.ofBytes (read10Wire tag L N)).cb 3)
          ((TUSBCDCBW.ofBytes (read10Wire tag L N)).cb 4)
          ((TUSBCDCBW.ofBytes (read10Wire tag L N)).cb 5) = L
      ∧ u32 (shl16 ((TUSBCDCBW.ofBytes (read10Wire tag L N)).cb 7)
          ((TUSBCDCBW.ofBytes (read10Wire tag L N)).cb 8)) = N := by
  have e : ∀ x, x % 256 < 256 := fun x => Nat.mod_lt _ (by norm_num)
  rw [read10Wire_eq]
  refine ⟨rfl, ?_, ?_, ?_, ?_, ?_, ?_⟩
  · simp only [TUSBCDCBW.ofBytes, le32At, byteAt, u8, List.getD_cons_zero, List.getD_cons_succ,
      Nat.reduceAdd, Nat.zero_add]
    exact signature_sum
  · simp only [TUSBCDCBW.ofBytes, byteAt, u8, List.getD_cons_zero, List.getD_cons_succ]
  · simp only [TUSBCDCBW.ofBytes, byteAt, u8, List.getD_cons_zero, List.getD_cons_succ]
  · simp only [TUSBCDCBW.ofBytes, TUSBCDCBW.cb, byteAt, u8, range16,
      List.map, List.getD_cons_succ, List.getD_cons_zero, Nat.add_zero, Nat.reduceAdd]
  · simp only [TUSBCDCBW.ofBytes, TUSBCDCBW.cb, byteAt, u8, range16,
      List.map, List.getD_cons_succ, List.getD_cons_zero, Nat.add_zero, Nat.reduceAdd,
      Nat.mod_mod]
    rw [shl32_eq _ _ _ _ (e _) (e _) (e _) (e _)]
    omega
  · simp only [TUSBCDCBW.ofBytes, TUSBCDCBW.cb, byteAt, u8, range16,
      List.map, List.getD_cons_succ, List.getD_cons_zero, Nat.add_zero, Nat.reduceAdd,
      Nat.mod_mod]
    rw [shl16_eq _ _ (e _)]
    unfold u32
    omega

theorem step_valid_cbw (g : CUSBCDGadget) (data : List Nat)
    (h : g.m_nState = TCDState.ReceiveCBW) (h1 : data.length = 31)
    (h2 : (TUSBCDCBW.ofBytes data).dCBWSignature = VALID_CBW_SIG)
    (h3 : (TUSBCDCBW.ofBytes data).bCBWLUN = 0)
    (h4 : 1 ≤ (TUSBCDCBW.ofBytes data).bCBWCBLength)
    (h5 : (TUSBCDCBW.ofBytes data).bCBWCBLength ≤ 16) :
    step g (Event.OutComplete data)
      = CUSBCDGadget.HandleSCSICommand
          { g with m_OutBuffer := data ++ g.m_OutBuffer.drop data.length,
                   m_CBW := TUSBCDCBW.ofBytes data,
                   m_CSW := { g.m_CSW with dCSWTag := (TUSBCDCBW.ofBytes data).dCBWTag } } := by
  rw [step_out_receive g data h]
  unfold CUSBCDGadget.onCBWReceived
  simp only [ofBytes_append data _ h1, h1, h2, h3, SIZE_CBW, ne_eq, not_true_eq_false, if_false]
  rw [if_pos ⟨by omega, h5, trivial⟩]

theorem step_valid_cbw_fields (g : CUSBCDGadget) (data : List Nat)
    (h : g.m_nState = TCDState.ReceiveCBW) (h1 : data.length = 31)
    (h2 : (TUSBCDCBW.ofBytes data).dCBWSignature = VALID_CBW_SIG)
    (h3 : (TUSBCDCBW.ofBytes data).bCBWLUN = 0)
    (h4 : 1 ≤ (TUSBCDCBW.ofBytes data).bCBWCBLength)
    (h5 : (TUSBCDCBW.ofBytes data).bCBWCBLength ≤ 16) :
    ∃ G : CUSBCDGadget, step g (Event.OutComplete data) = CUSBCDGadget.HandleSCSICommand G
      ∧ G.m_CBW = TUSBCDCBW.ofBytes data
      ∧ G.m_CSW.dCSWTag = (TUSBCDCBW.ofBytes data).dCBWTag
      ∧ G.m_nState = TCDState.ReceiveCBW
      ∧ G.m_CDReady = g.m_CDReady ∧ G.k = g.k
      ∧ G.data_block_size = g.data_block_size ∧ G.data_skip_bytes = g.data_skip_bytes
      ∧ G.epIn = g.epIn :=
  ⟨_, step_valid_cbw g data h h1 h2 h3 h4 h5, rfl, rfl, h, rfl, rfl, rfl, rfl, rfl⟩

theorem handle_read10 (g : CUSBCDGadget) (h : g.m_CBW.cb 0 = 0x28) :
    CUSBCDGadget.HandleSCSICommand g
      = ScsiCmdRead10.handle_command g.m_CBW
          { g with m_pCurrentCommandHandler := some ScsiCommandHandler.ScsiCmdRead10 } := by
  unfold CUSBCDGadget.HandleSCSICommand
  simp only [h]
  rfl

theorem handle_read10_fields (g : CUSBCDGadget) (h : g.m_CBW.cb 0 = 0x28) :
    ∃ G2 : CUSBCDGadget,
      CUSBCDGadget.HandleSCSICommand g = ScsiCmdRead10.handle_command g.m_CBW G2
      ∧ G2.m_CDReady = g.m_CDReady ∧ G2.k = g.k
      ∧ G2.data_block_size = g.data_block_size ∧ G2.data_skip_bytes = g.data_skip_bytes
      ∧ G2.epIn = g.epIn :=
  ⟨_, handle_read10 g h, rfl, rfl, rfl, rfl, rfl⟩

theorem read10_begin_fields (c : TUSBCDCBW) (G : CUSBCDGadget) (hr : G.m_CDReady = true)
    (hn : u32 (shl16 (c.cb 7) (c.cb 8)) ≠ 0) :
    (ScsiCmdRead10.handle_command c G).m_nState = TCDState.DataInRead
      ∧ (ScsiCmdRead10.handle_command c G).m_pCurrentCommandHandler
          = some ScsiCommandHandler.ScsiCmdRead10
      ∧ (ScsiCmdRead10.handle_command c G).m_CDReady = G.m_CDReady
      ∧ (ScsiCmdRead10.handle_command c G).transfer_block_size = 2048
      ∧ (ScsiCmdRead10.handle_command c G).block_size = G.data_block_size
      ∧ (ScsiCmdRead10.handle_command c G).skip_bytes = G.data_skip_bytes
      ∧ (ScsiCmdRead10.handle_command c G).m_nblock_address
          = shl32 (c.cb 2) (c.cb 3) (c.cb 4) (c.cb 5)
      ∧ (ScsiCmdRead10.handle_command c G).m_nnumber_blocks = u32 (shl16 (c.cb 7) (c.cb 8))
      ∧ (ScsiCmdRead10.handle_command c G).k = G.k
      ∧ (ScsiCmdRead10.handle_command c G).data_block_size = G.data_block_size
      ∧ (ScsiCmdRead10.handle_command c G).data_skip_bytes = G.data_skip_bytes
      ∧ (ScsiCmdRead10.handle_command c G).epIn = G.epIn := by
  have hd : ScsiCmdRead10.deriveBlocks (ScsiCmdRead10.parse c G) = ScsiCmdRead10.parse c G := by
    unfold ScsiCmdRead10.deriveBlocks
    rw [if_neg (fun hc => hn hc.1)]
  have hn' : ¬ (ScsiCmdRead10.parse c G).m_nnumber_blocks = 0 := hn
  rw [read10_handle_eq c G hr, hd, if_neg hn']
  exact ⟨rfl, rfl, rfl, rfl, rfl, rfl, rfl, rfl, rfl, rfl, rfl, rfl⟩

theorem step_read10 (g0 g : CUSBCDGadget) (tag L N : Nat)
    (hs : SameDisc g0 g TCDState.ReceiveCBW)
    (hL : L < 4294967296) (hN1 : 1 ≤ N) (hN : N < 65536) :
    ReadingAt g0 (step g (Event.OutComplete (read10Wire tag L N))) TCDState.DataInRead L N
      ∧ (step g (Event.OutComplete (read10Wire tag L N))).epIn = g.epIn := by
  obtain ⟨s1, s2, s3, s4, s5⟩ := hs
  obtain ⟨w1, w2, w3, w4, w5, w6, w7⟩ := read10Wire_decode tag L N hL hN
  obtain ⟨G, e, f1, _, _, f4, f5, f6, f7, f8⟩ :=
    step_valid_cbw_fields g _ s1 w1 w2 w3 (by rw [w4]; norm_num) (by rw [w4]; norm_num)
  obtain ⟨G2, e2, k1, k2, k3, k4, k5⟩ := handle_read10_fields G (by rw [f1]; exact w5)
  rw [e, e2, f1]
  obtain ⟨b1, b2, b3, b4, b5, b6, b7, b8, b9, b10, b11, b12⟩ :=
    read10_begin_fields (TUSBCDCBW.ofBytes (read10Wire tag L N)) G2
      (by rw [k1, f4]; exact s2) (by rw [w7]; omega)
  refine ⟨⟨b1, b2, ?_, b4, ?_, ?_, ?_, ?_, ?_, ?_, ?_⟩, ?_⟩
  · rw [b3, k1, f4]; exact s2
  · rw [b5, k3, f6]; exact s4
  · rw [b6, k4, f7]; exact s5
  · rw [b7]; exact w6
  · rw [b8]; exact w7
  · rw [b9, k2, f5]; exact s3
  · rw [b10, k3, f6]; exact s4
  · rw [b11, k4, f7]; exact s5
  · rw [b12, k5, f8]

theorem window_image (image : Nat → Nat) (rest : List Nat) (bs sk pos b i : Nat)
    (hi : i < b) (hgeom : sk + 2048 ≤ bs) :
    window ((List.range (b * bs)).map (fun j => image (pos + j)) ++ rest) (i * bs + sk) 2048
      = (List.range 2048).map (fun j => image (pos + i * bs + sk + j)) := by
  unfold window
  apply List.map_congr_left
  intro j hj
  have hj' : j < 2048 := List.mem_range.mp hj
  have hlt : i * bs + sk + j < b * bs := by
    have h1 : (i + 1) * bs ≤ b * bs := Nat.mul_le_mul_right _ hi
    rw [Nat.add_mul, Nat.one_mul] at h1
    omega
  rw [List.getD_eq_getElem?_getD, List.getElem?_append_left (by simpa using hlt),
    List.getElem?_map, List.getElem?_range hlt]
  show image (pos + (i * bs + sk + j)) = image (pos + i * bs + sk + j)
  rw [← Nat.add_assoc, ← Nat.add_assoc]

theorem copyBlocks_image (G : CUSBCDGadget) (image : Nat → Nat) (rest : List Nat)
    (bs sk a b : Nat) (hgeom : sk + 2048 ≤ bs)
    (hfc : G.m_FileChunk = (List.range (b * bs)).map (fun j => image (bs * a + j)) ++ rest)
    (hbs : G.block_size = bs) (hsk : G.skip_bytes = sk) (ht : G.transfer_block_size = 2048) :
    ScsiCmdRead10.copyBlocks G b = blocksBytes image bs sk a b := by
  have hmap : (List.range b).map (fun i =>
        window G.m_FileChunk (i * G.block_size + G.skip_bytes) G.transfer_block_size)
      = (List.range b).map (fun i => blockBytes image bs sk (a + i)) := by
    apply List.map_congr_left
    intro i hi
    have hi' : i < b := List.mem_range.mp hi
    rw [hfc, hbs, hsk, ht, window_image image rest bs sk (bs * a) b i hi' hgeom]
    unfold blockBytes
    apply List.map_congr_left
    intro j _
    rw [Nat.mul_add, Nat.mul_comm bs i]
  unfold ScsiCmdRead10.copyBlocks blocksBytes
  rw [hmap]

theorem step_update_read10 (G : CUSBCDGadget) (dev : ICueDevice)
    (hh : G.m_pCurrentCommandHandler = some ScsiCommandHandler.ScsiCmdRead10) :
    step G (Event.Update dev) = ScsiCmdRead10.update { G with m_pDevice := dev } := by
  show CUSBCDGadget.Update { G with m_pDevice := dev } = _
  unfold CUSBCDGadget.Update
  simp only [hh]
  rfl

theorem u32OfInt_cast (x : Nat) (h : x < 4294967296) : u32OfInt (x : Int) = x := by
  unfold u32OfInt
  have h1 : ((x : Int) % 4294967296) = (x : Int) := Int.emod_eq_of_lt (by omega) (by omega)
  rw [h1]
  exact Int.toNat_natCast x

theorem readStep_image (G1 : CUSBCDGadget) (image : Nat → Nat) (size bs sk a b : Nat)
    (hdev : G1.m_pDevice = imageDevice image size)
    (hb : ScsiCmdRead10.blocksThisIteration G1 = b)
    (hbs : G1.block_size = bs) (hsk : G1.skip_bytes = sk) (ht : G1.transfer_block_size = 2048)
    (hpos : 0 < b * bs) (hlt : b * bs < 2147483648) (hgeom : sk + 2048 ≤ bs) :
    ScsiCmdRead10.readStep G1 (bs * a)
      = ScsiCmdRead10.advance (readIntoFileChunk G1 (bs * a) (b * bs)).2 b
          (blocksBytes image bs sk a b) := by
  have hto : u32 (b * bs) = b * bs := by
    unfold u32
    exact Nat.mod_eq_of_lt (by omega)
  have hread1 : (readIntoFileChunk G1 (bs * a) (b * bs)).1 = ((b * bs : Nat) : Int) := by
    unfold readIntoFileChunk
    rw [hdev]
    rfl
  have hread2 : (readIntoFileChunk G1 (bs * a) (b * bs)).2.m_FileChunk
      = (List.range (b * bs)).map (fun j => image (bs * a + j))
        ++ G1.m_FileChunk.drop ((List.range (b * bs)).map (fun j => image (bs * a + j))).length := by
    unfold readIntoFileChunk
    rw [hdev]
    rfl
  have key : ScsiCmdRead10.readStep G1 (bs * a)
      = (if (readIntoFileChunk G1 (bs * a) (u32 (ScsiCmdRead10.blocksThisIteration G1
              * G1.block_size))).1 < 0 then
          readFail (readIntoFileChunk G1 (bs * a) (u32 (ScsiCmdRead10.blocksThisIteration G1
              * G1.block_size))).2 0x03 0x11 0x00
        else if (readIntoFileChunk G1 (bs * a) (u32 (ScsiCmdRead10.blocksThisIteration G1
              * G1.block_size))).1 = 0
            ∧ u32 (ScsiCmdRead10.blocksThisIteration G1 * G1.block_size) > 0 then
          readFail (readIntoFileChunk G1 (bs * a) (u32 (ScsiCmdRead10.blocksThisIteration G1
              * G1.block_size))).2 0x03 0x11 0x00
        else if u32OfInt (readIntoFileChunk G1 (bs * a)
              (u32 (ScsiCmdRead10.blocksThisIteration G1 * G1.block_size))).1
            < u32 (ScsiCmdRead10.blocksThisIteration G1 * G1.block_size) then
          readFail (readIntoFileChunk G1 (bs * a) (u32 (ScsiCmdRead10.blocksThisIteration G1
              * G1.block_size))).2 0x03 0x11 0x00
        else
          ScsiCmdRead10.advance
            (readIntoFileChunk G1 (bs * a) (u32 (ScsiCmdRead10.blocksThisIteration G1
              * G1.block_size))).2
            (ScsiCmdRead10.blocksThisIteration G1)
            (ScsiCmdRead10.copyBlocks
              (readIntoFileChunk G1 (bs * a) (u32 (ScsiCmdRead10.blocksThisIteration G1
                * G1.block_size))).2
              (ScsiCmdRead10.blocksThisIteration G1))) := rfl
  rw [key, hb, hbs, hto, hread1]
  have c1 : ¬ (((b * bs : Nat) : Int) < 0) := by omega
  have c2 : ¬ ((((b * bs : Nat) : Int) = 0) ∧ b * bs > 0) := by omega
  have c3 : ¬ (u32OfInt ((b * bs : Nat) : Int) < b * bs) := by
    rw [u32OfInt_cast _ (by omega)]
    omega
  have hbs2 : (readIntoFileChunk G1 (bs * a) (b * bs)).2.block_size = bs := hbs
  have hsk2 : (readIntoFileChunk G1 (bs * a) (b * bs)).2.skip_bytes = sk := hsk
  have ht2 : (readIntoFileChunk G1 (bs * a) (b * bs)).2.transfer_block_size = 2048 := ht
  rw [if_neg c1, if_neg c2, if_neg c3,
    copyBlocks_image _ image _ bs sk a b hgeom hread2 hbs2 hsk2 ht2]

theorem advance_fields (R : CUSBCDGadget) (b : Nat) (data : List Nat) :
    (ScsiCmdRead10.advance R b data).m_nState = TCDState.DataIn
      ∧ (ScsiCmdRead10.advance R b data).m_pCurrentCommandHandler = R.m_pCurrentCommandHandler
      ∧ (ScsiCmdRead10.advance R b data).m_CDReady = R.m_CDReady
      ∧ (ScsiCmdRead10.advance R b data).transfer_block_size = R.transfer_block_size
      ∧ (ScsiCmdRead10.advance R b data).block_size = R.block_size
      ∧ (ScsiCmdRead10.advance R b data).skip_bytes = R.skip_bytes
      ∧ (ScsiCmdRead10.advance R b data).m_nblock_address = u32 (R.m_nblock_address + b)
      ∧ (ScsiCmdRead10.advance R b data).m_nnumber_blocks = R.m_nnumber_blocks - b
      ∧ (ScsiCmdRead10.advance R b data).k = R.k
      ∧ (ScsiCmdRead10.advance R b data).data_block_size = R.data_block_size
      ∧ (ScsiCmdRead10.advance R b data).data_skip_bytes = R.data_skip_bytes
      ∧ (ScsiCmdRead10.advance R b data).epIn = R.epIn ++ [Transfer.TransferDataIn data] :=
  ⟨rfl, rfl, rfl, rfl, rfl, rfl, rfl, rfl, rfl, rfl, rfl, rfl⟩

theorem read10_update_step (g0 G : CUSBCDGadget) (image : Nat → Nat) (size a n : Nat)
    (hR : ReadingAt g0 G TCDState.DataInRead a n) (hn : 1 ≤ n) (ha : a < 4294967296)
    (hmax : 0 < g0.k.MaxBlocksToRead)
    (hfit : g0.k.MaxBlocksToRead * g0.data_block_size < 2147483648)
    (hgeom : g0.data_skip_bytes + 2048 ≤ g0.data_block_size) :
    ReadingAt g0 (step G (Event.Update (imageDevice image size))) TCDState.DataIn
        (u32 (a + (if n > g0.k.MaxBlocksToRead then g0.k.MaxBlocksToRead else n)))
        (n - (if n > g0.k.MaxBlocksToRead then g0.k.MaxBlocksToRead else n))
      ∧ (step G (Event.Update (imageDevice image size))).epIn
        = G.epIn ++ [Transfer.TransferDataIn (blocksBytes image g0.data_block_size
            g0.data_skip_bytes a
            (if n > g0.k.MaxBlocksToRead then g0.k.MaxBlocksToRead else n))] := by
  obtain ⟨r1, r2, r3, r4, r5, r6, r7, r8, r9, r10, r11⟩ := hR
  rw [step_update_read10 G _ r2]
  generalize hG1 : ({ G with m_pDevice := imageDevice image size } : CUSBCDGadget) = G1
  have q1 : G1.m_nState = TCDState.DataInRead := by rw [← hG1]; exact r1
  have q2 : G1.m_pCurrentCommandHandler = some ScsiCommandHandler.ScsiCmdRead10 := by
    rw [← hG1]; exact r2
  have q3 : G1.IsCDReady = true := by rw [← hG1]; exact r3
  have q4 : G1.transfer_block_size = 2048 := by rw [← hG1]; exact r4
  have q5 : G1.block_size = g0.data_block_size := by rw [← hG1]; exact r5
  have q6 : G1.skip_bytes = g0.data_skip_bytes := by rw [← hG1]; exact r6
  have q7 : G1.m_nblock_address = a := by rw [← hG1]; exact r7
  have q8 : G1.m_nnumber_blocks = n := by rw [← hG1]; exact r8
  have q9 : G1.k = g0.k := by rw [← hG1]; exact r9
  have q10 : G1.data_block_size = g0.data_block_size := by rw [← hG1]; exact r10
  have q11 : G1.data_skip_bytes = g0.data_skip_bytes := by rw [← hG1]; exact r11
  have q12 : G1.m_pDevice = imageDevice image size := by rw [← hG1]
  have q13 : G1.epIn = G.epIn := by rw [← hG1]
  have q14 : G1.m_CDReady = true := q3
  clear hG1
  generalize hb : (if n > g0.k.MaxBlocksToRead then g0.k.MaxBlocksToRead else n) = b
  have hbI : ScsiCmdRead10.blocksThisIteration G1 = b := by
    unfold ScsiCmdRead10.blocksThisIteration
    rw [q8, q9, hb]
  have hbpos : 0 < b ∧ b ≤ g0.k.MaxBlocksToRead ∧ b ≤ n := by
    rw [← hb]
    split_ifs with c
    · exact ⟨hmax, le_refl _, le_of_lt c⟩
    · exact ⟨hn, Nat.not_lt.mp c, le_refl _⟩
  have hbb : b * g0.data_block_size < 2147483648 :=
    lt_of_le_of_lt (Nat.mul_le_mul_right _ hbpos.2.1) hfit
  have hbs0 : 0 < b * g0.data_block_size := Nat.mul_pos hbpos.1 (by omega)
  have hbsz : g0.data_block_size < 2147483648 := by
    have := Nat.mul_le_mul_right g0.data_block_size hmax
    omega
  have hoff : g0.data_block_size * a < 18446744073709551615 := by
    have h1 : g0.data_block_size * a ≤ 2147483648 * 4294967296 :=
      Nat.mul_le_mul (le_of_lt hbsz) (le_of_lt ha)
    omega
  have hupd : ScsiCmdRead10.update G1
      = ScsiCmdRead10.readStep G1 (g0.data_block_size * a) := by
    unfold ScsiCmdRead10.update
    rw [if_neg (by rw [q1]; exact fun h => h rfl), if_neg (by rw [q3]; decide),
      if_neg (by rw [q8]; omega)]
    simp only [q5, q7, q12]
    have hseek : (imageDevice image size).Seek
        (g0.data_block_size * a % 18446744073709551616) = g0.data_block_size * a := by
      show g0.data_block_size * a % 18446744073709551616 = _
      exact Nat.mod_eq_of_lt (by omega)
    rw [hseek, if_neg (by omega)]
  rw [hupd, readStep_image G1 image size g0.data_block_size g0.data_skip_bytes a b q12 hbI q5 q6
    q4 hbs0 hbb hgeom]
  generalize hR : (readIntoFileChunk G1 (g0.data_block_size * a) (b * g0.data_block_size)).2 = R
  have t2 : R.m_pCurrentCommandHandler = G1.m_pCurrentCommandHandler := by rw [← hR]; rfl
  have t3 : R.m_CDReady = G1.m_CDReady := by rw [← hR]; rfl
  have t4 : R.transfer_block_size = G1.transfer_block_size := by rw [← hR]; rfl
  have t5 : R.block_size = G1.block_size := by rw [← hR]; rfl
  have t6 : R.skip_bytes = G1.skip_bytes := by rw [← hR]; rfl
  have t7 : R.m_nblock_address = G1.m_nblock_address := by rw [← hR]; rfl
  have t8 : R.m_nnumber_blocks = G1.m_nnumber_blocks := by rw [← hR]; rfl
  have t9 : R.k = G1.k := by rw [← hR]; rfl
  have t10 : R.data_block_size = G1.data_block_size := by rw [← hR]; rfl
  have t11 : R.data_skip_bytes = G1.data_skip_bytes := by rw [← hR]; rfl
  have t12 : R.epIn = G1.epIn := by rw [← hR]; rfl
  obtain ⟨a1, a2, a3, a4, a5, a6, a7, a8, a9, a10, a11, a12⟩ :=
    advance_fields R b (blocksBytes image g0.data_block_size g0.data_skip_bytes a b)
  refine ⟨⟨a1, ?_, ?_, ?_, ?_, ?_, ?_, ?_, ?_, ?_, ?_⟩, ?_⟩
  · rw [a2, t2]; exact q2
  · rw [a3, t3]; exact q14
  · rw [a4, t4]; exact q4
  · rw [a5, t5]; exact q5
  · rw [a6, t6]; exact q6
  · rw [a7, t7, q7]
  · rw [a8, t8, q8]
  · rw [a9, t9]; exact q9
  · rw [a10, t10]; exact q10
  · rw [a11, t11]; exact q11
  · rw [a12, t12, q13]

theorem dataIn_complete_step (g0 U : CUSBCDGadget) (a n x : Nat)
    (hR : ReadingAt g0 U TCDState.DataIn a n) :
    (0 < n → ReadingAt g0 (step U (Event.InComplete x)) TCDState.DataInRead a n
        ∧ (step U (Event.InComplete x)).epIn = U.epIn)
      ∧ (n = 0 → SameDisc g0 (step U (Event.InComplete x)) TCDState.SentCSW
        ∧ dataIns (step U (Event.InComplete x)).epIn = dataIns U.epIn) := by
  obtain ⟨r1, r2, r3, r4, r5, r6, r7, r8, r9, r10, r11⟩ := hR
  have e : step U (Event.InComplete x) = CUSBCDGadget.onDataInComplete U := by
    show CUSBCDGadget.OnTransferComplete U true x = _
    unfold CUSBCDGadget.OnTransferComplete
    simp only [if_true, r1]
  rw [e]
  unfold CUSBCDGadget.onDataInComplete
  constructor
  · intro hn
    rw [if_pos ⟨by rw [r8]; exact hn, r3⟩]
    exact ⟨⟨rfl, r2, r3, r4, r5, r6, r7, r8, r9, r10, r11⟩, rfl⟩
  · intro hn
    rw [if_neg (by rw [r8, hn]; exact fun h => absurd h.1 (by decide)),
      if_neg (by rw [r8, hn]; exact fun h => absurd h.1 (by decide))]
    refine ⟨⟨rfl, r3, r9, r10, r11⟩, ?_⟩
    show dataIns (U.epIn ++ [Transfer.TransferCSWIn U.m_CSW]) = dataIns U.epIn
    rw [dataIns_append]
    simp [dataIns]

theorem csw_complete_step (g0 G : CUSBCDGadget) (x : Nat)
    (h : SameDisc g0 G TCDState.SentCSW) :
    SameDisc g0 (step G (Event.InComplete x)) TCDState.ReceiveCBW
      ∧ (step G (Event.InComplete x)).epIn = G.epIn := by
  obtain ⟨s1, s2, s3, s4, s5⟩ := h
  have e : step G (Event.InComplete x)
      = { G with m_nState := TCDState.ReceiveCBW,
                 epOut := G.epOut ++ [Transfer.TransferCBWOut SIZE_CBW] } := by
    show CUSBCDGadget.OnTransferComplete G true x = _
    unfold CUSBCDGadget.OnTransferComplete
    simp only [if_true, s1]
  rw [e]
  exact ⟨⟨rfl, s2, s3, s4, s5⟩, rfl⟩

theorem chunkRounds_succ (dev : ICueDevice) (r : Nat) :
    chunkRounds dev (r + 1) = [Event.Update dev, Event.InComplete 0] ++ chunkRounds dev r := by
  unfold chunkRounds
  rw [List.replicate_succ, List.flatten_cons]

theorem read10_round (g0 G : CUSBCDGadget) (image : Nat → Nat) (size a n : Nat)
    (hR : ReadingAt g0 G TCDState.DataInRead a n) (hn : 1 ≤ n) (ha : a + n ≤ 4294967296)
    (hmax : 0 < g0.k.MaxBlocksToRead)
    (hfit : g0.k.MaxBlocksToRead * g0.data_block_size < 2147483648)
    (hgeom : g0.data_skip_bytes + 2048 ≤ g0.data_block_size) :
    (n ≤ g0.k.MaxBlocksToRead →
        SameDisc g0 (run G [Event.Update (imageDevice image size), Event.InComplete 0])
          TCDState.SentCSW
        ∧ dataIns (run G [Event.Update (imageDevice image size), Event.InComplete 0]).epIn
          = dataIns G.epIn
            ++ [blocksBytes image g0.data_block_size g0.data_skip_bytes a n])
      ∧ (g0.k.MaxBlocksToRead < n →
        ReadingAt g0 (run G [Event.Update (imageDevice image size), Event.InComplete 0])
          TCDState.DataInRead (a + g0.k.MaxBlocksToRead) (n - g0.k.MaxBlocksToRead)
        ∧ dataIns (run G [Event.Update (imageDevice image size), Event.InComplete 0]).epIn
          = dataIns G.epIn
            ++ [blocksBytes image g0.data_block_size g0.data_skip_bytes a
                g0.k.MaxBlocksToRead]) := by
  have hrun : run G [Event.Update (imageDevice image size), Event.InComplete 0]
      = step (step G (Event.Update (imageDevice image size))) (Event.InComplete 0) := rfl
  rw [hrun]
  obtain ⟨u1, u2⟩ := read10_update_step g0 G image size a n hR hn (by omega) hmax hfit hgeom
  constructor
  · intro hle
    rw [if_neg (by omega)] at u1 u2
    rw [Nat.sub_self] at u1
    obtain ⟨_, d2⟩ := dataIn_complete_step g0 _ _ 0 0 u1
    obtain ⟨d3, d4⟩ := d2 rfl
    refine ⟨d3, ?_⟩
    rw [d4, u2, dataIns_append]
    rfl
  · intro hlt
    rw [if_pos hlt] at u1 u2
    have hu : u32 (a + g0.k.MaxBlocksToRead) = a + g0.k.MaxBlocksToRead := by
      unfold u32
      exact Nat.mod_eq_of_lt (by omega)
    rw [hu] at u1
    obtain ⟨d1, _⟩ := dataIn_complete_step g0 _ _ _ 0 u1
    obtain ⟨d3, d4⟩ := d1 (by omega)
    refine ⟨d3, ?_⟩
    rw [d4, u2, dataIns_append]
    rfl

theorem read10_rounds (g0 : CUSBCDGadget) (image : Nat → Nat) (size : Nat)
    (hmax : 0 < g0.k.MaxBlocksToRead)
    (hfit : g0.k.MaxBlocksToRead * g0.data_block_size < 2147483648)
    (hgeom : g0.data_skip_bytes + 2048 ≤ g0.data_block_size) (n : Nat) :
    ∀ (a : Nat) (G : CUSBCDGadget), ReadingAt g0 G TCDState.DataInRead a n → 1 ≤ n →
      a + n ≤ 4294967296 →
      SameDisc g0 (run G (chunkRounds (imageDevice image size)
          ((n + g0.k.MaxBlocksToRead - 1) / g0.k.MaxBlocksToRead))) TCDState.SentCSW
        ∧ (dataIns (run G (chunkRounds (imageDevice image size)
            ((n + g0.k.MaxBlocksToRead - 1) / g0.k.MaxBlocksToRead))).epIn).flatten
          = (dataIns G.epIn).flatten
            ++ blocksBytes image g0.data_block_size g0.data_skip_bytes a n := by
  induction n using Nat.strong_induction_on with
  | _ n ih =>
    intro a G hR hn ha
    obtain ⟨c1, c2⟩ := read10_round g0 G image size a n hR hn ha hmax hfit hgeom
    by_cases hle : n ≤ g0.k.MaxBlocksToRead
    · have hr : (n + g0.k.MaxBlocksToRead - 1) / g0.k.MaxBlocksToRead = 1 := by
        apply Nat.div_eq_of_lt_le
        · omega
        · omega
      obtain ⟨d1, d2⟩ := c1 hle
      rw [hr, chunkRounds_succ]
      have e0 : chunkRounds (imageDevice image size) 0 = [] := rfl
      rw [e0, List.append_nil]
      refine ⟨d1, ?_⟩
      rw [d2, List.flatten_append]
      simp
    · have hlt : g0.k.MaxBlocksToRead < n := Nat.not_le.mp hle
      have hr : (n + g0.k.MaxBlocksToRead - 1) / g0.k.MaxBlocksToRead
          = (n - g0.k.MaxBlocksToRead + g0.k.MaxBlocksToRead - 1) / g0.k.MaxBlocksToRead + 1 := by
        have e1 : n + g0.k.MaxBlocksToRead - 1
            = (n - g0.k.MaxBlocksToRead + g0.k.MaxBlocksToRead - 1) + g0.k.MaxBlocksToRead := by
          omega
        rw [e1, Nat.add_div_right _ hmax]
      obtain ⟨d1, d2⟩ := c2 hlt
      rw [hr, chunkRounds_succ, run_append]
      obtain ⟨i1, i2⟩ := ih (n - g0.k.MaxBlocksToRead) (by omega)
        (a + g0.k.MaxBlocksToRead) _ d1 (by omega) (by omega)
      refine ⟨i1, ?_⟩
      rw [i2, d2, List.flatten_append, List.append_assoc]
      congr 1
      have e2 : n = g0.k.MaxBlocksToRead + (n - g0.k.MaxBlocksToRead) := by omega
      conv_rhs => rw [e2]
      rw [blocksBytes_add]
      simp

theorem read10_command (g0 g : CUSBCDGadget) (image : Nat → Nat) (size tag L N : Nat)
    (hs : SameDisc g0 g TCDState.ReceiveCBW)
    (hmax : 0 < g0.k.MaxBlocksToRead)
    (hfit : g0.k.MaxBlocksToRead * g0.data_block_size < 2147483648)
    (hgeom : g0.data_skip_bytes + 2048 ≤ g0.data_block_size)
    (hN1 : 1 ≤ N) (hN : N < 65536) (hL : L + N ≤ 4294967296) :
    SameDisc g0 (run g (readCommand (imageDevice image size) tag L N
        ((N + g0.k.MaxBlocksToRead - 1) / g0.k.MaxBlocksToRead))) TCDState.ReceiveCBW
      ∧ (dataIns (run g (readCommand (imageDevice image size) tag L N
          ((N + g0.k.MaxBlocksToRead - 1) / g0.k.MaxBlocksToRead))).epIn).flatten
        = (dataIns g.epIn).flatten
          ++ blocksBytes image g0.data_block_size g0.data_skip_bytes L N := by
  obtain ⟨r1, r2⟩ := step_read10 g0 g tag L N hs (by omega) hN1 hN
  obtain ⟨q1, q2⟩ := read10_rounds g0 image size hmax hfit hgeom N L _ r1 hN1 hL
  obtain ⟨p1, p2⟩ := csw_complete_step g0 _ SIZE_CSW q1
  have hrun : run g (readCommand (imageDevice image size) tag L N
        ((N + g0.k.MaxBlocksToRead - 1) / g0.k.MaxBlocksToRead))
      = step (run (step g (Event.OutComplete (read10Wire tag L N)))
          (chunkRounds (imageDevice image size)
            ((N + g0.k.MaxBlocksToRead - 1) / g0.k.MaxBlocksToRead)))
          (Event.InComplete SIZE_CSW) := by
    unfold readCommand
    show run (step g _) _ = _
    rw [run_append]
    rfl
  rw [hrun]
  refine ⟨p1, ?_⟩
  rw [p2, q2, r2]

theorem singleReads_succ (dev : ICueDevice) (tag L N : Nat) :
    singleReads dev tag L (N + 1) = singleReads dev tag L N ++ readCommand dev tag (L + N) 1 1 := by
  unfold singleReads
  rw [List.range_succ, List.map_append, List.flatten_append]
  simp

theorem read10_singles (g0 : CUSBCDGadget) (image : Nat → Nat) (size tag L : Nat)
    (hmax : 0 < g0.k.MaxBlocksToRead)
    (hfit : g0.k.MaxBlocksToRead * g0.data_block_size < 2147483648)
    (hgeom : g0.data_skip_bytes + 2048 ≤ g0.data_block_size) (N : Nat) :
    ∀ g : CUSBCDGadget, SameDisc g0 g TCDState.ReceiveCBW → L + N ≤ 4294967296 →
      SameDisc g0 (run g (singleReads (imageDevice image size) tag L N)) TCDState.ReceiveCBW
        ∧ (dataIns (run g (singleReads (imageDevice image size) tag L N)).epIn).flatten
          = (dataIns g.epIn).flatten
            ++ blocksBytes image g0.data_block_size g0.data_skip_bytes L N := by
  induction N with
  | zero =>
    intro g hs _
    refine ⟨hs, ?_⟩
    show (dataIns g.epIn).flatten = _
    simp [blocksBytes]
  | succ N ih =>
    intro g hs hL
    obtain ⟨i1, i2⟩ := ih g hs (by omega)
    have hr : (1 + g0.k.MaxBlocksToRead - 1) / g0.k.MaxBlocksToRead = 1 := by
      apply Nat.div_eq_of_lt_le
      · omega
      · omega
    have hc := read10_command g0 _ image size tag (L + N) 1 i1 hmax hfit hgeom (le_refl 1)
      (by norm_num) (by omega)
    rw [hr] at hc
    obtain ⟨c1, c2⟩ := hc
    rw [singleReads_succ, run_append]
    refine ⟨c1, ?_⟩
    have e1 : blocksBytes image g0.data_block_size g0.data_skip_bytes (L + N) 1
        = blockBytes image g0.data_block_size g0.data_skip_bytes (L + N) := by
      unfold blocksBytes
      rw [show List.range 1 = [0] from rfl]
      simp
    rw [c2, i2, e1, blocksBytes_succ image _ _ L N, List.append_assoc]

/-- C6: on a gadget waiting for a CBW with a ready disc, over a fixed image
on which every seek and read succeeds, for every LBA L and every N with
1 <= N <= 65535 and L + N <= 2^32, the concatenated data-in payloads of one
Read(10) of N blocks at L (read in chunks of at most MaxBlocksToRead >= 1
blocks) equal those of N separate Read(10) commands of one block at L, L+1,
..., L+N-1, and both are the N blocks of the image; the block geometry is the
one SetDevice stores (skip bytes + 2048 within the block size) and a chunk fits
the int result of a device read. -/
theorem C6_read10_split (g : CUSBCDGadget) (image : Nat → Nat) (size tag L N : Nat)
    (hstate : g.m_nState = TCDState.ReceiveCBW) (hready : g.m_CDReady = true)
    (hmax : 0 < g.k.MaxBlocksToRead)
    (hfit : g.k.MaxBlocksToRead * g.data_block_size < 2147483648)
    (hgeom : g.data_skip_bytes + 2048 ≤ g.data_block_size)
    (hN1 : 1 ≤ N) (hN : N < 65536) (hL : L + N ≤ 4294967296) :
    (dataIns (run g (readCommand (imageDevice image size) tag L N
          ((N + g.k.MaxBlocksToRead - 1) / g.k.MaxBlocksToRead))).epIn).flatten
        = (dataIns (run g (singleReads (imageDevice image size) tag L N)).epIn).flatten
      ∧ (dataIns (run g (readCommand (imageDevice image size) tag L N
          ((N + g.k.MaxBlocksToRead - 1) / g.k.MaxBlocksToRead))).epIn).flatten
        = (dataIns g.epIn).flatten
          ++ blocksBytes image g.data_block_size g.data_skip_bytes L N := by
  have hs : SameDisc g g TCDState.ReceiveCBW := ⟨hstate, hready, rfl, rfl, rfl⟩
  obtain ⟨_, c2⟩ := read10_command g g image size tag L N hs hmax hfit hgeom hN1 hN hL
  obtain ⟨_, s2⟩ := read10_singles g image size tag L hmax hfit hgeom N g hs hL
  exact ⟨by rw [c2, s2], c2⟩

/-- C6 at a concrete input: 40 blocks from LBA 5 of the sample disc, read in
chunks of 16, against 40 reads of one block. -/
theorem C6_read10_split_witness :
    (dataIns (run sampleGadget (readCommand (imageDevice (fun i => i % 251) 620480000) 1 5 40
          ((40 + sampleGadget.k.MaxBlocksToRead - 1) / sampleGadget.k.MaxBlocksToRead))).epIn).flatten
      = (dataIns (run sampleGadget
          (singleReads (imageDevice (fun i => i % 251) 620480000) 1 5 40)).epIn).flatten :=
  (C6_read10_split sampleGadget (fun i => i % 251) 620480000 1 5 40 rfl rfl (by decide)
    (by decide) (by decide) (by decide) (by decide) (by decide)).1

/-! ## What every handler does with the CSW, the tag and the sense -/

theorem csws_append (a b : List Transfer) : csws (a ++ b) = csws a ++ csws b := by
  induction a with
  | nil => rfl
  | cons t a ih =>
    cases t <;> simp [csws, ih]

theorem sendStatus_sent (g X : CUSBCDGadget) (st : Nat)
    (hE : csws X.epIn = csws g.epIn) (hT : X.m_CSW.dCSWTag = g.m_CSW.dCSWTag)
    (hS : X.m_SenseParams = g.m_SenseParams
      ∨ (X.m_SenseParams.bSenseKey ≠ 0 ∧ u8 st = CD_CSW_STATUS_FAIL)) :
    Sent g (sendStatus X st) := by
  refine ⟨{ X.m_CSW with bmCSWStatus := u8 st }, ?_, hT, Or.inl rfl, hS⟩
  show csws (X.epIn ++ [Transfer.TransferCSWIn { X.m_CSW with bmCSWStatus := u8 st }]) = _
  rw [csws_append, hE]
  rfl

theorem send_csw_sent (g X : CUSBCDGadget) (st : Nat)
    (hE : csws X.epIn = csws g.epIn) (hT : X.m_CSW.dCSWTag = g.m_CSW.dCSWTag)
    (hS : X.m_SenseParams = g.m_SenseParams
      ∨ (X.m_SenseParams.bSenseKey ≠ 0 ∧ u8 st = CD_CSW_STATUS_FAIL)) :
    Sent g (ScsiCommandHandler.send_csw X st) := by
  refine ⟨{ X.m_CSW with bmCSWStatus := u8 st }, ?_, hT, Or.inl rfl, hS⟩
  show csws (X.epIn ++ [Transfer.TransferCSWIn { X.m_CSW with bmCSWStatus := u8 st }]) = _
  rw [csws_append, hE]
  rfl

theorem failWith_sent (g X : CUSBCDGadget) (k a q : Nat)
    (hE : csws X.epIn = csws g.epIn) (hT : X.m_CSW.dCSWTag = g.m_CSW.dCSWTag) (hk : k ≠ 0) :
    Sent g (failWith X k a q) := by
  refine ⟨{ X.m_CSW with bmCSWStatus := u8 CD_CSW_STATUS_FAIL }, ?_, hT, Or.inl rfl,
    Or.inr ⟨hk, rfl⟩⟩
  show csws (X.epIn ++ [Transfer.TransferCSWIn
    { X.m_CSW with bmCSWStatus := u8 CD_CSW_STATUS_FAIL }]) = _
  rw [csws_append, hE]
  rfl

theorem readFail_sent (g X : CUSBCDGadget) (k a q : Nat)
    (hE : csws X.epIn = csws g.epIn) (hT : X.m_CSW.dCSWTag = g.m_CSW.dCSWTag) (hk : k ≠ 0) :
    Sent g (readFail X k a q) := by
  refine ⟨{ X.m_CSW with bmCSWStatus := u8 CD_CSW_STATUS_FAIL }, ?_, hT, Or.inr rfl,
    Or.inr ⟨hk, rfl⟩⟩
  show csws (X.epIn ++ [Transfer.TransferCSWIn
    { X.m_CSW with bmCSWStatus := u8 CD_CSW_STATUS_FAIL }]) = _
  rw [csws_append, hE]
  rfl

theorem stageReply_staged (g X : CUSBCDGadget) (data : List Nat) (st : Nat)
    (hE : csws X.epIn = csws g.epIn) (hT : X.m_CSW.dCSWTag = g.m_CSW.dCSWTag)
    (hS : X.m_SenseParams = g.m_SenseParams) :
    Staged g (stageReply X data st)
      ∧ (stageReply X data st).m_SenseParams = g.m_SenseParams := by
  refine ⟨⟨?_, hT, Or.inl rfl⟩, hS⟩
  show csws (X.epIn ++ [Transfer.TransferDataIn data]) = _
  rw [csws_append, hE]
  simp [csws]

theorem playerCall_fields (g : CUSBCDGadget) (c : PlayerCall) :
    (playerCall g c).epIn = g.epIn ∧ (playerCall g c).m_CSW = g.m_CSW
      ∧ (playerCall g c).m_SenseParams = g.m_SenseParams
      ∧ (playerCall g c).m_nState = g.m_nState := by
  unfold playerCall
  cases g.cdplayer <;> exact ⟨rfl, rfl, rfl, rfl⟩

theorem tur_sent (cbw : TUSBCDCBW) (g : CUSBCDGadget) :
    Sent g (ScsiCmdTestUnitReady.handle_command cbw g) := by
  unfold ScsiCmdTestUnitReady.handle_command
  split_ifs
  · exact send_csw_sent g _ _ rfl rfl (Or.inr ⟨(by decide : (2 : Nat) ≠ 0), rfl⟩)
  · exact send_csw_sent g g _ rfl rfl (Or.inl rfl)

theorem startStop_sent (cbw : TUSBCDCBW) (g : CUSBCDGadget) :
    Sent g (ScsiCmdStartStopUnit.handle_command cbw g) :=
  sendStatus_sent g g _ rfl rfl (Or.inl rfl)

theorem preventAllow_sent (cbw : TUSBCDCBW) (g : CUSBCDGadget) :
    Sent g (ScsiCmdPreventAllowMediumRemoval.handle_command cbw g) :=
  sendStatus_sent g g _ rfl rfl (Or.inl rfl)

theorem setCdSpeed_sent (cbw : TUSBCDCBW) (g : CUSBCDGadget) :
    Sent g (ScsiCmdSetCdSpeed.handle_command cbw g) :=
  sendStatus_sent g g _ rfl rfl (Or.inl rfl)

theorem verify_sent (cbw : TUSBCDCBW) (g : CUSBCDGadget) :
    Sent g (ScsiCmdVerify.handle_command cbw g) :=
  sendStatus_sent g g _ rfl rfl (Or.inl rfl)

theorem sendStatus_playerCall (g X : CUSBCDGadget) (c : PlayerCall) (st : Nat)
    (hE : csws X.epIn = csws g.epIn) (hT : X.m_CSW.dCSWTag = g.m_CSW.dCSWTag)
    (hS : X.m_SenseParams = g.m_SenseParams) :
    Sent g (sendStatus (playerCall X c) st) := by
  obtain ⟨p1, p2, p3, _⟩ := playerCall_fields X c
  exact sendStatus_sent g _ _ (by rw [p1]; exact hE) (by rw [p2, hT]) (Or.inl (by rw [p3, hS]))

theorem seek_sent (cbw : TUSBCDCBW) (g : CUSBCDGadget) :
    Sent g (ScsiCmdSeek.handle_command cbw g) :=
  sendStatus_playerCall g _ _ _ rfl rfl rfl

theorem pauseResume_sent (cbw : TUSBCDCBW) (g : CUSBCDGadget) :
    Sent g (ScsiCmdPauseResume.handle_command cbw g) := by
  unfold ScsiCmdPauseResume.handle_command
  simp only []
  split_ifs
  · exact sendStatus_playerCall g g _ _ rfl rfl rfl
  · exact sendStatus_playerCall g g _ _ rfl rfl rfl

theorem stopPlayScan_sent (cbw : TUSBCDCBW) (g : CUSBCDGadget) :
    Sent g (ScsiCmdStopPlayScan.handle_command cbw g) :=
  sendStatus_playerCall g g _ _ rfl rfl rfl

theorem playAudioLba_sent (g : CUSBCDGadget) (a n : Nat) : Sent g (playAudioLba g a n) := by
  unfold playAudioLba
  simp only []
  split_ifs
  · exact sendStatus_playerCall g g _ _ rfl rfl rfl
  · exact sendStatus_playerCall g g _ _ rfl rfl rfl
  · exact sendStatus_sent g _ _ rfl rfl (Or.inr ⟨(by decide : (5 : Nat) ≠ 0), rfl⟩)

theorem playAudio10_sent (cbw : TUSBCDCBW) (g : CUSBCDGadget) :
    Sent g (ScsiCmdPlayAudio10.handle_command cbw g) := by
  unfold ScsiCmdPlayAudio10.handle_command
  simp only []
  split_ifs
  · exact playAudioLba_sent g _ _
  · exact sendStatus_sent g g _ rfl rfl (Or.inl rfl)

theorem playAudio12_sent (cbw : TUSBCDCBW) (g : CUSBCDGadget) :
    Sent g (ScsiCmdPlayAudio12.handle_command cbw g) := by
  unfold ScsiCmdPlayAudio12.handle_command
  simp only []
  split_ifs
  · exact playAudioLba_sent g _ _
  · exact sendStatus_sent g g _ rfl rfl (Or.inl rfl)

theorem playAudioMsf_sent (cbw : TUSBCDCBW) (g : CUSBCDGadget) :
    Sent g (ScsiCmdPlayAudioMsf.handle_command cbw g) := by
  unfold ScsiCmdPlayAudioMsf.handle_command
  simp only []
  split_ifs
  · exact sendStatus_sent g _ _ rfl rfl (Or.inr ⟨(by decide : (5 : Nat) ≠ 0), rfl⟩)
  · exact sendStatus_sent g _ _ rfl rfl (Or.inr ⟨(by decide : (5 : Nat) ≠ 0), rfl⟩)
  · unfold ScsiCmdPlayAudioMsf.play
    split_ifs
    · exact sendStatus_playerCall g g _ _ rfl rfl rfl
    · exact sendStatus_playerCall g g _ _ rfl rfl rfl
    · exact sendStatus_playerCall g g _ _ rfl rfl rfl

theorem tbSetNextCd_sent (cbw : TUSBCDCBW) (g : CUSBCDGadget) :
    Sent g (ScsiCmdTbSetNextCd.handle_command cbw g) := by
  unfold ScsiCmdTbSetNextCd.handle_command
  simp only []
  cases g.scsitbservice with
  | none => exact sendStatus_sent g _ _ rfl rfl (Or.inl rfl)
  | some svc => exact sendStatus_sent g _ _ rfl rfl (Or.inl rfl)

theorem stageReply_outcome (R : Prop) (g X : CUSBCDGadget) (data : List Nat) (st : Nat)
    (hE : csws X.epIn = csws g.epIn) (hT : X.m_CSW.dCSWTag = g.m_CSW.dCSWTag)
    (hS : X.m_SenseParams = g.m_SenseParams) : Outcome R g (stageReply X data st) :=
  Or.inl ⟨(stageReply_staged g X data st hE hT hS).1,
    fun _ => (stageReply_staged g X data st hE hT hS).2⟩

theorem outcome_ite (R : Prop) (g a b : CUSBCDGadget) (c : Prop) [Decidable c]
    (h1 : Outcome R g a) (h2 : Outcome R g b) : Outcome R g (if c then a else b) := by
  split_ifs
  · exact h1
  · exact h2

theorem getConfiguration_outcome (cbw : TUSBCDCBW) (g : CUSBCDGadget) :
    Outcome False g (ScsiCmdGetConfiguration.handle_command cbw g) := by
  unfold ScsiCmdGetConfiguration.handle_command
  simp only []
  exact outcome_ite _ _ _ _ _ (stageReply_outcome _ g g _ _ rfl rfl rfl)
    (Or.inr (failWith_sent g g 5 36 0 rfl rfl (by decide)))

theorem getEventStatus_outcome (cbw : TUSBCDCBW) (g : CUSBCDGadget) :
    Outcome False g (ScsiCmdGetEventStatusNotification.handle_command cbw g) := by
  unfold ScsiCmdGetEventStatusNotification.handle_command
  refine outcome_ite _ _ _ _ _ (Or.inr (failWith_sent g g 5 36 0 rfl rfl (by decide))) ?_
  unfold ScsiCmdGetEventStatusNotification.polled
  simp only []
  by_cases h : ((cbw.cb 4) &&& 0x10 ≠ 0) ∧ g.discChanged = true
      ∧ u16 (shl16 (cbw.cb 7) (cbw.cb 8))
          ≥ g.k.sizeof ReplyStruct.TUSBCDEventStatusReplyHeader
            + g.k.sizeof ReplyStruct.TUSBCDEventStatusReplyEvent
  · rw [if_pos h]
    exact stageReply_outcome _ g _ _ _ rfl rfl rfl
  · rw [if_neg h]
    exact stageReply_outcome _ g _ _ _ rfl rfl rfl

theorem readDiscInformation_outcome (cbw : TUSBCDCBW) (g : CUSBCDGadget) :
    Outcome False g (ScsiCmdReadDiscInformation.handle_command cbw g) :=
  stageReply_outcome _ g g _ _ rfl rfl rfl

theorem readTrackInformation_outcome (cbw : TUSBCDCBW) (g : CUSBCDGadget) :
    Outcome False g (ScsiCmdReadTrackInformation.handle_command cbw g) := by
  unfold ScsiCmdReadTrackInformation.handle_command
  simp only []
  cases ScsiCmdReadTrackInformation.response_block g ((cbw.cb 1) &&& 0x03)
      (shl32 (cbw.cb 2) (cbw.cb 3) (cbw.cb 4) (cbw.cb 5)) with
  | none => exact Or.inr (failWith_sent g g 5 _ _ rfl rfl (by decide))
  | some block => exact stageReply_outcome _ g g _ _ rfl rfl rfl

theorem getPerformance_outcome (cbw : TUSBCDCBW) (g : CUSBCDGadget) :
    Outcome False g (ScsiCmdGetPerformance.handle_command cbw g) :=
  stageReply_outcome _ g g _ _ rfl rfl rfl

theorem win2k_outcome (cbw : TUSBCDCBW) (g : CUSBCDGadget) :
    Outcome False g (ScsiCmdWin2kSpecific.handle_command cbw g) :=
  stageReply_outcome _ g g _ _ rfl rfl rfl

theorem readDiscStructure_outcome (cbw : TUSBCDCBW) (g : CUSBCDGadget) :
    Outcome False g (ScsiCmdReadDiscStructure.handle_command cbw g) :=
  stageReply_outcome _ g g _ _ rfl rfl rfl

theorem tbListDevices_outcome (cbw : TUSBCDCBW) (g : CUSBCDGadget) :
    Outcome False g (ScsiCmdTbListDevices.handle_command cbw g) :=
  stageReply_outcome _ g g _ _ rfl rfl rfl

theorem tbGetCount_outcome (cbw : TUSBCDCBW) (g : CUSBCDGadget) :
    Outcome False g (ScsiCmdTbGetCount.handle_command cbw g) :=
  stageReply_outcome _ g g _ _ rfl rfl rfl

theorem tbListItems_outcome (cbw : TUSBCDCBW) (g : CUSBCDGadget) :
    Outcome False g (ScsiCmdTbListItems.handle_command cbw g) := by
  unfold ScsiCmdTbListItems.handle_command
  cases g.scsitbservice with
  | none => exact Or.inr (failWith_sent g g 2 4 1 rfl rfl (by decide))
  | some svc => exact stageReply_outcome _ g g _ _ rfl rfl rfl

theorem modeSelect10_outcome (cbw : TUSBCDCBW) (g : CUSBCDGadget) :
    Outcome False g (ScsiCmdModeSelect10.handle_command cbw g) := by
  unfold ScsiCmdModeSelect10.handle_command
  simp only []
  refine outcome_ite _ _ _ _ _ (Or.inr (sendStatus_sent g g _ rfl rfl (Or.inl rfl))) ?_
  refine outcome_ite _ _ _ _ _ (Or.inr (failWith_sent g g 5 26 0 rfl rfl (by decide))) ?_
  exact Or.inl ⟨⟨rfl, rfl, Or.inr (Or.inr (Or.inl rfl))⟩, fun _ => rfl⟩

theorem staged_data (g g' : CUSBCDGadget) (d : List Nat)
    (hE : g'.epIn = g.epIn ++ [Transfer.TransferDataIn d])
    (hT : g'.m_CSW.dCSWTag = g.m_CSW.dCSWTag) (hM : MidState g'.m_nState) : Staged g g' := by
  refine ⟨?_, hT, hM⟩
  rw [hE, csws_append]
  simp [csws]

theorem csws_data (l : List Transfer) (d : List Nat) :
    csws (l ++ [Transfer.TransferDataIn d]) = csws l := by
  rw [csws_append]
  simp [csws]

theorem modeSense_sent (g : CUSBCDGadget) (pc page al : Nat) (reply : List Nat) :
    Sent g (modeSenseSend (modeSenseSelect g pc page).1 (modeSenseSelect g pc page).2
      reply al) := by
  unfold modeSenseSelect
  by_cases h1 : pc = 0x03
  · rw [if_pos h1]
    exact sendStatus_sent g _ _ rfl rfl (Or.inr ⟨(by decide : (5 : Nat) ≠ 0), rfl⟩)
  · rw [if_neg h1]
    by_cases h2 : (modePages g page).isEmpty = true ∧ page ≠ 0x3F
    · rw [if_pos h2]
      exact sendStatus_sent g _ _ rfl rfl (Or.inr ⟨(by decide : (5 : Nat) ≠ 0), rfl⟩)
    · rw [if_neg h2]
      exact sendStatus_sent g _ _ (csws_data _ _) rfl (Or.inl rfl)

theorem modeSense6_sent (cbw : TUSBCDCBW) (g : CUSBCDGadget) :
    Sent g (ScsiCmdModeSense6.handle_command cbw g) :=
  modeSense_sent g _ _ _ _

theorem modeSense10_sent (cbw : TUSBCDCBW) (g : CUSBCDGadget) :
    Sent g (ScsiCmdModeSense10.handle_command cbw g) :=
  modeSense_sent g _ _ _ _

theorem inquiry_stage (g : CUSBCDGadget) (reply : List Nat) (al : Nat) :
    Outcome False g
      { ScsiCmdInquiry.stage g reply al with m_pCurrentCommandHandler := none } :=
  Or.inl ⟨staged_data g _ _ rfl rfl (Or.inl rfl), fun _ => rfl⟩

theorem inquiry_outcome (cbw : TUSBCDCBW) (g : CUSBCDGadget) :
    Outcome False g (ScsiCmdInquiry.handle_command cbw g) := by
  unfold ScsiCmdInquiry.handle_command
  simp only []
  refine outcome_ite _ _ _ _ _ (inquiry_stage g _ _) ?_
  refine outcome_ite _ _ _ _ _ (inquiry_stage g _ _) ?_
  refine outcome_ite _ _ _ _ _ (inquiry_stage g _ _) ?_
  refine outcome_ite _ _ _ _ _ (inquiry_stage g _ _) ?_
  exact Or.inr (sendStatus_sent g _ _ rfl rfl (Or.inr ⟨(by decide : (5 : Nat) ≠ 0), rfl⟩))

theorem readCapacity10_outcome (cbw : TUSBCDCBW) (g : CUSBCDGadget) :
    Outcome False g (ScsiCmdReadCapacity10.handle_command cbw g) :=
  Or.inl ⟨staged_data g _ _ rfl rfl (Or.inl rfl), fun _ => rfl⟩

theorem readSubChannel_outcome (cbw : TUSBCDCBW) (g : CUSBCDGadget) :
    Outcome False g (ScsiCmdReadSubChannel.handle_command cbw g) := by
  unfold ScsiCmdReadSubChannel.handle_command
  simp only []
  refine outcome_ite _ _ _ _ _ ?_ (Or.inr (failWith_sent g g 5 36 0 rfl rfl (by decide)))
  exact Or.inl ⟨staged_data g _ _ rfl rfl (Or.inl rfl), fun _ => rfl⟩

theorem requestSense_outcome (cbw : TUSBCDCBW) (g : CUSBCDGadget) :
    Outcome True g (ScsiCmdRequestSense.handle_command cbw g) := by
  unfold ScsiCmdRequestSense.handle_command
  simp only []
  refine Or.inl ⟨?_, fun h => absurd trivial h⟩
  split_ifs
  · exact staged_data g _ _ rfl rfl (Or.inr (Or.inr (Or.inr rfl)))
  · exact staged_data g _ _ rfl rfl (Or.inr (Or.inr (Or.inr rfl)))
  · exact staged_data g _ _ rfl rfl (Or.inr (Or.inr (Or.inr rfl)))
  · exact staged_data g _ _ rfl rfl (Or.inr (Or.inr (Or.inr rfl)))

theorem unknownCommand_sent (g : CUSBCDGadget) : Sent g (CUSBCDGadget.unknownCommand g) :=
  failWith_sent g g 5 32 0 rfl rfl (by decide)

theorem readToc_outcome (cbw : TUSBCDCBW) (g : CUSBCDGadget) :
    Outcome False g (ScsiCmdReadTocPmaAtip.handle_command cbw g) := by
  unfold ScsiCmdReadTocPmaAtip.handle_command
  simp only []
  refine outcome_ite _ _ _ _ _ (Or.inr (failWith_sent g g 2 4 0 rfl rfl (by decide))) ?_
  refine outcome_ite _ _ _ _ _ ?_ (Or.inr (failWith_sent g g 5 36 0 rfl rfl (by decide)))
  cases g.heapTocEntries with
  | none => exact Or.inr (failWith_sent g g 4 0 0 rfl rfl (by decide))
  | some fresh => exact Or.inl ⟨staged_data g _ _ rfl rfl (Or.inl rfl), fun _ => rfl⟩

theorem finishEmpty_sent (cbw : TUSBCDCBW) (g X : CUSBCDGadget)
    (hE : csws X.epIn = csws g.epIn) (hT : X.m_CSW.dCSWTag = g.m_CSW.dCSWTag)
    (hS : X.m_SenseParams = g.m_SenseParams) :
    Sent g (ScsiCmdRead10.finishEmpty cbw X) :=
  sendStatus_sent g { X with m_CSW := { X.m_CSW with dCSWDataResidue := cbw.dCBWDataTransferLength } }
    _ hE hT (Or.inl hS)

theorem deriveBlocks_view (g : CUSBCDGadget) :
    (ScsiCmdRead10.deriveBlocks g).epIn = g.epIn
      ∧ (ScsiCmdRead10.deriveBlocks g).m_CSW = g.m_CSW
      ∧ (ScsiCmdRead10.deriveBlocks g).m_SenseParams = g.m_SenseParams := by
  unfold ScsiCmdRead10.deriveBlocks
  simp only []
  split_ifs <;> exact ⟨rfl, rfl, rfl⟩

theorem read_begin_outcome (cbw : TUSBCDCBW) (g X : CUSBCDGadget) (h : ScsiCommandHandler)
    (hE : X.epIn = g.epIn) (hT : X.m_CSW.dCSWTag = g.m_CSW.dCSWTag)
    (hS : X.m_SenseParams = g.m_SenseParams) :
    Outcome False g
      (if (ScsiCmdRead10.deriveBlocks X).m_nnumber_blocks = 0 then
        ScsiCmdRead10.finishEmpty cbw (ScsiCmdRead10.deriveBlocks X)
      else
        { ScsiCmdRead10.deriveBlocks X with
            m_nState := TCDState.DataInRead, m_pCurrentCommandHandler := some h }) := by
  obtain ⟨d1, d2, d3⟩ := deriveBlocks_view X
  refine outcome_ite _ _ _ _ _ ?_ ?_
  · exact Or.inr (finishEmpty_sent cbw g _ (by rw [d1, hE]) (by rw [d2, hT]) (by rw [d3, hS]))
  · refine Or.inl ⟨⟨?_, ?_, Or.inr (Or.inl rfl)⟩, fun _ => ?_⟩
    · show csws (ScsiCmdRead10.deriveBlocks X).epIn = _
      rw [d1, hE]
    · show (ScsiCmdRead10.deriveBlocks X).m_CSW.dCSWTag = _
      rw [d2, hT]
    · show (ScsiCmdRead10.deriveBlocks X).m_SenseParams = _
      rw [d3, hS]

theorem read10_outcome (cbw : TUSBCDCBW) (g : CUSBCDGadget) :
    Outcome False g (ScsiCmdRead10.handle_command cbw g) := by
  unfold ScsiCmdRead10.handle_command
  refine outcome_ite _ _ _ _ _ ?_ (Or.inr (failWith_sent g g 2 4 0 rfl rfl (by decide)))
  exact read_begin_outcome cbw g _ _ rfl rfl rfl

theorem selectSectorType_view (g : CUSBCDGadget) (est : Nat) :
    (ScsiCmdReadCD.selectSectorType g est).epIn = g.epIn
      ∧ (ScsiCmdReadCD.selectSectorType g est).m_CSW = g.m_CSW
      ∧ (ScsiCmdReadCD.selectSectorType g est).m_SenseParams = g.m_SenseParams := by
  unfold ScsiCmdReadCD.selectSectorType
  simp only []
  split_ifs <;> exact ⟨rfl, rfl, rfl⟩

theorem readCD_start_outcome (cbw : TUSBCDCBW) (g X : CUSBCDGadget)
    (hE : X.epIn = g.epIn) (hT : X.m_CSW.dCSWTag = g.m_CSW.dCSWTag)
    (hS : X.m_SenseParams = g.m_SenseParams) :
    Outcome False g (ScsiCmdReadCD.start cbw X) := by
  unfold ScsiCmdReadCD.start
  simp only []
  refine outcome_ite _ _ _ _ _ ?_ ?_
  · exact Or.inr (failWith_sent g _ 5 36 0 (congrArg csws hE) hT (by decide))
  · exact read_begin_outcome cbw g _ _ hE hT hS

theorem readCD_outcome (cbw : TUSBCDCBW) (g : CUSBCDGadget) :
    Outcome False g (ScsiCmdReadCD.handle_command cbw g) := by
  unfold ScsiCmdReadCD.handle_command
  refine outcome_ite _ _ _ _ _ (Or.inr (failWith_sent g g 2 4 0 rfl rfl (by decide))) ?_
  obtain ⟨d1, d2, d3⟩ := selectSectorType_view (ScsiCmdReadCD.parse cbw g)
    (((cbw.cb 1) >>> 2) &&& 0x07)
  exact readCD_start_outcome cbw g _ (by rw [d1]; rfl) (by rw [d2]; rfl) (by rw [d3]; rfl)

theorem outcome_mono (R R' : Prop) (g g' : CUSBCDGadget) (h : R → R') (o : Outcome R g g') :
    Outcome R' g g' := by
  rcases o with ⟨s, k⟩ | s
  · exact Or.inl ⟨s, fun hn => k (fun r => hn (h r))⟩
  · exact Or.inr s

theorem outcome_congr (R : Prop) (g g1 g' : CUSBCDGadget)
    (hE : csws g1.epIn = csws g.epIn) (hT : g1.m_CSW.dCSWTag = g.m_CSW.dCSWTag)
    (hS : g1.m_SenseParams = g.m_SenseParams) (o : Outcome R g1 g') : Outcome R g g' := by
  rcases o with ⟨⟨s1, s2, s3⟩, k⟩ | ⟨c, c1, c2, c3, c4⟩
  · exact Or.inl ⟨⟨by rw [s1, hE], by rw [s2, hT], s3⟩, fun hn => by rw [k hn, hS]⟩
  · exact Or.inr ⟨c, by rw [c1, hE], by rw [c2, hT], c3, by rw [← hS]; exact c4⟩

theorem handle_command_outcome (h : ScsiCommandHandler) (cbw : TUSBCDCBW) (g : CUSBCDGadget) :
    Outcome (h = ScsiCommandHandler.ScsiCmdRequestSense) g (h.handle_command cbw g) := by
  cases h
  case ScsiCmdRequestSense =>
    exact outcome_mono _ _ _ _ (fun _ => rfl) (requestSense_outcome cbw g)
  case ScsiCmdTestUnitReady => exact Or.inr (tur_sent cbw g)
  case ScsiCmdInquiry => exact outcome_mono _ _ _ _ False.elim (inquiry_outcome cbw g)
  case ScsiCmdRead10 => exact outcome_mono _ _ _ _ False.elim (read10_outcome cbw g)
  case ScsiCmdStartStopUnit => exact Or.inr (startStop_sent cbw g)
  case ScsiCmdPreventAllowMediumRemoval => exact Or.inr (preventAllow_sent cbw g)
  case ScsiCmdReadCapacity10 =>
    exact outcome_mono _ _ _ _ False.elim (readCapacity10_outcome cbw g)
  case ScsiCmdReadCD => exact outcome_mono _ _ _ _ False.elim (readCD_outcome cbw g)
  case ScsiCmdSetCdSpeed => exact Or.inr (setCdSpeed_sent cbw g)
  case ScsiCmdVerify => exact Or.inr (verify_sent cbw g)
  case ScsiCmdReadTocPmaAtip => exact outcome_mono _ _ _ _ False.elim (readToc_outcome cbw g)
  case ScsiCmdReadSubChannel =>
    exact outcome_mono _ _ _ _ False.elim (readSubChannel_outcome cbw g)
  case ScsiCmdReadTrackInformation =>
    exact outcome_mono _ _ _ _ False.elim (readTrackInformation_outcome cbw g)
  case ScsiCmdGetEventStatusNotification =>
    exact outcome_mono _ _ _ _ False.elim (getEventStatus_outcome cbw g)
  case ScsiCmdReadDiscStructure =>
    exact outcome_mono _ _ _ _ False.elim (readDiscStructure_outcome cbw g)
  case ScsiCmdReadDiscInformation =>
    exact outcome_mono _ _ _ _ False.elim (readDiscInformation_outcome cbw g)
  case ScsiCmdGetConfiguration =>
    exact outcome_mono _ _ _ _ False.elim (getConfiguration_outcome cbw g)
  case ScsiCmdPauseResume => exact Or.inr (pauseResume_sent cbw g)
  case ScsiCmdSeek => exact Or.inr (seek_sent cbw g)
  case ScsiCmdPlayAudioMsf => exact Or.inr (playAudioMsf_sent cbw g)
  case ScsiCmdStopPlayScan => exact Or.inr (stopPlayScan_sent cbw g)
  case ScsiCmdPlayAudio10 => exact Or.inr (playAudio10_sent cbw g)
  case ScsiCmdPlayAudio12 => exact Or.inr (playAudio12_sent cbw g)
  case ScsiCmdModeSelect10 =>
    exact outcome_mono _ _ _ _ False.elim (modeSelect10_outcome cbw g)
  case ScsiCmdModeSense6 => exact Or.inr (modeSense6_sent cbw g)
  case ScsiCmdModeSense10 => exact Or.inr (modeSense10_sent cbw g)
  case ScsiCmdGetPerformance =>
    exact outcome_mono _ _ _ _ False.elim (getPerformance_outcome cbw g)
  case ScsiCmdWin2kSpecific => exact outcome_mono _ _ _ _ False.elim (win2k_outcome cbw g)
  case ScsiCmdTbListDevices =>
    exact outcome_mono _ _ _ _ False.elim (tbListDevices_outcome cbw g)
  case ScsiCmdTbGetCount => exact outcome_mono _ _ _ _ False.elim (tbGetCount_outcome cbw g)
  case ScsiCmdTbListItems => exact outcome_mono _ _ _ _ False.elim (tbListItems_outcome cbw g)
  case ScsiCmdTbSetNextCd => exact Or.inr (tbSetNextCd_sent cbw g)

theorem lookup_requestSense (op : Nat)
    (h : CUSBCDGadget.m_scsi_handlers op = some ScsiCommandHandler.ScsiCmdRequestSense) :
    op = 0x03 := by
  by_contra hne
  have hne' : (op == 3) = false := by simpa using hne
  unfold CUSBCDGadget.m_scsi_handlers CUSBCDGadget.handlerTable at h
  simp only [List.lookup, hne'] at h
  repeat' split at h
  all_goals first | exact ScsiCommandHandler.noConfusion (Option.some.inj h) | exact Option.noConfusion h

theorem handleSCSI_outcome (g : CUSBCDGadget) :
    Outcome (g.m_CBW.cb 0 = 0x03) g (CUSBCDGadget.HandleSCSICommand g) := by
  unfold CUSBCDGadget.HandleSCSICommand
  simp only []
  cases hl : CUSBCDGadget.m_scsi_handlers (g.m_CBW.cb 0) with
  | none => exact Or.inr (unknownCommand_sent g)
  | some h =>
    refine outcome_congr _ g { g with m_pCurrentCommandHandler := some h } _ rfl rfl rfl ?_
    refine outcome_mono _ _ _ _ ?_ (handle_command_outcome h g.m_CBW _)
    intro hh
    rw [hh] at hl
    exact lookup_requestSense _ hl

theorem SendCSW_sent (g X : CUSBCDGadget)
    (hE : csws X.epIn = csws g.epIn) (hT : X.m_CSW.dCSWTag = g.m_CSW.dCSWTag)
    (hS : X.m_SenseParams = g.m_SenseParams
      ∨ (X.m_SenseParams.bSenseKey ≠ 0 ∧ X.m_CSW.bmCSWStatus = CD_CSW_STATUS_FAIL)) :
    Sent g (CUSBCDGadget.SendCSW X) := by
  refine ⟨X.m_CSW, ?_, hT, Or.inl rfl, hS⟩
  show csws (X.epIn ++ [Transfer.TransferCSWIn X.m_CSW]) = _
  rw [csws_append, hE]
  rfl

theorem quiet_same (G G' : CUSBCDGadget) (hE : G'.epIn = G.epIn)
    (hS : G'.m_SenseParams = G.m_SenseParams) (hst : G'.m_nState = G.m_nState)
    (hT : G'.m_CSW.dCSWTag = G.m_CSW.dCSWTag) : StepRel G G' :=
  Or.inl ⟨by rw [hE], hS, Or.inl hst, fun _ => hT⟩

theorem inComplete_rel (G : CUSBCDGadget) (n : Nat) :
    StepRel G (CUSBCDGadget.OnTransferComplete G true n) := by
  unfold CUSBCDGadget.OnTransferComplete
  simp only [if_true]
  cases hs : G.m_nState
  · exact quiet_same G _ rfl rfl rfl rfl
  · exact quiet_same G _ rfl rfl rfl rfl
  · simp only [CUSBCDGadget.onDataInComplete]
    split_ifs
    · exact Or.inl ⟨rfl, rfl, Or.inr (Or.inl ⟨hs, rfl⟩), fun _ => rfl⟩
    · exact Or.inr ⟨by rw [hs]; exact Or.inl rfl,
        SendCSW_sent G _ rfl rfl (Or.inr ⟨(by decide : (2 : Nat) ≠ 0), rfl⟩)⟩
    · exact Or.inr ⟨by rw [hs]; exact Or.inl rfl, SendCSW_sent G G rfl rfl (Or.inl rfl)⟩
  · exact quiet_same G _ rfl rfl rfl rfl
  · exact quiet_same G _ rfl rfl rfl rfl
  · exact Or.inr ⟨by rw [hs]; exact Or.inr (Or.inr (Or.inr rfl)),
      SendCSW_sent G G rfl rfl (Or.inl rfl)⟩
  · exact Or.inl ⟨rfl, rfl, Or.inr (Or.inr (Or.inr ⟨hs, rfl⟩)), fun _ => rfl⟩

theorem steprel_congr (G G1 G' : CUSBCDGadget) (hE : G1.epIn = G.epIn)
    (hS : G1.m_SenseParams = G.m_SenseParams) (hst : G1.m_nState = G.m_nState)
    (hT : G1.m_CSW.dCSWTag = G.m_CSW.dCSWTag) (r : StepRel G1 G') : StepRel G G' := by
  rcases r with ⟨q1, q2, q3, q4⟩ | ⟨m, c, c1, c2, c3, c4⟩
  · refine Or.inl ⟨by rw [q1, hE], by rw [q2, hS], ?_, ?_⟩
    · rw [hst] at q3
      exact q3
    · rw [hst, hT] at q4
      exact q4
  · refine Or.inr ⟨by rw [← hst]; exact m, c, by rw [c1, hE], by rw [c2, hT], c3, ?_⟩
    rw [← hS]
    exact c4

theorem advance_rel (G X : CUSBCDGadget) (b : Nat) (data : List Nat)
    (hst : G.m_nState = TCDState.DataInRead) (hE : X.epIn = G.epIn)
    (hS : X.m_SenseParams = G.m_SenseParams) (hT : X.m_CSW.dCSWTag = G.m_CSW.dCSWTag) :
    StepRel G (ScsiCmdRead10.advance X b data) := by
  refine Or.inl ⟨?_, hS, Or.inr (Or.inr (Or.inl ⟨hst, rfl⟩)), fun _ => hT⟩
  show csws (X.epIn ++ [Transfer.TransferDataIn data]) = _
  rw [csws_data, hE]

theorem readFail_rel (G X : CUSBCDGadget) (k a q : Nat)
    (hst : G.m_nState = TCDState.DataInRead) (hE : X.epIn = G.epIn)
    (hT : X.m_CSW.dCSWTag = G.m_CSW.dCSWTag) (hk : k ≠ 0) :
    StepRel G (readFail X k a q) :=
  Or.inr ⟨by rw [hst]; exact Or.inr (Or.inl rfl),
    readFail_sent G X k a q (congrArg csws hE) hT hk⟩

theorem read10_update_rel (G : CUSBCDGadget) : StepRel G (ScsiCmdRead10.update G) := by
  unfold ScsiCmdRead10.update
  by_cases h0 : G.m_nState ≠ TCDState.DataInRead
  · rw [if_pos h0]
    exact quiet_same G G rfl rfl rfl rfl
  · rw [if_neg h0]
    have hst : G.m_nState = TCDState.DataInRead := not_not.mp h0
    by_cases h1 : (!G.IsCDReady) = true
    · rw [if_pos h1]
      exact readFail_rel G G 2 4 0 hst rfl rfl (by decide)
    · rw [if_neg h1]
      by_cases h2 : G.m_nnumber_blocks = 0
      · rw [if_pos h2]
        exact Or.inr ⟨by rw [hst]; exact Or.inr (Or.inl rfl),
          sendStatus_sent G { G with m_CSW := { G.m_CSW with dCSWDataResidue := 0 } } _ rfl rfl
            (Or.inl rfl)⟩
      · rw [if_neg h2]
        simp only []
        split_ifs
        · exact readFail_rel G G 3 17 0 hst rfl rfl (by decide)
        · unfold ScsiCmdRead10.readStep
          simp only []
          split_ifs
          · exact readFail_rel G _ 3 17 0 hst rfl rfl (by decide)
          · exact readFail_rel G _ 3 17 0 hst rfl rfl (by decide)
          · exact readFail_rel G _ 3 17 0 hst rfl rfl (by decide)
          · exact advance_rel G _ _ _ hst rfl rfl rfl

theorem readCD_update_rel (G : CUSBCDGadget) : StepRel G (ScsiCmdReadCD.update G) := by
  unfold ScsiCmdReadCD.update
  by_cases h0 : G.m_nState ≠ TCDState.DataInRead
  · rw [if_pos h0]
    exact quiet_same G G rfl rfl rfl rfl
  · rw [if_neg h0]
    have hst : G.m_nState = TCDState.DataInRead := not_not.mp h0
    by_cases h1 : (!G.IsCDReady) = true
    · rw [if_pos h1]
      exact readFail_rel G G 2 4 0 hst rfl rfl (by decide)
    · rw [if_neg h1]
      by_cases h2 : G.m_nnumber_blocks = 0
      · rw [if_pos h2]
        exact Or.inr ⟨by rw [hst]; exact Or.inr (Or.inl rfl),
          sendStatus_sent G { G with m_CSW := { G.m_CSW with dCSWDataResidue := G.m_nbyteCount } }
            _ rfl rfl (Or.inl rfl)⟩
      · rw [if_neg h2]
        simp only []
        split_ifs
        · exact readFail_rel G G 3 17 0 hst rfl rfl (by decide)
        · unfold ScsiCmdReadCD.readStep
          simp only []
          split_ifs
          · exact readFail_rel G _ 3 17 0 hst rfl rfl (by decide)
          · exact advance_rel G _ _ _ hst rfl rfl rfl

theorem update_rel (G : CUSBCDGadget) (dev : ICueDevice) :
    StepRel G (step G (Event.Update dev)) := by
  show StepRel G (CUSBCDGadget.Update { G with m_pDevice := dev })
  refine steprel_congr G { G with m_pDevice := dev } _ rfl rfl rfl rfl ?_
  generalize ({ G with m_pDevice := dev } : CUSBCDGadget) = G1
  unfold CUSBCDGadget.Update
  cases hh : G1.m_pCurrentCommandHandler with
  | none => exact quiet_same G1 G1 rfl rfl rfl rfl
  | some h =>
    cases h
    case ScsiCmdRead10 => exact read10_update_rel G1
    case ScsiCmdReadCD => exact readCD_update_rel G1
    all_goals exact quiet_same G1 G1 rfl rfl rfl rfl

theorem onCBWReceived_rel (G1 : CUSBCDGadget) (n : Nat)
    (hst : G1.m_nState = TCDState.ReceiveCBW)
    (hinv : ¬ (n = SIZE_CBW ∧ (TUSBCDCBW.ofBytes G1.m_OutBuffer).dCBWSignature = VALID_CBW_SIG
      ∧ (TUSBCDCBW.ofBytes G1.m_OutBuffer).bCBWCBLength > 0
      ∧ (TUSBCDCBW.ofBytes G1.m_OutBuffer).bCBWCBLength ≤ 16
      ∧ (TUSBCDCBW.ofBytes G1.m_OutBuffer).bCBWLUN = 0)) :
    StepRel G1 (CUSBCDGadget.onCBWReceived G1 n) := by
  have hmid : ¬ MidState G1.m_nState := by
    rw [hst]
    intro h
    rcases h with h | h | h | h <;> exact TCDState.noConfusion h
  unfold CUSBCDGadget.onCBWReceived
  by_cases h1 : n ≠ SIZE_CBW
  · rw [if_pos h1]
    exact Or.inl ⟨rfl, rfl, Or.inl rfl, fun m => absurd m hmid⟩
  · rw [if_neg h1]
    simp only []
    by_cases h2 : (TUSBCDCBW.ofBytes G1.m_OutBuffer).dCBWSignature ≠ VALID_CBW_SIG
    · rw [if_pos h2]
      exact Or.inl ⟨rfl, rfl, Or.inl rfl, fun m => absurd m hmid⟩
    · rw [if_neg h2]
      by_cases h3 : (TUSBCDCBW.ofBytes G1.m_OutBuffer).bCBWCBLength > 0
          ∧ (TUSBCDCBW.ofBytes G1.m_OutBuffer).bCBWCBLength ≤ 16
          ∧ (TUSBCDCBW.ofBytes G1.m_OutBuffer).bCBWLUN = 0
      · exact absurd ⟨not_not.mp h1, not_not.mp h2, h3.1, h3.2.1, h3.2.2⟩ hinv
      · rw [if_neg h3]
        exact Or.inl ⟨rfl, rfl, Or.inl rfl, fun m => absurd m hmid⟩

theorem setVolume_fields (g : CUSBCDGadget) (n : Nat) :
    (ScsiCmdModeSelect10.setVolume g n).epIn = g.epIn
      ∧ (ScsiCmdModeSelect10.setVolume g n).m_CSW = g.m_CSW
      ∧ (ScsiCmdModeSelect10.setVolume g n).m_SenseParams = g.m_SenseParams := by
  unfold ScsiCmdModeSelect10.setVolume
  simp only []
  split_ifs
  · exact ⟨(playerCall_fields g _).1, (playerCall_fields g _).2.1,
      (playerCall_fields g _).2.2.1⟩
  · exact ⟨(playerCall_fields g _).1, (playerCall_fields g _).2.1,
      (playerCall_fields g _).2.2.1⟩
  · exact ⟨rfl, rfl, rfl⟩

theorem process_received_data_sent (g : CUSBCDGadget) (n : Nat) :
    Sent g (ScsiCmdModeSelect10.process_received_data g n) := by
  unfold ScsiCmdModeSelect10.process_received_data
  split_ifs
  · exact failWith_sent g g 5 26 0 rfl rfl (by decide)
  · obtain ⟨p1, p2, p3⟩ := setVolume_fields g n
    exact sendStatus_sent g _ _ (by rw [p1]) (by rw [p2]) (Or.inl p3)

theorem onDataOutComplete_sent (g : CUSBCDGadget) (n : Nat) :
    Sent g (CUSBCDGadget.onDataOutComplete g n) := by
  unfold CUSBCDGadget.onDataOutComplete
  split
  · exact process_received_data_sent g n
  · exact SendCSW_sent g g rfl rfl (Or.inl rfl)
  · exact SendCSW_sent g g rfl rfl (Or.inl rfl)

theorem outComplete_rel (G : CUSBCDGadget) (data : List Nat)
    (hnd : isDispatch G (Event.OutComplete data) = false) :
    StepRel G (step G (Event.OutComplete data)) := by
  show StepRel G (CUSBCDGadget.OnTransferComplete
    { G with m_OutBuffer := data ++ G.m_OutBuffer.drop data.length } false data.length)
  refine steprel_congr G { G with m_OutBuffer := data ++ G.m_OutBuffer.drop data.length } _
    rfl rfl rfl rfl ?_
  have hbuf : ({ G with m_OutBuffer := data ++ G.m_OutBuffer.drop data.length } :
      CUSBCDGadget).m_OutBuffer = data ++ G.m_OutBuffer.drop data.length := rfl
  have hstate : ({ G with m_OutBuffer := data ++ G.m_OutBuffer.drop data.length } :
      CUSBCDGadget).m_nState = G.m_nState := rfl
  generalize ({ G with m_OutBuffer := data ++ G.m_OutBuffer.drop data.length } :
    CUSBCDGadget) = G1 at hbuf hstate
  unfold CUSBCDGadget.OnTransferComplete
  simp only [Bool.false_eq_true, if_false]
  cases hs : G1.m_nState
  · exact quiet_same G1 _ rfl rfl rfl rfl
  · refine onCBWReceived_rel G1 _ hs ?_
    rintro ⟨e1, e2, e3, e4, e5⟩
    rw [hbuf, ofBytes_append data _ e1] at e2 e3 e4 e5
    have hv : validCBW data = true := by
      simp only [validCBW, Bool.and_eq_true, decide_eq_true_eq]
      exact ⟨⟨⟨⟨e1, e2⟩, e5⟩, e3⟩, e4⟩
    have hd : isDispatch G (Event.OutComplete data) = true := by
      simp only [isDispatch, Bool.and_eq_true, decide_eq_true_eq]
      exact ⟨by rw [← hstate, hs], hv⟩
    rw [hd] at hnd
    exact Bool.noConfusion hnd
  · exact quiet_same G1 _ rfl rfl rfl rfl
  · exact quiet_same G1 _ rfl rfl rfl rfl
  · exact Or.inr ⟨by rw [hs]; exact Or.inr (Or.inr (Or.inl rfl)), onDataOutComplete_sent G1 _⟩
  · exact quiet_same G1 _ rfl rfl rfl rfl
  · exact quiet_same G1 _ rfl rfl rfl rfl

theorem step_rel (G : CUSBCDGadget) (e : Event) (hnd : isDispatch G e = false) :
    StepRel G (step G e) := by
  cases e with
  | InComplete n => exact inComplete_rel G n
  | OutComplete data => exact outComplete_rel G data hnd
  | Update dev => exact update_rel G dev

theorem midState_not_idle (s : TCDState) (h : MidState s) :
    s ≠ TCDState.SentCSW ∧ s ≠ TCDState.ReceiveCBW := by
  rcases h with h | h | h | h <;> rw [h] <;> exact ⟨by decide, by decide⟩

theorem inv_step (g0 : CUSBCDGadget) (t : Nat) (G G' : CUSBCDGadget)
    (hi : CommandInv g0 t G) (r : StepRel G G') : CommandInv g0 t G' := by
  rcases hi with ⟨i1, i2, i3⟩ | ⟨c, i1, i2, i3⟩
  · rcases r with ⟨q1, _, q3, q4⟩ | ⟨_, c, c1, c2, c3, _⟩
    · refine Or.inl ⟨by rw [q1, i1], by rw [q4 i3, i2], ?_⟩
      rcases q3 with q | ⟨_, q⟩ | ⟨_, q⟩ | ⟨q, _⟩
      · rw [q]; exact i3
      · rw [q]; exact Or.inr (Or.inl rfl)
      · rw [q]; exact Or.inl rfl
      · exact absurd q (midState_not_idle _ i3).1
    · exact Or.inr ⟨c, by rw [c1, i1], by rw [c2, i2], c3⟩
  · rcases r with ⟨q1, _, q3, _⟩ | ⟨m, _⟩
    · refine Or.inr ⟨c, by rw [q1, i1], i2, ?_⟩
      rcases q3 with q | ⟨q, _⟩ | ⟨q, _⟩ | ⟨_, q⟩
      · rw [q]; exact i3
      · rw [q] at i3
        rcases i3 with h | h <;> exact TCDState.noConfusion h
      · rw [q] at i3
        rcases i3 with h | h <;> exact TCDState.noConfusion h
      · exact Or.inr q
    · rcases i3 with h | h
      · exact absurd h (midState_not_idle _ m).1
      · exact absurd h (midState_not_idle _ m).2

theorem inv_run (g0 : CUSBCDGadget) (t : Nat) (es : List Event) :
    ∀ G : CUSBCDGadget, CommandInv g0 t G → noDispatch G es = true →
      CommandInv g0 t (run G es) := by
  induction es with
  | nil => intro G hi _; exact hi
  | cons e es ih =>
    intro G hi hno
    simp only [noDispatch, Bool.and_eq_true, Bool.not_eq_true'] at hno
    exact ih (step G e) (inv_step g0 t G _ hi (step_rel G e hno.1)) hno.2

theorem validCBW_fields (data : List Nat) (h : validCBW data = true) :
    data.length = 31 ∧ (TUSBCDCBW.ofBytes data).dCBWSignature = VALID_CBW_SIG
      ∧ (TUSBCDCBW.ofBytes data).bCBWLUN = 0
      ∧ 1 ≤ (TUSBCDCBW.ofBytes data).bCBWCBLength
      ∧ (TUSBCDCBW.ofBytes data).bCBWCBLength ≤ 16 := by
  simp only [validCBW, Bool.and_eq_true, decide_eq_true_eq, SIZE_CBW] at h
  exact ⟨h.1.1.1.1, h.1.1.1.2, h.1.1.2, h.1.2, h.2⟩

theorem dispatch_inv (g : CUSBCDGadget) (data : List Nat)
    (hstate : g.m_nState = TCDState.ReceiveCBW) (hvalid : validCBW data = true) :
    CommandInv g (TUSBCDCBW.ofBytes data).dCBWTag (step g (Event.OutComplete data)) := by
  obtain ⟨v1, v2, v3, v4, v5⟩ := validCBW_fields data hvalid
  obtain ⟨G, e, _, f2, _, _, _, _, _, f8⟩ := step_valid_cbw_fields g data hstate v1 v2 v3 v4 v5
  rw [e]
  rcases handleSCSI_outcome G with ⟨⟨s1, s2, s3⟩, _⟩ | ⟨c, c1, c2, c3, _⟩
  · exact Or.inl ⟨by rw [s1, f8], by rw [s2, f2], s3⟩
  · exact Or.inr ⟨c, by rw [c1, f8], by rw [c2, f2], c3⟩

/-! ## C1: one CSW per CBW, with the tag of the CBW -/

/-- C1: when a CBW that passes the validity test (length 31, signature,
LUN 0, CB length in [1,16]) arrives in state ReceiveCBW, then for every opcode
and every following sequence of transfer completions and Update() calls that
dispatches no further CBW, the CSWs submitted since the CBW arrived are none
or exactly one, that one carries the tag of the CBW, and whenever a next CBW
can be dispatched exactly one CSW has been submitted. -/
theorem C1_one_csw_per_cbw (g : CUSBCDGadget) (data : List Nat) (es : List Event)
    (hstate : g.m_nState = TCDState.ReceiveCBW) (hvalid : validCBW data = true)
    (hno : noDispatch (step g (Event.OutComplete data)) es = true) :
    (csws (run (step g (Event.OutComplete data)) es).epIn = csws g.epIn
        ∨ ∃ c : TUSBCDCSW,
            csws (run (step g (Event.OutComplete data)) es).epIn = csws g.epIn ++ [c]
            ∧ c.dCSWTag = (TUSBCDCBW.ofBytes data).dCBWTag)
      ∧ (∀ next : List Nat,
          isDispatch (run (step g (Event.OutComplete data)) es) (Event.OutComplete next) = true →
          ∃ c : TUSBCDCSW,
            csws (run (step g (Event.OutComplete data)) es).epIn = csws g.epIn ++ [c]
            ∧ c.dCSWTag = (TUSBCDCBW.ofBytes data).dCBWTag) := by
  have hi := inv_run g (TUSBCDCBW.ofBytes data).dCBWTag es _ (dispatch_inv g data hstate hvalid) hno
  rcases hi with ⟨i1, _, i3⟩ | ⟨c, i1, i2, _⟩
  · refine ⟨Or.inl i1, ?_⟩
    intro next hd
    simp only [isDispatch, Bool.and_eq_true, decide_eq_true_eq] at hd
    exact absurd hd.1 (midState_not_idle _ i3).2
  · exact ⟨Or.inr ⟨c, i1, i2⟩, fun _ _ => ⟨c, i1, i2⟩⟩

/-- C1 at a concrete input: the Inquiry CBW on the sample gadget, followed by
the IN completions of its data and of its CSW. -/
theorem C1_one_csw_per_cbw_witness :
    (csws (run (step sampleGadget (Event.OutComplete inquiryCBW.toBytes))
          [Event.InComplete 36, Event.InComplete 13]).epIn = csws sampleGadget.epIn
        ∨ ∃ c : TUSBCDCSW,
            csws (run (step sampleGadget (Event.OutComplete inquiryCBW.toBytes))
              [Event.InComplete 36, Event.InComplete 13]).epIn = csws sampleGadget.epIn ++ [c]
            ∧ c.dCSWTag = (TUSBCDCBW.ofBytes inquiryCBW.toBytes).dCBWTag) :=
  (C1_one_csw_per_cbw sampleGadget inquiryCBW.toBytes
    [Event.InComplete 36, Event.InComplete 13] rfl (by decide) (by decide)).1

/-! ## C11: Read TOC format 0x01 -/

/-- C11 (the code at a failing input): on the ready sample disc with two
tracks, Read TOC format 0x01 stages the header 00 0A 01 02, whose last-session
byte is the last track number 2 and not 1, followed by the entry of track 1. -/
theorem C11_last_session_byte :
    sampleGadget.IsCDReady = true ∧ sampleGadget.GetLastTrackNumber = 2
      ∧ (toc1CBW.cb 2) &&& 0x0F = 0x01
      ∧ (ScsiCmdReadTocPmaAtip.handle_command toc1CBW sampleGadget).epIn
          = [Transfer.TransferDataIn
              [0x00, 0x0A, 0x01, 0x02, 0x00, 0x10, 0x01, 0x00, 0x00, 0x00, 0x00, 0x00]] := by
  refine ⟨rfl, by decide, by decide, by decide⟩

/-! ## C13: the CSW of Mode Sense -/

/-- C13 (the code at a failing input): the dispatch of a successful Mode
Sense(6), and likewise of Mode Sense(10), submits the data-in transfer and
directly behind it the CSW, with no IN completion in between, and leaves the
state SentCSW. -/
theorem C13_mode_sense_csw_behind_data :
    (step sampleGadget (Event.OutComplete modeSense6CBW.toBytes)).epIn
        = [Transfer.TransferDataIn (List.replicate 66 0),
           Transfer.TransferCSWIn { dCSWSignature := 0x53425355, dCSWTag := 21,
                                    dCSWDataResidue := 0, bmCSWStatus := CD_CSW_STATUS_OK }]
      ∧ (step sampleGadget (Event.OutComplete modeSense6CBW.toBytes)).m_nState = TCDState.SentCSW
      ∧ (step sampleGadget (Event.OutComplete modeSense10CBW.toBytes)).epIn
        = [Transfer.TransferDataIn (List.replicate 70 0),
           Transfer.TransferCSWIn { dCSWSignature := 0x53425355, dCSWTag := 22,
                                    dCSWDataResidue := 0, bmCSWStatus := CD_CSW_STATUS_OK }]
      ∧ (step sampleGadget (Event.OutComplete modeSense10CBW.toBytes)).m_nState
        = TCDState.SentCSW := by
  refine ⟨by decide, by decide, by decide, by decide⟩

/-! ## C14: the state when the CSW completes -/

/-- C14 (the code at a failing input): a Read(10) of one block whose seek
fails submits its CSW (status FAIL) and leaves the state ReceiveCBW, not
SentCSW; the IN completion of that CSW then hits the failing assertion of the
IN branch and posts no OUT transfer for the next CBW. -/
theorem C14_failed_read_leaves_receive_cbw :
    csws (run sampleGadget [Event.OutComplete read10CBW.toBytes,
          Event.Update failingDevice]).epIn
        = [{ dCSWSignature := 0x53425355, dCSWTag := 11, dCSWDataResidue := 0,
             bmCSWStatus := CD_CSW_STATUS_FAIL }]
      ∧ (run sampleGadget [Event.OutComplete read10CBW.toBytes,
          Event.Update failingDevice]).m_nState = TCDState.ReceiveCBW
      ∧ (run sampleGadget [Event.OutComplete read10CBW.toBytes, Event.Update failingDevice,
          Event.InComplete SIZE_CSW]).assertFailed = true
      ∧ (run sampleGadget [Event.OutComplete read10CBW.toBytes, Event.Update failingDevice,
          Event.InComplete SIZE_CSW]).epOut = sampleGadget.epOut := by
  refine ⟨by decide, by decide, by decide, by decide⟩

/-! ## C15: the default status after a failed command -/

/-- C15 (the code at a failing input): on the ready sample gadget a command
with an unknown opcode ends with CSW status FAIL and sense (0x05,0x20,0x00);
the Test Unit Ready that follows, with no Request Sense in between, reports the
default status OK, and the default status is still OK afterwards. -/
theorem C15_default_status_not_sticky :
    (csws (run sampleGadget [Event.OutComplete unknownOpcodeCBW.toBytes,
          Event.InComplete SIZE_CSW, Event.OutComplete testUnitReadyCBW.toBytes]).epIn).map
        (fun c => (c.dCSWTag, c.bmCSWStatus))
        = [(31, CD_CSW_STATUS_FAIL), (32, CD_CSW_STATUS_OK)]
      ∧ (run sampleGadget [Event.OutComplete unknownOpcodeCBW.toBytes,
          Event.InComplete SIZE_CSW]).GetCurrentCSWStatus = CD_CSW_STATUS_OK
      ∧ (run sampleGadget [Event.OutComplete unknownOpcodeCBW.toBytes,
          Event.InComplete SIZE_CSW]).m_SenseParams
        = { bSenseKey := 0x05, bAddlSenseCode := 0x20, bAddlSenseCodeQual := 0x00 } := by
  refine ⟨by decide, by decide, by decide⟩

/-! ## C12: the starting track of Read TOC format 0x00 -/

theorem trackEntries_length (fresh : List (Nat × Nat)) (msf : Nat) (ts : List CUETrackInfo) :
    ∀ i, (trackEntries fresh msf ts i).length = ts.length := by
  induction ts with
  | nil => intro i; rfl
  | cons tr rest ih =>
    intro i
    simp only [trackEntries, List.length_cons, ih]

theorem trackLoop_eq (fresh : List (Nat × Nat)) (t maxE : Int) (msf : Nat)
    (rest : List CUETrackInfo) :
    ∀ entries : List TUSBTOCEntry,
      (entries.length : Int)
          + ((rest.filter (fun tr => decide (t ≤ tr.track_number))).length : Int) ≤ maxE - 1 →
      ScsiCmdReadTocPmaAtip.trackLoop fresh t maxE msf rest entries
        = entries ++ trackEntries fresh msf
            (rest.filter (fun tr => decide (t ≤ tr.track_number))) entries.length := by
  induction rest with
  | nil =>
    intro entries _
    simp [ScsiCmdReadTocPmaAtip.trackLoop, trackEntries]
  | cons tr rest ih =>
    intro entries hb
    unfold ScsiCmdReadTocPmaAtip.trackLoop
    by_cases hlt : tr.track_number < t
    · have hf : (List.filter (fun tr => decide (t ≤ tr.track_number)) (tr :: rest))
          = List.filter (fun tr => decide (t ≤ tr.track_number)) rest := by
        rw [List.filter_cons_of_neg]
        simp only [decide_eq_true_eq]
        omega
      rw [if_pos hlt, hf]
      rw [hf] at hb
      exact ih entries hb
    · have hf : (List.filter (fun tr => decide (t ≤ tr.track_number)) (tr :: rest))
          = tr :: List.filter (fun tr => decide (t ≤ tr.track_number)) rest := by
        rw [List.filter_cons_of_pos]
        simp only [decide_eq_true_eq]
        omega
      rw [hf, List.length_cons] at hb
      rw [if_neg hlt, hf]
      have hnb : ¬ ((entries.length : Int) ≥ maxE - 1) := by
        push_cast at hb
        omega
      rw [if_neg hnb, ih]
      · simp only [trackEntries, List.length_append, List.length_singleton, List.append_assoc,
          List.singleton_append]
      · simp only [List.length_append, List.length_singleton]
        push_cast at hb ⊢
        omega

theorem increasing_length_le (M : Int) (l : List CUETrackInfo) :
    ∀ t : Int, t ≤ M + 1 →
      l.Pairwise (fun a b => a.track_number < b.track_number) →
      (∀ x ∈ l, t ≤ x.track_number ∧ x.track_number ≤ M) →
      (l.length : Int) ≤ M - t + 1 := by
  induction l with
  | nil =>
    intro t ht _ _
    simp only [List.length_nil, Nat.cast_zero]
    omega
  | cons x xs ih =>
    intro t _ hp hall
    have hx := hall x (List.mem_cons_self _ _)
    rw [List.pairwise_cons] at hp
    have h := ih (x.track_number + 1) (by omega) hp.2 (fun y hy =>
      ⟨by have := hp.1 y hy; omega, (hall y (List.mem_cons_of_mem _ hy)).2⟩)
    simp only [List.length_cons]
    push_cast
    omega

theorem foldl_lastTrack_ge (l : List CUETrackInfo) :
    ∀ acc : Int,
      acc ≤ l.foldl (fun (lastTrack : Int) t =>
          if t.track_number > lastTrack then t.track_number else lastTrack) acc
      ∧ ∀ x ∈ l, x.track_number ≤ l.foldl (fun (lastTrack : Int) t =>
          if t.track_number > lastTrack then t.track_number else lastTrack) acc := by
  induction l with
  | nil => intro acc; exact ⟨le_refl _, fun x hx => absurd hx (List.not_mem_nil x)⟩
  | cons y ys ih =>
    intro acc
    simp only [List.foldl_cons]
    obtain ⟨h1, h2⟩ := ih (if y.track_number > acc then y.track_number else acc)
    constructor
    · split_ifs at h1 ⊢ <;> omega
    · intro x hx
      rcases List.mem_cons.mp hx with rfl | hx
      · split_ifs at h1 ⊢ <;> omega
      · exact h2 x hx

theorem lastTrack_bounds (g : CUSBCDGadget) :
    1 ≤ g.GetLastTrackNumber ∧ ∀ x ∈ g.cueParser, x.track_number ≤ g.GetLastTrackNumber := by
  unfold CUSBCDGadget.GetLastTrackNumber
  obtain ⟨h1, h2⟩ := foldl_lastTrack_ge g.cueParser 0
  simp only []
  constructor
  · split_ifs <;> omega
  · intro x hx
    have := h2 x hx
    split_ifs <;> omega

theorem filter_count_le (g : CUSBCDGadget) (s : Int)
    (hp : g.cueParser.Pairwise (fun a b => a.track_number < b.track_number))
    (hle : s ≤ g.GetLastTrackNumber + 1) :
    ((g.cueParser.filter (fun tr => decide (s ≤ tr.track_number))).length : Int)
      ≤ g.GetLastTrackNumber - s + 1 := by
  apply increasing_length_le g.GetLastTrackNumber _ s hle
  · exact List.Pairwise.filter _ hp
  · intro x hx
    rw [List.mem_filter] at hx
    exact ⟨by simpa using hx.2, (lastTrack_bounds g).2 x hx.1⟩

theorem entries00_from (g : CUSBCDGadget) (fresh : List (Nat × Nat)) (msf : Nat) (s0 s : Int)
    (hp : g.cueParser.Pairwise (fun a b => a.track_number < b.track_number))
    (hs : (if s0 = 0 then 1 else s0) = s) (hne : s ≠ 0xAA)
    (hle : s ≤ g.GetLastTrackNumber + 1)
    (hmax : g.GetLastTrackNumber - s + 2
      ≤ ScsiCmdReadTocPmaAtip.max_possible_entries g.GetLastTrackNumber s0) :
    ScsiCmdReadTocPmaAtip.entries00 g fresh s0 msf = specTocFrom g fresh s msf := by
  have hc := filter_count_le g s hp hle
  unfold ScsiCmdReadTocPmaAtip.entries00 specTocFrom leadoutEntry
  simp only [hs]
  rw [if_pos hne, trackLoop_eq fresh s _ msf g.cueParser [] (by
    simp only [List.length_nil, Nat.cast_zero]
    omega)]
  simp only [List.nil_append, List.length_nil, trackEntries_length]
  rw [if_pos (by omega)]

theorem entries00_leadout_only (g : CUSBCDGadget) (fresh : List (Nat × Nat)) (msf : Nat) :
    ScsiCmdReadTocPmaAtip.entries00 g fresh 0xAA msf = [leadoutEntry g fresh msf 0] := by
  unfold ScsiCmdReadTocPmaAtip.entries00 ScsiCmdReadTocPmaAtip.max_possible_entries leadoutEntry
  simp

theorem max_possible_entries_eq (last s0 : Int) (h0 : s0 ≠ 0xAA) (hle : s0 ≤ last + 1) :
    ScsiCmdReadTocPmaAtip.max_possible_entries last s0 = last - s0 + 2 := by
  unfold ScsiCmdReadTocPmaAtip.max_possible_entries
  simp only []
  rw [if_neg h0]
  split_ifs <;> omega

theorem readToc_format0_staged (cbw : TUSBCDCBW) (g : CUSBCDGadget) (fresh : List (Nat × Nat))
    (hready : g.IsCDReady = true) (hfmt : (cbw.cb 2) &&& 0x0F = 0x00)
    (hheap : g.heapTocEntries = some fresh) :
    (ScsiCmdReadTocPmaAtip.handle_command cbw g).epIn
      = g.epIn ++ [Transfer.TransferDataIn
          ((ScsiCmdReadTocPmaAtip.assembled g
              (ScsiCmdReadTocPmaAtip.entries00 g fresh ((cbw.cb 6 : Nat) : Int)
                (((cbw.cb 1) >>> 1) &&& 0x01))).take
            (if shl16 (cbw.cb 7) (cbw.cb 8)
                < SIZE_TOC_DATA + (ScsiCmdReadTocPmaAtip.entries00 g fresh ((cbw.cb 6 : Nat) : Int)
                    (((cbw.cb 1) >>> 1) &&& 0x01)).length * SIZE_TOC_ENTRY
              then shl16 (cbw.cb 7) (cbw.cb 8)
              else SIZE_TOC_DATA + (ScsiCmdReadTocPmaAtip.entries00 g fresh
                    ((cbw.cb 6 : Nat) : Int) (((cbw.cb 1) >>> 1) &&& 0x01)).length
                  * SIZE_TOC_ENTRY))] := by
  unfold ScsiCmdReadTocPmaAtip.handle_command
  simp only [hready, hfmt, hheap, Bool.not_true, Bool.false_eq_true, if_false, true_or, if_true,
    ScsiCommandHandler.begin_data_in_transfer, CUSBCDGadget.StartDataInTransfer]

/-- C12: on a ready disc whose track numbers increase along the table, Read
TOC format 0x00 stages the header and the entries it wrote, cut to the
allocation length; the entries are, for starting track 0, the same as for
starting track 1 (the tracks numbered 1 or higher in table order, then the
lead-out); for starting track 0xAA exactly one entry, the lead-out; and for a
starting track t with 1 <= t <= last track number (t not 0xAA) exactly the
tracks numbered t or higher followed by the lead-out. -/
theorem C12_toc_starting_track (g : CUSBCDGadget) (fresh : List (Nat × Nat)) (msf : Nat)
    (hp : g.cueParser.Pairwise (fun a b => a.track_number < b.track_number))
    (hready : g.IsCDReady = true) (hheap : g.heapTocEntries = some fresh) :
    (∀ cbw : TUSBCDCBW, (cbw.cb 2) &&& 0x0F = 0x00 → ((cbw.cb 1) >>> 1) &&& 0x01 = msf →
        (ScsiCmdReadTocPmaAtip.handle_command cbw g).epIn
          = g.epIn ++ [Transfer.TransferDataIn
              ((ScsiCmdReadTocPmaAtip.assembled g
                  (ScsiCmdReadTocPmaAtip.entries00 g fresh ((cbw.cb 6 : Nat) : Int) msf)).take
                (if shl16 (cbw.cb 7) (cbw.cb 8)
                    < SIZE_TOC_DATA + (ScsiCmdReadTocPmaAtip.entries00 g fresh
                        ((cbw.cb 6 : Nat) : Int) msf).length * SIZE_TOC_ENTRY
                  then shl16 (cbw.cb 7) (cbw.cb 8)
                  else SIZE_TOC_DATA + (ScsiCmdReadTocPmaAtip.entries00 g fresh
                        ((cbw.cb 6 : Nat) : Int) msf).length * SIZE_TOC_ENTRY))])
      ∧ ScsiCmdReadTocPmaAtip.entries00 g fresh 0 msf
          = ScsiCmdReadTocPmaAtip.entries00 g fresh 1 msf
      ∧ ScsiCmdReadTocPmaAtip.entries00 g fresh 0 msf = specTocFrom g fresh 1 msf
      ∧ ScsiCmdReadTocPmaAtip.entries00 g fresh 0xAA msf = [leadoutEntry g fresh msf 0]
      ∧ ∀ t : Nat, 1 ≤ t → (t : Int) ≤ g.GetLastTrackNumber → t ≠ 0xAA →
          ScsiCmdReadTocPmaAtip.entries00 g fresh (t : Int) msf = specTocFrom g fresh (t : Int) msf := by
  have hl := (lastTrack_bounds g).1
  have e0 : ScsiCmdReadTocPmaAtip.entries00 g fresh 0 msf = specTocFrom g fresh 1 msf := by
    apply entries00_from g fresh msf 0 1 hp (by simp) (by decide) (by omega)
    rw [max_possible_entries_eq _ _ (by decide) (by omega)]
    omega
  have e1 : ScsiCmdReadTocPmaAtip.entries00 g fresh 1 msf = specTocFrom g fresh 1 msf := by
    apply entries00_from g fresh msf 1 1 hp (by simp) (by decide) (by omega)
    rw [max_possible_entries_eq _ _ (by decide) (by omega)]
  refine ⟨?_, by rw [e0, e1], e0, entries00_leadout_only g fresh msf, ?_⟩
  · intro cbw hfmt hmsf
    rw [readToc_format0_staged cbw g fresh hready hfmt hheap, hmsf]
  intro t ht hle hne
  have hne' : (t : Int) ≠ 0xAA := by
    intro h
    apply hne
    exact_mod_cast h
  have ht0 : (t : Int) ≠ 0 := by omega
  apply entries00_from g fresh msf t t hp (by rw [if_neg ht0]) hne' (by omega)
  rw [max_possible_entries_eq _ _ hne' (by omega)]

/-- C12 at a concrete input: the sample disc (tracks 1 and 2). -/
theorem C12_toc_starting_track_witness :
    ScsiCmdReadTocPmaAtip.entries00 sampleGadget [] 0 1
      = ScsiCmdReadTocPmaAtip.entries00 sampleGadget [] 1 1 :=
  (C12_toc_starting_track sampleGadget [] 1 (by decide) rfl rfl).2.1

/-! ## C16: only Request Sense resets the sense -/

theorem step_valid_cbw_sense (g : CUSBCDGadget) (data : List Nat)
    (h : g.m_nState = TCDState.ReceiveCBW) (h1 : data.length = 31)
    (h2 : (TUSBCDCBW.ofBytes data).dCBWSignature = VALID_CBW_SIG)
    (h3 : (TUSBCDCBW.ofBytes data).bCBWLUN = 0)
    (h4 : 1 ≤ (TUSBCDCBW.ofBytes data).bCBWCBLength)
    (h5 : (TUSBCDCBW.ofBytes data).bCBWCBLength ≤ 16) :
    ∃ G : CUSBCDGadget, step g (Event.OutComplete data) = CUSBCDGadget.HandleSCSICommand G
      ∧ G.m_CBW = TUSBCDCBW.ofBytes data
      ∧ G.epIn = g.epIn ∧ G.m_SenseParams = g.m_SenseParams
      ∧ G.bmCSWStatus = g.bmCSWStatus ∧ G.m_CDReady = g.m_CDReady
      ∧ G.m_CSW.dCSWTag = (TUSBCDCBW.ofBytes data).dCBWTag :=
  ⟨_, step_valid_cbw g data h h1 h2 h3 h4 h5, rfl, rfl, rfl, rfl, rfl, rfl⟩

theorem sense_inv_step (g0 G G' : CUSBCDGadget) (hi : SenseInv g0 G) (r : StepRel G G') :
    SenseInv g0 G' := by
  rcases hi with ⟨i1, i2, i3⟩ | ⟨c, i1, i2, i3⟩
  · rcases r with ⟨q1, q2, q3, _⟩ | ⟨_, c, c1, _, c3, c4⟩
    · refine Or.inl ⟨by rw [q1, i1], ?_, by rw [q2, i3]⟩
      rcases q3 with q | ⟨_, q⟩ | ⟨_, q⟩ | ⟨q, _⟩
      · rw [q]; exact i2
      · rw [q]; exact Or.inr (Or.inl rfl)
      · rw [q]; exact Or.inl rfl
      · exact absurd q (midState_not_idle _ i2).1
    · refine Or.inr ⟨c, by rw [c1, i1], c3, ?_⟩
      rw [← i3]
      exact c4
  · rcases r with ⟨q1, q2, q3, _⟩ | ⟨m, _⟩
    · refine Or.inr ⟨c, by rw [q1, i1], ?_, by rw [q2]; exact i3⟩
      rcases q3 with q | ⟨q, _⟩ | ⟨q, _⟩ | ⟨_, q⟩
      · rw [q]; exact i2
      · rw [q] at i2
        rcases i2 with h | h <;> exact TCDState.noConfusion h
      · rw [q] at i2
        rcases i2 with h | h <;> exact TCDState.noConfusion h
      · exact Or.inr q
    · rcases i2 with h | h
      · exact absurd h (midState_not_idle _ m).1
      · exact absurd h (midState_not_idle _ m).2

theorem sense_inv_run (g0 : CUSBCDGadget) (es : List Event) :
    ∀ G : CUSBCDGadget, SenseInv g0 G → noDispatch G es = true → SenseInv g0 (run G es) := by
  induction es with
  | nil => intro G hi _; exact hi
  | cons e es ih =>
    intro G hi hno
    simp only [noDispatch, Bool.and_eq_true, Bool.not_eq_true'] at hno
    exact ih (step G e) (sense_inv_step g0 G _ hi (step_rel G e hno.1)) hno.2

theorem dispatch_sense_inv (g : CUSBCDGadget) (data : List Nat)
    (hstate : g.m_nState = TCDState.ReceiveCBW) (hvalid : validCBW data = true)
    (hop : (TUSBCDCBW.ofBytes data).cb 0 ≠ 0x03) :
    SenseInv g (step g (Event.OutComplete data)) := by
  obtain ⟨v1, v2, v3, v4, v5⟩ := validCBW_fields data hvalid
  obtain ⟨G, e, f1, f2, f3, _, _, _⟩ := step_valid_cbw_sense g data hstate v1 v2 v3 v4 v5
  rw [e]
  rcases handleSCSI_outcome G with ⟨⟨s1, _, s3⟩, k⟩ | ⟨c, c1, _, c3, c4⟩
  · refine Or.inl ⟨by rw [s1, f2], s3, ?_⟩
    rw [k (by rw [f1]; exact hop), f3]
  · refine Or.inr ⟨c, by rw [c1, f2], c3, ?_⟩
    rw [← f3]
    exact c4

/-- C16: for every valid CBW whose opcode is not 0x03 (Request Sense),
arriving in state ReceiveCBW in any prior state of the gadget, and every
following sequence of completions and Update() calls that dispatches no
further CBW: the stored sense triplet is the one from before the command, or
its key is not 0 and the one CSW of the command reports FAIL; so a command
whose CSW reports OK leaves the sense triplet unchanged. -/
theorem C16_sense_kept (g : CUSBCDGadget) (data : List Nat) (es : List Event)
    (hstate : g.m_nState = TCDState.ReceiveCBW) (hvalid : validCBW data = true)
    (hop : (TUSBCDCBW.ofBytes data).cb 0 ≠ 0x03)
    (hno : noDispatch (step g (Event.OutComplete data)) es = true) :
    ((run (step g (Event.OutComplete data)) es).m_SenseParams = g.m_SenseParams
        ∨ ((run (step g (Event.OutComplete data)) es).m_SenseParams.bSenseKey ≠ 0
            ∧ ∃ c : TUSBCDCSW,
                csws (run (step g (Event.OutComplete data)) es).epIn = csws g.epIn ++ [c]
                ∧ c.bmCSWStatus = CD_CSW_STATUS_FAIL))
      ∧ (∀ c : TUSBCDCSW,
          csws (run (step g (Event.OutComplete data)) es).epIn = csws g.epIn ++ [c] →
          c.bmCSWStatus = CD_CSW_STATUS_OK →
          (run (step g (Event.OutComplete data)) es).m_SenseParams = g.m_SenseParams) := by
  have hi := sense_inv_run g es _ (dispatch_sense_inv g data hstate hvalid hop) hno
  rcases hi with ⟨_, _, i3⟩ | ⟨c, i1, _, i3⟩
  · exact ⟨Or.inl i3, fun _ _ _ => i3⟩
  · rcases i3 with i3 | ⟨k, f⟩
    · exact ⟨Or.inl i3, fun _ _ _ => i3⟩
    · refine ⟨Or.inr ⟨k, c, i1, f⟩, ?_⟩
      intro c' hc' hok
      rw [i1] at hc'
      have hcc : c = c' := by
        have := List.append_cancel_left hc'
        exact List.singleton_inj.mp this
      rw [← hcc, f] at hok
      exact absurd hok (by decide)

/-- C16 at a concrete input: Test Unit Ready on the ready sample gadget. -/
theorem C16_sense_kept_witness :
    (run (step sampleGadget (Event.OutComplete testUnitReadyCBW.toBytes))
          [Event.InComplete SIZE_CSW]).m_SenseParams = sampleGadget.m_SenseParams
      ∨ ((run (step sampleGadget (Event.OutComplete testUnitReadyCBW.toBytes))
            [Event.InComplete SIZE_CSW]).m_SenseParams.bSenseKey ≠ 0
          ∧ ∃ c : TUSBCDCSW,
              csws (run (step sampleGadget (Event.OutComplete testUnitReadyCBW.toBytes))
                [Event.InComplete SIZE_CSW]).epIn = csws sampleGadget.epIn ++ [c]
              ∧ c.bmCSWStatus = CD_CSW_STATUS_FAIL) :=
  (C16_sense_kept sampleGadget testUnitReadyCBW.toBytes [Event.InComplete SIZE_CSW] rfl
    (by decide) (by decide) (by decide)).1

/-! ## C17: the length of the Request Sense reply and the status of its CSW -/

theorem step_valid_cbw_csw (g : CUSBCDGadget) (data : List Nat)
    (h : g.m_nState = TCDState.ReceiveCBW) (h1 : data.length = 31)
    (h2 : (TUSBCDCBW.ofBytes data).dCBWSignature = VALID_CBW_SIG)
    (h3 : (TUSBCDCBW.ofBytes data).bCBWLUN = 0)
    (h4 : 1 ≤ (TUSBCDCBW.ofBytes data).bCBWCBLength)
    (h5 : (TUSBCDCBW.ofBytes data).bCBWCBLength ≤ 16) :
    ∃ G : CUSBCDGadget, step g (Event.OutComplete data) = CUSBCDGadget.HandleSCSICommand G
      ∧ G.m_CBW = TUSBCDCBW.ofBytes data
      ∧ G.epIn = g.epIn ∧ G.m_SenseParams = g.m_SenseParams
      ∧ G.bmCSWStatus = g.bmCSWStatus ∧ G.m_CDReady = g.m_CDReady
      ∧ G.m_CSW = { g.m_CSW with dCSWTag := (TUSBCDCBW.ofBytes data).dCBWTag }
      ∧ G.cueParser = g.cueParser ∧ G.m_pDevice = g.m_pDevice
      ∧ G.m_ReadCapReply_nSectorSize = g.m_ReadCapReply_nSectorSize
      ∧ G.data_block_size = g.data_block_size ∧ G.data_skip_bytes = g.data_skip_bytes :=
  ⟨_, step_valid_cbw g data h h1 h2 h3 h4 h5, rfl, rfl, rfl, rfl, rfl, rfl, rfl, rfl, rfl, rfl,
    rfl⟩

theorem handle_of_lookup (g : CUSBCDGadget) (op : Nat) (h : ScsiCommandHandler)
    (hop : g.m_CBW.cb 0 = op) (hh : CUSBCDGadget.m_scsi_handlers op = some h) :
    ∃ G2 : CUSBCDGadget,
      CUSBCDGadget.HandleSCSICommand g = h.handle_command g.m_CBW G2
      ∧ G2.epIn = g.epIn ∧ G2.m_SenseParams = g.m_SenseParams
      ∧ G2.bmCSWStatus = g.bmCSWStatus ∧ G2.m_CDReady = g.m_CDReady
      ∧ G2.m_CSW = g.m_CSW
      ∧ G2.cueParser = g.cueParser ∧ G2.m_pDevice = g.m_pDevice
      ∧ G2.m_ReadCapReply_nSectorSize = g.m_ReadCapReply_nSectorSize
      ∧ G2.data_block_size = g.data_block_size ∧ G2.data_skip_bytes = g.data_skip_bytes := by
  refine ⟨{ g with m_pCurrentCommandHandler := some h }, ?_, rfl, rfl, rfl, rfl, rfl, rfl, rfl,
    rfl, rfl, rfl⟩
  unfold CUSBCDGadget.HandleSCSICommand
  simp only []
  rw [hop, hh]

theorem cb_lt (c : TUSBCDCBW) (i : Nat) : c.cb i < 256 := by
  unfold TUSBCDCBW.cb byteAt u8
  omega

theorem requestSense_length (c : TUSBCDCBW) :
    (if u8 (c.cb 4) < u8 ScsiCmdRequestSense.sizeofReply then u8 (c.cb 4)
      else u8 ScsiCmdRequestSense.sizeofReply) = min 18 (c.cb 4) := by
  have hb := cb_lt c 4
  unfold u8 ScsiCmdRequestSense.sizeofReply
  split <;> omega

theorem requestSense_fields (c : TUSBCDCBW) (X : CUSBCDGadget) :
    (ScsiCmdRequestSense.handle_command c X).epIn
        = X.epIn ++ [Transfer.TransferDataIn
            ((ScsiCmdRequestSense.m_ReqSenseReply X).take (min 18 (c.cb 4)))]
      ∧ (ScsiCmdRequestSense.handle_command c X).m_nState = TCDState.SendReqSenseReply
      ∧ (ScsiCmdRequestSense.handle_command c X).m_CSW
          = { X.m_CSW with bmCSWStatus := CD_CSW_STATUS_OK } := by
  rw [← requestSense_length c]
  unfold ScsiCmdRequestSense.handle_command ScsiCommandHandler.begin_data_in_transfer
    CUSBCDGadget.StartDataInTransfer CUSBCDGadget.SetSenseParameters
  simp only []
  split <;> exact ⟨rfl, rfl, rfl⟩

theorem inComplete_sendReqSense (H : CUSBCDGadget) (n : Nat)
    (hs : H.m_nState = TCDState.SendReqSenseReply) :
    (step H (Event.InComplete n)).epIn = H.epIn ++ [Transfer.TransferCSWIn H.m_CSW] := by
  show (CUSBCDGadget.OnTransferComplete H true n).epIn = _
  unfold CUSBCDGadget.OnTransferComplete
  rw [if_pos rfl]
  simp only [hs]
  rfl

theorem reqSenseReply_congr (X g : CUSBCDGadget) (h : X.m_SenseParams = g.m_SenseParams) :
    ScsiCmdRequestSense.m_ReqSenseReply X = ScsiCmdRequestSense.m_ReqSenseReply g := by
  unfold ScsiCmdRequestSense.m_ReqSenseReply
  rw [h]

/-- C17: for every valid CBW with opcode 0x03 arriving in state ReceiveCBW,
whatever the stored sense and the allocation length a = CBWCB[4]: exactly one
data-in transfer is begun, of exactly min(18, a) bytes, which are the first
min(18, a) bytes of the 18-byte sense block, whose byte 0 is 0x70; and when
that transfer completes the CSW submitted for the command carries the tag of
the CBW and status OK. -/
theorem C17_request_sense_reply (g : CUSBCDGadget) (data : List Nat)
    (hstate : g.m_nState = TCDState.ReceiveCBW) (hvalid : validCBW data = true)
    (hop : (TUSBCDCBW.ofBytes data).cb 0 = 0x03) :
    (step g (Event.OutComplete data)).epIn
        = g.epIn ++ [Transfer.TransferDataIn
            ((ScsiCmdRequestSense.m_ReqSenseReply g).take
              (min 18 ((TUSBCDCBW.ofBytes data).cb 4)))]
      ∧ ((ScsiCmdRequestSense.m_ReqSenseReply g).take
            (min 18 ((TUSBCDCBW.ofBytes data).cb 4))).length
          = min 18 ((TUSBCDCBW.ofBytes data).cb 4)
      ∧ (ScsiCmdRequestSense.m_ReqSenseReply g).length = 18
      ∧ (ScsiCmdRequestSense.m_ReqSenseReply g).getD 0 0 = 0x70
      ∧ (∀ n : Nat,
          (step (step g (Event.OutComplete data)) (Event.InComplete n)).epIn
            = (step g (Event.OutComplete data)).epIn
                ++ [Transfer.TransferCSWIn
                      { g.m_CSW with dCSWTag := (TUSBCDCBW.ofBytes data).dCBWTag,
                                     bmCSWStatus := CD_CSW_STATUS_OK }]) := by
  obtain ⟨v1, v2, v3, v4, v5⟩ := validCBW_fields data hvalid
  obtain ⟨G, e, f1, f2, f3, _, _, f6, _⟩ := step_valid_cbw_csw g data hstate v1 v2 v3 v4 v5
  obtain ⟨G2, e2, k1, k2, _, _, k5, _⟩ :=
    handle_of_lookup G 0x03 ScsiCommandHandler.ScsiCmdRequestSense (by rw [f1]; exact hop) rfl
  have e3 : ScsiCommandHandler.handle_command ScsiCommandHandler.ScsiCmdRequestSense G.m_CBW G2
      = ScsiCmdRequestSense.handle_command G.m_CBW G2 := rfl
  obtain ⟨r1, r2, r3⟩ := requestSense_fields G.m_CBW G2
  have hrep := reqSenseReply_congr G2 g (by rw [k2, f3])
  have hlen : (ScsiCmdRequestSense.m_ReqSenseReply g).length = 18 := rfl
  refine ⟨?_, ?_, hlen, rfl, ?_⟩
  · rw [e, e2, e3, r1, hrep, k1, f2, f1]
  · rw [List.length_take, hlen]
    omega
  · intro n
    rw [e, e2, e3, inComplete_sendReqSense _ n r2, r3, k5, f6]

/-- C17 at a concrete input: allocation length 4 while sense (0x05,0x24,0x00)
is stored. -/
theorem C17_request_sense_reply_witness :
    (step (sampleGadget.SetSenseParameters 0x05 0x24 0x00)
        (Event.OutComplete (sampleCBW 17 4 [0x03, 0, 0, 0, 4, 0]).toBytes)).epIn
      = [Transfer.TransferDataIn [0x70, 0, 5, 0]] :=
  (C17_request_sense_reply (sampleGadget.SetSenseParameters 0x05 0x24 0x00)
    (sampleCBW 17 4 [0x03, 0, 0, 0, 4, 0]).toBytes rfl (by decide) (by decide)).1

/-! ## C19: the Read Capacity(10) reply -/

theorem le32_htonl (v : Nat) : le32 (htonl v) = be32 v := by
  unfold le32 htonl be32
  have ha : v % 256 < 256 := Nat.mod_lt _ (by norm_num)
  have hb : v / 256 % 256 < 256 := Nat.mod_lt _ (by norm_num)
  have hc : v / 65536 % 256 < 256 := Nat.mod_lt _ (by norm_num)
  have hd : v / 16777216 % 256 < 256 := Nat.mod_lt _ (by norm_num)
  generalize v % 256 = a at ha ⊢
  generalize v / 256 % 256 = b at hb ⊢
  generalize v / 65536 % 256 = c at hc ⊢
  generalize v / 16777216 % 256 = d at hd ⊢
  have e1 : (a * 16777216 + b * 65536 + c * 256 + d) % 256 = d := by omega
  have e2 : (a * 16777216 + b * 65536 + c * 256 + d) / 256 % 256 = c := by omega
  have e3 : (a * 16777216 + b * 65536 + c * 256 + d) / 65536 % 256 = b := by omega
  have e4 : (a * 16777216 + b * 65536 + c * 256 + d) / 16777216 % 256 = a := by omega
  rw [e1, e2, e3, e4]

theorem leadout_congr (X g : CUSBCDGadget) (h1 : X.cueParser = g.cueParser)
    (h2 : X.m_pDevice = g.m_pDevice) : X.GetLeadoutLBA = g.GetLeadoutLBA := by
  unfold CUSBCDGadget.GetLeadoutLBA
  rw [h1, h2]

theorem leadout_lt (g : CUSBCDGadget) : g.GetLeadoutLBA < 4294967296 := by
  unfold CUSBCDGadget.GetLeadoutLBA
  split
  · norm_num
  · simp only []
    split
    · exact Nat.mod_lt _ (by norm_num)
    · exact Nat.mod_lt _ (by norm_num)

theorem readCapacity_fields (c : TUSBCDCBW) (X : CUSBCDGadget) :
    (ScsiCmdReadCapacity10.handle_command c X).epIn
      = X.epIn ++ [Transfer.TransferDataIn
          (be32 (u32 (X.GetLeadoutLBA + 4294967296 - 1)) ++ le32 X.m_ReadCapReply_nSectorSize)] := by
  have e : (ScsiCmdReadCapacity10.handle_command c X).epIn
      = X.epIn ++ [Transfer.TransferDataIn
          ((ScsiCmdReadCapacity10.m_ReadCapReply X).take SIZE_READCAPREP)] := rfl
  rw [e]
  unfold ScsiCmdReadCapacity10.m_ReadCapReply
  rw [le32_htonl]
  rfl

/-- C19 (counterexample): on the sample disc, whose lead-out LBA is 300000,
the reply staged by Read Capacity(10) is 00 04 93 DF 00 00 08 00 and not
00 04 92 7F 00 00 08 00. -/
theorem C19_counterexample :
    sampleGadget.GetLeadoutLBA = 300000
      ∧ (step sampleGadget (Event.OutComplete readCapacityCBW.toBytes)).epIn
          = [Transfer.TransferDataIn [0x00, 0x04, 0x93, 0xDF, 0x00, 0x00, 0x08, 0x00]]
      ∧ (step sampleGadget (Event.OutComplete readCapacityCBW.toBytes)).epIn
          ≠ [Transfer.TransferDataIn [0x00, 0x04, 0x92, 0x7F, 0x00, 0x00, 0x08, 0x00]] := by
  refine ⟨by decide, by decide, by decide⟩

/-- C19 (amended): for every valid CBW with opcode 0x25 arriving in state
ReceiveCBW, with the sector-size word of the reply holding htonl(2048) as its
member initialiser leaves it, exactly one data-in transfer is begun, of 8
bytes: the big-endian encoding of (lead-out LBA - 1), taken modulo 2^32 and
equal to lead-out LBA - 1 when the lead-out LBA is not 0, followed by the
big-endian encoding of 2048; for a lead-out LBA of 300000 the reply is
00 04 93 DF 00 00 08 00. -/
theorem C19_read_capacity_reply (g : CUSBCDGadget) (data : List Nat)
    (hstate : g.m_nState = TCDState.ReceiveCBW) (hvalid : validCBW data = true)
    (hop : (TUSBCDCBW.ofBytes data).cb 0 = 0x25)
    (hsz : g.m_ReadCapReply_nSectorSize = htonl 2048) :
    (step g (Event.OutComplete data)).epIn
        = g.epIn ++ [Transfer.TransferDataIn
            (be32 (u32 (g.GetLeadoutLBA + 4294967296 - 1)) ++ be32 2048)]
      ∧ (be32 (u32 (g.GetLeadoutLBA + 4294967296 - 1)) ++ be32 2048).length = 8
      ∧ (1 ≤ g.GetLeadoutLBA → u32 (g.GetLeadoutLBA + 4294967296 - 1) = g.GetLeadoutLBA - 1)
      ∧ (g.GetLeadoutLBA = 300000 →
          (step g (Event.OutComplete data)).epIn
            = g.epIn ++ [Transfer.TransferDataIn
                [0x00, 0x04, 0x93, 0xDF, 0x00, 0x00, 0x08, 0x00]]) := by
  obtain ⟨v1, v2, v3, v4, v5⟩ := validCBW_fields data hvalid
  obtain ⟨G, e, f1, f2, _, _, _, _, f7, f8, f9, _⟩ :=
    step_valid_cbw_csw g data hstate v1 v2 v3 v4 v5
  obtain ⟨G2, e2, k1, _, _, _, _, k6, k7, k8, _⟩ :=
    handle_of_lookup G 0x25 ScsiCommandHandler.ScsiCmdReadCapacity10 (by rw [f1]; exact hop) rfl
  have e3 : ScsiCommandHandler.handle_command ScsiCommandHandler.ScsiCmdReadCapacity10 G.m_CBW G2
      = ScsiCmdReadCapacity10.handle_command G.m_CBW G2 := rfl
  have hl : G2.GetLeadoutLBA = g.GetLeadoutLBA :=
    leadout_congr G2 g (by rw [k6, f7]) (by rw [k7, f8])
  have main : (step g (Event.OutComplete data)).epIn
      = g.epIn ++ [Transfer.TransferDataIn
          (be32 (u32 (g.GetLeadoutLBA + 4294967296 - 1)) ++ be32 2048)] := by
    rw [e, e2, e3, readCapacity_fields, hl, k8, f9, hsz, le32_htonl, k1, f2]
  refine ⟨main, rfl, ?_, ?_⟩
  · intro h1
    have h2 := leadout_lt g
    unfold u32
    omega
  · intro h3
    rw [main, h3]
    rfl

/-- C19 (amended) at a concrete input: the sample disc, lead-out LBA 300000. -/
theorem C19_read_capacity_reply_witness :
    (step sampleGadget (Event.OutComplete readCapacityCBW.toBytes)).epIn
      = sampleGadget.epIn ++ [Transfer.TransferDataIn
          (be32 (u32 (sampleGadget.GetLeadoutLBA + 4294967296 - 1)) ++ be32 2048)] :=
  (C19_read_capacity_reply sampleGadget readCapacityCBW.toBytes rfl (by decide) (by decide)
    rfl).1

/-! ## C20: the read context set up by Read(10) -/

theorem deriveBlocks_parse (c : TUSBCDCBW) (X : CUSBCDGadget) :
    (ScsiCmdRead10.deriveBlocks (ScsiCmdRead10.parse c X)).m_nblock_address
        = shl32 (c.cb 2) (c.cb 3) (c.cb 4) (c.cb 5)
      ∧ (ScsiCmdRead10.deriveBlocks (ScsiCmdRead10.parse c X)).m_nnumber_blocks
          = (if u32 (shl16 (c.cb 7) (c.cb 8)) = 0 ∧ c.dCBWDataTransferLength > 0 then
              u32 (c.dCBWDataTransferLength + 2048 - 1) / 2048
            else u32 (shl16 (c.cb 7) (c.cb 8)))
      ∧ (ScsiCmdRead10.deriveBlocks (ScsiCmdRead10.parse c X)).transfer_block_size = 2048
      ∧ (ScsiCmdRead10.deriveBlocks (ScsiCmdRead10.parse c X)).block_size = X.data_block_size
      ∧ (ScsiCmdRead10.deriveBlocks (ScsiCmdRead10.parse c X)).skip_bytes = X.data_skip_bytes := by
  unfold ScsiCmdRead10.deriveBlocks
  simp only []
  have a1 : (ScsiCmdRead10.parse c X).m_nnumber_blocks = u32 (shl16 (c.cb 7) (c.cb 8)) := rfl
  have a2 : (ScsiCmdRead10.parse c X).m_nbyteCount = c.dCBWDataTransferLength := rfl
  have a3 : (ScsiCmdRead10.parse c X).transfer_block_size = 2048 := rfl
  rw [a1, a2, a3]
  by_cases hc : u32 (shl16 (c.cb 7) (c.cb 8)) = 0 ∧ c.dCBWDataTransferLength > 0
  · rw [if_pos hc, if_pos hc]
    exact ⟨rfl, rfl, rfl, rfl, rfl⟩
  · rw [if_neg hc, if_neg hc]
    exact ⟨rfl, rfl, rfl, rfl, rfl⟩

theorem read10_context (c : TUSBCDCBW) (X : CUSBCDGadget) (hr : X.m_CDReady = true) :
    (ScsiCmdRead10.handle_command c X).m_nblock_address
        = shl32 (c.cb 2) (c.cb 3) (c.cb 4) (c.cb 5)
      ∧ (ScsiCmdRead10.handle_command c X).m_nnumber_blocks
          = (if u32 (shl16 (c.cb 7) (c.cb 8)) = 0 ∧ c.dCBWDataTransferLength > 0 then
              u32 (c.dCBWDataTransferLength + 2048 - 1) / 2048
            else u32 (shl16 (c.cb 7) (c.cb 8)))
      ∧ (ScsiCmdRead10.handle_command c X).transfer_block_size = 2048
      ∧ (ScsiCmdRead10.handle_command c X).block_size = X.data_block_size
      ∧ (ScsiCmdRead10.handle_command c X).skip_bytes = X.data_skip_bytes := by
  obtain ⟨d1, d2, d3, d4, d5⟩ := deriveBlocks_parse c X
  rw [read10_handle_eq c X hr]
  generalize ScsiCmdRead10.deriveBlocks (ScsiCmdRead10.parse c X) = D at d1 d2 d3 d4 d5 ⊢
  by_cases hz : D.m_nnumber_blocks = 0
  · rw [if_pos hz]
    unfold ScsiCmdRead10.finishEmpty ScsiCommandHandler.send_csw CUSBCDGadget.SendCSW
    exact ⟨d1, d2, d3, d4, d5⟩
  · rw [if_neg hz]
    exact ⟨d1, d2, d3, d4, d5⟩

theorem setDevice_first_track (g0 : CUSBCDGadget) (changing : Bool) :
    (CUSBCDGadget.SetDevice g0 changing).data_block_size = g0.GetBlocksize
      ∧ (CUSBCDGadget.SetDevice g0 changing).data_skip_bytes = g0.GetSkipbytes := by
  cases changing <;> exact ⟨rfl, rfl⟩

/-- The begin step of Read(10) on the sample disc (track 1 audio, first in the
CUE sheet; track 2 Mode 1/2048 from LBA 20000) after SetDevice: a Read(10) at
LBA 20000 starts in track 2, whose block size is 2048, but sets the physical
block size to 2352, that of the first track; and a Read(10) whose bytes
CBWCB[7..8] are 0 with a transfer length of 4096 sets the remaining blocks to
2. -/
theorem read10_begin_sample :
    (step (CUSBCDGadget.SetDevice sampleGadget false)
        (Event.OutComplete read10CBW.toBytes)).m_nblock_address = 20000
      ∧ ((CUSBCDGadget.SetDevice sampleGadget false).GetTrackInfoForLBA 20000).track_number = 2
      ∧ CUSBCDGadget.GetBlocksizeForTrack
          ((CUSBCDGadget.SetDevice sampleGadget false).GetTrackInfoForLBA 20000) = 2048
      ∧ (step (CUSBCDGadget.SetDevice sampleGadget false)
          (Event.OutComplete read10CBW.toBytes)).block_size = 2352
      ∧ read10ZeroCountCBW.cb 7 * 256 + read10ZeroCountCBW.cb 8 = 0
      ∧ (step (CUSBCDGadget.SetDevice sampleGadget false)
          (Event.OutComplete read10ZeroCountCBW.toBytes)).m_nnumber_blocks = 2 := by
  refine ⟨by decide, by decide, by decide, by decide, by decide, by decide⟩

/-- The read context Read(10) sets up: for every valid CBW with opcode 0x28
arriving in state ReceiveCBW on a ready unit, the begin step sets the current
LBA to the
big-endian 32-bit value of CBWCB[2..5], the remaining blocks to the big-endian
16-bit value of CBWCB[7..8], or, when that value is 0 and the transfer length
is not, to the transfer length rounded up to whole 2048-byte blocks (in 32-bit
arithmetic), the transfer block size to 2048, and the physical block size and
skip bytes to data_block_size and data_skip_bytes, the values SetDevice took
from the first track of the CUE sheet, whichever track the starting LBA is in. -/
theorem read10_begin_context (g : CUSBCDGadget) (data : List Nat)
    (hstate : g.m_nState = TCDState.ReceiveCBW) (hvalid : validCBW data = true)
    (hop : (TUSBCDCBW.ofBytes data).cb 0 = 0x28) (hready : g.m_CDReady = true) :
    (step g (Event.OutComplete data)).m_nblock_address
        = (TUSBCDCBW.ofBytes data).cb 2 * 16777216 + (TUSBCDCBW.ofBytes data).cb 3 * 65536
          + (TUSBCDCBW.ofBytes data).cb 4 * 256 + (TUSBCDCBW.ofBytes data).cb 5
      ∧ (step g (Event.OutComplete data)).m_nnumber_blocks
          = (if (TUSBCDCBW.ofBytes data).cb 7 * 256 + (TUSBCDCBW.ofBytes data).cb 8 = 0
                ∧ (TUSBCDCBW.ofBytes data).dCBWDataTransferLength > 0 then
              u32 ((TUSBCDCBW.ofBytes data).dCBWDataTransferLength + 2048 - 1) / 2048
            else (TUSBCDCBW.ofBytes data).cb 7 * 256 + (TUSBCDCBW.ofBytes data).cb 8)
      ∧ ((TUSBCDCBW.ofBytes data).dCBWDataTransferLength + 2047 < 4294967296 →
          u32 ((TUSBCDCBW.ofBytes data).dCBWDataTransferLength + 2048 - 1) / 2048
            = ((TUSBCDCBW.ofBytes data).dCBWDataTransferLength + 2047) / 2048)
      ∧ (step g (Event.OutComplete data)).transfer_block_size = 2048
      ∧ (step g (Event.OutComplete data)).block_size = g.data_block_size
      ∧ (step g (Event.OutComplete data)).skip_bytes = g.data_skip_bytes
      ∧ (∀ (g0 : CUSBCDGadget) (changing : Bool) (first : CUETrackInfo) (rest : List CUETrackInfo),
          g = CUSBCDGadget.SetDevice g0 changing → g0.cueParser = first :: rest →
          (step g (Event.OutComplete data)).block_size = CUSBCDGadget.GetBlocksizeForTrack first
            ∧ (step g (Event.OutComplete data)).skip_bytes = CUSBCDGadget.GetSkipbytesForTrack first) := by
  obtain ⟨v1, v2, v3, v4, v5⟩ := validCBW_fields data hvalid
  obtain ⟨G, e, f1, _, _, _, f5, _, _, _, _, f10, f11⟩ :=
    step_valid_cbw_csw g data hstate v1 v2 v3 v4 v5
  obtain ⟨G2, e2, _, _, _, k4, _, _, _, _, k9, k10⟩ :=
    handle_of_lookup G 0x28 ScsiCommandHandler.ScsiCmdRead10 (by rw [f1]; exact hop) rfl
  have e3 : ScsiCommandHandler.handle_command ScsiCommandHandler.ScsiCmdRead10 G.m_CBW G2
      = ScsiCmdRead10.handle_command G.m_CBW G2 := rfl
  obtain ⟨r1, r2, r3, r4, r5⟩ := read10_context G.m_CBW G2 (by rw [k4, f5]; exact hready)
  rw [e, e2, e3]
  rw [f1] at r1 r2 r3 r4 r5 ⊢
  have h7 := cb_lt (TUSBCDCBW.ofBytes data) 7
  have h8 := cb_lt (TUSBCDCBW.ofBytes data) 8
  have hcount : u32 (shl16 ((TUSBCDCBW.ofBytes data).cb 7) ((TUSBCDCBW.ofBytes data).cb 8))
      = (TUSBCDCBW.ofBytes data).cb 7 * 256 + (TUSBCDCBW.ofBytes data).cb 8 := by
    rw [shl16_eq _ _ h8]
    unfold u32
    omega
  have hbs : (ScsiCmdRead10.handle_command (TUSBCDCBW.ofBytes data) G2).block_size
      = g.data_block_size := by rw [r4, k9, f10]
  have hsk : (ScsiCmdRead10.handle_command (TUSBCDCBW.ofBytes data) G2).skip_bytes
      = g.data_skip_bytes := by rw [r5, k10, f11]
  refine ⟨?_, ?_, ?_, r3, hbs, hsk, ?_⟩
  · rw [r1]
    exact shl32_eq _ _ _ _ (cb_lt _ 2) (cb_lt _ 3) (cb_lt _ 4) (cb_lt _ 5)
  · rw [r2, hcount]
  · intro hlen
    unfold u32
    rw [Nat.mod_eq_of_lt (by omega)]
    rfl
  · intro g0 changing first rest hg hcue
    obtain ⟨s1, s2⟩ := setDevice_first_track g0 changing
    rw [hbs, hsk, hg, s1, s2]
    unfold CUSBCDGadget.GetBlocksize CUSBCDGadget.GetSkipbytes
    rw [hcue]
    exact ⟨rfl, rfl⟩

/-- The read context of the Read(10) at LBA 20000 on the sample disc after
SetDevice. -/
theorem read10_begin_context_example :
    (step (CUSBCDGadget.SetDevice sampleGadget false)
        (Event.OutComplete read10CBW.toBytes)).block_size
      = (CUSBCDGadget.SetDevice sampleGadget false).data_block_size :=
  (read10_begin_context (CUSBCDGadget.SetDevice sampleGadget false) read10CBW.toBytes rfl
    (by decide) (by decide) rfl).2.2.2.2.1

/-- C20 (code divergence): on the sample disc after SetDevice (track 1 audio
with 2352-byte blocks, first in the CUE sheet; track 2 Mode 1/2048 from LBA
20000 at file offset 47040000), a Read(10) of two blocks at LBA 20000 starts
in track 2, whose block size is 2048 and whose skip bytes are 0, but the
begin step sets the physical block size to 2352, that of the first track:
`GetTrackInfoForLBA` is not consulted, unlike in Read CD. The continue step
therefore steps through the image in 2352-byte blocks: the second block of
the payload starts B7 B8 B9 BA, the image bytes at offset 47042352, where
block 20001 of the track lies at offset 47042048 (bytes 82 83 84 85). The
current LBA, the block count and the transfer block size 2048 are set as the
claim says. -/
theorem C20_read10_first_track_geometry :
    validCBW read10TwoBlocksCBW.toBytes = true
      ∧ ((CUSBCDGadget.SetDevice sampleGadget false).GetTrackInfoForLBA 20000).track_number = 2
      ∧ CUSBCDGadget.GetBlocksizeForTrack
          ((CUSBCDGadget.SetDevice sampleGadget false).GetTrackInfoForLBA 20000) = 2048
      ∧ CUSBCDGadget.GetSkipbytesForTrack
          ((CUSBCDGadget.SetDevice sampleGadget false).GetTrackInfoForLBA 20000) = 0
      ∧ ((CUSBCDGadget.SetDevice sampleGadget false).GetTrackInfoForLBA 20000).file_offset
          = 47040000
      ∧ (step (CUSBCDGadget.SetDevice sampleGadget false)
          (Event.OutComplete read10TwoBlocksCBW.toBytes)).m_nblock_address = 20000
      ∧ (step (CUSBCDGadget.SetDevice sampleGadget false)
          (Event.OutComplete read10TwoBlocksCBW.toBytes)).m_nnumber_blocks = 2
      ∧ geometry (step (CUSBCDGadget.SetDevice sampleGadget false)
          (Event.OutComplete read10TwoBlocksCBW.toBytes)) = (2352, 2048, 0)
      ∧ (dataIns (run (CUSBCDGadget.SetDevice sampleGadget false)
            [Event.OutComplete read10TwoBlocksCBW.toBytes,
             Event.Update sampleGadget.m_pDevice]).epIn).map
            (fun d => (d.length, d.take 4, (d.drop 2048).take 4))
          = [(4096, [0x5A, 0x5B, 0x5C, 0x5D], [0xB7, 0xB8, 0xB9, 0xBA])]
      ∧ (sampleGadget.m_pDevice.Read (47040000 + 2048) 4).2 = [0x82, 0x83, 0x84, 0x85]
      ∧ (sampleGadget.m_pDevice.Read (47040000 + 2352) 4).2 = [0xB7, 0xB8, 0xB9, 0xBA] := by
  refine ⟨by decide, by decide, by decide, by decide, by decide, by decide, by decide,
    by decide, ?_, by decide, by decide⟩
  decide!

/-! ## C18: Test Unit Ready -/

theorem tur_fields (c : TUSBCDCBW) (X : CUSBCDGadget) :
    (X.m_CDReady = false →
        (ScsiCmdTestUnitReady.handle_command c X).m_SenseParams
            = { bSenseKey := 0x02, bAddlSenseCode := 0x04, bAddlSenseCodeQual := 0x00 }
          ∧ (ScsiCmdTestUnitReady.handle_command c X).epIn
              = X.epIn ++ [Transfer.TransferCSWIn
                  { X.m_CSW with bmCSWStatus := CD_CSW_STATUS_FAIL }]
          ∧ (ScsiCmdTestUnitReady.handle_command c X).m_nState = TCDState.SentCSW)
      ∧ (X.m_CDReady = true →
        (ScsiCmdTestUnitReady.handle_command c X).m_SenseParams = X.m_SenseParams
          ∧ (ScsiCmdTestUnitReady.handle_command c X).epIn
              = X.epIn ++ [Transfer.TransferCSWIn
                  { X.m_CSW with bmCSWStatus := u8 X.bmCSWStatus }]
          ∧ (ScsiCmdTestUnitReady.handle_command c X).m_nState = TCDState.SentCSW) := by
  unfold ScsiCmdTestUnitReady.handle_command CUSBCDGadget.IsCDReady
  refine ⟨?_, ?_⟩
  · intro hr
    rw [hr]
    exact ⟨rfl, rfl, rfl⟩
  · intro hr
    rw [hr]
    exact ⟨rfl, rfl, rfl⟩

theorem inComplete_sentCSW (G : CUSBCDGadget) (n : Nat) (hs : G.m_nState = TCDState.SentCSW) :
    (step G (Event.InComplete n)).m_nState = TCDState.ReceiveCBW
      ∧ (step G (Event.InComplete n)).epIn = G.epIn
      ∧ (step G (Event.InComplete n)).m_SenseParams = G.m_SenseParams := by
  have e : step G (Event.InComplete n)
      = { G with m_nState := TCDState.ReceiveCBW,
                 epOut := G.epOut ++ [Transfer.TransferCBWOut SIZE_CBW] } := by
    show CUSBCDGadget.OnTransferComplete G true n = _
    unfold CUSBCDGadget.OnTransferComplete
    simp only [if_true, hs]
  rw [e]
  exact ⟨rfl, rfl, rfl⟩

theorem requestSense_step (g : CUSBCDGadget) (data : List Nat)
    (hstate : g.m_nState = TCDState.ReceiveCBW) (hvalid : validCBW data = true)
    (hop : (TUSBCDCBW.ofBytes data).cb 0 = 0x03) :
    (step g (Event.OutComplete data)).epIn
      = g.epIn ++ [Transfer.TransferDataIn
          ((ScsiCmdRequestSense.m_ReqSenseReply g).take
            (min 18 ((TUSBCDCBW.ofBytes data).cb 4)))] := by
  obtain ⟨v1, v2, v3, v4, v5⟩ := validCBW_fields data hvalid
  obtain ⟨G, e, f1, f2, f3, _⟩ := step_valid_cbw_csw g data hstate v1 v2 v3 v4 v5
  obtain ⟨G2, e2, k1, k2, _⟩ :=
    handle_of_lookup G 0x03 ScsiCommandHandler.ScsiCmdRequestSense (by rw [f1]; exact hop) rfl
  have e3 : ScsiCommandHandler.handle_command ScsiCommandHandler.ScsiCmdRequestSense G.m_CBW G2
      = ScsiCmdRequestSense.handle_command G.m_CBW G2 := rfl
  obtain ⟨r1, _, _⟩ := requestSense_fields G.m_CBW G2
  rw [e, e2, e3, r1, reqSenseReply_congr G2 g (by rw [k2, f3]), k1, f2, f1]

theorem reqSenseReply_of_sense (H : CUSBCDGadget)
    (h : H.m_SenseParams
      = { bSenseKey := 0x02, bAddlSenseCode := 0x04, bAddlSenseCodeQual := 0x00 }) :
    ScsiCmdRequestSense.m_ReqSenseReply H
      = [0x70, 0, 0x02, 0, 0, 0, 0, 10, 0, 0, 0, 0, 0x04, 0x00, 0, 0, 0, 0] := by
  unfold ScsiCmdRequestSense.m_ReqSenseReply
  rw [h]
  rfl

/-- C18 (counterexample): after SetDevice installed a different disc the
unit is ready and the default status is FAIL; the CSW of a Test Unit Ready
then carries status FAIL, not OK. -/
theorem C18_counterexample :
    (CUSBCDGadget.SetDevice sampleGadget true).IsCDReady = true
      ∧ (csws (step (CUSBCDGadget.SetDevice sampleGadget true)
            (Event.OutComplete testUnitReadyCBW.toBytes)).epIn).map
          (fun c => (c.dCSWTag, c.bmCSWStatus)) = [(32, CD_CSW_STATUS_FAIL)] := by
  refine ⟨by decide, by decide⟩

/-- C18 (amended): for every valid CBW with opcode 0x00 arriving in state
ReceiveCBW. If the unit is not ready, the sense becomes (0x02,0x04,0x00) and
the one transfer begun is a CSW with the tag of the CBW and status FAIL, and a
Request Sense with allocation length 18 that follows the completion of that
CSW stages the 18-byte block with key 0x02, ASC 0x04, ASCQ 0x00. If the unit
is ready, the sense is unchanged and the one transfer begun is a CSW with the
tag of the CBW and the current default status, which is OK when the default
status is OK. In both cases no data-in transfer is begun and the state is
SentCSW. -/
theorem C18_test_unit_ready (g : CUSBCDGadget) (data : List Nat)
    (hstate : g.m_nState = TCDState.ReceiveCBW) (hvalid : validCBW data = true)
    (hop : (TUSBCDCBW.ofBytes data).cb 0 = 0x00) :
    (g.m_CDReady = false →
        (step g (Event.OutComplete data)).m_SenseParams
            = { bSenseKey := 0x02, bAddlSenseCode := 0x04, bAddlSenseCodeQual := 0x00 }
          ∧ (step g (Event.OutComplete data)).epIn
              = g.epIn ++ [Transfer.TransferCSWIn
                  { g.m_CSW with dCSWTag := (TUSBCDCBW.ofBytes data).dCBWTag,
                                 bmCSWStatus := CD_CSW_STATUS_FAIL }]
          ∧ (∀ (n : Nat) (data2 : List Nat), validCBW data2 = true →
              (TUSBCDCBW.ofBytes data2).cb 0 = 0x03 → (TUSBCDCBW.ofBytes data2).cb 4 = 18 →
              (step (step (step g (Event.OutComplete data)) (Event.InComplete n))
                  (Event.OutComplete data2)).epIn
                = (step g (Event.OutComplete data)).epIn
                    ++ [Transfer.TransferDataIn
                        [0x70, 0, 0x02, 0, 0, 0, 0, 10, 0, 0, 0, 0, 0x04, 0x00, 0, 0, 0, 0]]))
      ∧ (g.m_CDReady = true →
        (step g (Event.OutComplete data)).m_SenseParams = g.m_SenseParams
          ∧ (step g (Event.OutComplete data)).epIn
              = g.epIn ++ [Transfer.TransferCSWIn
                  { g.m_CSW with dCSWTag := (TUSBCDCBW.ofBytes data).dCBWTag,
                                 bmCSWStatus := u8 g.bmCSWStatus }]
          ∧ (g.bmCSWStatus = CD_CSW_STATUS_OK → u8 g.bmCSWStatus = CD_CSW_STATUS_OK))
      ∧ dataIns (step g (Event.OutComplete data)).epIn = dataIns g.epIn
      ∧ (step g (Event.OutComplete data)).m_nState = TCDState.SentCSW := by
  obtain ⟨v1, v2, v3, v4, v5⟩ := validCBW_fields data hvalid
  obtain ⟨G, e, f1, f2, f3, f4, f5, f6, _⟩ := step_valid_cbw_csw g data hstate v1 v2 v3 v4 v5
  obtain ⟨G2, e2, k1, k2, k3, k4, k5, _⟩ :=
    handle_of_lookup G 0x00 ScsiCommandHandler.ScsiCmdTestUnitReady (by rw [f1]; exact hop) rfl
  have e3 : ScsiCommandHandler.handle_command ScsiCommandHandler.ScsiCmdTestUnitReady G.m_CBW G2
      = ScsiCmdTestUnitReady.handle_command G.m_CBW G2 := rfl
  obtain ⟨t1, t2⟩ := tur_fields G.m_CBW G2
  have hE : step g (Event.OutComplete data) = ScsiCmdTestUnitReady.handle_command G.m_CBW G2 := by
    rw [e, e2, e3]
  have hr2 : G2.m_CDReady = g.m_CDReady := by rw [k4, f5]
  refine ⟨?_, ?_, ?_, ?_⟩
  · intro hr
    obtain ⟨a1, a2, a3⟩ := t1 (by rw [hr2]; exact hr)
    rw [← hE] at a1 a2 a3
    refine ⟨a1, ?_, ?_⟩
    · rw [a2, k1, f2, k5, f6]
    · intro n data2 hv2 hop2 hlen2
      obtain ⟨c1, c2, c3⟩ := inComplete_sentCSW _ n a3
      rw [requestSense_step _ data2 c1 hv2 hop2, c2, hlen2,
        reqSenseReply_of_sense _ (by rw [c3]; exact a1)]
      rfl
  · intro hr
    obtain ⟨a1, a2, _⟩ := t2 (by rw [hr2]; exact hr)
    rw [← hE] at a1 a2
    refine ⟨by rw [a1, k2, f3], ?_, ?_⟩
    · rw [a2, k1, f2, k5, f6, k3, f4]
    · intro hok
      rw [hok]
      rfl
  · cases hr : g.m_CDReady
    · obtain ⟨_, a2, _⟩ := t1 (by rw [hr2]; exact hr)
      rw [hE, a2, dataIns_append, k1, f2]
      exact List.append_nil _
    · obtain ⟨_, a2, _⟩ := t2 (by rw [hr2]; exact hr)
      rw [hE, a2, dataIns_append, k1, f2]
      exact List.append_nil _
  · cases hr : g.m_CDReady
    · obtain ⟨_, _, a3⟩ := t1 (by rw [hr2]; exact hr)
      rw [hE]
      exact a3
    · obtain ⟨_, _, a3⟩ := t2 (by rw [hr2]; exact hr)
      rw [hE]
      exact a3

/-- C18 (amended) at a concrete input: Test Unit Ready on the ready sample
gadget, whose default status is OK. -/
theorem C18_test_unit_ready_witness :
    (step sampleGadget (Event.OutComplete testUnitReadyCBW.toBytes)).m_SenseParams
        = sampleGadget.m_SenseParams
      ∧ (step sampleGadget (Event.OutComplete testUnitReadyCBW.toBytes)).epIn
          = sampleGadget.epIn ++ [Transfer.TransferCSWIn
              { sampleGadget.m_CSW with
                  dCSWTag := (TUSBCDCBW.ofBytes testUnitReadyCBW.toBytes).dCBWTag,
                  bmCSWStatus := u8 sampleGadget.bmCSWStatus }]
      ∧ (sampleGadget.bmCSWStatus = CD_CSW_STATUS_OK →
          u8 sampleGadget.bmCSWStatus = CD_CSW_STATUS_OK) :=
  (C18_test_unit_ready sampleGadget testUnitReadyCBW.toBytes rfl (by decide) (by decide)).2.1 rfl

/-! ## The gadget at the entry of a handler -/

theorem handle_eq (X : CUSBCDGadget) (op : Nat) (h : ScsiCommandHandler)
    (hop : X.m_CBW.cb 0 = op) (hh : CUSBCDGadget.m_scsi_handlers op = some h) :
    CUSBCDGadget.HandleSCSICommand X
      = h.handle_command X.m_CBW { X with m_pCurrentCommandHandler := some h } := by
  unfold CUSBCDGadget.HandleSCSICommand
  simp only []
  rw [hop, hh]

theorem step_dispatch (g : CUSBCDGadget) (data : List Nat) (h : ScsiCommandHandler)
    (hstate : g.m_nState = TCDState.ReceiveCBW) (hvalid : validCBW data = true)
    (hh : CUSBCDGadget.m_scsi_handlers ((TUSBCDCBW.ofBytes data).cb 0) = some h) :
    step g (Event.OutComplete data)
      = h.handle_command (TUSBCDCBW.ofBytes data) (dispatched g data h) := by
  obtain ⟨v1, v2, v3, v4, v5⟩ := validCBW_fields data hvalid
  rw [step_valid_cbw g data hstate v1 v2 v3 v4 v5, handle_eq _ _ h rfl hh]
  rfl

/-! ## C21: the block count derived from the transfer length -/

/-- C21 (the code at a failing input): a Read(10) whose CDB block count is 0
and whose transfer length is 0xFFFFFFFF, whose ceiling of len / 2048 is
2097152, derives the block count 0: the sum len + 2047 wraps to 2046 in 32-bit
arithmetic. The command then ends at once with a CSW of status OK and residue
0xFFFFFFFF and no data. With transfer length 0 the count stays 0 and the
command ends with CSW OK and no data, as claimed. -/
theorem C21_derived_count_wraps :
    validCBW read10MaxLengthCBW.toBytes = true
      ∧ (TUSBCDCBW.ofBytes read10MaxLengthCBW.toBytes).dCBWDataTransferLength = 0xFFFFFFFF
      ∧ (0xFFFFFFFF + 2047) / 2048 = 2097152
      ∧ u32 (0xFFFFFFFF + 2048 - 1) / 2048 = 0
      ∧ (step sampleGadget (Event.OutComplete read10MaxLengthCBW.toBytes)).m_nnumber_blocks = 0
      ∧ (step sampleGadget (Event.OutComplete read10MaxLengthCBW.toBytes)).epIn
          = [Transfer.TransferCSWIn
              { dCSWSignature := 0x53425355, dCSWTag := 35, dCSWDataResidue := 0xFFFFFFFF,
                bmCSWStatus := CD_CSW_STATUS_OK }]
      ∧ (step sampleGadget (Event.OutComplete read10NoLengthCBW.toBytes)).m_nnumber_blocks = 0
      ∧ (step sampleGadget (Event.OutComplete read10NoLengthCBW.toBytes)).epIn
          = [Transfer.TransferCSWIn
              { dCSWSignature := 0x53425355, dCSWTag := 36, dCSWDataResidue := 0,
                bmCSWStatus := CD_CSW_STATUS_OK }] := by
  refine ⟨by decide, by decide, by decide, by decide, by decide, by decide, by decide,
    by decide⟩

/-! ## C22: failures of the continue step -/

theorem readFail_fields (X : CUSBCDGadget) (k a q : Nat) :
    (readFail X k a q).m_SenseParams
        = { bSenseKey := k, bAddlSenseCode := a, bAddlSenseCodeQual := q }
      ∧ (readFail X k a q).epIn
          = X.epIn ++ [Transfer.TransferCSWIn { X.m_CSW with bmCSWStatus := CD_CSW_STATUS_FAIL }]
      ∧ (readFail X k a q).m_pCurrentCommandHandler = none :=
  ⟨rfl, rfl, rfl⟩

theorem read10_update_seek (g : CUSBCDGadget) (hstate : g.m_nState = TCDState.DataInRead)
    (hready : g.m_CDReady = true) (hblocks : g.m_nnumber_blocks ≠ 0) :
    ScsiCmdRead10.update g
      = if seekPos g = 18446744073709551615 then readFail g 0x03 0x11 0x00
        else ScsiCmdRead10.readStep g (seekPos g) := by
  unfold ScsiCmdRead10.update
  rw [if_neg (not_not.mpr hstate)]
  have hr : ¬ ((!g.IsCDReady) = true) := by
    unfold CUSBCDGadget.IsCDReady
    rw [hready]
    decide
  rw [if_neg hr, if_neg hblocks]
  rfl

theorem readCD_update_seek (g : CUSBCDGadget) (hstate : g.m_nState = TCDState.DataInRead)
    (hready : g.m_CDReady = true) (hblocks : g.m_nnumber_blocks ≠ 0) :
    ScsiCmdReadCD.update g
      = if seekPos g = 18446744073709551615 then readFail g 0x03 0x11 0x00
        else ScsiCmdReadCD.readStep g (seekPos g) := by
  unfold ScsiCmdReadCD.update
  rw [if_neg (not_not.mpr hstate)]
  have hr : ¬ ((!g.IsCDReady) = true) := by
    unfold CUSBCDGadget.IsCDReady
    rw [hready]
    decide
  rw [if_neg hr, if_neg hblocks]
  rfl

theorem short_read_u32 (r : Int) (n : Nat) (h0 : 0 ≤ r) (hn : n < 4294967296)
    (hlt : r < (n : Int)) : u32OfInt r < u32 n := by
  unfold u32OfInt u32
  rw [Nat.mod_eq_of_lt hn, Int.emod_eq_of_lt h0 (by omega)]
  omega

theorem read10_readStep_fail (g : CUSBCDGadget) (hprod : bytesWanted g < 4294967296)
    (hfail : bytesRead g < 0 ∨ bytesRead g < (bytesWanted g : Int)) :
    ScsiCmdRead10.readStep g (seekPos g)
      = readFail (readIntoFileChunk g (seekPos g) (u32 (bytesWanted g))).2 0x03 0x11 0x00 := by
  have hr : (readIntoFileChunk g (seekPos g) (u32 (bytesWanted g))).1 = bytesRead g := rfl
  have e : ScsiCmdRead10.readStep g (seekPos g)
      = (if (readIntoFileChunk g (seekPos g) (u32 (bytesWanted g))).1 < 0 then
          readFail (readIntoFileChunk g (seekPos g) (u32 (bytesWanted g))).2 0x03 0x11 0x00
        else if (readIntoFileChunk g (seekPos g) (u32 (bytesWanted g))).1 = 0
            ∧ u32 (bytesWanted g) > 0 then
          readFail (readIntoFileChunk g (seekPos g) (u32 (bytesWanted g))).2 0x03 0x11 0x00
        else if u32OfInt (readIntoFileChunk g (seekPos g) (u32 (bytesWanted g))).1
            < u32 (bytesWanted g) then
          readFail (readIntoFileChunk g (seekPos g) (u32 (bytesWanted g))).2 0x03 0x11 0x00
        else ScsiCmdRead10.advance (readIntoFileChunk g (seekPos g) (u32 (bytesWanted g))).2
          (ScsiCmdRead10.blocksThisIteration g)
          (ScsiCmdRead10.copyBlocks (readIntoFileChunk g (seekPos g) (u32 (bytesWanted g))).2
            (ScsiCmdRead10.blocksThisIteration g))) := rfl
  rw [e, hr]
  by_cases h1 : bytesRead g < 0
  · rw [if_pos h1]
  · rw [if_neg h1]
    by_cases h2 : bytesRead g = 0 ∧ u32 (bytesWanted g) > 0
    · rw [if_pos h2]
    · rw [if_neg h2]
      have hlt : bytesRead g < (bytesWanted g : Int) := hfail.resolve_left h1
      rw [if_pos (short_read_u32 _ _ (by omega) hprod hlt)]

theorem readCD_readStep_fail (g : CUSBCDGadget) (hprod : bytesWanted g < 4294967296)
    (hfail : bytesRead g < 0 ∨ bytesRead g < (bytesWanted g : Int)) :
    ScsiCmdReadCD.readStep g (seekPos g)
      = readFail (readIntoFileChunk g (seekPos g) (u32 (bytesWanted g))).2 0x03 0x11 0x00 := by
  have hr : (readIntoFileChunk g (seekPos g) (u32 (bytesWanted g))).1 = bytesRead g := rfl
  have e : ScsiCmdReadCD.readStep g (seekPos g)
      = (if (readIntoFileChunk g (seekPos g) (u32 (bytesWanted g))).1 ≤ 0
            ∨ u32OfInt (readIntoFileChunk g (seekPos g) (u32 (bytesWanted g))).1
                < u32 (bytesWanted g) then
          readFail (readIntoFileChunk g (seekPos g) (u32 (bytesWanted g))).2 0x03 0x11 0x00
        else ScsiCmdRead10.advance
          { (readIntoFileChunk g (seekPos g) (u32 (bytesWanted g))).2 with
              fault := (readIntoFileChunk g (seekPos g) (u32 (bytesWanted g))).2.fault
                || ScsiCmdReadCD.copyFault (readIntoFileChunk g (seekPos g) (u32 (bytesWanted g))).2
                    (ScsiCmdRead10.blocksThisIteration g) }
          (ScsiCmdRead10.blocksThisIteration g)
          (ScsiCmdReadCD.copyBlocks (readIntoFileChunk g (seekPos g) (u32 (bytesWanted g))).2
            (ScsiCmdRead10.blocksThisIteration g))) := rfl
  rw [e, hr]
  by_cases h1 : bytesRead g ≤ 0
  · rw [if_pos (Or.inl h1)]
  · have hlt : bytesRead g < (bytesWanted g : Int) := hfail.resolve_left (by omega)
    rw [if_pos (Or.inr (short_read_u32 _ _ (by omega) hprod hlt))]

theorem update_fail_fields (g U : CUSBCDGadget)
    (hU : U = readFail g 0x03 0x11 0x00
      ∨ U = readFail (readIntoFileChunk g (seekPos g) (u32 (bytesWanted g))).2 0x03 0x11 0x00) :
    U.m_SenseParams = { bSenseKey := 0x03, bAddlSenseCode := 0x11, bAddlSenseCodeQual := 0x00 }
      ∧ U.epIn = g.epIn ++ [Transfer.TransferCSWIn { g.m_CSW with bmCSWStatus := CD_CSW_STATUS_FAIL }]
      ∧ dataIns U.epIn = dataIns g.epIn
      ∧ U.m_pCurrentCommandHandler = none := by
  have hd : dataIns (g.epIn ++ [Transfer.TransferCSWIn
      { g.m_CSW with bmCSWStatus := CD_CSW_STATUS_FAIL }]) = dataIns g.epIn := by
    rw [dataIns_append]
    exact List.append_nil _
  rcases hU with hU | hU
  · obtain ⟨a, b, c⟩ := readFail_fields g 0x03 0x11 0x00
    rw [hU]
    exact ⟨a, b, by rw [b]; exact hd, c⟩
  · obtain ⟨a, b, c⟩ :=
      readFail_fields (readIntoFileChunk g (seekPos g) (u32 (bytesWanted g))).2 0x03 0x11 0x00
    have b2 : (readFail (readIntoFileChunk g (seekPos g) (u32 (bytesWanted g))).2 0x03 0x11 0x00).epIn
        = g.epIn ++ [Transfer.TransferCSWIn { g.m_CSW with bmCSWStatus := CD_CSW_STATUS_FAIL }] := b
    rw [hU]
    exact ⟨a, b2, by rw [b2]; exact hd, c⟩

/-- C22: in a continue step of Read(10) and of Read CD (state DataInRead,
unit ready, blocks remaining, the byte count blocks x physical block size
fitting 32 bits), if the seek fails, or the read returns a negative value, or
the read returns fewer bytes than blocks x physical block size, then the step
sets sense (0x03,0x11,0x00), submits one CSW with status FAIL and the tag of
the command, submits no data and leaves no current handler. -/
theorem C22_read_failure (g : CUSBCDGadget)
    (hstate : g.m_nState = TCDState.DataInRead) (hready : g.m_CDReady = true)
    (hblocks : g.m_nnumber_blocks ≠ 0) (hprod : bytesWanted g < 4294967296)
    (hfail : seekPos g = 18446744073709551615 ∨ bytesRead g < 0
      ∨ bytesRead g < (bytesWanted g : Int)) :
    ((ScsiCmdRead10.update g).m_SenseParams
          = { bSenseKey := 0x03, bAddlSenseCode := 0x11, bAddlSenseCodeQual := 0x00 }
        ∧ (ScsiCmdRead10.update g).epIn
            = g.epIn ++ [Transfer.TransferCSWIn { g.m_CSW with bmCSWStatus := CD_CSW_STATUS_FAIL }]
        ∧ dataIns (ScsiCmdRead10.update g).epIn = dataIns g.epIn
        ∧ (ScsiCmdRead10.update g).m_pCurrentCommandHandler = none)
      ∧ ((ScsiCmdReadCD.update g).m_SenseParams
          = { bSenseKey := 0x03, bAddlSenseCode := 0x11, bAddlSenseCodeQual := 0x00 }
        ∧ (ScsiCmdReadCD.update g).epIn
            = g.epIn ++ [Transfer.TransferCSWIn { g.m_CSW with bmCSWStatus := CD_CSW_STATUS_FAIL }]
        ∧ dataIns (ScsiCmdReadCD.update g).epIn = dataIns g.epIn
        ∧ (ScsiCmdReadCD.update g).m_pCurrentCommandHandler = none) := by
  refine ⟨update_fail_fields g _ ?_, update_fail_fields g _ ?_⟩
  · rw [read10_update_seek g hstate hready hblocks]
    by_cases hs : seekPos g = 18446744073709551615
    · rw [if_pos hs]
      exact Or.inl rfl
    · rw [if_neg hs]
      exact Or.inr (read10_readStep_fail g hprod (hfail.resolve_left hs))
  · rw [readCD_update_seek g hstate hready hblocks]
    by_cases hs : seekPos g = 18446744073709551615
    · rw [if_pos hs]
      exact Or.inl rfl
    · rw [if_neg hs]
      exact Or.inr (readCD_readStep_fail g hprod (hfail.resolve_left hs))

/-- C22 at a concrete input: the Read(10) of the sample scenario when every
seek of the device fails. -/
theorem C22_read_failure_witness :
    (ScsiCmdRead10.update seekFailGadget).m_SenseParams
        = { bSenseKey := 0x03, bAddlSenseCode := 0x11, bAddlSenseCodeQual := 0x00 }
      ∧ (ScsiCmdRead10.update seekFailGadget).epIn
          = seekFailGadget.epIn ++ [Transfer.TransferCSWIn
              { seekFailGadget.m_CSW with bmCSWStatus := CD_CSW_STATUS_FAIL }]
      ∧ dataIns (ScsiCmdRead10.update seekFailGadget).epIn = dataIns seekFailGadget.epIn
      ∧ (ScsiCmdRead10.update seekFailGadget).m_pCurrentCommandHandler = none :=
  (C22_read_failure seekFailGadget (by decide) (by decide) (by decide) (by decide)
    (Or.inl (by decide))).1

/-! ## C23: the read context set up by Read CD -/

theorem deriveBlocks_geometry (g : CUSBCDGadget) :
    geometry (ScsiCmdRead10.deriveBlocks g) = geometry g := by
  unfold ScsiCmdRead10.deriveBlocks
  simp only []
  split_ifs <;> rfl

theorem readCD_start_geometry (c : TUSBCDCBW) (S : CUSBCDGadget) :
    geometry (ScsiCmdReadCD.start c S) = geometry S := by
  have hd := deriveBlocks_geometry { S with m_nbyteCount := c.dCBWDataTransferLength }
  unfold ScsiCmdReadCD.start
  simp only []
  generalize ScsiCmdRead10.deriveBlocks { S with m_nbyteCount := c.dCBWDataTransferLength } = D
    at hd ⊢
  split_ifs
  · rfl
  · exact hd
  · exact hd

theorem readCD_handle_geometry (c : TUSBCDCBW) (X : CUSBCDGadget) (hr : X.m_CDReady = true) :
    geometry (ScsiCmdReadCD.handle_command c X)
      = geometry (ScsiCmdReadCD.selectSectorType (ScsiCmdReadCD.parse c X)
          (((c.cb 1) >>> 2) &&& 0x07)) := by
  unfold ScsiCmdReadCD.handle_command
  have hn : ¬ ((!X.IsCDReady) = true) := by
    unfold CUSBCDGadget.IsCDReady
    rw [hr]
    decide
  rw [if_neg hn]
  exact readCD_start_geometry c _

theorem selectSectorType_geometry (S : CUSBCDGadget) (e : Nat) :
    (e = 1 → geometry (ScsiCmdReadCD.selectSectorType S e) = (2352, 2352, 0))
      ∧ (e = 2 ∨ e = 4 → geometry (ScsiCmdReadCD.selectSectorType S e)
          = (CUSBCDGadget.GetBlocksizeForTrack (S.GetTrackInfoForLBA S.m_nblock_address), 2048,
              CUSBCDGadget.GetSkipbytesForTrack (S.GetTrackInfoForLBA S.m_nblock_address)))
      ∧ (e = 3 → geometry (ScsiCmdReadCD.selectSectorType S e) = (2352, 2336, 16))
      ∧ (e = 5 → geometry (ScsiCmdReadCD.selectSectorType S e) = (2352, 2048, 24))
      ∧ (e = 0 → (S.GetTrackInfoForLBA S.m_nblock_address).track_number ≠ -1 →
          (S.GetTrackInfoForLBA S.m_nblock_address).track_mode = CUETrackMode.CUETrack_AUDIO →
          geometry (ScsiCmdReadCD.selectSectorType S e) = (2352, 2352, 0)) := by
  unfold ScsiCmdReadCD.selectSectorType
  refine ⟨?_, ?_, ?_, ?_, ?_⟩
  · intro h
    rw [if_pos h]
    rfl
  · intro h
    rcases h with h | h
    · rw [if_neg (by omega), if_pos h]
      rfl
    · rw [if_neg (by omega), if_neg (by omega), if_neg (by omega), if_pos h]
      rfl
  · intro h
    rw [if_neg (by omega), if_neg (by omega), if_pos h]
    rfl
  · intro h
    rw [if_neg (by omega), if_neg (by omega), if_neg (by omega), if_neg (by omega), if_pos h]
    rfl
  · intro h h1 h2
    rw [if_neg (by omega), if_neg (by omega), if_neg (by omega), if_neg (by omega),
      if_neg (by omega)]
    simp only []
    rw [if_pos ⟨h1, h2⟩]
    rfl

theorem expectedSectorType_eq (x : Nat) : (x >>> 2) &&& 0x07 = x / 4 % 8 := by
  rw [Nat.shiftRight_eq_div_pow, show (0x07 : Nat) = 2 ^ 3 - 1 by norm_num,
    Nat.and_pow_two_sub_one_eq_mod]

theorem trackInfo_congr (X g : CUSBCDGadget) (h : X.cueParser = g.cueParser) (lba : Nat) :
    X.GetTrackInfoForLBA lba = g.GetTrackInfoForLBA lba := by
  unfold CUSBCDGadget.GetTrackInfoForLBA
  rw [h]

/-- C23: for every valid CBW with opcode 0xBE arriving in state ReceiveCBW
on a ready unit, with expected sector type est = CDB[1] bits 4-2 and starting
LBA the big-endian value of CDB[2..5], the begin step leaves (physical block
size, transfer block size, skip bytes) as: est 1 (CD-DA) -> (2352, 2352, 0);
est 2 (Mode 1) and est 4 (Mode 2 Form 1) -> (block size of the track at the
starting LBA, 2048, skip bytes of that track); est 3 (Mode 2 formless) ->
(2352, 2336, 16); est 5 (Mode 2 Form 2) -> (2352, 2048, 24); est 0 (Any) when
the track at the starting LBA is an audio track -> (2352, 2352, 0). -/
theorem C23_read_cd_geometry (g : CUSBCDGadget) (data : List Nat)
    (hstate : g.m_nState = TCDState.ReceiveCBW) (hvalid : validCBW data = true)
    (hop : (TUSBCDCBW.ofBytes data).cb 0 = 0xBE) (hready : g.m_CDReady = true) :
    ((TUSBCDCBW.ofBytes data).cb 1 / 4 % 8 = 1 →
        geometry (step g (Event.OutComplete data)) = (2352, 2352, 0))
      ∧ ((TUSBCDCBW.ofBytes data).cb 1 / 4 % 8 = 2 ∨ (TUSBCDCBW.ofBytes data).cb 1 / 4 % 8 = 4 →
        geometry (step g (Event.OutComplete data))
          = (CUSBCDGadget.GetBlocksizeForTrack (g.GetTrackInfoForLBA
                ((TUSBCDCBW.ofBytes data).cb 2 * 16777216 + (TUSBCDCBW.ofBytes data).cb 3 * 65536
                  + (TUSBCDCBW.ofBytes data).cb 4 * 256 + (TUSBCDCBW.ofBytes data).cb 5)),
             2048,
             CUSBCDGadget.GetSkipbytesForTrack (g.GetTrackInfoForLBA
                ((TUSBCDCBW.ofBytes data).cb 2 * 16777216 + (TUSBCDCBW.ofBytes data).cb 3 * 65536
                  + (TUSBCDCBW.ofBytes data).cb 4 * 256 + (TUSBCDCBW.ofBytes data).cb 5))))
      ∧ ((TUSBCDCBW.ofBytes data).cb 1 / 4 % 8 = 3 →
        geometry (step g (Event.OutComplete data)) = (2352, 2336, 16))
      ∧ ((TUSBCDCBW.ofBytes data).cb 1 / 4 % 8 = 5 →
        geometry (step g (Event.OutComplete data)) = (2352, 2048, 24))
      ∧ ((TUSBCDCBW.ofBytes data).cb 1 / 4 % 8 = 0 →
        (g.GetTrackInfoForLBA
            ((TUSBCDCBW.ofBytes data).cb 2 * 16777216 + (TUSBCDCBW.ofBytes data).cb 3 * 65536
              + (TUSBCDCBW.ofBytes data).cb 4 * 256 + (TUSBCDCBW.ofBytes data).cb 5)).track_number
          ≠ -1 →
        (g.GetTrackInfoForLBA
            ((TUSBCDCBW.ofBytes data).cb 2 * 16777216 + (TUSBCDCBW.ofBytes data).cb 3 * 65536
              + (TUSBCDCBW.ofBytes data).cb 4 * 256 + (TUSBCDCBW.ofBytes data).cb 5)).track_mode
          = CUETrackMode.CUETrack_AUDIO →
        geometry (step g (Event.OutComplete data)) = (2352, 2352, 0)) := by
  rw [step_dispatch g data ScsiCommandHandler.ScsiCmdReadCD hstate hvalid (by rw [hop]; rfl)]
  have e : geometry (ScsiCommandHandler.handle_command ScsiCommandHandler.ScsiCmdReadCD
        (TUSBCDCBW.ofBytes data) (dispatched g data ScsiCommandHandler.ScsiCmdReadCD))
      = geometry (ScsiCmdReadCD.selectSectorType
          (ScsiCmdReadCD.parse (TUSBCDCBW.ofBytes data)
            (dispatched g data ScsiCommandHandler.ScsiCmdReadCD))
          ((TUSBCDCBW.ofBytes data).cb 1 / 4 % 8)) := by
    rw [← expectedSectorType_eq]
    exact readCD_handle_geometry _ _ hready
  rw [e]
  have hl : (ScsiCmdReadCD.parse (TUSBCDCBW.ofBytes data)
        (dispatched g data ScsiCommandHandler.ScsiCmdReadCD)).m_nblock_address
      = (TUSBCDCBW.ofBytes data).cb 2 * 16777216 + (TUSBCDCBW.ofBytes data).cb 3 * 65536
          + (TUSBCDCBW.ofBytes data).cb 4 * 256 + (TUSBCDCBW.ofBytes data).cb 5 :=
    shl32_eq _ _ _ _ (cb_lt _ 2) (cb_lt _ 3) (cb_lt _ 4) (cb_lt _ 5)
  have ht := trackInfo_congr (ScsiCmdReadCD.parse (TUSBCDCBW.ofBytes data)
      (dispatched g data ScsiCommandHandler.ScsiCmdReadCD)) g rfl
  obtain ⟨s1, s2, s3, s4, s5⟩ := selectSectorType_geometry
    (ScsiCmdReadCD.parse (TUSBCDCBW.ofBytes data)
      (dispatched g data ScsiCommandHandler.ScsiCmdReadCD))
    ((TUSBCDCBW.ofBytes data).cb 1 / 4 % 8)
  rw [hl, ht] at s2 s5
  exact ⟨s1, s2, s3, s4, s5⟩

/-- C23 at a concrete input: Read CD with expected sector type Mode 1 at LBA
20000 of the sample disc, inside the Mode 1/2048 track. -/
theorem C23_read_cd_geometry_witness :
    geometry (step sampleGadget (Event.OutComplete (readCDCBW 0x10).toBytes))
      = (2048, 2048, 0) :=
  (C23_read_cd_geometry sampleGadget (readCDCBW 0x10).toBytes rfl (by decide) (by decide)
    rfl).2.1 (Or.inl (by decide))

/-! ## C24: the sector synthesized by Read CD -/

/-- C24 (the code at a failing input): Read CD of the block at LBA 20000 of
the sample disc (a Mode 1/2048 track) with expected sector type Any and mask
0x0C (HEADER + USER DATA) synthesizes (transfer block 2052 > physical block
2048). The sector to emit is the header 04 1C 32 01 followed by the 2048 user
bytes, which start 3F 40 41 42; the 2052 bytes emitted start 53 54 55 56, the
user bytes from offset 20 on, and end with 24 zero bytes: the scratch sector
is filled without gaps but read from offset GetSkipBytesFromMCS = 12, and the
user data is copied from offset skip_bytes = 12 of the block. With mask 0x1E
(all four portions, both offsets 0) the 2352 bytes emitted do start with SYNC,
HEADER and the user bytes. -/
theorem C24_synthesis_drops_header :
    validCBW readCDHeaderUserCBW.toBytes = true
      ∧ (step sampleGadget (Event.OutComplete readCDHeaderUserCBW.toBytes)).mcs = 0x0C
      ∧ geometry (step sampleGadget (Event.OutComplete readCDHeaderUserCBW.toBytes))
          = (2048, 2052, 12)
      ∧ (specReadCDSector 0x0C 20000 0x01
            (sampleGadget.m_pDevice.Read (2048 * 20000) 2048).2).take 8
          = [0x04, 0x1C, 0x32, 0x01, 0x3F, 0x40, 0x41, 0x42]
      ∧ (dataIns (run sampleGadget [Event.OutComplete readCDHeaderUserCBW.toBytes,
            Event.Update sampleGadget.m_pDevice]).epIn).map
            (fun d => (d.length, d.take 8, d.drop 2028))
          = [(2052, [0x53, 0x54, 0x55, 0x56, 0x57, 0x58, 0x59, 0x5A], List.replicate 24 0)]
      ∧ (step sampleGadget (Event.OutComplete readCDFullCBW.toBytes)).mcs = 0x1E
      ∧ (specReadCDSector 0x1E 20000 0x01
            (sampleGadget.m_pDevice.Read (2048 * 20000) 2048).2).take 20
          = [0x00, 0xFF, 0xFF, 0xFF, 0xFF, 0xFF, 0xFF, 0xFF, 0xFF, 0xFF, 0xFF, 0x00,
             0x04, 0x1C, 0x32, 0x01, 0x3F, 0x40, 0x41, 0x42]
      ∧ (dataIns (run sampleGadget [Event.OutComplete readCDFullCBW.toBytes,
            Event.Update sampleGadget.m_pDevice]).epIn).map (fun d => (d.length, d.take 20))
          = [(2352, [0x00, 0xFF, 0xFF, 0xFF, 0xFF, 0xFF, 0xFF, 0xFF, 0xFF, 0xFF, 0xFF, 0x00,
                     0x04, 0x1C, 0x32, 0x01, 0x3F, 0x40, 0x41, 0x42])] := by
  refine ⟨by decide, by decide, by decide, ?_, ?_, by decide, ?_, ?_⟩
  · set_option maxRecDepth 1000000 in decide
  · decide!
  · decide!
  · decide!

/-! ## C25: the feature descriptors of Get Configuration -/

theorem foldl_copy_feature (g : CUSBCDGadget) (features : List (List Nat)) :
    ∀ buf : List Nat, buf.length + features.flatten.length ≤ g.k.MaxInMessageSize →
      features.foldl (ScsiCmdGetConfiguration.copy_feature g) buf = buf ++ features.flatten := by
  induction features with
  | nil => intro buf _; simp
  | cons f rest ih =>
    intro buf h
    simp only [List.flatten_cons, List.length_append] at h
    simp only [List.foldl_cons, List.flatten_cons]
    have e : ScsiCmdGetConfiguration.copy_feature g buf f = buf ++ f := by
      unfold ScsiCmdGetConfiguration.copy_feature
      rw [if_pos (by omega)]
    rw [e, ih (buf ++ f) (by rw [List.length_append]; omega), List.append_assoc]

theorem allFeatures_flatten (g : CUSBCDGadget) (f : Nat) :
    (ScsiCmdGetConfiguration.allFeatures g f).flatten = (specFeaturesFrom g f).flatten := by
  unfold ScsiCmdGetConfiguration.allFeatures specFeaturesFrom
  simp only [List.filter_cons, List.filter_nil, decide_eq_true_eq]
  by_cases h0 : f ≤ 0x0000 <;> by_cases h1 : f ≤ 0x0001 <;> by_cases h2 : f ≤ 0x0002 <;>
    by_cases h3 : f ≤ 0x0003 <;> by_cases h4 : f ≤ 0x001D <;> by_cases h5 : f ≤ 0x001E <;>
    by_cases h6 : f ≤ 0x0100 <;> by_cases h7 : f ≤ 0x0103 <;>
    first
    | omega
    | simp [h0, h1, h2, h3, h4, h5, h6, h7]

theorem getConfiguration_assembled (X : CUSBCDGadget) (f : Nat)
    (hfit : 8 + (specFeaturesFrom X f).flatten.length ≤ X.k.MaxInMessageSize) :
    ScsiCmdGetConfiguration.assembled X (ScsiCmdGetConfiguration.allFeatures X f)
      = ScsiCmdGetConfiguration.header_reply (8 + (specFeaturesFrom X f).flatten.length)
          ++ (specFeaturesFrom X f).flatten := by
  unfold ScsiCmdGetConfiguration.assembled
  simp only []
  rw [foldl_copy_feature X _ _ (by
    rw [allFeatures_flatten, List.length_replicate]
    exact hfit), allFeatures_flatten]
  have hl : (List.replicate ScsiCmdGetConfiguration.sizeofHeader 0
      ++ (specFeaturesFrom X f).flatten).length = 8 + (specFeaturesFrom X f).flatten.length := by
    rw [List.length_append, List.length_replicate]
    rfl
  rw [hl, List.drop_left' (List.length_replicate _ _)]

theorem header_reply_length (n : Nat) : (ScsiCmdGetConfiguration.header_reply n).length = 8 := rfl

theorem getConfiguration_reply (c : TUSBCDCBW) (X : CUSBCDGadget)
    (hrt : c.cb 1 % 4 = 0 ∨ c.cb 1 % 4 = 2)
    (hfit : 8 + (specFeaturesFrom X
        (if c.cb 1 % 4 = 2 then 0 else c.cb 2 * 256 + c.cb 3)).flatten.length
      ≤ X.k.MaxInMessageSize) :
    (ScsiCmdGetConfiguration.handle_command c X).epIn
      = X.epIn ++ [Transfer.TransferDataIn
          ((ScsiCmdGetConfiguration.header_reply
              (8 + (specFeaturesFrom X
                (if c.cb 1 % 4 = 2 then 0 else c.cb 2 * 256 + c.cb 3)).flatten.length)
            ++ (specFeaturesFrom X
                (if c.cb 1 % 4 = 2 then 0 else c.cb 2 * 256 + c.cb 3)).flatten).take
            (min (c.cb 7 * 256 + c.cb 8)
              (8 + (specFeaturesFrom X
                (if c.cb 1 % 4 = 2 then 0 else c.cb 2 * 256 + c.cb 3)).flatten.length)))] := by
  have hr : (c.cb 1) &&& 0x03 = c.cb 1 % 4 := by
    rw [show (0x03 : Nat) = 2 ^ 2 - 1 by norm_num, Nat.and_pow_two_sub_one_eq_mod]
  have hf : shl16 (c.cb 2) (c.cb 3) = c.cb 2 * 256 + c.cb 3 := shl16_eq _ _ (cb_lt c 3)
  have ha : u16 (shl16 (c.cb 7) (c.cb 8)) = c.cb 7 * 256 + c.cb 8 := by
    have h7 := cb_lt c 7
    have h8 := cb_lt c 8
    rw [shl16_eq _ _ h8]
    unfold u16
    omega
  unfold ScsiCmdGetConfiguration.handle_command
  simp only [hr, hf, ha]
  rw [if_pos (by omega : c.cb 1 % 4 = 0 ∨ c.cb 1 % 4 = 2 ∨ c.cb 1 % 4 = 1),
    if_neg (by omega : ¬ c.cb 1 % 4 = 1)]
  generalize (if c.cb 1 % 4 = 2 then 0 else c.cb 2 * 256 + c.cb 3) = f at hfit ⊢
  rw [getConfiguration_assembled X f hfit]
  have hlen : (ScsiCmdGetConfiguration.header_reply (8 + (specFeaturesFrom X f).flatten.length)
      ++ (specFeaturesFrom X f).flatten).length = 8 + (specFeaturesFrom X f).flatten.length := by
    rw [List.length_append, header_reply_length]
  rw [hlen]
  have hmin : (if c.cb 7 * 256 + c.cb 8 < 8 + (specFeaturesFrom X f).flatten.length then
        c.cb 7 * 256 + c.cb 8 else 8 + (specFeaturesFrom X f).flatten.length)
      = min (c.cb 7 * 256 + c.cb 8) (8 + (specFeaturesFrom X f).flatten.length) := by
    split <;> omega
  rw [hmin]
  rfl

/-- C25 (counterexample): on a gadget whose feature descriptors are told
apart by their feature numbers, Get Configuration with request type 0b10 and
starting feature 0x0100 places the descriptors of all eight features after the
header (36 bytes, from Profile List on), not only those of the features 0x0100
and 0x0103 (8 bytes). -/
theorem C25_counterexample :
    validCBW (getConfigurationCBW 2).toBytes = true
      ∧ (TUSBCDCBW.ofBytes (getConfigurationCBW 2).toBytes).cb 1 % 4 = 2
      ∧ (TUSBCDCBW.ofBytes (getConfigurationCBW 2).toBytes).cb 2 * 256
          + (TUSBCDCBW.ofBytes (getConfigurationCBW 2).toBytes).cb 3 = 0x0100
      ∧ (specFeaturesFrom featureGadget 0x0100).flatten
          = [0x01, 0x00, 0x03, 0x00, 0x01, 0x03, 0x0B, 0x00]
      ∧ (dataIns (step featureGadget (Event.OutComplete (getConfigurationCBW 2).toBytes)).epIn).map
            (fun d => d.drop 8)
          = [[0x00, 0x00, 0x03, 0x04, 0x00, 0x08, 0x01, 0x00, 0x00, 0x01, 0x0B, 0x00,
              0x00, 0x02, 0x07, 0x00, 0x00, 0x03, 0x03, 0x00, 0x00, 0x1D, 0x00, 0x00,
              0x00, 0x1E, 0x0B, 0x00, 0x01, 0x00, 0x03, 0x00, 0x01, 0x03, 0x0B, 0x00]] := by
  refine ⟨by decide, by decide, by decide, by decide, by decide⟩

/-- C25 (amended): for every valid CBW with opcode 0x46 arriving in state
ReceiveCBW with request type 0b00 or 0b10 and every 16-bit starting feature f,
when the reply fits the IN buffer: the one data-in transfer begun is the
8-byte header followed by the descriptors of the supported features {0x0000,
0x0001, 0x0002, 0x0003, 0x001D, 0x001E, 0x0100, 0x0103} whose number is >= f
for request type 0b00, and of all eight features whatever f for request type
0b10, in ascending feature-number order, cut to min(allocation length, 8 +
total descriptor size) bytes. -/
theorem C25_get_configuration (g : CUSBCDGadget) (data : List Nat)
    (hstate : g.m_nState = TCDState.ReceiveCBW) (hvalid : validCBW data = true)
    (hop : (TUSBCDCBW.ofBytes data).cb 0 = 0x46)
    (hrt : (TUSBCDCBW.ofBytes data).cb 1 % 4 = 0 ∨ (TUSBCDCBW.ofBytes data).cb 1 % 4 = 2)
    (hfit : 8 + (specFeaturesFrom g
        (if (TUSBCDCBW.ofBytes data).cb 1 % 4 = 2 then 0
          else (TUSBCDCBW.ofBytes data).cb 2 * 256 + (TUSBCDCBW.ofBytes data).cb 3)).flatten.length
      ≤ g.k.MaxInMessageSize) :
    (step g (Event.OutComplete data)).epIn
        = g.epIn ++ [Transfer.TransferDataIn
            ((ScsiCmdGetConfiguration.header_reply
                (8 + (specFeaturesFrom g
                  (if (TUSBCDCBW.ofBytes data).cb 1 % 4 = 2 then 0
                    else (TUSBCDCBW.ofBytes data).cb 2 * 256
                      + (TUSBCDCBW.ofBytes data).cb 3)).flatten.length)
              ++ (specFeaturesFrom g
                  (if (TUSBCDCBW.ofBytes data).cb 1 % 4 = 2 then 0
                    else (TUSBCDCBW.ofBytes data).cb 2 * 256
                      + (TUSBCDCBW.ofBytes data).cb 3)).flatten).take
              (min ((TUSBCDCBW.ofBytes data).cb 7 * 256 + (TUSBCDCBW.ofBytes data).cb 8)
                (8 + (specFeaturesFrom g
                  (if (TUSBCDCBW.ofBytes data).cb 1 % 4 = 2 then 0
                    else (TUSBCDCBW.ofBytes data).cb 2 * 256
                      + (TUSBCDCBW.ofBytes data).cb 3)).flatten.length)))]
      ∧ ((ScsiCmdGetConfiguration.header_reply
                (8 + (specFeaturesFrom g
                  (if (TUSBCDCBW.ofBytes data).cb 1 % 4 = 2 then 0
                    else (TUSBCDCBW.ofBytes data).cb 2 * 256
                      + (TUSBCDCBW.ofBytes data).cb 3)).flatten.length)
              ++ (specFeaturesFrom g
                  (if (TUSBCDCBW.ofBytes data).cb 1 % 4 = 2 then 0
                    else (TUSBCDCBW.ofBytes data).cb 2 * 256
                      + (TUSBCDCBW.ofBytes data).cb 3)).flatten).take
              (min ((TUSBCDCBW.ofBytes data).cb 7 * 256 + (TUSBCDCBW.ofBytes data).cb 8)
                (8 + (specFeaturesFrom g
                  (if (TUSBCDCBW.ofBytes data).cb 1 % 4 = 2 then 0
                    else (TUSBCDCBW.ofBytes data).cb 2 * 256
                      + (TUSBCDCBW.ofBytes data).cb 3)).flatten.length))).length
          = min ((TUSBCDCBW.ofBytes data).cb 7 * 256 + (TUSBCDCBW.ofBytes data).cb 8)
              (8 + (specFeaturesFrom g
                (if (TUSBCDCBW.ofBytes data).cb 1 % 4 = 2 then 0
                  else (TUSBCDCBW.ofBytes data).cb 2 * 256
                    + (TUSBCDCBW.ofBytes data).cb 3)).flatten.length) := by
  refine ⟨?_, ?_⟩
  · rw [step_dispatch g data ScsiCommandHandler.ScsiCmdGetConfiguration hstate hvalid
      (by rw [hop]; rfl)]
    exact getConfiguration_reply (TUSBCDCBW.ofBytes data)
      (dispatched g data ScsiCommandHandler.ScsiCmdGetConfiguration) hrt hfit
  · rw [List.length_take, List.length_append, header_reply_length]
    omega

/-- C25 (amended) at a concrete input: request type 0b00 and starting
feature 0x0100 on the gadget with told-apart descriptors. -/
theorem C25_get_configuration_witness :
    dataIns (step featureGadget (Event.OutComplete (getConfigurationCBW 0).toBytes)).epIn
      = [[0x00, 0x00, 0x00, 0x08, 0x00, 0x00, 0x00, 0x08,
          0x01, 0x00, 0x03, 0x00, 0x01, 0x03, 0x0B, 0x00]] :=
  congrArg dataIns (C25_get_configuration featureGadget (getConfigurationCBW 0).toBytes rfl
    (by decide) (by decide) (by decide) (by decide)).1

/-! ## C26 and C27: the data-out phase of Mode Select(10) -/

theorem step_dataOut (g : CUSBCDGadget) (data : List Nat)
    (hstate : g.m_nState = TCDState.DataOut)
    (hh : g.m_pCurrentCommandHandler = some ScsiCommandHandler.ScsiCmdModeSelect10) :
    step g (Event.OutComplete data)
      = ScsiCmdModeSelect10.process_received_data (received g data) data.length := by
  show CUSBCDGadget.OnTransferComplete (received g data) false data.length = _
  have hs : (received g data).m_nState = TCDState.DataOut := hstate
  have hh2 : (received g data).m_pCurrentCommandHandler
      = some ScsiCommandHandler.ScsiCmdModeSelect10 := hh
  generalize received g data = X at hs hh2 ⊢
  unfold CUSBCDGadget.OnTransferComplete
  simp only [Bool.false_eq_true, if_false, hs]
  unfold CUSBCDGadget.onDataOutComplete
  simp only [hh2]

theorem byteAt_append_left (data rest : List Nat) (i : Nat) (h : i < data.length) :
    byteAt (data ++ rest) i = byteAt data i := by
  unfold byteAt
  rw [List.getD_eq_getElem?_getD, List.getD_eq_getElem?_getD, List.getElem?_append_left h]

theorem process_short (X : CUSBCDGadget) (n : Nat) (h : n < 8) :
    (ScsiCmdModeSelect10.process_received_data X n).m_SenseParams
        = { bSenseKey := 0x05, bAddlSenseCode := 0x1A, bAddlSenseCodeQual := 0x00 }
      ∧ (ScsiCmdModeSelect10.process_received_data X n).epIn
          = X.epIn ++ [Transfer.TransferCSWIn { X.m_CSW with bmCSWStatus := CD_CSW_STATUS_FAIL }]
      ∧ (ScsiCmdModeSelect10.process_received_data X n).cdplayer = X.cdplayer
      ∧ (ScsiCmdModeSelect10.process_received_data X n).m_pCurrentCommandHandler = none := by
  unfold ScsiCmdModeSelect10.process_received_data
  rw [if_pos h]
  exact ⟨rfl, rfl, rfl, rfl⟩

theorem process_long (X : CUSBCDGadget) (n : Nat) (h : 8 ≤ n) :
    (ScsiCmdModeSelect10.process_received_data X n).m_SenseParams = X.m_SenseParams
      ∧ (ScsiCmdModeSelect10.process_received_data X n).epIn
          = X.epIn ++ [Transfer.TransferCSWIn { X.m_CSW with bmCSWStatus := CD_CSW_STATUS_OK }]
      ∧ (ScsiCmdModeSelect10.process_received_data X n).cdplayer
          = (ScsiCmdModeSelect10.setVolume X n).cdplayer
      ∧ (ScsiCmdModeSelect10.process_received_data X n).m_pCurrentCommandHandler = none := by
  unfold ScsiCmdModeSelect10.process_received_data
  rw [if_neg (by omega)]
  obtain ⟨p1, p2, p3⟩ := setVolume_fields X n
  have e1 : (sendStatus (ScsiCmdModeSelect10.setVolume X n) CD_CSW_STATUS_OK).epIn
      = (ScsiCmdModeSelect10.setVolume X n).epIn ++ [Transfer.TransferCSWIn
          { (ScsiCmdModeSelect10.setVolume X n).m_CSW with bmCSWStatus := CD_CSW_STATUS_OK }] := rfl
  have e2 : (sendStatus (ScsiCmdModeSelect10.setVolume X n) CD_CSW_STATUS_OK).m_SenseParams
      = (ScsiCmdModeSelect10.setVolume X n).m_SenseParams := rfl
  refine ⟨by rw [e2, p3], by rw [e1, p1, p2], rfl, rfl⟩

theorem setVolume_player (X : CUSBCDGadget) (data rest : List Nat) (p : CCDPlayer)
    (hbuf : X.m_OutBuffer = data ++ rest) (hp : X.cdplayer = some p)
    (hlen : 8 ≤ data.length) (hmod : data.length < X.k.sizeModulus)
    (hpage : 8 + blockDescriptorLength data + X.k.sizeof ReplyStruct.ModePage0x0EData
      ≤ data.length)
    (hcode : (byteAt data (8 + blockDescriptorLength data)) &&& 0x3F = 0x0E)
    (h0 : X.k.offsetOutput0Volume < X.k.sizeof ReplyStruct.ModePage0x0EData)
    (h1 : X.k.offsetOutput1Volume < X.k.sizeof ReplyStruct.ModePage0x0EData) :
    (ScsiCmdModeSelect10.setVolume X data.length).cdplayer
      = some { p with calls := p.calls ++ [PlayerCall.SetVolume
          (min (byteAt data (8 + blockDescriptorLength data + X.k.offsetOutput0Volume))
            (byteAt data (8 + blockDescriptorLength data + X.k.offsetOutput1Volume)))] } := by
  have hb : shl16 (byteAt X.m_OutBuffer 6) (byteAt X.m_OutBuffer 7) = blockDescriptorLength data := by
    unfold blockDescriptorLength
    rw [hbuf, byteAt_append_left _ _ 6 (by omega), byteAt_append_left _ _ 7 (by omega)]
  unfold ScsiCmdModeSelect10.setVolume
  simp only [hb]
  generalize blockDescriptorLength data = bdl at hpage hcode ⊢
  have hrem : (data.length + X.k.sizeModulus - (8 + bdl) % X.k.sizeModulus) % X.k.sizeModulus
      = data.length - (8 + bdl) := by
    rw [Nat.mod_eq_of_lt (by omega : 8 + bdl < X.k.sizeModulus)]
    rw [show data.length + X.k.sizeModulus - (8 + bdl)
      = (data.length - (8 + bdl)) + X.k.sizeModulus by omega]
    rw [Nat.add_mod_right, Nat.mod_eq_of_lt (by omega)]
  rw [hrem, hbuf, byteAt_append_left _ _ (8 + bdl) (by omega),
    byteAt_append_left _ _ (8 + bdl + X.k.offsetOutput0Volume) (by omega),
    byteAt_append_left _ _ (8 + bdl + X.k.offsetOutput1Volume) (by omega)]
  rw [if_pos ⟨by omega, hcode, by omega⟩]
  have hmin : (if byteAt data (8 + bdl + X.k.offsetOutput0Volume)
        < byteAt data (8 + bdl + X.k.offsetOutput1Volume)
      then byteAt data (8 + bdl + X.k.offsetOutput0Volume)
      else byteAt data (8 + bdl + X.k.offsetOutput1Volume))
      = min (byteAt data (8 + bdl + X.k.offsetOutput0Volume))
          (byteAt data (8 + bdl + X.k.offsetOutput1Volume)) := by
    split <;> omega
  rw [hmin]
  unfold playerCall
  rw [hp]

/-- C26 (counterexample): with an audio player task present, the 16-byte
payload of an 8-byte header with block descriptor length 0 followed by an
8-byte page 0x0E carrying the volumes 0x80 and 0x40 is answered with CSW OK,
but no volume is set: the eight bytes left for the page are fewer than
sizeof(ModePage0x0EData) = 16. -/
theorem C26_counterexample :
    modeSelectShortPayload.length = 16
      ∧ blockDescriptorLength modeSelectShortPayload = 0
      ∧ (byteAt modeSelectShortPayload 8) &&& 0x3F = 0x0E
      ∧ (step modeSelectGadget (Event.OutComplete modeSelectShortPayload)).cdplayer
          = some { state := PlayerState.NONE, address := 0, calls := [] }
      ∧ (csws (step modeSelectGadget (Event.OutComplete modeSelectShortPayload)).epIn).map
          (fun c => c.bmCSWStatus) = [CD_CSW_STATUS_OK] := by
  refine ⟨by decide, by decide, by decide, by decide, by decide⟩

/-- C26 (amended): in the data-out phase of Mode Select(10), with the audio
player task present, for every payload of at least 8 bytes whose first mode
page (at offset 8 + block descriptor length) has page code 0x0E and which
holds at least sizeof(ModePage0x0EData) bytes from that offset on (the two
volume fields lying inside the page structure), process_received_data sets the
player volume to the minimum of the two channel volumes of the page and
submits one CSW with status OK. -/
theorem C26_mode_select_volume (g : CUSBCDGadget) (data : List Nat) (p : CCDPlayer)
    (hstate : g.m_nState = TCDState.DataOut)
    (hh : g.m_pCurrentCommandHandler = some ScsiCommandHandler.ScsiCmdModeSelect10)
    (hp : g.cdplayer = some p)
    (hlen : 8 ≤ data.length) (hmod : data.length < g.k.sizeModulus)
    (hpage : 8 + blockDescriptorLength data + g.k.sizeof ReplyStruct.ModePage0x0EData
      ≤ data.length)
    (hcode : (byteAt data (8 + blockDescriptorLength data)) &&& 0x3F = 0x0E)
    (h0 : g.k.offsetOutput0Volume < g.k.sizeof ReplyStruct.ModePage0x0EData)
    (h1 : g.k.offsetOutput1Volume < g.k.sizeof ReplyStruct.ModePage0x0EData) :
    (step g (Event.OutComplete data)).cdplayer
        = some { p with calls := p.calls ++ [PlayerCall.SetVolume
            (min (byteAt data (8 + blockDescriptorLength data + g.k.offsetOutput0Volume))
              (byteAt data (8 + blockDescriptorLength data + g.k.offsetOutput1Volume)))] }
      ∧ (step g (Event.OutComplete data)).epIn
          = g.epIn ++ [Transfer.TransferCSWIn { g.m_CSW with bmCSWStatus := CD_CSW_STATUS_OK }] := by
  rw [step_dataOut g data hstate hh]
  obtain ⟨_, b, c, _⟩ := process_long (received g data) data.length hlen
  refine ⟨?_, b⟩
  rw [c]
  exact setVolume_player (received g data) data _ p rfl hp hlen hmod hpage hcode h0 h1

/-- C26 (amended) at a concrete input: the 24-byte payload of an 8-byte
header with block descriptor length 0 followed by the 16-byte page 0x0E
carrying the volumes 0x80 and 0x40 sets the volume to 0x40. -/
theorem C26_mode_select_volume_witness :
    (step modeSelectGadget (Event.OutComplete modeSelectPayload)).cdplayer
      = some { state := PlayerState.NONE, address := 0,
               calls := [PlayerCall.SetVolume 0x40] } :=
  (C26_mode_select_volume modeSelectGadget modeSelectPayload
    { state := PlayerState.NONE, address := 0, calls := [] } rfl rfl rfl (by decide) (by decide)
    (by decide) (by decide) (by decide) (by decide)).1

/-- C27: in the data-out phase of Mode Select(10), if fewer than 8 bytes were
received the sense becomes (0x05,0x1A,0x00), one CSW with status FAIL is
submitted and the audio player is not touched; if 8 bytes or more were
received, whatever the page code, one CSW with status OK is submitted and the
sense is unchanged; in both cases exactly one transfer, the CSW, is begun and
no current handler is left. -/
theorem C27_mode_select_status (g : CUSBCDGadget) (data : List Nat)
    (hstate : g.m_nState = TCDState.DataOut)
    (hh : g.m_pCurrentCommandHandler = some ScsiCommandHandler.ScsiCmdModeSelect10) :
    (data.length < 8 →
        (step g (Event.OutComplete data)).m_SenseParams
            = { bSenseKey := 0x05, bAddlSenseCode := 0x1A, bAddlSenseCodeQual := 0x00 }
          ∧ (step g (Event.OutComplete data)).epIn
              = g.epIn ++ [Transfer.TransferCSWIn
                  { g.m_CSW with bmCSWStatus := CD_CSW_STATUS_FAIL }]
          ∧ (step g (Event.OutComplete data)).cdplayer = g.cdplayer)
      ∧ (8 ≤ data.length →
        (step g (Event.OutComplete data)).m_SenseParams = g.m_SenseParams
          ∧ (step g (Event.OutComplete data)).epIn
              = g.epIn ++ [Transfer.TransferCSWIn
                  { g.m_CSW with bmCSWStatus := CD_CSW_STATUS_OK }])
      ∧ (step g (Event.OutComplete data)).m_pCurrentCommandHandler = none := by
  rw [step_dataOut g data hstate hh]
  refine ⟨?_, ?_, ?_⟩
  · intro h
    obtain ⟨a, b, c, _⟩ := process_short (received g data) data.length h
    exact ⟨a, b, c⟩
  · intro h
    obtain ⟨a, b, _, _⟩ := process_long (received g data) data.length h
    exact ⟨a, b⟩
  · by_cases h : data.length < 8
    · exact (process_short (received g data) data.length h).2.2.2
    · exact (process_long (received g data) data.length (by omega)).2.2.2

/-- C27 at a concrete input: a payload of three bytes. -/
theorem C27_mode_select_status_witness :
    (step modeSelectGadget (Event.OutComplete [0, 0, 0])).m_SenseParams
        = { bSenseKey := 0x05, bAddlSenseCode := 0x1A, bAddlSenseCodeQual := 0x00 }
      ∧ (step modeSelectGadget (Event.OutComplete [0, 0, 0])).epIn
          = modeSelectGadget.epIn ++ [Transfer.TransferCSWIn
              { modeSelectGadget.m_CSW with bmCSWStatus := CD_CSW_STATUS_FAIL }]
      ∧ (step modeSelectGadget (Event.OutComplete [0, 0, 0])).cdplayer
          = modeSelectGadget.cdplayer :=
  (C27_mode_select_status modeSelectGadget [0, 0, 0] rfl rfl).1 (by decide)

/-! ## C28: the pages of Mode Sense -/

theorem imageBytes_length (k : GadgetConsts) (s : ReplyStruct) (vals : List Nat) :
    (imageBytes k s vals).length = k.sizeof s := by
  unfold imageBytes window
  rw [List.length_map, List.length_range]

theorem bit0_byte (x : Nat) : x &&& 0x01 = 0 ↔ ¬ x % 2 = 1 := by
  rw [Nat.and_one_is_mod]
  omega

theorem bit4_byte (x : Nat) (h : x < 256) : x &&& 0x10 ≠ 0 ↔ x / 16 % 2 = 1 := by
  have key : ∀ y : Fin 256, (y.val &&& 0x10 ≠ 0 ↔ y.val / 16 % 2 = 1) := by
    set_option maxRecDepth 100000 in decide
  exact key ⟨x, h⟩

theorem eventStatus_polled (c : TUSBCDCBW) (X : CUSBCDGadget) :
    (c.cb 4 / 16 % 2 = 1 ∧ X.discChanged = true
        ∧ X.k.sizeof ReplyStruct.TUSBCDEventStatusReplyHeader
            + X.k.sizeof ReplyStruct.TUSBCDEventStatusReplyEvent ≤ c.cb 7 * 256 + c.cb 8 →
      (ScsiCmdGetEventStatusNotification.polled c X).discChanged = false
        ∧ (ScsiCmdGetEventStatusNotification.polled c X).epIn
            = X.epIn ++ [Transfer.TransferDataIn
                (imageBytes X.k ReplyStruct.TUSBCDEventStatusReplyHeader
                    [0x10, 0x10, htons (u16 (X.k.sizeof ReplyStruct.TUSBCDEventStatusReplyEvent))]
                  ++ imageBytes X.k ReplyStruct.TUSBCDEventStatusReplyEvent [0x02, 0x02])])
      ∧ (¬ (c.cb 4 / 16 % 2 = 1 ∧ X.discChanged = true
          ∧ X.k.sizeof ReplyStruct.TUSBCDEventStatusReplyHeader
              + X.k.sizeof ReplyStruct.TUSBCDEventStatusReplyEvent ≤ c.cb 7 * 256 + c.cb 8) →
        (ScsiCmdGetEventStatusNotification.polled c X).discChanged = X.discChanged) := by
  have ha : u16 (shl16 (c.cb 7) (c.cb 8)) = c.cb 7 * 256 + c.cb 8 := by
    have h7 := cb_lt c 7
    have h8 := cb_lt c 8
    rw [shl16_eq _ _ h8]
    unfold u16
    omega
  have hb := bit4_byte (c.cb 4) (cb_lt c 4)
  unfold ScsiCmdGetEventStatusNotification.polled
  simp only [ha, hb, ge_iff_le]
  refine ⟨?_, ?_⟩
  · rintro ⟨h1, h2, h3⟩
    have hm : ScsiCmdGetEventStatusNotification.media_event X
        = imageBytes X.k ReplyStruct.TUSBCDEventStatusReplyEvent [0x02, 0x02] := by
      unfold ScsiCmdGetEventStatusNotification.media_event
      rw [if_pos h2]
    simp only [h1, h2, h3, and_self, if_true, hm, Nat.add_sub_cancel_left]
    refine ⟨rfl, ?_⟩
    rw [if_neg (by omega)]
    have hl : (imageBytes X.k ReplyStruct.TUSBCDEventStatusReplyHeader
          [0x10, 0x10, htons (u16 (X.k.sizeof ReplyStruct.TUSBCDEventStatusReplyEvent))]
        ++ imageBytes X.k ReplyStruct.TUSBCDEventStatusReplyEvent [0x02, 0x02]).length
        = X.k.sizeof ReplyStruct.TUSBCDEventStatusReplyHeader
          + X.k.sizeof ReplyStruct.TUSBCDEventStatusReplyEvent := by
      rw [List.length_append, imageBytes_length, imageBytes_length]
    rw [← hl, List.take_length]
    rfl
  · intro hn
    rw [if_neg hn]
    rfl

theorem eventStatus_latch (c : TUSBCDCBW) (X : CUSBCDGadget) :
    (c.cb 1 % 2 = 1 ∧ c.cb 4 / 16 % 2 = 1 ∧ X.discChanged = true
        ∧ X.k.sizeof ReplyStruct.TUSBCDEventStatusReplyHeader
            + X.k.sizeof ReplyStruct.TUSBCDEventStatusReplyEvent ≤ c.cb 7 * 256 + c.cb 8 →
      (ScsiCmdGetEventStatusNotification.handle_command c X).discChanged = false
        ∧ (ScsiCmdGetEventStatusNotification.handle_command c X).epIn
            = X.epIn ++ [Transfer.TransferDataIn
                (imageBytes X.k ReplyStruct.TUSBCDEventStatusReplyHeader
                    [0x10, 0x10, htons (u16 (X.k.sizeof ReplyStruct.TUSBCDEventStatusReplyEvent))]
                  ++ imageBytes X.k ReplyStruct.TUSBCDEventStatusReplyEvent [0x02, 0x02])])
      ∧ (¬ (c.cb 1 % 2 = 1 ∧ c.cb 4 / 16 % 2 = 1 ∧ X.discChanged = true
          ∧ X.k.sizeof ReplyStruct.TUSBCDEventStatusReplyHeader
              + X.k.sizeof ReplyStruct.TUSBCDEventStatusReplyEvent ≤ c.cb 7 * 256 + c.cb 8) →
        (ScsiCmdGetEventStatusNotification.handle_command c X).discChanged = X.discChanged) := by
  have hp := bit0_byte (c.cb 1)
  obtain ⟨p1, p2⟩ := eventStatus_polled c X
  unfold ScsiCmdGetEventStatusNotification.handle_command
  refine ⟨?_, ?_⟩
  · rintro ⟨h0, h⟩
    rw [if_neg (fun hz => (hp.mp hz) h0)]
    exact p1 h
  · intro hn
    by_cases hz : c.cb 1 &&& 0x01 = 0
    · rw [if_pos hz]
      rfl
    · rw [if_neg hz]
      have h0 : c.cb 1 % 2 = 1 := by
        by_contra hc
        exact hz (hp.mpr hc)
      exact p2 (fun h => hn ⟨h0, h⟩)

/-- C29: for every valid CBW with opcode 0x4A arriving in state ReceiveCBW:
if the command is polled (CDB[1] bit 0), the media class is requested (CDB[4]
bit 4), the disc-changed latch is set and the allocation length CDB[7..8] is
at least the header size plus the event descriptor size, the latch is cleared
and the reply staged is the header followed by the media event descriptor with
event code 0x02 (New Media); in every other case the latch is unchanged. So
the latch is never set by the command. -/
theorem C29_disc_changed_latch (g : CUSBCDGadget) (data : List Nat)
    (hstate : g.m_nState = TCDState.ReceiveCBW) (hvalid : validCBW data = true)
    (hop : (TUSBCDCBW.ofBytes data).cb 0 = 0x4A) :
    ((TUSBCDCBW.ofBytes data).cb 1 % 2 = 1 ∧ (TUSBCDCBW.ofBytes data).cb 4 / 16 % 2 = 1
        ∧ g.discChanged = true
        ∧ g.k.sizeof ReplyStruct.TUSBCDEventStatusReplyHeader
            + g.k.sizeof ReplyStruct.TUSBCDEventStatusReplyEvent
          ≤ (TUSBCDCBW.ofBytes data).cb 7 * 256 + (TUSBCDCBW.ofBytes data).cb 8 →
      (step g (Event.OutComplete data)).discChanged = false
        ∧ (step g (Event.OutComplete data)).epIn
            = g.epIn ++ [Transfer.TransferDataIn
                (imageBytes g.k ReplyStruct.TUSBCDEventStatusReplyHeader
                    [0x10, 0x10, htons (u16 (g.k.sizeof ReplyStruct.TUSBCDEventStatusReplyEvent))]
                  ++ imageBytes g.k ReplyStruct.TUSBCDEventStatusReplyEvent [0x02, 0x02])])
      ∧ (¬ ((TUSBCDCBW.ofBytes data).cb 1 % 2 = 1 ∧ (TUSBCDCBW.ofBytes data).cb 4 / 16 % 2 = 1
          ∧ g.discChanged = true
          ∧ g.k.sizeof ReplyStruct.TUSBCDEventStatusReplyHeader
              + g.k.sizeof ReplyStruct.TUSBCDEventStatusReplyEvent
            ≤ (TUSBCDCBW.ofBytes data).cb 7 * 256 + (TUSBCDCBW.ofBytes data).cb 8) →
        (step g (Event.OutComplete data)).discChanged = g.discChanged)
      ∧ ((step g (Event.OutComplete data)).discChanged = true → g.discChanged = true) := by
  rw [step_dispatch g data ScsiCommandHandler.ScsiCmdGetEventStatusNotification hstate hvalid
    (by rw [hop]; rfl)]
  obtain ⟨p1, p2⟩ := eventStatus_latch (TUSBCDCBW.ofBytes data)
    (dispatched g data ScsiCommandHandler.ScsiCmdGetEventStatusNotification)
  refine ⟨p1, p2, ?_⟩
  intro ht
  by_cases hc : ((TUSBCDCBW.ofBytes data).cb 1 % 2 = 1 ∧ (TUSBCDCBW.ofBytes data).cb 4 / 16 % 2 = 1
      ∧ g.discChanged = true
      ∧ g.k.sizeof ReplyStruct.TUSBCDEventStatusReplyHeader
          + g.k.sizeof ReplyStruct.TUSBCDEventStatusReplyEvent
        ≤ (TUSBCDCBW.ofBytes data).cb 7 * 256 + (TUSBCDCBW.ofBytes data).cb 8)
  · exact hc.2.2.1
  · exact (p2 hc).symm.trans ht

/-- C29 at a concrete input: after a disc change, a polled request for the
media class with allocation length 8 clears the latch. -/
theorem C29_disc_changed_latch_witness :
    (CUSBCDGadget.SetDevice sampleGadget true).discChanged = true
      ∧ (step (CUSBCDGadget.SetDevice sampleGadget true)
          (Event.OutComplete getEventStatusCBW.toBytes)).discChanged = false :=
  ⟨rfl, ((C29_disc_changed_latch (CUSBCDGadget.SetDevice sampleGadget true)
    getEventStatusCBW.toBytes rfl (by decide) (by decide)).1
      ⟨by decide, by decide, rfl, by decide⟩).1⟩

/-! ## C30: the Device Identification page of Inquiry -/

/-- C30 (the code at a failing input): Inquiry with EVPD = 1, page code 0x83
and allocation length 255 stages 18 bytes, not 16: the array
DeviceIdentificationReply holds the two stray initialisers 01 02 between the
page header and the descriptor, so the reply is 05 83 00 0C 01 02 02 01 00 08
'U' 'S' 'B' 'O' 'D' 'E' ' ' ' '; the page length 12 is followed by 14 bytes,
and the descriptor read at offset 4 starts 01 02 02 01. -/
theorem C30_device_identification_stray_bytes :
    validCBW inquiry83CBW.toBytes = true
      ∧ (TUSBCDCBW.ofBytes inquiry83CBW.toBytes).cb 1 % 2 = 1
      ∧ (TUSBCDCBW.ofBytes inquiry83CBW.toBytes).cb 2 = 0x83
      ∧ (step sampleGadget (Event.OutComplete inquiry83CBW.toBytes)).epIn
          = [Transfer.TransferDataIn
              [0x05, 0x83, 0x00, 0x0C, 0x01, 0x02, 0x02, 0x01, 0x00, 0x08,
               0x55, 0x53, 0x42, 0x4F, 0x44, 0x45, 0x20, 0x20]]
      ∧ (dataIns (step sampleGadget (Event.OutComplete inquiry83CBW.toBytes)).epIn).map
            (fun d => (d.length, d.getD 3 0, (d.drop 4).length))
          = [(18, 12, 14)]
      ∧ dataIns (step sampleGadget (Event.OutComplete inquiry83CBW.toBytes)).epIn
          ≠ [[0x05, 0x83, 0x00, 0x0C, 0x02, 0x01, 0x00, 0x08,
              0x55, 0x53, 0x42, 0x4F, 0x44, 0x45, 0x20, 0x20]] := by
  refine ⟨by decide, by decide, by decide, by decide, by decide, by decide⟩

/-! ## C32: Bulk-Only Mass Storage Reset -/

/-- C32 (counterexample): the Bulk-Only Mass Storage Reset request reaches
`OnClassOrVendorRequest`, which answers -1 (request not handled) and leaves
the gadget as it is. A gadget in the middle of a Read(10) stays in `DataIn`,
not `ReceiveCBW`, with the Read(10) handler current and its read context; a
gadget in the data-out phase of a Mode Select(10) stays in `DataOut`; a gadget
that stalled both endpoints keeps them stalled. -/
theorem C32_counterexample :
    midReadGadget.m_nState = TCDState.DataIn
      ∧ midReadGadget.m_pCurrentCommandHandler = some ScsiCommandHandler.ScsiCmdRead10
      ∧ (midReadGadget.OnClassOrVendorRequest bulkOnlyReset []).1 = -1
      ∧ (midReadGadget.OnClassOrVendorRequest bulkOnlyReset []).2.2.m_nState = TCDState.DataIn
      ∧ (midReadGadget.OnClassOrVendorRequest bulkOnlyReset []).2.2.m_nState
          ≠ TCDState.ReceiveCBW
      ∧ (midReadGadget.OnClassOrVendorRequest bulkOnlyReset []).2.2.m_pCurrentCommandHandler
          = some ScsiCommandHandler.ScsiCmdRead10
      ∧ geometry (midReadGadget.OnClassOrVendorRequest bulkOnlyReset []).2.2
          = geometry midReadGadget
      ∧ (modeSelectGadget.OnClassOrVendorRequest bulkOnlyReset []).2.2.m_nState
          = TCDState.DataOut
      ∧ (stalledGadget.stallIn, stalledGadget.stallOut) = (true, true)
      ∧ ((stalledGadget.OnClassOrVendorRequest bulkOnlyReset []).2.2.stallIn,
          (stalledGadget.OnClassOrVendorRequest bulkOnlyReset []).2.2.stallOut)
          = (true, true) := by
  refine ⟨by decide, by decide, by decide, by decide, by decide, by decide, by decide,
    by decide, by decide, by decide⟩

/-- C32 (amended): the gadget does not serve the Bulk-Only Mass Storage
Reset. For every gadget, whatever its transport state, and every data buffer,
`OnClassOrVendorRequest` answers the reset request with -1, does not write
the buffer and returns the gadget unchanged, so the transport state, the
endpoint stalls, the read context and the current handler stay as they are.
The one request the function serves is Get Max LUN (request type 0xA1,
request 0xFE), answered with one byte 0 and the value 1, the gadget again
unchanged. -/
theorem C32_reset_not_handled :
    (∀ (g : CUSBCDGadget) (pData : List Nat),
        g.OnClassOrVendorRequest bulkOnlyReset pData = (-1, pData, g))
      ∧ (∀ (g : CUSBCDGadget) (pData : List Nat),
          (g.OnClassOrVendorRequest bulkOnlyReset pData).2.2.m_nState = g.m_nState
            ∧ (g.OnClassOrVendorRequest bulkOnlyReset pData).2.2.stallIn = g.stallIn
            ∧ (g.OnClassOrVendorRequest bulkOnlyReset pData).2.2.stallOut = g.stallOut
            ∧ (g.OnClassOrVendorRequest bulkOnlyReset pData).2.2.m_pCurrentCommandHandler
                = g.m_pCurrentCommandHandler
            ∧ (g.OnClassOrVendorRequest bulkOnlyReset pData).2.2.m_nblock_address
                = g.m_nblock_address
            ∧ (g.OnClassOrVendorRequest bulkOnlyReset pData).2.2.m_nnumber_blocks
                = g.m_nnumber_blocks)
      ∧ (∀ (g : CUSBCDGadget) (pData : List Nat),
          g.OnClassOrVendorRequest { bmRequestType := 0xA1, bRequest := 0xFE } pData
            = (1, poke pData 0 [0], g))
      ∧ (sampleGadget.OnClassOrVendorRequest { bmRequestType := 0xA1, bRequest := 0xFE } [7]).2.1
          = [0] := by
  refine ⟨fun g pData => rfl, fun g pData => ⟨rfl, rfl, rfl, rfl, rfl, rfl⟩,
    fun g pData => rfl, by decide⟩

/-! ## C34: the mode data length of Mode Sense -/

theorem foldl_copy_mode_page_length (g : CUSBCDGadget) (alloc n : Nat) (pages : List (List Nat)) :
    ∀ buf : List Nat, n ≤ buf.length →
      n ≤ (pages.foldl (copy_mode_page g alloc) buf).length := by
  induction pages with
  | nil => intro buf h; exact h
  | cons p ps ih =>
    intro buf h
    rw [List.foldl_cons]
    apply ih
    unfold copy_mode_page
    by_cases hc : buf.length + p.length ≤ alloc ∧ buf.length + p.length ≤ g.k.MaxInMessageSize
    · rw [if_pos hc, List.length_append]; omega
    · rw [if_neg hc]; exact h

theorem modeSense10_layout_length (pctl pc alloc : Nat) :
    ∃ n : Nat, 8 ≤ n
      ∧ (ScsiCmdModeSense10.assembled layoutGadget pctl pc alloc).length = n
      ∧ (ScsiCmdModeSense10.assembled layoutGadget pctl pc alloc).take 2
          = le16 (htons (u16 (n - 8))) := by
  have h8 := foldl_copy_mode_page_length layoutGadget alloc 8
    (if pctl = 0x03 then [] else modePages layoutGadget pc) (List.replicate 8 0)
    (by rw [List.length_replicate])
  refine ⟨_, h8, ?_, ?_⟩
  · unfold ScsiCmdModeSense10.assembled
    simp only []
    rw [List.length_append, imageBytes_length, List.length_drop]
    show 8 + (_ - 8) = _
    have e : layoutGadget.k.sizeof ReplyStruct.ModeSense10Header = 8 := rfl
    rw [e] at *
    omega
  · rfl

theorem modeSense6_layout_length (pctl pc alloc : Nat) :
    ∃ n : Nat, 4 ≤ n
      ∧ (ScsiCmdModeSense6.assembled layoutGadget pctl pc alloc).length = n
      ∧ (ScsiCmdModeSense6.assembled layoutGadget pctl pc alloc).take 1
          = [u8 (u8 (n - 1))] := by
  have h4 := foldl_copy_mode_page_length layoutGadget alloc 4
    (if pctl = 0x03 then [] else modePages layoutGadget pc) (List.replicate 4 0)
    (by rw [List.length_replicate])
  refine ⟨_, h4, ?_, ?_⟩
  · unfold ScsiCmdModeSense6.assembled
    simp only []
    rw [List.length_append, imageBytes_length, List.length_drop]
    have e : layoutGadget.k.sizeof ReplyStruct.ModeSense6Header = 4 := rfl
    rw [e] at *
    omega
  · rfl

/-- C34 (code divergence): with the header layouts of the MMC replies, the
Mode Data Length field of every reply Mode Sense(10) assembles (bytes 0-1,
big-endian) is the total assembled length minus 8, the length of the pages
alone, and not the total minus 2 the comment of the handler announces: the
handler assigns `htons(current_data_idx - sizeof(ModeSense10Header))`. For all
pages (page code 0x3F, allocation length 255) the reply has 70 bytes and the
field reads 00 3E (62) where total minus 2 is 00 44 (68). The Mode Sense(6)
part holds: its byte 0 is the total assembled length minus 1 (65 for the
66-byte reply with all pages). -/
theorem C34_mode_data_length_ms10 :
    (∀ pctl pc alloc : Nat,
        (ScsiCmdModeSense10.assembled layoutGadget pctl pc alloc).take 2
            = be16 ((ScsiCmdModeSense10.assembled layoutGadget pctl pc alloc).length - 8)
          ∧ 8 ≤ (ScsiCmdModeSense10.assembled layoutGadget pctl pc alloc).length)
    ∧ (∀ pctl pc alloc : Nat,
        (ScsiCmdModeSense6.assembled layoutGadget pctl pc alloc).take 1
            = [((ScsiCmdModeSense6.assembled layoutGadget pctl pc alloc).length - 1) % 256])
    ∧ (dataIns (step layoutGadget (Event.OutComplete modeSense10CBW.toBytes)).epIn).map
          (fun d => (d.length, d.take 2, be16 (d.length - 2)))
        = [(70, [0, 62], [0, 68])]
    ∧ (csws (step layoutGadget (Event.OutComplete modeSense10CBW.toBytes)).epIn).map
          (fun c => c.bmCSWStatus) = [CD_CSW_STATUS_OK]
    ∧ (dataIns (step layoutGadget (Event.OutComplete modeSense6CBW.toBytes)).epIn).map
          (fun d => (d.length, d.take 1)) = [(66, [65])] := by
  refine ⟨fun pctl pc alloc => ?_, fun pctl pc alloc => ?_, ?_, ?_, ?_⟩
  · obtain ⟨n, h8, hl, ht⟩ := modeSense10_layout_length pctl pc alloc
    rw [hl, ht]
    refine ⟨?_, h8⟩
    rw [le16_htons]
    unfold u16 be16
    have a : (n - 8) % 65536 / 256 % 256 = (n - 8) / 256 % 256 := by
      have := Nat.mod_mul_right_div_self (n - 8) 256 256
      omega
    have b : (n - 8) % 65536 % 256 = (n - 8) % 256 := by omega
    rw [a, b]
  · obtain ⟨n, h4, hl, ht⟩ := modeSense6_layout_length pctl pc alloc
    rw [hl, ht]
    unfold u8
    have a : (n - 1) % 256 % 256 % 256 = (n - 1) % 256 := by omega
    first
      | rw [a]
      | (have b : (n - 1) % 256 % 256 = (n - 1) % 256 := by omega
         rw [b])
  · decide
  · decide
  · decide

/-! ## C38: Mode Select reads beyond the received payload -/

/-- C38 (code divergence): `process_received_data` computes the length left
for the mode page as `received_length - (8 + block_descriptor_length)` in
`size_t`, so when 8 + block descriptor length exceeds the received length the
difference wraps to a huge value instead of 0 and the page is read at offsets
beyond the payload. After a Mode Select(10) whose 48-byte payload set the
volume 0x20, a second Mode Select(10) whose payload is the 8-byte header alone
with block descriptor length 24 (8 + 24 > 8) sets the volume 0x20 again: page
code and volumes are read at offsets 32, 41 and 43 of the OUT buffer, which
still hold the bytes of the first payload. -/
theorem C38_mode_select_reads_stale_bytes :
    modeSelectHeaderOnlyPayload.length = 8
      ∧ 8 + blockDescriptorLength modeSelectHeaderOnlyPayload = 32
      ∧ (run modeSelectGadget (modeSelectTwice.take 3)).m_nState = TCDState.DataOut
      ∧ (run modeSelectGadget (modeSelectTwice.take 3)).cdplayer
          = some { state := PlayerState.NONE, address := 0,
                   calls := [PlayerCall.SetVolume 0x20] }
      ∧ (run modeSelectGadget modeSelectTwice).cdplayer
          = some { state := PlayerState.NONE, address := 0,
                   calls := [PlayerCall.SetVolume 0x20, PlayerCall.SetVolume 0x20] }
      ∧ (csws (run modeSelectGadget modeSelectTwice).epIn).map (fun c => c.bmCSWStatus)
          = [CD_CSW_STATUS_OK, CD_CSW_STATUS_OK]
      ∧ ((run modeSelectGadget (modeSelectTwice.take 3)).m_OutBuffer.drop 31).take 13
          = [0, 0x0E, 0x0E, 0x04, 0, 0, 0, 0, 0, 0x01, 0x30, 0x02, 0x20] := by
  refine ⟨by decide, by decide, by decide, by decide, by decide, by decide, by decide⟩

/-! ## C37: the track of an LBA -/

theorem trackLoop_spec (x : Nat) (l : List CUETrackInfo)
    (hinc : l.Pairwise (fun a b => a.track_start < b.track_start)) :
    ∀ last : CUETrackInfo,
      (CUSBCDGadget.GetTrackInfoForLBA.loop x l last = last ∧ ∀ t ∈ l, x < t.track_start)
        ∨ (CUSBCDGadget.GetTrackInfoForLBA.loop x l last ∈ l
            ∧ (CUSBCDGadget.GetTrackInfoForLBA.loop x l last).track_start ≤ x
            ∧ ∀ t ∈ l, t.track_start ≤ x →
                t.track_start ≤ (CUSBCDGadget.GetTrackInfoForLBA.loop x l last).track_start) := by
  induction l with
  | nil =>
    intro last
    exact Or.inl ⟨rfl, fun t ht => absurd ht (List.not_mem_nil t)⟩
  | cons t rest ih =>
    intro last
    rw [List.pairwise_cons] at hinc
    unfold CUSBCDGadget.GetTrackInfoForLBA.loop
    by_cases hx : x ≥ t.track_start
    · rw [if_pos hx]
      rcases ih hinc.2 t with ⟨e, hall⟩ | ⟨hm, hle, hmax⟩
      · refine Or.inr ⟨?_, ?_, ?_⟩
        · rw [e]; exact List.mem_cons_self t rest
        · rw [e]; exact hx
        · intro u hu hux
          rw [e]
          rcases List.mem_cons.mp hu with h | h
          · rw [h]
          · have := hall u h
            omega
      · refine Or.inr ⟨List.mem_cons_of_mem t hm, hle, ?_⟩
        intro u hu hux
        rcases List.mem_cons.mp hu with h | h
        · rw [h]
          exact Nat.le_of_lt (hinc.1 _ hm)
        · exact hmax u h hux
    · rw [if_neg hx]
      refine Or.inl ⟨rfl, ?_⟩
      intro u hu
      rcases List.mem_cons.mp hu with h | h
      · rw [h]; omega
      · have := hinc.1 u h
        omega

/-- C37: `GetTrackInfoForLBA` on an empty track table returns the invalid
track (track number -1); on a table `first :: rest` whose start LBAs are
strictly increasing, for every LBA x: when x is at or beyond the start of the
first track the result is a track of the table whose start is at most x and
is the greatest such start; when x = 0 the result is the first track, whatever
its start; when 0 < x and x is below the start of the first track the result
is the invalid track. -/
theorem C37_track_for_lba (g : CUSBCDGadget) (x : Nat) :
    (g.cueParser = [] →
        g.GetTrackInfoForLBA x = CUETrackInfo.invalid
          ∧ (g.GetTrackInfoForLBA x).track_number = -1)
      ∧ (∀ (first : CUETrackInfo) (rest : List CUETrackInfo),
          g.cueParser = first :: rest →
          (first :: rest).Pairwise (fun a b => a.track_start < b.track_start) →
          (first.track_start ≤ x →
              g.GetTrackInfoForLBA x ∈ g.cueParser
                ∧ (g.GetTrackInfoForLBA x).track_start ≤ x
                ∧ ∀ t ∈ g.cueParser, t.track_start ≤ x →
                    t.track_start ≤ (g.GetTrackInfoForLBA x).track_start)
            ∧ (x = 0 → g.GetTrackInfoForLBA x = first)
            ∧ (0 < x → x < first.track_start →
                g.GetTrackInfoForLBA x = CUETrackInfo.invalid
                  ∧ (g.GetTrackInfoForLBA x).track_number = -1)) := by
  refine ⟨?_, ?_⟩
  · intro he
    have e : g.GetTrackInfoForLBA x = CUETrackInfo.invalid := by
      unfold CUSBCDGadget.GetTrackInfoForLBA
      rw [he]
    rw [e]
    exact ⟨rfl, rfl⟩
  · intro first rest htab hinc
    have e0 : x = 0 → g.GetTrackInfoForLBA x = first := by
      intro hx
      unfold CUSBCDGadget.GetTrackInfoForLBA
      rw [htab]
      simp only [hx, if_true]
    have e1 : x ≠ 0 → g.GetTrackInfoForLBA x
        = CUSBCDGadget.GetTrackInfoForLBA.loop x (first :: rest) CUETrackInfo.invalid := by
      intro hx
      unfold CUSBCDGadget.GetTrackInfoForLBA
      rw [htab]
      simp only [hx, if_false]
    refine ⟨?_, e0, ?_⟩
    · intro hfx
      by_cases hx : x = 0
      · rw [e0 hx, htab]
        refine ⟨List.mem_cons_self first rest, hfx, ?_⟩
        intro t _ ht
        omega
      · rw [e1 hx, htab]
        rcases trackLoop_spec x (first :: rest) hinc CUETrackInfo.invalid with ⟨_, hall⟩ | h
        · have := hall first (List.mem_cons_self first rest)
          omega
        · exact h
    · intro hpos hlt
      have e : g.GetTrackInfoForLBA x = CUETrackInfo.invalid := by
        rw [e1 (by omega)]
        unfold CUSBCDGadget.GetTrackInfoForLBA.loop
        rw [if_neg (by omega)]
      rw [e]
      exact ⟨rfl, rfl⟩

/-- C37 at a concrete input: on the sample disc (track 1 from LBA 0, track 2
from LBA 20000) the track of LBA 25000 is a track of the table that starts at
or before 25000, and no track starting at or before 25000 starts later. -/
theorem C37_track_for_lba_witness :
    sampleGadget.GetTrackInfoForLBA 25000 ∈ sampleGadget.cueParser
      ∧ (sampleGadget.GetTrackInfoForLBA 25000).track_start ≤ 25000
      ∧ ∀ t ∈ sampleGadget.cueParser, t.track_start ≤ 25000 →
          t.track_start ≤ (sampleGadget.GetTrackInfoForLBA 25000).track_start :=
  ((C37_track_for_lba sampleGadget 25000).2 _ _ rfl (by decide)).1 (by decide)

/-! ## C33: the lead-out LBA -/

/-- C33 (counterexample): for a last track whose mode has no block size
(`GetBlocksizeForTrack` returns 0, here Mode 2 with 2336-byte sectors) the
lead-out is computed with 2352-byte sectors: an image of 1000 sectors of 2336
bytes gives lead-out 993, which is neither data start + floor(size / 0) nor
the 1000 sectors of the image. And the image size is truncated to 32 bits: a
Mode 1/2048 image of 4 GiB and 10 sectors gives lead-out 10 where
floor(size / 2048) is 2097162. -/
theorem C33_counterexample :
    mode2336Gadget.cueParser.getLast?.map CUSBCDGadget.GetBlocksizeForTrack = some 0
      ∧ mode2336Gadget.m_pDevice.GetSize = 2336 * 1000
      ∧ mode2336Gadget.GetLeadoutLBA = 993
      ∧ 0 + (2336 * 1000 - 0) / 0 = 0
      ∧ largeImageGadget.cueParser.getLast?.map
          (fun t => (t.data_start, t.file_offset, CUSBCDGadget.GetBlocksizeForTrack t))
          = some (0, 0, 2048)
      ∧ largeImageGadget.m_pDevice.GetSize = 4294967296 + 2048 * 10
      ∧ largeImageGadget.GetLeadoutLBA = 10
      ∧ 0 + (4294967296 + 2048 * 10 - 0) / 2048 = 2097162 := by
  refine ⟨by decide, by decide, by decide, by decide, by decide, by decide, by decide,
    by decide⟩

/-- C33 (amended): `GetLeadoutLBA` returns 150 for an empty track table;
otherwise, for the last track of the table with data start d and file offset
o (both below 2^32), with b the physical block size of the track, taken as
2352 when the track mode has none, and s the image size modulo 2^32, it
returns d when s <= o and (d + floor((s - o) / b)) modulo 2^32 otherwise, so
the lead-out LBA is never below the data start of the last track as long as
that sum stays below 2^32. -/
theorem C33_leadout (g : CUSBCDGadget) :
    (g.cueParser = [] → g.GetLeadoutLBA = 150)
      ∧ (∀ t : CUETrackInfo, g.cueParser.getLast? = some t →
          t.data_start < 4294967296 → t.file_offset < 4294967296 →
          (g.m_pDevice.GetSize % 4294967296 ≤ t.file_offset →
              g.GetLeadoutLBA = t.data_start)
            ∧ (t.file_offset < g.m_pDevice.GetSize % 4294967296 →
                g.GetLeadoutLBA
                  = (t.data_start + (g.m_pDevice.GetSize % 4294967296 - t.file_offset)
                      / (if CUSBCDGadget.GetBlocksizeForTrack t = 0 then 2352
                         else CUSBCDGadget.GetBlocksizeForTrack t)) % 4294967296)
            ∧ (t.data_start + (g.m_pDevice.GetSize % 4294967296 - t.file_offset)
                  / (if CUSBCDGadget.GetBlocksizeForTrack t = 0 then 2352
                     else CUSBCDGadget.GetBlocksizeForTrack t) < 4294967296 →
                t.data_start ≤ g.GetLeadoutLBA)) := by
  refine ⟨?_, ?_⟩
  · intro he
    unfold CUSBCDGadget.GetLeadoutLBA
    rw [he]
    rfl
  · intro t ht hd ho
    have ed : u32 t.data_start = t.data_start := Nat.mod_eq_of_lt hd
    have eo : u32 t.file_offset = t.file_offset := Nat.mod_eq_of_lt ho
    have e : g.GetLeadoutLBA
        = if g.m_pDevice.GetSize % 4294967296 ≤ t.file_offset then t.data_start
          else (t.data_start + (g.m_pDevice.GetSize % 4294967296 - t.file_offset)
                  / (if CUSBCDGadget.GetBlocksizeForTrack t = 0 then 2352
                     else CUSBCDGadget.GetBlocksizeForTrack t)) % 4294967296 := by
      unfold CUSBCDGadget.GetLeadoutLBA
      rw [ht]
      simp only [ed, eo]
      rfl
    refine ⟨?_, ?_, ?_⟩
    · intro h
      rw [e, if_pos h]
    · intro h
      rw [e, if_neg (by omega)]
    · intro h
      rw [e]
      by_cases hc : g.m_pDevice.GetSize % 4294967296 ≤ t.file_offset
      · rw [if_pos hc]
      · rw [if_neg hc, Nat.mod_eq_of_lt h]
        exact Nat.le_add_right _ _

/-- C33 (amended) at a concrete input: the sample disc, whose last track has
data start 20000, file offset 47040000 and block size 2048, with an image
size that puts the lead-out at LBA 300000. -/
theorem C33_leadout_witness :
    sampleGadget.GetLeadoutLBA
        = (20000 + (sampleGadget.m_pDevice.GetSize % 4294967296 - 47040000)
            / (if CUSBCDGadget.GetBlocksizeForTrack
                  { track_number := 2, track_mode := CUETrackMode.CUETrack_MODE1_2048,
                    track_start := 20000, data_start := 20000, file_offset := 47040000 } = 0
               then 2352
               else CUSBCDGadget.GetBlocksizeForTrack
                  { track_number := 2, track_mode := CUETrackMode.CUETrack_MODE1_2048,
                    track_start := 20000, data_start := 20000, file_offset := 47040000 }))
          % 4294967296
      ∧ sampleGadget.GetLeadoutLBA = 300000 :=
  ⟨((C33_leadout sampleGadget).2
      { track_number := 2, track_mode := CUETrackMode.CUETrack_MODE1_2048,
        track_start := 20000, data_start := 20000, file_offset := 47040000 }
      (by decide) (by decide) (by decide)).2.1 (by decide),
    by decide⟩

/-! ## C31: Toolbox List Items -/

theorem flatten_const_length {α : Type} (f : α → List Nat) (c : Nat)
    (h : ∀ a, (f a).length = c) (l : List α) : ((l.map f).flatten).length = l.length * c := by
  induction l with
  | nil => simp
  | cons a t ih =>
    rw [List.map_cons, List.flatten_cons, List.length_append, ih, h a, List.length_cons,
      Nat.succ_mul, Nat.add_comm]

theorem specTbEntry_length (i : Nat) (name : List Nat) (size : Nat) :
    (specTbEntry i name size).length = 40 := by
  unfold specTbEntry be40
  simp only [List.length_append, List.length_cons, List.length_nil, List.length_take,
    List.length_replicate]
  omega

theorem specTbEntries_length (catalog : List (List Nat × Nat)) :
    (specTbEntries catalog).length = 40 * min catalog.length 100 := by
  unfold specTbEntries
  rw [flatten_const_length
    (fun i => specTbEntry i (catalog.getD i ([], 0)).1 (catalog.getD i ([], 0)).2) 40
    (fun i => specTbEntry_length _ _ _), List.length_range, Nat.mul_comm]

theorem byte_of_shift (v s : Nat) : (v >>> s) &&& 0xFF = v / 2 ^ s % 256 := by
  rw [Nat.shiftRight_eq_div_pow, show (0xFF : Nat) = 2 ^ 8 - 1 by norm_num,
    Nat.and_pow_two_sub_one_eq_mod]

theorem tbEntry_eq_spec (i : Nat) (name : List Nat) (size : Nat) (hi : i < 256)
    (hs : size < 4294967296) :
    ScsiCmdTbListItems.entry i name size = specTbEntry i name size := by
  unfold ScsiCmdTbListItems.entry specTbEntry be40
  have e0 : u8 i = i := Nat.mod_eq_of_lt hi
  have es : u32 size = size := Nat.mod_eq_of_lt hs
  have b0 : size / 4294967296 % 256 = 0 := by
    rw [Nat.div_eq_of_lt hs]
  have b4 : size &&& 0xFF = size % 256 := by
    rw [show (0xFF : Nat) = 2 ^ 8 - 1 by norm_num, Nat.and_pow_two_sub_one_eq_mod]
  have b1 := byte_of_shift size 24
  have b2 := byte_of_shift size 16
  have b3 := byte_of_shift size 8
  have n1 : name.take (min 32 name.length) = name.take 32 := by
    by_cases h : 32 ≤ name.length
    · rw [Nat.min_eq_left h]
    · rw [Nat.min_eq_right (by omega), List.take_of_length_le (Nat.le_refl _),
        List.take_of_length_le (by omega)]
  have n2 : List.replicate (33 - min 32 name.length) 0
      = List.replicate (32 - (name.take 32).length) 0 ++ [0] := by
    rw [List.length_take, ← List.replicate_succ']
    congr 1
    omega
  rw [e0, es, b0, b1, b2, b3, b4, n1, n2]
  simp only [List.append_assoc]
  rfl

theorem tbEntries_eq_spec (X : CUSBCDGadget) (svc : SCSITBService)
    (hfit : min svc.entries.length 100 * 40 ≤ X.k.MaxInMessageSize)
    (hsize : ∀ e ∈ svc.entries, e.2 < 4294967296) :
    ScsiCmdTbListItems.count_to_report X svc = min svc.entries.length 100
      ∧ ScsiCmdTbListItems.entries X svc = specTbEntries svc.entries := by
  have hc : ScsiCmdTbListItems.count_to_report X svc = min svc.entries.length 100 := by
    unfold ScsiCmdTbListItems.count_to_report ScsiCmdTbListItems.sizeofEntry
    have hm : (if svc.entries.length < 100 then svc.entries.length else 100)
        = min svc.entries.length 100 := by
      split <;> omega
    simp only [hm]
    rw [if_neg (by omega)]
  refine ⟨hc, ?_⟩
  unfold ScsiCmdTbListItems.entries specTbEntries
  rw [hc]
  congr 1
  apply List.map_congr_left
  intro i hi
  rw [List.mem_range] at hi
  have hlt : i < svc.entries.length := by omega
  have hmem : svc.entries.getD i ([], 0) ∈ svc.entries := by
    rw [List.getD_eq_getElem _ _ hlt]
    exact List.getElem_mem hlt
  exact tbEntry_eq_spec i _ _ (by omega) (hsize _ hmem)

theorem tbListItems_reply (c : TUSBCDCBW) (X : CUSBCDGadget) (svc : SCSITBService)
    (hsvc : X.scsitbservice = some svc)
    (hfit : min svc.entries.length 100 * 40 ≤ X.k.MaxInMessageSize)
    (hsize : ∀ e ∈ svc.entries, e.2 < 4294967296) :
    (ScsiCmdTbListItems.handle_command c X).epIn
        = X.epIn ++ [Transfer.TransferDataIn
            ((specTbEntries svc.entries).take
              (min c.dCBWDataTransferLength (40 * min svc.entries.length 100)))]
      ∧ (ScsiCmdTbListItems.handle_command c X).m_CSW.bmCSWStatus = CD_CSW_STATUS_OK
      ∧ (ScsiCmdTbListItems.handle_command c X).m_nState = TCDState.DataIn := by
  obtain ⟨hc, he⟩ := tbEntries_eq_spec X svc hfit hsize
  unfold ScsiCmdTbListItems.handle_command
  rw [hsvc]
  simp only [hc, he, ScsiCmdTbListItems.sizeofEntry]
  have hmin : (if c.dCBWDataTransferLength < min svc.entries.length 100 * 40 then
        c.dCBWDataTransferLength else min svc.entries.length 100 * 40)
      = min c.dCBWDataTransferLength (40 * min svc.entries.length 100) := by
    split <;> omega
  rw [hmin]
  exact ⟨rfl, rfl, rfl⟩

/-- C31: for every valid CBW with opcode 0xD0 or 0xD7 arriving in state
ReceiveCBW while the catalog task exists, with a catalog of n entries whose
sizes are 32-bit values (what `GetSize` yields) and whose first min(n, 100)
entries fit the IN buffer, exactly one data-in transfer is begun: the first
min(dCBWDataTransferLength, 40 * min(n, 100)) bytes of the min(n, 100)
consecutive 40-byte entries, where entry i is the index byte i, the type byte
0, the 33-byte name field (the first min(32, length) bytes of name i, then
only zero bytes) and the 5-byte big-endian 40-bit size of item i; the CSW
status is OK. -/
theorem C31_list_items (g : CUSBCDGadget) (data : List Nat) (svc : SCSITBService)
    (hstate : g.m_nState = TCDState.ReceiveCBW) (hvalid : validCBW data = true)
    (hop : (TUSBCDCBW.ofBytes data).cb 0 = 0xD0 ∨ (TUSBCDCBW.ofBytes data).cb 0 = 0xD7)
    (hsvc : g.scsitbservice = some svc)
    (hfit : min svc.entries.length 100 * 40 ≤ g.k.MaxInMessageSize)
    (hsize : ∀ e ∈ svc.entries, e.2 < 4294967296) :
    (step g (Event.OutComplete data)).epIn
        = g.epIn ++ [Transfer.TransferDataIn
            ((specTbEntries svc.entries).take
              (min (TUSBCDCBW.ofBytes data).dCBWDataTransferLength
                (40 * min svc.entries.length 100)))]
      ∧ (specTbEntries svc.entries).length = 40 * min svc.entries.length 100
      ∧ (step g (Event.OutComplete data)).m_CSW.bmCSWStatus = CD_CSW_STATUS_OK := by
  have hh : CUSBCDGadget.m_scsi_handlers ((TUSBCDCBW.ofBytes data).cb 0)
      = some ScsiCommandHandler.ScsiCmdTbListItems := by
    rcases hop with h | h <;> rw [h] <;> rfl
  rw [step_dispatch g data ScsiCommandHandler.ScsiCmdTbListItems hstate hvalid hh]
  have key := tbListItems_reply (TUSBCDCBW.ofBytes data)
    (dispatched g data ScsiCommandHandler.ScsiCmdTbListItems) svc hsvc hfit hsize
  exact ⟨key.1, specTbEntries_length _, key.2.1⟩

/-- C31 at a concrete input: the catalog of three images listed by opcode 0xD0
with transfer length 4096: 120 bytes are sent; the second entry carries index
1, type 0, the first 32 of the 35 name bytes followed by a zero byte, and the
size 0x12345678 as 00 12 34 56 78. -/
theorem C31_list_items_witness :
    ((step catalogGadget (Event.OutComplete (listItemsCBW 0xD0 4096).toBytes)).epIn
        = catalogGadget.epIn ++ [Transfer.TransferDataIn
            ((specTbEntries sampleCatalog.entries).take
              (min (TUSBCDCBW.ofBytes (listItemsCBW 0xD0 4096).toBytes).dCBWDataTransferLength
                (40 * min sampleCatalog.entries.length 100)))]
      ∧ (specTbEntries sampleCatalog.entries).length = 40 * min sampleCatalog.entries.length 100
      ∧ (step catalogGadget (Event.OutComplete (listItemsCBW 0xD0 4096).toBytes)).m_CSW.bmCSWStatus
          = CD_CSW_STATUS_OK)
    ∧ (dataIns (step catalogGadget (Event.OutComplete (listItemsCBW 0xD0 4096).toBytes)).epIn).map
          (fun d => (d.length, (d.drop 40).take 4, (d.drop 72).take 8))
        = [(120, [1, 0, 0x41, 0x42], [0x45, 0x46, 0, 0, 0x12, 0x34, 0x56, 0x78])] :=
  ⟨C31_list_items catalogGadget (listItemsCBW 0xD0 4096).toBytes sampleCatalog rfl (by decide)
      (Or.inl (by decide)) rfl (by decide) (by decide),
    by decide⟩

/-! ## C35: Mode Sense(6) and Mode Sense(10) return the same pages -/

theorem deriveBlocks_mcs (g : CUSBCDGadget) : (ScsiCmdRead10.deriveBlocks g).mcs = g.mcs := by
  unfold ScsiCmdRead10.deriveBlocks
  simp only []
  split_ifs <;> rfl

theorem readCD_start_mcs (c : TUSBCDCBW) (S : CUSBCDGadget) :
    (ScsiCmdReadCD.start c S).mcs = S.mcs := by
  have hd := deriveBlocks_mcs { S with m_nbyteCount := c.dCBWDataTransferLength }
  unfold ScsiCmdReadCD.start
  simp only []
  generalize ScsiCmdRead10.deriveBlocks { S with m_nbyteCount := c.dCBWDataTransferLength } = D
    at hd ⊢
  split_ifs
  · rfl
  · exact hd
  · exact hd

theorem blocksize_cases (t : CUETrackInfo) :
    CUSBCDGadget.GetBlocksizeForTrack t = 2048 ∨ CUSBCDGadget.GetBlocksizeForTrack t = 2352
      ∨ CUSBCDGadget.GetBlocksizeForTrack t = 0 := by
  unfold CUSBCDGadget.GetBlocksizeForTrack
  cases t.track_mode <;> simp

theorem mcs_lengths (m : Nat) :
    CUSBCDGadget.GetSkipBytesFromMCS m ≤ 16
      ∧ CUSBCDGadget.GetSkipBytesFromMCS m + CUSBCDGadget.GetSectorLengthFromMCS m ≤ 2352 := by
  unfold CUSBCDGadget.GetSkipBytesFromMCS CUSBCDGadget.GetSectorLengthFromMCS
  by_cases h10 : m &&& 0x10 = 0 <;> by_cases h08 : m &&& 0x08 = 0 <;>
    by_cases h04 : m &&& 0x04 = 0 <;> by_cases h02 : m &&& 0x02 = 0 <;>
    simp [h10, h08, h04, h02]

theorem selectSectorType_synthesis (S : CUSBCDGadget) (e : Nat) :
    (ScsiCmdReadCD.selectSectorType S e).mcs = S.mcs
      ∧ ((ScsiCmdReadCD.selectSectorType S e).transfer_block_size
            > (ScsiCmdReadCD.selectSectorType S e).block_size →
          CUSBCDGadget.GetSkipBytesFromMCS S.mcs
              + (ScsiCmdReadCD.selectSectorType S e).transfer_block_size ≤ 2352
            ∧ ((ScsiCmdReadCD.selectSectorType S e).block_size ≠ 0 →
                (ScsiCmdReadCD.selectSectorType S e).block_size = 2048
                  ∧ (ScsiCmdReadCD.selectSectorType S e).skip_bytes
                      = CUSBCDGadget.GetSkipBytesFromMCS S.mcs)) := by
  have hm := mcs_lengths S.mcs
  have hb := blocksize_cases (S.GetTrackInfoForLBA S.m_nblock_address)
  unfold ScsiCmdReadCD.selectSectorType
  by_cases h1 : e = 0x01
  · rw [if_pos h1]
    refine ⟨rfl, fun h => ?_⟩
    exact absurd h (Nat.lt_irrefl _)
  rw [if_neg h1]
  by_cases h2 : e = 0x02
  · rw [if_pos h2]
    refine ⟨rfl, fun h => ?_⟩
    dsimp only at h ⊢
    refine ⟨by omega, fun h0 => ?_⟩
    omega
  rw [if_neg h2]
  by_cases h3 : e = 0x03
  · rw [if_pos h3]
    refine ⟨rfl, fun h => ?_⟩
    dsimp only at h
    omega
  rw [if_neg h3]
  by_cases h4 : e = 0x04
  · rw [if_pos h4]
    refine ⟨rfl, fun h => ?_⟩
    dsimp only at h ⊢
    refine ⟨by omega, fun h0 => ?_⟩
    omega
  rw [if_neg h4]
  by_cases h5 : e = 0x05
  · rw [if_pos h5]
    refine ⟨rfl, fun h => ?_⟩
    dsimp only at h
    omega
  rw [if_neg h5]
  dsimp only
  by_cases ha : (S.GetTrackInfoForLBA S.m_nblock_address).track_number ≠ -1
      ∧ (S.GetTrackInfoForLBA S.m_nblock_address).track_mode = CUETrackMode.CUETrack_AUDIO
  · rw [if_pos ha]
    refine ⟨rfl, fun h => ?_⟩
    exact absurd h (Nat.lt_irrefl _)
  · rw [if_neg ha]
    refine ⟨rfl, fun h => ?_⟩
    dsimp only at h ⊢
    refine ⟨by omega, fun h0 => ⟨by omega, rfl⟩⟩

theorem poke_length_of_le (dst src : List Nat) (off : Nat) (h : off + src.length ≤ dst.length) :
    (poke dst off src).length = dst.length := by
  unfold poke
  simp only [List.length_append, List.length_take, List.length_replicate, List.length_drop]
  omega

theorem window_len (buf : List Nat) (off len : Nat) : (window buf off len).length = len := by
  unfold window
  rw [List.length_map, List.length_range]

theorem poke_if_length (c : Prop) [Decidable c] (s src : List Nat) (off : Nat)
    (h : off + src.length ≤ s.length) : (if c then poke s off src else s).length = s.length := by
  split
  · exact poke_length_of_le s src off h
  · rfl

theorem three_pokes_length (c1 c2 c3 : Prop) [Decidable c1] [Decidable c2] [Decidable c3]
    (s0 sync hdr w : List Nat) (off1 off2 : Nat) (h0 : s0.length = 2352)
    (hs : sync.length = 12) (hh : hdr.length = 4) (h1 : off1 ≤ 12) (h2 : off2 ≤ 16)
    (hw : w.length ≤ 2048) :
    (if c3 then
        poke (if c2 then poke (if c1 then poke s0 0 sync else s0) off1 hdr
              else (if c1 then poke s0 0 sync else s0)) off2 w
      else (if c2 then poke (if c1 then poke s0 0 sync else s0) off1 hdr
            else (if c1 then poke s0 0 sync else s0))).length = 2352 := by
  have l1 : (if c1 then poke s0 0 sync else s0).length = 2352 := by
    rw [poke_if_length c1 s0 sync 0 (by omega), h0]
  have l2 : (if c2 then poke (if c1 then poke s0 0 sync else s0) off1 hdr
      else (if c1 then poke s0 0 sync else s0)).length = 2352 := by
    rw [poke_if_length c2 _ hdr off1 (by omega), l1]
  rw [poke_if_length c3 _ w off2 (by omega), l2]

theorem synthesized_sector_fits (Y : CUSBCDGadget) (i : Nat) (hb : Y.block_size = 2048)
    (hs : Y.skip_bytes = CUSBCDGadget.GetSkipBytesFromMCS Y.mcs) :
    (ScsiCmdReadCD.synthesized_sector Y i).2 = false
      ∧ (ScsiCmdReadCD.synthesized_sector Y i).1.length = 2352
      ∧ ScsiCmdReadCD.synth_offset Y ≤ 2352
      ∧ Y.skip_bytes ≤ Y.block_size := by
  have hm := (mcs_lengths Y.mcs).1
  unfold ScsiCmdReadCD.synthesized_sector ScsiCmdReadCD.synth_offset
  rw [hs, hb]
  unfold CUSBCDGadget.GetSkipBytesFromMCS at hm ⊢
  refine ⟨?_, ?_, ?_, by omega⟩
  · dsimp only
    rw [decide_eq_false_iff_not]
    intro hc
    omega
  · dsimp only
    exact three_pokes_length _ _ _ _ _ _ _ _ _ (List.length_replicate _ _) rfl rfl
      (by split <;> omega) (by split_ifs <;> omega) (by rw [window_len]; omega)
  · by_cases h10 : Y.mcs &&& 0x10 = 0 <;> by_cases h08 : Y.mcs &&& 0x08 = 0 <;>
      by_cases h04 : Y.mcs &&& 0x04 = 0 <;>
      simp [h10, h08, h04]

theorem readCD_handle_mcs (c : TUSBCDCBW) (X : CUSBCDGadget) (hr : X.m_CDReady = true) :
    (ScsiCmdReadCD.handle_command c X).mcs = (ScsiCmdReadCD.parse c X).mcs := by
  unfold ScsiCmdReadCD.handle_command
  have hn : ¬ ((!X.IsCDReady) = true) := by
    unfold CUSBCDGadget.IsCDReady
    rw [hr]
    decide
  rw [if_neg hn]
  exact (readCD_start_mcs c _).trans (selectSectorType_synthesis _ _).1

theorem readCD_synthesis_bounds (c : TUSBCDCBW) (X : CUSBCDGadget) (hr : X.m_CDReady = true)
    (hsyn : (ScsiCmdReadCD.handle_command c X).transfer_block_size
      > (ScsiCmdReadCD.handle_command c X).block_size) :
    CUSBCDGadget.GetSkipBytesFromMCS (ScsiCmdReadCD.handle_command c X).mcs
        + (ScsiCmdReadCD.handle_command c X).transfer_block_size ≤ 2352
      ∧ ((ScsiCmdReadCD.handle_command c X).block_size ≠ 0 →
          (ScsiCmdReadCD.handle_command c X).skip_bytes
              ≤ (ScsiCmdReadCD.handle_command c X).block_size
            ∧ ScsiCmdReadCD.synth_offset (ScsiCmdReadCD.handle_command c X) ≤ 2352
            ∧ ∀ i : Nat,
                (ScsiCmdReadCD.synthesized_sector (ScsiCmdReadCD.handle_command c X) i).2 = false
                  ∧ (ScsiCmdReadCD.synthesized_sector (ScsiCmdReadCD.handle_command c X) i).1.length
                      = 2352) := by
  have hg := readCD_handle_geometry c X hr
  have hmcs := readCD_handle_mcs c X hr
  have hsel := (selectSectorType_synthesis (ScsiCmdReadCD.parse c X)
    (((c.cb 1) >>> 2) &&& 0x07)).2
  have hbs : (ScsiCmdReadCD.handle_command c X).block_size
      = (ScsiCmdReadCD.selectSectorType (ScsiCmdReadCD.parse c X)
          (((c.cb 1) >>> 2) &&& 0x07)).block_size := congrArg (fun p => p.1) hg
  have hts : (ScsiCmdReadCD.handle_command c X).transfer_block_size
      = (ScsiCmdReadCD.selectSectorType (ScsiCmdReadCD.parse c X)
          (((c.cb 1) >>> 2) &&& 0x07)).transfer_block_size := congrArg (fun p => p.2.1) hg
  have hsk : (ScsiCmdReadCD.handle_command c X).skip_bytes
      = (ScsiCmdReadCD.selectSectorType (ScsiCmdReadCD.parse c X)
          (((c.cb 1) >>> 2) &&& 0x07)).skip_bytes := congrArg (fun p => p.2.2) hg
  generalize ScsiCmdReadCD.handle_command c X = H at hsyn hmcs hbs hts hsk ⊢
  rw [← hbs, ← hts, ← hsk, ← hmcs] at hsel
  obtain ⟨hc, hrest⟩ := hsel hsyn
  refine ⟨hc, fun h0 => ?_⟩
  obtain ⟨hb, hs⟩ := hrest h0
  have key := fun i => synthesized_sector_fits H i hb hs
  exact ⟨(key 0).2.2.2, (key 0).2.2.1, fun i => ⟨(key i).1, (key i).2.1⟩⟩

/-- C39 (counterexample): on a disc whose track is Mode 2 with 2336-byte
sectors (a mode for which `GetBlocksizeForTrack` returns 0), Read CD with
expected sector type Any and mask 0x04 (USER DATA) configures physical block
size 0, transfer block size 2048 and skip bytes 16 and starts streaming: the
transfer block size exceeds the physical block size, so the continue step
takes the synthesis path, where the user-data copy length 0 - 16 is negative.
(On this disc the continue step asks the device for 0 bytes, gets 0 and ends
the command with MEDIUM ERROR before it reaches the copy.) -/
theorem C39_counterexample :
    geometry (step mode2336Gadget (Event.OutComplete readCDUserAnyCBW.toBytes)) = (0, 2048, 16)
      ∧ (step mode2336Gadget (Event.OutComplete readCDUserAnyCBW.toBytes)).mcs = 0x04
      ∧ (step mode2336Gadget (Event.OutComplete readCDUserAnyCBW.toBytes)).m_nState
          = TCDState.DataInRead
      ∧ (step mode2336Gadget (Event.OutComplete readCDUserAnyCBW.toBytes)).block_size
          < (step mode2336Gadget (Event.OutComplete readCDUserAnyCBW.toBytes)).skip_bytes
      ∧ (ScsiCmdReadCD.synthesized_sector
          (step mode2336Gadget (Event.OutComplete readCDUserAnyCBW.toBytes)) 0).2 = true
      ∧ (run mode2336Gadget [Event.OutComplete readCDUserAnyCBW.toBytes,
            Event.Update mode2336Gadget.m_pDevice]).m_SenseParams
          = { bSenseKey := 0x03, bAddlSenseCode := 0x11, bAddlSenseCodeQual := 0x00 } := by
  refine ⟨by decide, by decide, by decide, by decide, by decide, by decide⟩

/-- C39 (amended): for every valid Read CD CBW (opcode 0xBE) arriving in state
ReceiveCBW on a ready unit whose begin step leaves a transfer block size above
the physical block size (the synthesis path), whatever the
main-channel-selection mask: GetSkipBytesFromMCS(mcs) + transfer block size
is at most 2352; and when the physical block size configured is not 0, the
user-data copy length (physical block size - skip bytes) is non-negative, the
portions written end at or before offset 2352 of the scratch sector, and for
every block the scratch sector keeps its 2352 bytes and no copy has a negative
length. -/
theorem C39_synthesis_bounds (g : CUSBCDGadget) (data : List Nat)
    (hstate : g.m_nState = TCDState.ReceiveCBW) (hvalid : validCBW data = true)
    (hop : (TUSBCDCBW.ofBytes data).cb 0 = 0xBE) (hready : g.m_CDReady = true)
    (hsyn : (step g (Event.OutComplete data)).transfer_block_size
      > (step g (Event.OutComplete data)).block_size) :
    CUSBCDGadget.GetSkipBytesFromMCS (step g (Event.OutComplete data)).mcs
        + (step g (Event.OutComplete data)).transfer_block_size ≤ 2352
      ∧ ((step g (Event.OutComplete data)).block_size ≠ 0 →
          (step g (Event.OutComplete data)).skip_bytes
              ≤ (step g (Event.OutComplete data)).block_size
            ∧ ScsiCmdReadCD.synth_offset (step g (Event.OutComplete data)) ≤ 2352
            ∧ ∀ i : Nat,
                (ScsiCmdReadCD.synthesized_sector (step g (Event.OutComplete data)) i).2 = false
                  ∧ (ScsiCmdReadCD.synthesized_sector (step g (Event.OutComplete data)) i).1.length
                      = 2352) := by
  rw [step_dispatch g data ScsiCommandHandler.ScsiCmdReadCD hstate hvalid
    (by rw [hop]; rfl)] at hsyn ⊢
  exact readCD_synthesis_bounds (TUSBCDCBW.ofBytes data)
    (dispatched g data ScsiCommandHandler.ScsiCmdReadCD) hready hsyn

/-- C39 (amended) at a concrete input: Read CD of the block at LBA 20000 of
the sample disc (Mode 1/2048) with expected sector type Any and mask 0x0C,
which configures physical block size 2048 and transfer block size 2052. -/
theorem C39_synthesis_bounds_witness :
    CUSBCDGadget.GetSkipBytesFromMCS
          (step sampleGadget (Event.OutComplete readCDHeaderUserCBW.toBytes)).mcs
        + (step sampleGadget (Event.OutComplete readCDHeaderUserCBW.toBytes)).transfer_block_size
      ≤ 2352
      ∧ (step sampleGadget (Event.OutComplete readCDHeaderUserCBW.toBytes)).skip_bytes
          ≤ (step sampleGadget (Event.OutComplete readCDHeaderUserCBW.toBytes)).block_size :=
  ⟨(C39_synthesis_bounds sampleGadget readCDHeaderUserCBW.toBytes rfl (by decide) (by decide)
      rfl (by decide)).1,
    ((C39_synthesis_bounds sampleGadget readCDHeaderUserCBW.toBytes rfl (by decide) (by decide)
      rfl (by decide)).2 (by decide)).1⟩

/-! ## C36: the rounds of a streaming read -/

theorem step_update_readCD (G : CUSBCDGadget) (dev : ICueDevice)
    (hh : G.m_pCurrentCommandHandler = some ScsiCommandHandler.ScsiCmdReadCD) :
    step G (Event.Update dev) = ScsiCmdReadCD.update { G with m_pDevice := dev } := by
  show CUSBCDGadget.Update { G with m_pDevice := dev } = _
  unfold CUSBCDGadget.Update
  simp only [hh]
  rfl

theorem read10_copyBlocks_length (R : CUSBCDGadget) (b : Nat) :
    (ScsiCmdRead10.copyBlocks R b).length = b * R.transfer_block_size := by
  unfold ScsiCmdRead10.copyBlocks
  rw [flatten_const_length _ R.transfer_block_size (fun i => window_len _ _ _), List.length_range]

theorem readCD_copyBlocks_length (R : CUSBCDGadget) (b : Nat) :
    (ScsiCmdReadCD.copyBlocks R b).length = b * R.transfer_block_size := by
  unfold ScsiCmdReadCD.copyBlocks
  rw [flatten_const_length _ R.transfer_block_size, List.length_range]
  intro i
  unfold ScsiCmdReadCD.copyBlock
  split
  · exact window_len _ _ _
  · exact window_len _ _ _

/-- What a continue step that ends in state `DataIn` has done to the gadget
`G1`: one data transfer of `k` blocks, LBA and remaining count advanced. -/
theorem advanced_of_fields (G1 U R : CUSBCDGadget) (k : Nat) (data : List Nat)
    (e : U = ScsiCmdRead10.advance R k data)
    (hl : data.length = k * R.transfer_block_size)
    (f1 : R.epIn = G1.epIn) (f2 : R.m_nblock_address = G1.m_nblock_address)
    (f3 : R.m_nnumber_blocks = G1.m_nnumber_blocks)
    (f4 : R.transfer_block_size = G1.transfer_block_size)
    (f5 : R.m_pCurrentCommandHandler = G1.m_pCurrentCommandHandler)
    (f6 : R.k = G1.k) (f7 : R.block_size = G1.block_size) (f8 : R.m_CDReady = G1.m_CDReady) :
    U.m_nState = TCDState.DataIn
      ∧ (∃ d : List Nat, U.epIn = G1.epIn ++ [Transfer.TransferDataIn d]
          ∧ d.length = k * G1.transfer_block_size)
      ∧ U.m_nblock_address = u32 (G1.m_nblock_address + k)
      ∧ U.m_nnumber_blocks = G1.m_nnumber_blocks - k
      ∧ U.m_pCurrentCommandHandler = G1.m_pCurrentCommandHandler
      ∧ U.k = G1.k ∧ U.block_size = G1.block_size ∧ U.m_CDReady = G1.m_CDReady
      ∧ U.transfer_block_size = G1.transfer_block_size
      ∧ U.m_CSW.bmCSWStatus = CD_CSW_STATUS_OK := by
  obtain ⟨a1, a2, a3, a4, a5, _, a7, a8, a9, _, _, a12⟩ := advance_fields R k data
  rw [e]
  refine ⟨a1, ⟨data, ?_, ?_⟩, ?_, ?_, ?_, ?_, ?_, ?_, ?_, rfl⟩
  · rw [a12, f1]
  · rw [hl, f4]
  · rw [a7, f2]
  · rw [a8, f3]
  · rw [a2, f5]
  · rw [a9, f6]
  · rw [a5, f7]
  · rw [a3, f8]
  · rw [a4, f4]

theorem read10_update_cases (G1 : CUSBCDGadget) (hstate : G1.m_nState = TCDState.DataInRead)
    (hblocks : G1.m_nnumber_blocks ≠ 0) :
    (ScsiCmdRead10.update G1).m_nState = TCDState.ReceiveCBW
      ∨ ∃ R : CUSBCDGadget, ∃ data : List Nat,
          ScsiCmdRead10.update G1
              = ScsiCmdRead10.advance R (ScsiCmdRead10.blocksThisIteration G1) data
            ∧ data.length = ScsiCmdRead10.blocksThisIteration G1 * R.transfer_block_size
            ∧ R.epIn = G1.epIn ∧ R.m_nblock_address = G1.m_nblock_address
            ∧ R.m_nnumber_blocks = G1.m_nnumber_blocks
            ∧ R.transfer_block_size = G1.transfer_block_size
            ∧ R.m_pCurrentCommandHandler = G1.m_pCurrentCommandHandler
            ∧ R.k = G1.k ∧ R.block_size = G1.block_size ∧ R.m_CDReady = G1.m_CDReady := by
  unfold ScsiCmdRead10.update
  rw [if_neg (not_not.mpr hstate)]
  by_cases hr : (!G1.IsCDReady) = true
  · rw [if_pos hr]
    exact Or.inl rfl
  rw [if_neg hr, if_neg hblocks]
  dsimp only
  by_cases hs : G1.m_pDevice.Seek (G1.block_size * G1.m_nblock_address % 18446744073709551616)
      = 18446744073709551615
  · rw [if_pos hs]
    exact Or.inl rfl
  rw [if_neg hs]
  unfold ScsiCmdRead10.readStep
  dsimp only
  split_ifs
  · exact Or.inl rfl
  · exact Or.inl rfl
  · exact Or.inl rfl
  · exact Or.inr ⟨_, _, rfl, read10_copyBlocks_length _ _, rfl, rfl, rfl, rfl, rfl, rfl, rfl, rfl⟩

theorem readCD_update_cases (G1 : CUSBCDGadget) (hstate : G1.m_nState = TCDState.DataInRead)
    (hblocks : G1.m_nnumber_blocks ≠ 0) :
    (ScsiCmdReadCD.update G1).m_nState = TCDState.ReceiveCBW
      ∨ ∃ R : CUSBCDGadget, ∃ data : List Nat,
          ScsiCmdReadCD.update G1
              = ScsiCmdRead10.advance R (ScsiCmdRead10.blocksThisIteration G1) data
            ∧ data.length = ScsiCmdRead10.blocksThisIteration G1 * R.transfer_block_size
            ∧ R.epIn = G1.epIn ∧ R.m_nblock_address = G1.m_nblock_address
            ∧ R.m_nnumber_blocks = G1.m_nnumber_blocks
            ∧ R.transfer_block_size = G1.transfer_block_size
            ∧ R.m_pCurrentCommandHandler = G1.m_pCurrentCommandHandler
            ∧ R.k = G1.k ∧ R.block_size = G1.block_size ∧ R.m_CDReady = G1.m_CDReady := by
  unfold ScsiCmdReadCD.update
  rw [if_neg (not_not.mpr hstate)]
  by_cases hr : (!G1.IsCDReady) = true
  · rw [if_pos hr]
    exact Or.inl rfl
  rw [if_neg hr, if_neg hblocks]
  dsimp only
  by_cases hs : G1.m_pDevice.Seek (G1.block_size * G1.m_nblock_address % 18446744073709551616)
      = 18446744073709551615
  · rw [if_pos hs]
    exact Or.inl rfl
  rw [if_neg hs]
  unfold ScsiCmdReadCD.readStep
  dsimp only
  split_ifs
  · exact Or.inl rfl
  · exact Or.inr ⟨_, _, rfl, readCD_copyBlocks_length _ _, rfl, rfl, rfl, rfl, rfl, rfl, rfl, rfl⟩

theorem blocksThisIteration_min (G1 : CUSBCDGadget) :
    ScsiCmdRead10.blocksThisIteration G1 = min G1.m_nnumber_blocks G1.k.MaxBlocksToRead := by
  unfold ScsiCmdRead10.blocksThisIteration
  split <;> omega

theorem continue_step (h : ScsiCommandHandler)
    (hh : h = ScsiCommandHandler.ScsiCmdRead10 ∨ h = ScsiCommandHandler.ScsiCmdReadCD)
    (G : CUSBCDGadget) (dev : ICueDevice) (hstate : G.m_nState = TCDState.DataInRead)
    (hhand : G.m_pCurrentCommandHandler = some h) (hr : 0 < G.m_nnumber_blocks)
    (hok : (step G (Event.Update dev)).m_nState = TCDState.DataIn) :
    (∃ d : List Nat, (step G (Event.Update dev)).epIn = G.epIn ++ [Transfer.TransferDataIn d]
        ∧ d.length = min G.m_nnumber_blocks G.k.MaxBlocksToRead * G.transfer_block_size)
      ∧ (step G (Event.Update dev)).m_nblock_address
          = u32 (G.m_nblock_address + min G.m_nnumber_blocks G.k.MaxBlocksToRead)
      ∧ (step G (Event.Update dev)).m_nnumber_blocks
          = G.m_nnumber_blocks - min G.m_nnumber_blocks G.k.MaxBlocksToRead
      ∧ (step G (Event.Update dev)).m_pCurrentCommandHandler = some h
      ∧ (step G (Event.Update dev)).k = G.k
      ∧ (step G (Event.Update dev)).block_size = G.block_size
      ∧ (step G (Event.Update dev)).m_CDReady = G.m_CDReady
      ∧ (step G (Event.Update dev)).transfer_block_size = G.transfer_block_size
      ∧ (step G (Event.Update dev)).m_CSW.bmCSWStatus = CD_CSW_STATUS_OK := by
  have key : (step G (Event.Update dev)).m_nState = TCDState.ReceiveCBW
      ∨ ∃ R : CUSBCDGadget, ∃ data : List Nat,
          step G (Event.Update dev)
              = ScsiCmdRead10.advance R (min G.m_nnumber_blocks G.k.MaxBlocksToRead) data
            ∧ data.length = min G.m_nnumber_blocks G.k.MaxBlocksToRead * R.transfer_block_size
            ∧ R.epIn = G.epIn ∧ R.m_nblock_address = G.m_nblock_address
            ∧ R.m_nnumber_blocks = G.m_nnumber_blocks
            ∧ R.transfer_block_size = G.transfer_block_size
            ∧ R.m_pCurrentCommandHandler = G.m_pCurrentCommandHandler
            ∧ R.k = G.k ∧ R.block_size = G.block_size ∧ R.m_CDReady = G.m_CDReady := by
    have hb := blocksThisIteration_min { G with m_pDevice := dev }
    rcases hh with h1 | h1
    · rw [h1] at hhand
      rw [step_update_read10 G dev hhand]
      have c := read10_update_cases { G with m_pDevice := dev } hstate (by
        show G.m_nnumber_blocks ≠ 0
        omega)
      rw [hb] at c
      exact c
    · rw [h1] at hhand
      rw [step_update_readCD G dev hhand]
      have c := readCD_update_cases { G with m_pDevice := dev } hstate (by
        show G.m_nnumber_blocks ≠ 0
        omega)
      rw [hb] at c
      exact c
  rcases key with hf | ⟨R, data, e, hl, f1, f2, f3, f4, f5, f6, f7, f8⟩
  · rw [hf] at hok
    exact absurd hok (by decide)
  · obtain ⟨_, b2, b3, b4, b5, b6, b7, b8, b9, b10⟩ :=
      advanced_of_fields G (step G (Event.Update dev)) R _ data e hl f1 f2 f3 f4 f5 f6 f7 f8
    exact ⟨b2, b3, b4, b5.trans hhand, b6, b7, b8, b9, b10⟩

theorem read10_update_ok (G1 : CUSBCDGadget) (hstate : G1.m_nState = TCDState.DataInRead)
    (hready : G1.m_CDReady = true) (hblocks : G1.m_nnumber_blocks ≠ 0)
    (hdev : errorFree G1.m_pDevice)
    (hfit : ScsiCmdRead10.blocksThisIteration G1 * G1.block_size < 2147483648) :
    (ScsiCmdRead10.update G1).m_nState = TCDState.DataIn := by
  have hread : ∀ pos n : Nat, (readIntoFileChunk G1 pos n).1 = (n : Int) :=
    fun pos n => hdev.2 pos n
  have hu : u32 (ScsiCmdRead10.blocksThisIteration G1 * G1.block_size)
      = ScsiCmdRead10.blocksThisIteration G1 * G1.block_size := Nat.mod_eq_of_lt (by omega)
  unfold ScsiCmdRead10.update
  rw [if_neg (not_not.mpr hstate)]
  have hr : ¬ ((!G1.IsCDReady) = true) := by
    unfold CUSBCDGadget.IsCDReady
    rw [hready]
    decide
  rw [if_neg hr, if_neg hblocks]
  dsimp only
  rw [if_neg (hdev.1 _)]
  unfold ScsiCmdRead10.readStep
  dsimp only
  rw [hread, hu, u32OfInt_cast _ (by omega)]
  rw [if_neg (by omega), if_neg (by omega), if_neg (by omega)]
  rfl

theorem readCD_update_ok (G1 : CUSBCDGadget) (hstate : G1.m_nState = TCDState.DataInRead)
    (hready : G1.m_CDReady = true) (hblocks : G1.m_nnumber_blocks ≠ 0)
    (hdev : errorFree G1.m_pDevice)
    (hfit : ScsiCmdRead10.blocksThisIteration G1 * G1.block_size < 2147483648)
    (hpos : 0 < ScsiCmdRead10.blocksThisIteration G1 * G1.block_size) :
    (ScsiCmdReadCD.update G1).m_nState = TCDState.DataIn := by
  have hread : ∀ pos n : Nat, (readIntoFileChunk G1 pos n).1 = (n : Int) :=
    fun pos n => hdev.2 pos n
  have hu : u32 (ScsiCmdRead10.blocksThisIteration G1 * G1.block_size)
      = ScsiCmdRead10.blocksThisIteration G1 * G1.block_size := Nat.mod_eq_of_lt (by omega)
  unfold ScsiCmdReadCD.update
  rw [if_neg (not_not.mpr hstate)]
  have hr : ¬ ((!G1.IsCDReady) = true) := by
    unfold CUSBCDGadget.IsCDReady
    rw [hready]
    decide
  rw [if_neg hr, if_neg hblocks]
  dsimp only
  rw [if_neg (hdev.1 _)]
  unfold ScsiCmdReadCD.readStep
  dsimp only
  rw [hread, hu, u32OfInt_cast _ (by omega)]
  rw [if_neg (by omega)]
  rfl

theorem stream_update (h : ScsiCommandHandler)
    (hh : h = ScsiCommandHandler.ScsiCmdRead10 ∨ h = ScsiCommandHandler.ScsiCmdReadCD)
    (g0 G : CUSBCDGadget) (dev : ICueDevice) (a r : Nat)
    (hS : Streaming h g0 G TCDState.DataInRead a r) (hr : 1 ≤ r)
    (hmax : 1 ≤ g0.k.MaxBlocksToRead) (hdev : errorFree dev)
    (hfit : g0.k.MaxBlocksToRead * g0.block_size < 2147483648)
    (hbs : h = ScsiCommandHandler.ScsiCmdReadCD → 0 < g0.block_size) :
    Streaming h g0 (step G (Event.Update dev)) TCDState.DataIn
        (u32 (a + min r g0.k.MaxBlocksToRead)) (r - min r g0.k.MaxBlocksToRead)
      ∧ (∃ d : List Nat, (step G (Event.Update dev)).epIn = G.epIn ++ [Transfer.TransferDataIn d]
          ∧ d.length = min r g0.k.MaxBlocksToRead * g0.transfer_block_size)
      ∧ (step G (Event.Update dev)).m_CSW.bmCSWStatus = CD_CSW_STATUS_OK := by
  obtain ⟨s1, s2, s3, s4, s5, s6, s7, s8⟩ := hS
  have hb : ScsiCmdRead10.blocksThisIteration { G with m_pDevice := dev }
      = min G.m_nnumber_blocks G.k.MaxBlocksToRead :=
    blocksThisIteration_min { G with m_pDevice := dev }
  have hle : min G.m_nnumber_blocks G.k.MaxBlocksToRead * G.block_size < 2147483648 := by
    rw [s5, s6, s7]
    exact Nat.lt_of_le_of_lt (Nat.mul_le_mul_right _ (Nat.min_le_right _ _)) hfit
  have hok : (step G (Event.Update dev)).m_nState = TCDState.DataIn := by
    rcases hh with h1 | h1
    · rw [h1] at s2
      rw [step_update_read10 G dev s2]
      exact read10_update_ok { G with m_pDevice := dev } s1 s3
        (by show G.m_nnumber_blocks ≠ 0; omega) hdev (by rw [hb]; exact hle)
    · have hp := hbs h1
      rw [h1] at s2
      rw [step_update_readCD G dev s2]
      exact readCD_update_ok { G with m_pDevice := dev } s1 s3
        (by show G.m_nnumber_blocks ≠ 0; omega) hdev (by rw [hb]; exact hle)
        (by
          rw [hb]
          show 0 < min G.m_nnumber_blocks G.k.MaxBlocksToRead * G.block_size
          rw [s5, s6, s7]
          exact Nat.mul_pos (by omega) hp)
  obtain ⟨⟨d, c1, c1l⟩, c2, c3, c4, c5, c6, c7, c8, c9⟩ :=
    continue_step h hh G dev s1 s2 (by omega) hok
  rw [s4, s5, s6] at c2
  rw [s5, s6] at c3
  rw [s5, s6, s8] at c1l
  exact ⟨⟨hok, c4, c7.trans s3, c2, c3, c5.trans s6, c6.trans s7, c8.trans s8⟩,
    ⟨d, c1, c1l⟩, c9⟩

theorem stream_dataIn_complete (h : ScsiCommandHandler) (g0 U : CUSBCDGadget) (a n x : Nat)
    (hS : Streaming h g0 U TCDState.DataIn a n) :
    (0 < n → Streaming h g0 (step U (Event.InComplete x)) TCDState.DataInRead a n
        ∧ (step U (Event.InComplete x)).epIn = U.epIn)
      ∧ (n = 0 → (step U (Event.InComplete x)).m_nState = TCDState.SentCSW
        ∧ (step U (Event.InComplete x)).m_nnumber_blocks = 0
        ∧ (step U (Event.InComplete x)).m_CSW = U.m_CSW
        ∧ (step U (Event.InComplete x)).epIn = U.epIn ++ [Transfer.TransferCSWIn U.m_CSW]) := by
  obtain ⟨r1, r2, r3, r4, r5, r6, r7, r8⟩ := hS
  have e : step U (Event.InComplete x) = CUSBCDGadget.onDataInComplete U := by
    show CUSBCDGadget.OnTransferComplete U true x = _
    unfold CUSBCDGadget.OnTransferComplete
    simp only [if_true, r1]
  rw [e]
  unfold CUSBCDGadget.onDataInComplete
  constructor
  · intro hn
    rw [if_pos ⟨by rw [r5]; exact hn, r3⟩]
    exact ⟨⟨rfl, r2, r3, r4, r5, r6, r7, r8⟩, rfl⟩
  · intro hn
    rw [if_neg (by rw [r5, hn]; exact fun h => absurd h.1 (by decide)),
      if_neg (by rw [r5, hn]; exact fun h => absurd h.1 (by decide))]
    exact ⟨rfl, r5.trans hn, rfl, rfl⟩

theorem stream_rounds (h : ScsiCommandHandler)
    (hh : h = ScsiCommandHandler.ScsiCmdRead10 ∨ h = ScsiCommandHandler.ScsiCmdReadCD)
    (g0 : CUSBCDGadget) (dev : ICueDevice)
    (hmax : 1 ≤ g0.k.MaxBlocksToRead) (hdev : errorFree dev)
    (hfit : g0.k.MaxBlocksToRead * g0.block_size < 2147483648)
    (hbs : h = ScsiCommandHandler.ScsiCmdReadCD → 0 < g0.block_size) (n : Nat) :
    ∀ (a : Nat) (G : CUSBCDGadget), Streaming h g0 G TCDState.DataInRead a n → 1 ≤ n →
      (run G (chunkRounds dev ((n + g0.k.MaxBlocksToRead - 1) / g0.k.MaxBlocksToRead))).m_nState
          = TCDState.SentCSW
        ∧ (run G (chunkRounds dev
            ((n + g0.k.MaxBlocksToRead - 1) / g0.k.MaxBlocksToRead))).m_nnumber_blocks = 0
        ∧ (run G (chunkRounds dev
            ((n + g0.k.MaxBlocksToRead - 1) / g0.k.MaxBlocksToRead))).m_CSW.bmCSWStatus
            = CD_CSW_STATUS_OK
        ∧ ∃ ds : List (List Nat),
            ds.length = (n + g0.k.MaxBlocksToRead - 1) / g0.k.MaxBlocksToRead
              ∧ ds.flatten.length = n * g0.transfer_block_size
              ∧ (run G (chunkRounds dev
                  ((n + g0.k.MaxBlocksToRead - 1) / g0.k.MaxBlocksToRead))).epIn
                = G.epIn ++ ds.map Transfer.TransferDataIn
                    ++ [Transfer.TransferCSWIn (run G (chunkRounds dev
                        ((n + g0.k.MaxBlocksToRead - 1) / g0.k.MaxBlocksToRead))).m_CSW] := by
  induction n using Nat.strong_induction_on with
  | _ n ih =>
    intro a G hS hn
    obtain ⟨u1, ⟨d, u2, u2l⟩, u3⟩ := stream_update h hh g0 G dev a n hS hn hmax hdev hfit hbs
    obtain ⟨c1, c2⟩ := stream_dataIn_complete h g0 (step G (Event.Update dev)) _ _ 0 u1
    by_cases hle : n ≤ g0.k.MaxBlocksToRead
    · have hr : (n + g0.k.MaxBlocksToRead - 1) / g0.k.MaxBlocksToRead = 1 := by
        apply Nat.div_eq_of_lt_le
        · omega
        · omega
      have hk : min n g0.k.MaxBlocksToRead = n := Nat.min_eq_left hle
      obtain ⟨d1, d2, d3, d4⟩ := c2 (by omega)
      rw [hr, chunkRounds_succ]
      have e0 : chunkRounds dev 0 = [] := rfl
      rw [e0, List.append_nil]
      have hrun : run G [Event.Update dev, Event.InComplete 0]
          = step (step G (Event.Update dev)) (Event.InComplete 0) := rfl
      rw [hrun]
      refine ⟨d1, d2, by rw [d3]; exact u3, [d], rfl, ?_, ?_⟩
      · rw [List.flatten_cons, List.flatten_nil, List.append_nil, u2l, hk]
      · rw [d4, d3, u2]
        simp
    · have hlt : g0.k.MaxBlocksToRead < n := Nat.not_le.mp hle
      have hk : min n g0.k.MaxBlocksToRead = g0.k.MaxBlocksToRead := Nat.min_eq_right (by omega)
      have hr : (n + g0.k.MaxBlocksToRead - 1) / g0.k.MaxBlocksToRead
          = (n - g0.k.MaxBlocksToRead + g0.k.MaxBlocksToRead - 1) / g0.k.MaxBlocksToRead + 1 := by
        have e1 : n + g0.k.MaxBlocksToRead - 1
            = (n - g0.k.MaxBlocksToRead + g0.k.MaxBlocksToRead - 1) + g0.k.MaxBlocksToRead := by
          omega
        rw [e1, Nat.add_div_right _ (by omega)]
      rw [hk] at u1 u2l c1
      obtain ⟨d1, d2⟩ := c1 (by omega)
      rw [hr, chunkRounds_succ, run_append]
      have hrun : run G [Event.Update dev, Event.InComplete 0]
          = step (step G (Event.Update dev)) (Event.InComplete 0) := rfl
      rw [hrun]
      obtain ⟨i1, i2, i3, ds, i4, i5, i6⟩ := ih (n - g0.k.MaxBlocksToRead) (by omega) _ _ d1
        (by omega)
      refine ⟨i1, i2, i3, d :: ds, by rw [List.length_cons, i4], ?_, ?_⟩
      · rw [List.flatten_cons, List.length_append, u2l, i5, ← Nat.add_mul]
        congr 1
        omega
      · rw [i6, d2, u2]
        simp

/-- C36: let a Read(10) or Read CD be streaming (state DataInRead, the handler
current) with r > 0 blocks remaining at LBA a, and MaxBlocksToRead >= 1.
(1) Every continue step that succeeds (it leaves the state DataIn) submits
one data transfer of k = min(r, MaxBlocksToRead) >= 1 blocks (k times the
transfer block size bytes), sets the LBA to a + k (a 32-bit sum) and the
remaining count to r - k, so LBA + remaining stays a + r as long as the LBA
does not wrap. (2) On a ready unit with a device on which no seek fails and
every read returns the bytes asked for (a chunk fitting the int result, and
for Read CD a physical block size above 0), ceil(r / MaxBlocksToRead) rounds
of a continue step and the completion of its IN transfer submit exactly that
many data transfers, r times the transfer block size bytes in all, and end
with remaining = 0 and the CSW, status OK, submitted after the last of
them. -/
theorem C36_streaming_rounds (h : ScsiCommandHandler)
    (hh : h = ScsiCommandHandler.ScsiCmdRead10 ∨ h = ScsiCommandHandler.ScsiCmdReadCD)
    (G : CUSBCDGadget) (dev : ICueDevice) (hstate : G.m_nState = TCDState.DataInRead)
    (hhand : G.m_pCurrentCommandHandler = some h) (hr : 0 < G.m_nnumber_blocks)
    (hmax : 1 ≤ G.k.MaxBlocksToRead) :
    ((step G (Event.Update dev)).m_nState = TCDState.DataIn →
        1 ≤ min G.m_nnumber_blocks G.k.MaxBlocksToRead
          ∧ (∃ d : List Nat,
              (step G (Event.Update dev)).epIn = G.epIn ++ [Transfer.TransferDataIn d]
                ∧ d.length
                    = min G.m_nnumber_blocks G.k.MaxBlocksToRead * G.transfer_block_size)
          ∧ (step G (Event.Update dev)).m_nblock_address
              = (G.m_nblock_address + min G.m_nnumber_blocks G.k.MaxBlocksToRead) % 4294967296
          ∧ (step G (Event.Update dev)).m_nnumber_blocks
              = G.m_nnumber_blocks - min G.m_nnumber_blocks G.k.MaxBlocksToRead
          ∧ (G.m_nblock_address + min G.m_nnumber_blocks G.k.MaxBlocksToRead < 4294967296 →
              (step G (Event.Update dev)).m_nblock_address
                  + (step G (Event.Update dev)).m_nnumber_blocks
                = G.m_nblock_address + G.m_nnumber_blocks))
      ∧ (G.m_CDReady = true → errorFree dev →
          G.k.MaxBlocksToRead * G.block_size < 2147483648 →
          (h = ScsiCommandHandler.ScsiCmdReadCD → 0 < G.block_size) →
          (run G (chunkRounds dev
              ((G.m_nnumber_blocks + G.k.MaxBlocksToRead - 1) / G.k.MaxBlocksToRead))).m_nState
              = TCDState.SentCSW
            ∧ (run G (chunkRounds dev
                ((G.m_nnumber_blocks + G.k.MaxBlocksToRead - 1)
                  / G.k.MaxBlocksToRead))).m_nnumber_blocks = 0
            ∧ (run G (chunkRounds dev
                ((G.m_nnumber_blocks + G.k.MaxBlocksToRead - 1)
                  / G.k.MaxBlocksToRead))).m_CSW.bmCSWStatus = CD_CSW_STATUS_OK
            ∧ ∃ ds : List (List Nat),
                ds.length
                    = (G.m_nnumber_blocks + G.k.MaxBlocksToRead - 1) / G.k.MaxBlocksToRead
                  ∧ ds.flatten.length = G.m_nnumber_blocks * G.transfer_block_size
                  ∧ (run G (chunkRounds dev
                      ((G.m_nnumber_blocks + G.k.MaxBlocksToRead - 1)
                        / G.k.MaxBlocksToRead))).epIn
                    = G.epIn ++ ds.map Transfer.TransferDataIn
                        ++ [Transfer.TransferCSWIn (run G (chunkRounds dev
                            ((G.m_nnumber_blocks + G.k.MaxBlocksToRead - 1)
                              / G.k.MaxBlocksToRead))).m_CSW]) := by
  refine ⟨?_, ?_⟩
  · intro hok
    obtain ⟨c1, c2, c3, _⟩ := continue_step h hh G dev hstate hhand hr hok
    refine ⟨by omega, c1, c2, c3, ?_⟩
    intro hw
    rw [c2, c3]
    unfold u32
    rw [Nat.mod_eq_of_lt hw]
    omega
  · intro hready hdev hfit hbs
    exact stream_rounds h hh G dev hmax hdev hfit hbs G.m_nnumber_blocks G.m_nblock_address G
      ⟨hstate, hhand, hready, rfl, rfl, rfl, rfl, rfl⟩ hr

/-- C36 at a concrete input: the sample gadget streaming a Read CD of 40 raw
sectors, MaxBlocksToRead = 16, over an image device without errors: three
rounds submit three data transfers of 40 * 2352 bytes in all, then the CSW
with status OK. -/
theorem C36_streaming_rounds_witness :
    (run streamingGadget (chunkRounds (clampDevice 620480000) 3)).m_nState = TCDState.SentCSW
      ∧ (run streamingGadget (chunkRounds (clampDevice 620480000) 3)).m_nnumber_blocks = 0
      ∧ (run streamingGadget (chunkRounds (clampDevice 620480000) 3)).m_CSW.bmCSWStatus
          = CD_CSW_STATUS_OK
      ∧ ∃ ds : List (List Nat),
          ds.length = 3 ∧ ds.flatten.length = 40 * 2352
            ∧ (run streamingGadget (chunkRounds (clampDevice 620480000) 3)).epIn
              = streamingGadget.epIn ++ ds.map Transfer.TransferDataIn
                  ++ [Transfer.TransferCSWIn
                      (run streamingGadget (chunkRounds (clampDevice 620480000) 3)).m_CSW] :=
  (C36_streaming_rounds ScsiCommandHandler.ScsiCmdReadCD (Or.inr rfl) streamingGadget
    (clampDevice 620480000) rfl rfl (by decide) (by decide)).2 rfl
    ⟨fun off => Nat.ne_of_lt (Nat.lt_of_le_of_lt (Nat.min_le_right off 620480000) (by decide)),
      fun _ _ => rfl⟩
    (by decide) (fun _ => by decide)

/-! ## C40: the lines UpdateConfigFile preserves -/

/-- The sample config file under the sample map: `volume` is rewritten in
place, `debug` is dropped, the new key `mode` is added at the end of the
usbode section, and every other line is kept, also `volume=3` of the section
that follows. -/
theorem updateConfigFile_sample :
    ConfigService.UpdateConfigFile ConfigService.sampleConfig (some ConfigService.sampleFile)
        = ["# boot options".toList, "[all]".toList, "arm_64bit=1".toList, "[usbode]".toList,
           "# audio = on".toList, "volume=200".toList, "theme=dark".toList, "mode=cdrom".toList,
           "[pi4]".toList, "volume=3".toList]
      ∧ ConfigService.specKept ConfigService.sampleConfig false
          (ConfigService.sampleFile.map ConfigService.stripEol)
        = ["# boot options".toList, "[all]".toList, "arm_64bit=1".toList, "[usbode]".toList,
           "# audio = on".toList, "theme=dark".toList, "[pi4]".toList, "volume=3".toList] := by
  refine ⟨by decide, by decide⟩

/-! ## C40: lines and the 256-byte read buffer -/

